import Mathlib

/-!
# Driver_Development: SPI transport and the flash, FRAM and accelerometer drivers

A shallow embedding of

* `src/platform/spi/spi-core.c`      (`SPI_Transfer`, the SPI mutex),
* `src/storage/flash/mx25v1635f.c`    (the MX25V1635F NOR-flash driver),
* `src/storage/fram/mb85rs256.c`      (the MB85RS256 FRAM driver),
* `src/sensing/accel/lis3dsh.c`       (the LIS3DSH accelerometer driver).

The vendor HAL and FreeRTOS (GPIO writes, `HAL_SPI_Transmit`, `HAL_SPI_Receive`,
`xSemaphoreTake`, `xSemaphoreGive`, `xTaskGetTickCount`, `vTaskDelay`) are external to the
repository; they are the fields of an environment `Env σ` over an arbitrary state type `σ`.
Every driver function is a state transformer that also records the events it causes
(chip-select edges, mutex take/give, raw transmit/receive, delays) in program order.
Bytes are natural numbers below 256; wider machine integers are natural numbers reduced
modulo `2 ^ w` where the C code truncates.

A reference world (`RefWorld`, `refEnv`) with models of the three devices serves for round
trips and concrete runs; two tasks on the shared bus are modelled by interleaving the
traces of their operations.
-/

set_option autoImplicit false

namespace DriverDev

/-! ## Events, environment and the recording state transformer -/

/-- Chip-select lines, one per device (`ACCEL_CS`, `FLASH_CS`, `FRAM_CS` of board-model.h). -/
inductive CsLine
  | ACCEL_CS
  | FLASH_CS
  | FRAM_CS
  deriving DecidableEq, Repr

/-- SPI peripheral handles of spi-core.c: `xAccelSpiHandle` and `xSharedSpiHandle`. -/
inductive SpiBus
  | xAccelSpiHandle
  | xSharedSpiHandle
  deriving DecidableEq, Repr

/-- Status codes of the vendor HAL. -/
inductive HAL_StatusTypeDef
  | HAL_OK
  | HAL_ERROR
  | HAL_BUSY
  | HAL_TIMEOUT
  deriving DecidableEq, Repr

/-- Observable events, in the order the code causes them. -/
inductive Event
  | csLow (line : CsLine)
  | csHigh (line : CsLine)
  | take (ok : Bool)
  | give
  | transmit (bus : SpiBus) (bytes : List Nat) (stat : HAL_StatusTypeDef)
  | receive (bus : SpiBus) (len : Nat) (stat : HAL_StatusTypeDef)
  | delay (ticks : Nat)
  | halDelay (ms : Nat)
  deriving DecidableEq, Repr

/-- The external collaborators of the drivers, over an arbitrary world state `σ`.
`uninit` is the byte found in an automatic variable that the code reads before writing it;
`pdMS_TO_TICKS` and `FRAM_SIZE_IN_BYTES` are macros of headers that are not part of the
sources (FreeRTOS and mb85rs256.h). -/
structure Env (σ : Type) where
  HAL_GPIO_WritePin : CsLine → Bool → σ → σ
  xSemaphoreTake : σ → Bool × σ
  xSemaphoreGive : σ → σ
  HAL_SPI_Transmit : SpiBus → List Nat → σ → HAL_StatusTypeDef × σ
  HAL_SPI_Receive : SpiBus → Nat → σ → HAL_StatusTypeDef × List Nat × σ
  xTaskGetTickCount : σ → Nat
  vTaskDelay : Nat → σ → σ
  HAL_Delay : Nat → σ → σ
  uninit : σ → Nat
  pdMS_TO_TICKS : Nat → Nat
  FRAM_SIZE_IN_BYTES : Nat

/-- Result of running a driver function: its value, the world afterwards and the events
it caused, oldest first. -/
structure Out (σ α : Type) where
  val : α
  st : σ
  ev : List Event

/-- A driver computation. -/
def Bus (σ α : Type) : Type := σ → Out σ α

/-- Return a value without touching the world. -/
def Bus.pure {σ α : Type} (a : α) : Bus σ α := fun s => ⟨a, s, []⟩

/-- Sequencing: run `m`, then `f` on its value; the events are concatenated. -/
def Bus.bind {σ α β : Type} (m : Bus σ α) (f : α → Bus σ β) : Bus σ β := fun s =>
  let r := m s
  let q := f r.val r.st
  ⟨q.val, q.st, r.ev ++ q.ev⟩

instance {σ : Type} : Monad (Bus σ) where
  pure := Bus.pure
  bind := Bus.bind

/-- Width of the 32-bit tick counter and of `uint32_t`. -/
def U32 : Nat := 4294967296

/-- Width of `uint16_t`. -/
def U16 : Nat := 65536

/-- Width of `uint8_t`. -/
def U8 : Nat := 256

/-- A received buffer of `n` bytes: exactly `n` entries, each a byte. -/
def recvBuf (n : Nat) (data : List Nat) : List Nat :=
  (List.range n).map (fun i => data.getD i 0 % U8)

/-- Drive a chip-select line (`HAL_GPIO_WritePin` with `GPIO_PIN_SET` for `true`). -/
def writeCs {σ : Type} (E : Env σ) (line : CsLine) (level : Bool) : Bus σ Unit := fun s =>
  ⟨(), E.HAL_GPIO_WritePin line level s, [if level then Event.csHigh line else Event.csLow line]⟩

/-- Read an automatic variable that has not been written yet. -/
def readUninit {σ : Type} (E : Env σ) : Bus σ Nat := fun s =>
  ⟨E.uninit s % U8, s, []⟩

/-- Function `xTaskGetTickCount`, a 32-bit counter. -/
def xTaskGetTickCount {σ : Type} (E : Env σ) : Bus σ Nat := fun s =>
  ⟨E.xTaskGetTickCount s % U32, s, []⟩

/-- Function `vTaskDelay`. -/
def vTaskDelay {σ : Type} (E : Env σ) (ticks : Nat) : Bus σ Unit := fun s =>
  ⟨(), E.vTaskDelay ticks s, [Event.delay ticks]⟩

/-- Function `HAL_Delay`. -/
def HAL_Delay {σ : Type} (E : Env σ) (ms : Nat) : Bus σ Unit := fun s =>
  ⟨(), E.HAL_Delay ms s, [Event.halDelay ms]⟩

/-! ## spi-core.c -/

/-- Device tags of `SpiDevice_t` (a C enum, so any integer can be passed). -/
abbrev SpiDevice_t : Type := Nat

/-- Enumerator `LIS3DSH_ACCEL`. -/
def LIS3DSH_ACCEL : SpiDevice_t := 0

/-- Enumerator `MX25_FLASH`. -/
def MX25_FLASH : SpiDevice_t := 1

/-- Enumerator `MB85_FRAM`. -/
def MB85_FRAM : SpiDevice_t := 2

/-- Helper `spiMutexAcquire` (spi-core.c:46). -/
def spiMutexAcquire {σ : Type} (E : Env σ) : Bus σ Bool := fun s =>
  let r := E.xSemaphoreTake s
  ⟨r.1, r.2, [Event.take r.1]⟩

/-- Helper `spiMutexRelease` (spi-core.c:57). -/
def spiMutexRelease {σ : Type} (E : Env σ) : Bus σ Unit := fun s =>
  ⟨(), E.xSemaphoreGive s, [Event.give]⟩

/-- Call of `HAL_SPI_Transmit` on a handle. -/
def HAL_SPI_Transmit {σ : Type} (E : Env σ) (bus : SpiBus) (bytes : List Nat) :
    Bus σ HAL_StatusTypeDef := fun s =>
  let r := E.HAL_SPI_Transmit bus bytes s
  ⟨r.1, r.2, [Event.transmit bus bytes r.1]⟩

/-- Call of `HAL_SPI_Receive` on a handle; the value carries the buffer afterwards. -/
def HAL_SPI_Receive {σ : Type} (E : Env σ) (bus : SpiBus) (len : Nat) :
    Bus σ (HAL_StatusTypeDef × List Nat) := fun s =>
  let r := E.HAL_SPI_Receive bus len s
  ⟨(r.1, recvBuf len r.2.1), r.2.2, [Event.receive bus len r.1]⟩

/-- The handle selected at spi-core.c:182-194; `none` is the unrecognised device. -/
def spiHandleOf (device : SpiDevice_t) : Option SpiBus :=
  if device = LIS3DSH_ACCEL then some SpiBus.xAccelSpiHandle
  else if device = MX25_FLASH ∨ device = MB85_FRAM then some SpiBus.xSharedSpiHandle
  else none

/-- Function `SPI_Transfer` (spi-core.c:177). The lengths are `uint16_t` parameters.
The value is the returned flag and, when `HAL_SPI_Receive` ran, the receive buffer. -/
def SPI_Transfer {σ : Type} (E : Env σ) (device : SpiDevice_t) (dataToSend : List Nat)
    (lengthToSend : Nat) (lengthToReceive : Nat) : Bus σ (Bool × Option (List Nat)) :=
  let lengthToSend := lengthToSend % U16
  let lengthToReceive := lengthToReceive % U16
  match spiHandleOf device with
  | none => pure (false, none)
  | some spiHandle => do
    let acquired ← spiMutexAcquire E
    if acquired then do
      let stat ← (if lengthToSend > 0 then HAL_SPI_Transmit E spiHandle (dataToSend.take lengthToSend)
                  else pure HAL_StatusTypeDef.HAL_OK)
      let r ← (if stat = HAL_StatusTypeDef.HAL_OK then
                 (if lengthToReceive > 0 then do
                    let q ← HAL_SPI_Receive E spiHandle lengthToReceive
                    pure (q.1, some q.2)
                  else pure (stat, none))
               else pure (stat, none))
      spiMutexRelease E
      pure (decide (r.1 = HAL_StatusTypeDef.HAL_OK), r.2)
    else pure (false, none)

/-! ## mx25v1635f.h -/

/-- Return messages of the flash driver. -/
inductive flashReturnMsg_t
  | FLASH_OPERATION_SUCCESS
  | FLASH_OPERATION_FAILED
  | FLASH_WRITE_REG_FAILED
  | FLASH_TIME_OUT
  | FLASH_IS_BUSY
  | FLASH_QUAD_NOT_ENABLE
  | FLASH_ADDRESS_INVALID
  deriving DecidableEq, Repr

open flashReturnMsg_t

/-- Constant `FLASH_SIZE` (2MB). -/
def FLASH_SIZE : Nat := 0x200000
/-- Constant `FLASH_DEVICE_ID`. -/
def FLASH_DEVICE_ID : Nat := 0xC22315
/-- Constant `PAGE_PROGRAM_CYCLE_TIME` (tPP, ms). -/
def PAGE_PROGRAM_CYCLE_TIME : Nat := 4
/-- Constant `SECTOR_ERASE_CYCLE_TIME` (tSE, ms). -/
def SECTOR_ERASE_CYCLE_TIME : Nat := 240
/-- Constant `CHIP_ERASE_CYCLE_TIME` (tCE, ms). -/
def CHIP_ERASE_CYCLE_TIME : Nat := 38000
/-- Constant `STANDBY_TO_DP_MODE_DELAY` (tDP). -/
def STANDBY_TO_DP_MODE_DELAY : Nat := 1
/-- Constant `WAKE_UP_CS_PIN_LOW_TIME` (tCRDP). -/
def WAKE_UP_CS_PIN_LOW_TIME : Nat := 1
/-- Constant `DP_TO_STANDBY_MODE_DELAY` (tRDP). -/
def DP_TO_STANDBY_MODE_DELAY : Nat := 1
/-- Constant `FLASH_WIP_MASK`. -/
def FLASH_WIP_MASK : Nat := 0x01
/-- Constant `FLASH_4BYTE_MASK`. -/
def FLASH_4BYTE_MASK : Nat := 0x04
/-- Constant `FLASH_CMD_RDID`. -/
def FLASH_CMD_RDID : Nat := 0x9F
/-- Constant `FLASH_CMD_RES`. -/
def FLASH_CMD_RES : Nat := 0xAB
/-- Constant `FLASH_CMD_REMS`. -/
def FLASH_CMD_REMS : Nat := 0x90
/-- Constant `FLASH_CMD_RDSR`. -/
def FLASH_CMD_RDSR : Nat := 0x05
/-- Constant `FLASH_CMD_RDSCUR`. -/
def FLASH_CMD_RDSCUR : Nat := 0x2B
/-- Constant `FLASH_CMD_READ`. -/
def FLASH_CMD_READ : Nat := 0x03
/-- Constant `FLASH_CMD_WREN`. -/
def FLASH_CMD_WREN : Nat := 0x06
/-- Constant `FLASH_CMD_PP`. -/
def FLASH_CMD_PP : Nat := 0x02
/-- Constant `FLASH_CMD_SE`. -/
def FLASH_CMD_SE : Nat := 0x20
/-- Constant `FLASH_CMD_CE`. -/
def FLASH_CMD_CE : Nat := 0x60
/-- Constant `FLASH_CMD_DP`. -/
def FLASH_CMD_DP : Nat := 0xB9

/-- Size of a data pointer on the 32-bit target (STM32F407), the value of `sizeof` applied
to a `uint8_t *` parameter. -/
def sizeofPtr : Nat := 4

/-! ## mx25v1635f.c -/

/-- Helper `flashChipSelectHigh` (mx25v1635f.c:22). -/
def flashChipSelectHigh {σ : Type} (E : Env σ) : Bus σ Unit := writeCs E CsLine.FLASH_CS true

/-- Helper `flashChipSelectLow` (mx25v1635f.c:28). -/
def flashChipSelectLow {σ : Type} (E : Env σ) : Bus σ Unit := writeCs E CsLine.FLASH_CS false

/-- The loop of `flashInsertDummyCycle` (mx25v1635f.c:44-54) with `n` iterations left. -/
def flashInsertDummyLoop {σ : Type} (E : Env σ) : Nat → Bool → Bus σ Bool
  | 0, status => pure status
  | n + 1, status =>
    if status then do
      let r ← SPI_Transfer E MX25_FLASH [0xFF] 1 0
      flashInsertDummyLoop E n r.1
    else pure status

/-- Function `flashInsertDummyCycle` (mx25v1635f.c:39); `dummyCycle` is a `uint8_t`. -/
def flashInsertDummyCycle {σ : Type} (E : Env σ) (dummyCycle : Nat) : Bus σ Bool :=
  flashInsertDummyLoop E (dummyCycle % U8) true

/-- Function `flashRead` (mx25v1635f.c:92): the first command byte is copied to a local and
`commandLength` bytes are sent from there, then `lengthToReceive` bytes are received, in
one chip-select frame. Both lengths are `uint8_t`. -/
def flashRead {σ : Type} (E : Env σ) (command : List Nat) (commandLength : Nat)
    (lengthToReceive : Nat) : Bus σ (Bool × Option (List Nat)) := do
  let readCommand := command.headD 0
  flashChipSelectLow E
  let r ← SPI_Transfer E MX25_FLASH [readCommand] (commandLength % U8) (lengthToReceive % U8)
  flashChipSelectHigh E
  pure r

/-- Function `flashWrite` (mx25v1635f.c:111). -/
def flashWrite {σ : Type} (E : Env σ) (command : List Nat) (commandLength : Nat) :
    Bus σ Bool := do
  flashChipSelectLow E
  let r ← SPI_Transfer E MX25_FLASH command (commandLength % U8) 0
  flashChipSelectHigh E
  pure r.1

/-- The address bytes built at mx25v1635f.c:141-154, most significant first. -/
def flashAddrBytes (flashAddress : Nat) (addr4ByteMode : Bool) : List Nat :=
  if addr4ByteMode then
    [flashAddress / 16777216 % U8, flashAddress / 65536 % U8, flashAddress / 256 % U8,
     flashAddress % U8]
  else
    [flashAddress / 65536 % U8, flashAddress / 256 % U8, flashAddress % U8]

/-- Function `flashSendAddr` (mx25v1635f.c:132). -/
def flashSendAddr {σ : Type} (E : Env σ) (flashAddress : Nat) (addr4ByteMode : Bool) :
    Bus σ Bool := do
  let length := if addr4ByteMode then 4 else 3
  let r ← SPI_Transfer E MX25_FLASH (flashAddrBytes flashAddress addr4ByteMode) length 0
  pure r.1

/-- Function `MX25_RDSCUR` (mx25v1635f.c:353). The argument is the pointee of `securityReg`
before the call (`none` for a null pointer); the value carries the pointee afterwards. -/
def MX25_RDSCUR {σ : Type} (E : Env σ) (securityReg : Option Nat) :
    Bus σ (flashReturnMsg_t × Option Nat) :=
  match securityReg with
  | none => pure (FLASH_OPERATION_FAILED, none)
  | some old => do
    let dataBuffer ← readUninit E
    let r ← flashRead E [FLASH_CMD_RDSCUR] 1 1
    if r.1 then pure (FLASH_OPERATION_SUCCESS, some ((r.2.getD [dataBuffer]).headD dataBuffer))
    else pure (FLASH_OPERATION_FAILED, some old)

/-- Function `MX25_RDSR` (mx25v1635f.c:440), with the pointer modelled as in `MX25_RDSCUR`. -/
def MX25_RDSR {σ : Type} (E : Env σ) (StatusReg : Option Nat) :
    Bus σ (flashReturnMsg_t × Option Nat) :=
  match StatusReg with
  | none => pure (FLASH_OPERATION_FAILED, none)
  | some old => do
    let dataBuffer ← readUninit E
    let r ← flashRead E [FLASH_CMD_RDSR] 1 1
    if r.1 then pure (FLASH_OPERATION_SUCCESS, some ((r.2.getD [dataBuffer]).headD dataBuffer))
    else pure (FLASH_OPERATION_FAILED, some old)

/-- Function `flashIs4Byte` (mx25v1635f.c:66). `FLASH_CMD_RDSCUR` is defined and neither
`FLASH_4BYTE_ONLY` nor `FLASH_3BYTE_ONLY` is, so the security register is read into an
uninitialised local and the result of `MX25_RDSCUR` is not looked at. -/
def flashIs4Byte {σ : Type} (E : Env σ) : Bus σ Bool := do
  let dataBuffer ← readUninit E
  let r ← MX25_RDSCUR E (some dataBuffer)
  pure (decide ((r.2.getD dataBuffer) &&& FLASH_4BYTE_MASK = FLASH_4BYTE_MASK))

/-- Function `flashIsBusy` (mx25v1635f.c:169): the status register is read into an
uninitialised local and the result of `MX25_RDSR` is not looked at. -/
def flashIsBusy {σ : Type} (E : Env σ) : Bus σ Bool := do
  let dataBuffer ← readUninit E
  let r ← MX25_RDSR E (some dataBuffer)
  pure (decide ((r.2.getD dataBuffer) &&& FLASH_WIP_MASK = FLASH_WIP_MASK))

/-- The `while` loop of `flashWaitTillReady` (mx25v1635f.c:197-205). The loop has no bound of
its own, so the model takes `fuel`, the number of polls it may still make; `none` means the
loop is still running when the fuel is used up. The subtraction is 32-bit. -/
def flashWaitLoop {σ : Type} (E : Env σ) (startTime timeoutTicks : Nat) :
    Nat → Bus σ (Option Bool)
  | 0 => pure none
  | fuel + 1 => do
    let busy ← flashIsBusy E
    if busy then do
      vTaskDelay E (E.pdMS_TO_TICKS 1 % U32)
      let now ← xTaskGetTickCount E
      if (now + U32 - startTime) % U32 > timeoutTicks then pure (some false)
      else flashWaitLoop E startTime timeoutTicks fuel
    else pure (some true)

/-- Function `flashWaitTillReady` (mx25v1635f.c:191), synchronous IO (`NON_SYNCHRONOUS_IO`
is not defined). -/
def flashWaitTillReady {σ : Type} (E : Env σ) (fuel : Nat) (expectTimeMs : Nat) :
    Bus σ (Option Bool) := do
  let startTime ← xTaskGetTickCount E
  let timeoutTicks := E.pdMS_TO_TICKS expectTimeMs % U32
  flashWaitLoop E startTime timeoutTicks fuel

/-- Function `MX25_RDID` (mx25v1635f.c:220). The argument is the caller's identification
word before the call; the value carries it afterwards. -/
def MX25_RDID {σ : Type} (E : Env σ) (identification : Nat) :
    Bus σ (flashReturnMsg_t × Nat) := do
  let r ← flashRead E [FLASH_CMD_RDID] 1 3
  if r.1 then
    let dataBuffer := r.2.getD []
    let tempBuffer := dataBuffer.getD 0 0
    let tempBuffer := ((tempBuffer * 256) % U32) ||| dataBuffer.getD 1 0
    pure (FLASH_OPERATION_SUCCESS, ((tempBuffer * 256) % U32) ||| dataBuffer.getD 2 0)
  else pure (FLASH_OPERATION_FAILED, identification)

/-- Function `MX25_RES` (mx25v1635f.c:256). The receive length is `sizeof` of the pointer
parameter; the result of the receive is not looked at. The value carries the message and
the bytes written through `electronicIdentification`, when the receive ran. -/
def MX25_RES {σ : Type} (E : Env σ) : Bus σ (flashReturnMsg_t × Option (List Nat)) := do
  flashChipSelectLow E
  let r ← SPI_Transfer E MX25_FLASH [FLASH_CMD_RES] 1 0
  let status := r.1
  let status ← (if status then flashInsertDummyCycle E 3 else pure status)
  let q ← (if status then SPI_Transfer E MX25_FLASH [] 0 sizeofPtr else pure (status, none))
  flashChipSelectHigh E
  if status then pure (FLASH_OPERATION_SUCCESS, q.2)
  else pure (FLASH_OPERATION_FAILED, none)

/-- Function `MX25_REMS` (mx25v1635f.c:303). `ArrangeOpt` is the `bool` field of the status
structure; the argument `remsIdentification` is the caller's word before the call. -/
def MX25_REMS {σ : Type} (E : Env σ) (remsIdentification : Nat) (ArrangeOpt : Bool) :
    Bus σ (flashReturnMsg_t × Nat) := do
  flashChipSelectLow E
  let r ← SPI_Transfer E MX25_FLASH [FLASH_CMD_REMS] 1 0
  let status := r.1
  let status ← (if status then flashInsertDummyCycle E 2 else pure status)
  let q ← (if status then SPI_Transfer E MX25_FLASH [if ArrangeOpt then 1 else 0] 1 2
           else pure (status, none))
  let status := if status then q.1 else status
  flashChipSelectHigh E
  if status then
    let dataBuffer := q.2.getD []
    pure (FLASH_OPERATION_SUCCESS, ((dataBuffer.getD 0 0 * 256) ||| dataBuffer.getD 1 0) % U16)
  else pure (FLASH_OPERATION_FAILED, remsIdentification)

/-- Function `MX25_READ` (mx25v1635f.c:385). The result of the data receive is not looked
at. The value carries the message and, when the receive ran, the bytes stored at
`targetAddress`. -/
def MX25_READ {σ : Type} (E : Env σ) (flashAddress : Nat) (byteLength : Nat) :
    Bus σ (flashReturnMsg_t × Option (List Nat)) :=
  if flashAddress > FLASH_SIZE then pure (FLASH_ADDRESS_INVALID, none)
  else do
    let addr4ByteMode ← flashIs4Byte E
    flashChipSelectLow E
    let r ← SPI_Transfer E MX25_FLASH [FLASH_CMD_READ] 1 0
    let status := r.1
    let status ← (if status then flashSendAddr E flashAddress addr4ByteMode else pure status)
    let q ← (if status then SPI_Transfer E MX25_FLASH [] 0 byteLength else pure (status, none))
    flashChipSelectHigh E
    if status then pure (FLASH_OPERATION_SUCCESS, q.2)
    else pure (FLASH_OPERATION_FAILED, none)

/-- Function `MX25_WREN` (mx25v1635f.c:472). -/
def MX25_WREN {σ : Type} (E : Env σ) : Bus σ flashReturnMsg_t := do
  let status ← flashWrite E [FLASH_CMD_WREN] 1
  if status then pure FLASH_OPERATION_SUCCESS else pure FLASH_OPERATION_FAILED

/-- Message of the final wait of an erase or program (e.g. mx25v1635f.c:591-598); `none`
when the wait is still running. -/
def waitMsg (r : Option Bool) : Option flashReturnMsg_t :=
  r.map (fun ready => if ready then FLASH_OPERATION_SUCCESS else FLASH_TIME_OUT)

/-- Lines 503-529 of `MX25_CE`: everything before the final wait. The value is the message
returned early, or `none` when the code goes on to `flashWaitTillReady`. -/
def MX25_CE_issue {σ : Type} (E : Env σ) : Bus σ (Option flashReturnMsg_t) := do
  let busy ← flashIsBusy E
  if busy then pure (some FLASH_IS_BUSY)
  else do
    let msg ← MX25_WREN E
    if msg ≠ FLASH_OPERATION_SUCCESS then pure (some msg)
    else do
      flashChipSelectLow E
      let r ← SPI_Transfer E MX25_FLASH [FLASH_CMD_CE] 1 0
      flashChipSelectHigh E
      if !r.1 then pure (some FLASH_OPERATION_FAILED) else pure none

/-- Function `MX25_CE` (mx25v1635f.c:496); `none` when the final wait is still running
after `fuel` polls. -/
def MX25_CE {σ : Type} (E : Env σ) (fuel : Nat) : Bus σ (Option flashReturnMsg_t) := do
  let early ← MX25_CE_issue E
  match early with
  | some msg => pure (some msg)
  | none => do
    let ready ← flashWaitTillReady E fuel CHIP_ERASE_CYCLE_TIME
    pure (waitMsg ready)

/-- Lines 551-589 of `MX25_SE`: everything before the final wait. -/
def MX25_SE_issue {σ : Type} (E : Env σ) (flashAddress : Nat) :
    Bus σ (Option flashReturnMsg_t) :=
  if flashAddress > FLASH_SIZE then pure (some FLASH_ADDRESS_INVALID)
  else do
    let busy ← flashIsBusy E
    if busy then pure (some FLASH_IS_BUSY)
    else do
      let addr4ByteMode ← flashIs4Byte E
      let msg ← MX25_WREN E
      if msg ≠ FLASH_OPERATION_SUCCESS then pure (some FLASH_TIME_OUT)
      else do
        flashChipSelectLow E
        let r ← SPI_Transfer E MX25_FLASH [FLASH_CMD_SE] 1 0
        let status := r.1
        let status ← (if status then flashSendAddr E flashAddress addr4ByteMode
                      else pure status)
        flashChipSelectHigh E
        if !status then pure (some FLASH_OPERATION_FAILED) else pure none

/-- Function `MX25_SE` (mx25v1635f.c:545). -/
def MX25_SE {σ : Type} (E : Env σ) (fuel : Nat) (flashAddress : Nat) :
    Bus σ (Option flashReturnMsg_t) := do
  let early ← MX25_SE_issue E flashAddress
  match early with
  | some msg => pure (some msg)
  | none => do
    let ready ← flashWaitTillReady E fuel SECTOR_ERASE_CYCLE_TIME
    pure (waitMsg ready)

/-- Lines 622-665 of `MX25_PP`: everything before the final wait. The result of
`flashSendAddr` is dropped (line 650). -/
def MX25_PP_issue {σ : Type} (E : Env σ) (flashAddress : Nat) (sourceAddress : List Nat)
    (byteLength : Nat) : Bus σ (Option flashReturnMsg_t) :=
  if flashAddress > FLASH_SIZE then pure (some FLASH_ADDRESS_INVALID)
  else do
    let busy ← flashIsBusy E
    if busy then pure (some FLASH_IS_BUSY)
    else do
      let addr4ByteMode ← flashIs4Byte E
      let msg ← MX25_WREN E
      if msg ≠ FLASH_OPERATION_SUCCESS then pure (some FLASH_TIME_OUT)
      else do
        flashChipSelectLow E
        let r ← SPI_Transfer E MX25_FLASH [FLASH_CMD_PP] 1 0
        let status := r.1
        let _ ← (if status then flashSendAddr E flashAddress addr4ByteMode else pure status)
        let status ← (if status then do
                        let q ← SPI_Transfer E MX25_FLASH sourceAddress byteLength 0
                        pure q.1
                      else pure status)
        flashChipSelectHigh E
        if !status then pure (some FLASH_TIME_OUT) else pure none

/-- Function `MX25_PP` (mx25v1635f.c:615). -/
def MX25_PP {σ : Type} (E : Env σ) (fuel : Nat) (flashAddress : Nat)
    (sourceAddress : List Nat) (byteLength : Nat) : Bus σ (Option flashReturnMsg_t) := do
  let early ← MX25_PP_issue E flashAddress sourceAddress byteLength
  match early with
  | some msg => pure (some msg)
  | none => do
    let ready ← flashWaitTillReady E fuel PAGE_PROGRAM_CYCLE_TIME
    pure (waitMsg ready)

/-- Function `MX25_DP` (mx25v1635f.c:681). -/
def MX25_DP {σ : Type} (E : Env σ) : Bus σ flashReturnMsg_t := do
  let status ← flashWrite E [FLASH_CMD_DP] 1
  vTaskDelay E (E.pdMS_TO_TICKS STANDBY_TO_DP_MODE_DELAY % U32)
  if status then pure FLASH_OPERATION_SUCCESS else pure FLASH_OPERATION_FAILED

/-- Function `MX25_WAKE` (mx25v1635f.c:707). -/
def MX25_WAKE {σ : Type} (E : Env σ) : Bus σ Unit := do
  flashChipSelectLow E
  vTaskDelay E (E.pdMS_TO_TICKS WAKE_UP_CS_PIN_LOW_TIME % U32)
  flashChipSelectHigh E
  vTaskDelay E (E.pdMS_TO_TICKS DP_TO_STANDBY_MODE_DELAY % U32)

/-- Function `MX25_Init` (mx25v1635f.c:729); the pin configuration is not modelled. -/
def MX25_Init {σ : Type} (E : Env σ) : Bus σ Bool := do
  flashChipSelectHigh E
  pure true

/-! ## mb85rs256.c -/

/-- Constant `FRAM_OPCODE_WREN`. -/
def FRAM_OPCODE_WREN : Nat := 0x06
/-- Constant `FRAM_OPCODE_WRDI`. -/
def FRAM_OPCODE_WRDI : Nat := 0x04
/-- Constant `FRAM_OPCODE_RDSR`. -/
def FRAM_OPCODE_RDSR : Nat := 0x05
/-- Constant `FRAM_OPCODE_READ`. -/
def FRAM_OPCODE_READ : Nat := 0x03
/-- Constant `FRAM_OPCODE_WRITE`. -/
def FRAM_OPCODE_WRITE : Nat := 0x02
/-- Constant `FRAM_OPCODE_RDID`. -/
def FRAM_OPCODE_RDID : Nat := 0x9F
/-- Constant `FRAM_ADDRESS_LENGTH_IN_BYTES`. -/
def FRAM_ADDRESS_LENGTH_IN_BYTES : Nat := 2
/-- Constant `FRAM_OP_CODE_LENGTH_IN_BYTES`. -/
def FRAM_OP_CODE_LENGTH_IN_BYTES : Nat := 1

/-- Helper `framChipSelectHigh` (mb85rs256.c:34). -/
def framChipSelectHigh {σ : Type} (E : Env σ) : Bus σ Unit := writeCs E CsLine.FRAM_CS true

/-- Helper `framChipSelectLow` (mb85rs256.c:40). -/
def framChipSelectLow {σ : Type} (E : Env σ) : Bus σ Unit := writeCs E CsLine.FRAM_CS false

/-- Function `framReadRegister` (mb85rs256.c:51). -/
def framReadRegister {σ : Type} (E : Env σ) (command : Nat) (lengthToReceive : Nat) :
    Bus σ (Bool × Option (List Nat)) := do
  framChipSelectLow E
  let r ← SPI_Transfer E MB85_FRAM [command % U8] FRAM_OP_CODE_LENGTH_IN_BYTES
    (lengthToReceive % U16)
  framChipSelectHigh E
  pure r

/-- Function `framSendCommand` (mb85rs256.c:69). -/
def framSendCommand {σ : Type} (E : Env σ) (command : Nat) : Bus σ Bool := do
  framChipSelectLow E
  let r ← SPI_Transfer E MB85_FRAM [command % U8] FRAM_OP_CODE_LENGTH_IN_BYTES 0
  framChipSelectHigh E
  pure r.1

/-- The two address bytes built at mb85rs256.c:94-95, most significant first. -/
def framAddrBytes (address : Nat) : List Nat :=
  [(address % U16) / 256 % U8, (address % U16) % U8]

/-- The length check at mb85rs256.c:98-101 on a `uint16_t` length. -/
def framClampLength {σ : Type} (E : Env σ) (length : Nat) : Nat :=
  if length % U16 > E.FRAM_SIZE_IN_BYTES then E.FRAM_SIZE_IN_BYTES % U16 else length % U16

/-- Function `MB85RS256_WREN` (mb85rs256.c:200). -/
def MB85RS256_WREN {σ : Type} (E : Env σ) : Bus σ Bool := framSendCommand E FRAM_OPCODE_WREN

/-- Function `MB85RS256_WRDI` (mb85rs256.c:216). -/
def MB85RS256_WRDI {σ : Type} (E : Env σ) : Bus σ Bool := framSendCommand E FRAM_OPCODE_WRDI

/-- Function `MB85RS256_Read` (mb85rs256.c:89). The value carries the returned flag and,
when the receive ran, the bytes stored at `dataReceived`. -/
def MB85RS256_Read {σ : Type} (E : Env σ) (readAddress : Nat) (lengthToReceive : Nat) :
    Bus σ (Bool × Option (List Nat)) := do
  let readAddressToSend := framAddrBytes readAddress
  let lengthToReceive := framClampLength E lengthToReceive
  framChipSelectLow E
  let r ← SPI_Transfer E MB85_FRAM [FRAM_OPCODE_READ] 1 0
  let q ← (if r.1 then do
             let a ← SPI_Transfer E MB85_FRAM readAddressToSend FRAM_ADDRESS_LENGTH_IN_BYTES 0
             if a.1 then SPI_Transfer E MB85_FRAM [] 0 lengthToReceive
             else pure (a.1, none)
           else pure (r.1, none))
  framChipSelectHigh E
  pure q

/-- Function `MB85RS256_Write` (mb85rs256.c:129). The status of the write frame is
overwritten by the status of `MB85RS256_WRDI` (line 169). -/
def MB85RS256_Write {σ : Type} (E : Env σ) (writeAddress : Nat) (dataToWrite : List Nat)
    (lengthToSend : Nat) : Bus σ Bool := do
  let writeAddressToSend := framAddrBytes writeAddress
  let lengthToSend := framClampLength E lengthToSend
  let status ← MB85RS256_WREN E
  if !status then pure status
  else do
    framChipSelectLow E
    let r ← SPI_Transfer E MB85_FRAM [FRAM_OPCODE_WRITE] 1 0
    let _ ← (if r.1 then do
               let a ← SPI_Transfer E MB85_FRAM writeAddressToSend FRAM_ADDRESS_LENGTH_IN_BYTES 0
               if a.1 then do
                 let d ← SPI_Transfer E MB85_FRAM dataToWrite lengthToSend 0
                 pure d.1
               else pure a.1
             else pure r.1)
    framChipSelectHigh E
    let status ← MB85RS256_WRDI E
    pure status

/-- Function `MB85RS256_RDSR` (mb85rs256.c:184); the receive length is `sizeof` of the
pointer parameter. -/
def MB85RS256_RDSR {σ : Type} (E : Env σ) : Bus σ (Bool × Option (List Nat)) :=
  framReadRegister E FRAM_OPCODE_RDSR sizeofPtr

/-- Function `MB85RS256_RDID` (mb85rs256.c:233). The argument is the caller's
identification word before the call; the value carries it afterwards. -/
def MB85RS256_RDID {σ : Type} (E : Env σ) (identification : Nat) : Bus σ (Bool × Nat) := do
  let r ← framReadRegister E FRAM_OPCODE_RDID 4
  if r.1 then
    let dataBuffer := r.2.getD []
    let temp := dataBuffer.getD 0 0
    let temp := ((temp * 256) % U32) ||| dataBuffer.getD 1 0
    let temp := ((temp * 256) % U32) ||| dataBuffer.getD 2 0
    pure (r.1, ((temp * 256) % U32) ||| dataBuffer.getD 3 0)
  else pure (r.1, identification)

/-- Function `MB85RS256_Init` (mb85rs256.c:266); the pin configuration is not modelled. -/
def MB85RS256_Init {σ : Type} (E : Env σ) : Bus σ Bool := do
  framChipSelectHigh E
  pure true

/-! ## lis3dsh.c -/

/-- Constant `LIS3DSH_WHO_AM_I_REGISTER_ADDR`. -/
def LIS3DSH_WHO_AM_I_REGISTER_ADDR : Nat := 0x0F
/-- Constant `LIS3DSH_OUT_X_L_REGISTER_ADDR`. -/
def LIS3DSH_OUT_X_L_REGISTER_ADDR : Nat := 0x28
/-- Constant `LIS3DSH_CTRL_REG3_REGISTER_ADDR`. -/
def LIS3DSH_CTRL_REG3_REGISTER_ADDR : Nat := 0x23
/-- Constant `LIS3DSH_CTRL_REG4_REGISTER_ADDR`. -/
def LIS3DSH_CTRL_REG4_REGISTER_ADDR : Nat := 0x20
/-- Constant `LIS3DSH_CTRL_REG5_REGISTER_ADDR`. -/
def LIS3DSH_CTRL_REG5_REGISTER_ADDR : Nat := 0x24
/-- Constant `ACCEL_DATA_NUM_BYTES`. -/
def ACCEL_DATA_NUM_BYTES : Nat := 6
/-- Constant `LIS3DSH_DEVICE_ID`. -/
def LIS3DSH_DEVICE_ID : Nat := 0x3F
/-- Constant `LIS3DSH_RESET_TIME_MS`. -/
def LIS3DSH_RESET_TIME_MS : Nat := 3000
/-- Constant `LIS3DSH_REGISTER_LEN`. -/
def LIS3DSH_REGISTER_LEN : Nat := 1
/-- Constant `LIS3DSH_READ_BITMASK`. -/
def LIS3DSH_READ_BITMASK : Nat := 0x80
/-- Enumerator `LIS3DSH_SAMPLE_RATE_800HZ`. -/
def LIS3DSH_SAMPLE_RATE_800HZ : Nat := 8
/-- Enumerator `LIS3DSH_ANTI_ALIAS_FILTER_BW_200HZ`. -/
def LIS3DSH_ANTI_ALIAS_FILTER_BW_200HZ : Nat := 1

/-- Structure `LIS3DSH_Data_t`: three `int16_t` readings in mg. -/
structure LIS3DSH_Data_t where
  accelX_mg : Int
  accelY_mg : Int
  accelZ_mg : Int
  deriving DecidableEq, Repr

/-- Helper `accelChipSelectHigh` (lis3dsh.c:73). -/
def accelChipSelectHigh {σ : Type} (E : Env σ) : Bus σ Unit := writeCs E CsLine.ACCEL_CS true

/-- Helper `accelChipSelectLow` (lis3dsh.c:79). -/
def accelChipSelectLow {σ : Type} (E : Env σ) : Bus σ Unit := writeCs E CsLine.ACCEL_CS false

/-- Function `accelRead` (lis3dsh.c:90); `lengthToReceive` is a `uint8_t`. -/
def accelRead {σ : Type} (E : Env σ) (regToRead : Nat) (lengthToReceive : Nat) :
    Bus σ (Bool × Option (List Nat)) := do
  let readCommand := (regToRead ||| LIS3DSH_READ_BITMASK) % U8
  accelChipSelectLow E
  let r ← SPI_Transfer E LIS3DSH_ACCEL [readCommand] LIS3DSH_REGISTER_LEN (lengthToReceive % U8)
  accelChipSelectHigh E
  pure r

/-- Function `accelWrite` (lis3dsh.c:110); `dataLength` is a `uint8_t`. -/
def accelWrite {σ : Type} (E : Env σ) (regToWrite : Nat) (dataToWrite : List Nat)
    (dataLength : Nat) : Bus σ Bool := do
  accelChipSelectLow E
  let r ← SPI_Transfer E LIS3DSH_ACCEL [regToWrite] LIS3DSH_REGISTER_LEN 0
  let status ← (if r.1 then do
                  let d ← SPI_Transfer E LIS3DSH_ACCEL dataToWrite (dataLength % U8) 0
                  pure d.1
                else pure r.1)
  accelChipSelectHigh E
  pure status

/-- Numerator of the `double` nearest to 0.06 (`LIS3DSH_ACCEL_SENSITIVITY_MG`); the value of
the constant is this number divided by `2 ^ 54`. -/
def sensitivityNum : Nat := 1080863910568919

/-- Number of low bits a positive integer below `2 ^ 116` loses when it is cut to 53
significant bits. -/
def shiftTo53 (x : Nat) : Nat :=
  ((List.range 64).find? (fun k => decide (x / 2 ^ k < 2 ^ 53))).getD 0

/-- Round a positive integer to 53 significant bits, ties to even (the rounding of a
`double` product whose exponent stays in the normal range). -/
def roundTo53 (x : Nat) : Nat :=
  let sh := shiftTo53 x
  if sh = 0 then x
  else
    let q := x / 2 ^ sh
    let r := x % 2 ^ sh
    let half := 2 ^ (sh - 1)
    (if r > half ∨ (r = half ∧ q % 2 = 1) then q + 1 else q) * 2 ^ sh

/-- Function `accelConvertDataToMg` (lis3dsh.c:133): the `int16_t` argument is multiplied by
the `double` constant, the product is rounded to `double` and converted back to `int16_t`,
which truncates toward zero. -/
def accelConvertDataToMg (rawAccelData : Int) : Int :=
  let q : Int := (roundTo53 (rawAccelData.natAbs * sensitivityNum) / 2 ^ 54 : Nat)
  if rawAccelData < 0 then -q else q

/-- Conversion of an `int` to `int16_t` (two's complement wrap-around). -/
def toInt16 (n : Nat) : Int :=
  if n % U16 < 32768 then (n % U16 : Nat) else ((n % U16 : Nat) : Int) - 65536

/-- The raw reading of one axis (lis3dsh.c:291): low byte OR high byte shifted by 8. -/
def accelRaw (data : List Nat) (lsb msb : Nat) : Int :=
  toInt16 (data.getD lsb 0 ||| (data.getD msb 0 * 256))

/-- Function `accelConfigure` (lis3dsh.c:163). The bit-fields of `LIS3DSH_CtrlReg4_t` and
`LIS3DSH_CtrlReg5_t` are allocated from the least significant bit (BDU is bit 3, ODR bits
4-7, BW bits 6-7). -/
def accelConfigure {σ : Type} (E : Env σ) (outputDataRate antiAliasFilterBW : Nat) :
    Bus σ Bool := do
  let r ← accelRead E LIS3DSH_CTRL_REG4_REGISTER_ADDR LIS3DSH_REGISTER_LEN
  if r.1 then do
    let v := (r.2.getD [0]).headD 0
    let ctrlReg4data := ((v &&& 0x07) ||| 0x08) ||| ((outputDataRate % 16) * 16)
    let w ← accelWrite E LIS3DSH_CTRL_REG4_REGISTER_ADDR [ctrlReg4data] LIS3DSH_REGISTER_LEN
    if !w then pure w
    else do
      let r5 ← accelRead E LIS3DSH_CTRL_REG5_REGISTER_ADDR LIS3DSH_REGISTER_LEN
      if r5.1 then do
        let v5 := (r5.2.getD [0]).headD 0
        let ctrlReg5data := (v5 &&& 0x3F) ||| ((antiAliasFilterBW % 4) * 64)
        accelWrite E LIS3DSH_CTRL_REG5_REGISTER_ADDR [ctrlReg5data] LIS3DSH_REGISTER_LEN
      else pure r5.1
  else pure r.1

/-- Function `LIS3DSH_IsModuleInitialized` (lis3dsh.c:226) on the module flag. -/
def LIS3DSH_IsModuleInitialized (xModuleInitialized : Bool) : Bool := xModuleInitialized

/-- Function `LIS3DSH_PerformSoftReset` (lis3dsh.c:243); STRT is bit 0. -/
def LIS3DSH_PerformSoftReset {σ : Type} (E : Env σ) : Bus σ Bool := do
  let r ← accelRead E LIS3DSH_CTRL_REG3_REGISTER_ADDR LIS3DSH_REGISTER_LEN
  if r.1 then do
    let v := (r.2.getD [0]).headD 0
    let w ← accelWrite E LIS3DSH_CTRL_REG3_REGISTER_ADDR [v ||| 0x01] LIS3DSH_REGISTER_LEN
    if w then do
      HAL_Delay E LIS3DSH_RESET_TIME_MS
      pure w
    else pure w
  else pure r.1

/-- Function `LIS3DSH_ReadAccelData` (lis3dsh.c:277). The value carries the returned flag
and the sample `accelData` that the function prints. -/
def LIS3DSH_ReadAccelData {σ : Type} (E : Env σ) : Bus σ (Bool × LIS3DSH_Data_t) := do
  let r ← accelRead E LIS3DSH_OUT_X_L_REGISTER_ADDR ACCEL_DATA_NUM_BYTES
  if r.1 then
    let data := r.2.getD []
    pure (r.1, ⟨accelConvertDataToMg (accelRaw data 0 1), accelConvertDataToMg (accelRaw data 2 3),
      accelConvertDataToMg (accelRaw data 4 5)⟩)
  else pure (r.1, ⟨0, 0, 0⟩)

/-- Function `LIS3DSH_EnableInterrupt` (lis3dsh.c:320); INT1_EN is bit 3, IEL bit 5, IEA
bit 6 and DR_EN bit 7. The interrupt controller is not modelled. -/
def LIS3DSH_EnableInterrupt {σ : Type} (E : Env σ) : Bus σ Bool := do
  let r ← accelRead E LIS3DSH_CTRL_REG3_REGISTER_ADDR LIS3DSH_REGISTER_LEN
  if r.1 then do
    let v := (r.2.getD [0]).headD 0
    accelWrite E LIS3DSH_CTRL_REG3_REGISTER_ADDR
      [(((v ||| 0x20) ||| 0x40) ||| 0x80) ||| 0x08] LIS3DSH_REGISTER_LEN
  else pure r.1

/-- Function `LIS3DSH_ReadID` (lis3dsh.c:356). -/
def LIS3DSH_ReadID {σ : Type} (E : Env σ) : Bus σ Nat := do
  let r ← accelRead E LIS3DSH_WHO_AM_I_REGISTER_ADDR LIS3DSH_REGISTER_LEN
  if r.1 then
    let id := (r.2.getD [0]).headD 0
    if id = LIS3DSH_DEVICE_ID then pure id else pure 0
  else pure 0

/-- Function `LIS3DSH_Init` (lis3dsh.c:388). The argument is the module flag
`xModuleInitialized` before the call; the value carries the returned flag and the module
flag afterwards. The pin and interrupt configuration is not modelled. -/
def LIS3DSH_Init {σ : Type} (E : Env σ) (xModuleInitialized : Bool) : Bus σ (Bool × Bool) := do
  accelChipSelectHigh E
  let id ← LIS3DSH_ReadID E
  let status := decide (id ≠ 0)
  let c ← (if status then do
             let st ← accelConfigure E LIS3DSH_SAMPLE_RATE_800HZ LIS3DSH_ANTI_ALIAS_FILTER_BW_200HZ
             pure (st, true)
           else pure (status, xModuleInitialized))
  let status ← (if c.1 then LIS3DSH_EnableInterrupt E else pure c.1)
  pure (status, c.2)

/-! ## Observers of an event trace -/

/-- Chip-select events. -/
def Event.isCs : Event → Bool
  | Event.csLow _ => true
  | Event.csHigh _ => true
  | _ => false

/-- A trace without chip-select events. -/
def quiet (ev : List Event) : Bool := ev.all (fun e => !e.isCs)

/-- What an observer of one chip-select line knows: `fresh` before the first assertion,
`low` while asserted, `closed` after an assertion has been answered by one deassertion. -/
inductive CsPhase
  | fresh
  | low
  | closed
  deriving DecidableEq, Repr

/-- One event seen by the observer of `line`; `none` is a violation: an assertion while
asserted, or a second deassertion after an assertion. -/
def csStep (line : CsLine) (p : CsPhase) (e : Event) : Option CsPhase :=
  match e with
  | Event.csLow l =>
    if l = line then (if p = CsPhase.low then none else some CsPhase.low) else some p
  | Event.csHigh l =>
    if l = line then
      (match p with
       | CsPhase.fresh => some CsPhase.fresh
       | CsPhase.low => some CsPhase.closed
       | CsPhase.closed => none)
    else some p
  | _ => some p

/-- Run the observer of `line` over a trace. -/
def csRun (line : CsLine) : List Event → CsPhase → Option CsPhase
  | [], p => some p
  | e :: es, p => (csStep line p e).bind (csRun line es)

/-- The chip-select events of `line` form well-nested low/high pairs and the line is high
at the end of the trace. -/
def csWellNested (line : CsLine) (ev : List Event) : Bool :=
  match csRun line ev CsPhase.fresh with
  | some CsPhase.fresh => true
  | some CsPhase.closed => true
  | _ => false

/-- Split a trace into frames: the events between a chip-select assertion and the next
deassertion. `cur` is the frame being collected, if any. -/
def framesFrom : Option (List Event) → List Event → List (List Event)
  | _, [] => []
  | none, Event.csLow _ :: es => framesFrom (some []) es
  | none, _ :: es => framesFrom none es
  | some f, Event.csHigh _ :: es => f :: framesFrom none es
  | some f, e :: es => framesFrom (some (f ++ [e])) es

/-- The frames of a trace. -/
def frames (ev : List Event) : List (List Event) := framesFrom none ev

/-- The mutex discipline of the transaction invariant, checked on a trace: the mutex is
held when a chip select is asserted, is not given back while one is asserted, and is held
when it is deasserted. `held` and `sel` are the state before the trace. -/
def lockedFrames : Bool → Bool → List Event → Bool
  | _, _, [] => true
  | held, _, Event.csLow _ :: es => held && lockedFrames held true es
  | held, _, Event.csHigh _ :: es => held && lockedFrames held false es
  | _, sel, Event.take ok :: es => lockedFrames ok sel es
  | _, sel, Event.give :: es => !sel && lockedFrames false sel es
  | held, sel, _ :: es => lockedFrames held sel es

/-- A frame in which the single byte `op` is handed to `HAL_SPI_Transmit`. -/
def sendsOp (op : Nat) (f : List Event) : Bool :=
  f.any (fun e =>
    match e with
    | Event.transmit _ bytes _ => decide (bytes = [op])
    | _ => false)

/-- The frame of a write-enable command that went through: the mutex was taken, the single
byte 0x06 was transmitted with `HAL_OK`, the mutex was given back. -/
def wrenOkFrame : List Event :=
  [Event.take true,
   Event.transmit SpiBus.xSharedSpiHandle [FLASH_CMD_WREN] HAL_StatusTypeDef.HAL_OK,
   Event.give]

/-- Every frame that sends `op` comes right after a successful write-enable frame; `prev`
is the frame before the list, if any. -/
def wrenGuarded (op : Nat) : Option (List Event) → List (List Event) → Bool
  | _, [] => true
  | prev, f :: fs =>
    (!sendsOp op f || decide (prev = some wrenOkFrame)) && wrenGuarded op (some f) fs

/-- A frame that is one attempt to send the single byte `op` on the shared bus: either the
mutex was not obtained, or it was obtained, the byte was handed to `HAL_SPI_Transmit` and
the mutex was given back. -/
def isCommandAttempt (op : Nat) (f : List Event) : Bool :=
  match f with
  | [Event.take false] => true
  | [Event.take true, Event.transmit SpiBus.xSharedSpiHandle bytes _, Event.give] =>
    decide (bytes = [op])
  | _ => false

/-- Number of receive calls in a trace (the status polls of a busy-wait). -/
def countReceives : List Event → Nat
  | [] => 0
  | Event.receive _ _ _ :: es => countReceives es + 1
  | _ :: es => countReceives es

/-- No byte leaves or enters through the HAL in this trace. -/
def noTransfer (ev : List Event) : Bool :=
  ev.all (fun e =>
    match e with
    | Event.transmit _ _ _ => false
    | Event.receive _ _ _ => false
    | _ => true)

/-! ## A reference world: the three devices behind the HAL

The model of the hardware used for round trips and for concrete runs. It follows the
command table and the glossary of the specification: commands are collected while a
device is selected and take effect when its select line goes high; a write-class flash
command needs the write-enable latch and an idle device, clears the latch and keeps the
write-in-progress bit set for the device's cycle time; programming can only clear bits.
One tick is one millisecond (`pdMS_TO_TICKS` is the identity). -/

/-- Capacity of the reference FRAM (256 Kbit). -/
def REF_FRAM_SIZE : Nat := 32768

/-- State of the reference world. -/
structure RefWorld where
  tick : Nat
  halFaults : List Bool
  mutexFaults : List Bool
  garbage : Nat
  flashSel : Bool
  flashIn : List Nat
  flashOut : Nat
  flashMem : Nat → Nat
  flashWel : Bool
  flashBusy : Nat
  flashHang : Bool
  flashAddr4 : Bool
  flashTprog : Nat
  flashTerase : Nat
  flashTchip : Nat
  framSel : Bool
  framIn : List Nat
  framOut : Nat
  framMem : Nat → Nat
  framWel : Bool
  accelSel : Bool
  accelIn : List Nat
  accelOut : Nat
  accelReg : Nat → Nat

/-- Big-endian value of a list of bytes. -/
def beValue (bytes : List Nat) : Nat := bytes.foldl (fun acc b => acc * 256 + b) 0

/-- Number of address bytes the reference flash expects. -/
def refAddrLen (w : RefWorld) : Nat := if w.flashAddr4 then 4 else 3

/-- Status register of the reference flash: WIP is bit 0, WEL bit 1. -/
def refFlashStatus (w : RefWorld) : Nat :=
  (if w.flashBusy > 0 then 1 else 0) + (if w.flashWel then 2 else 0)

/-- The `i`-th byte the reference flash puts out in the current frame. -/
def refFlashReply (w : RefWorld) (i : Nat) : Nat :=
  match w.flashIn with
  | [] => 0xFF
  | op :: rest =>
    if op = FLASH_CMD_RDSR ∧ rest = [] then refFlashStatus w
    else if op = FLASH_CMD_RDSCUR ∧ rest = [] then (if w.flashAddr4 then 4 else 0)
    else if op = FLASH_CMD_RDID ∧ rest = [] then [0xC2, 0x23, 0x15].getD (i % 3) 0
    else if op = FLASH_CMD_READ ∧ rest.length = refAddrLen w then
      w.flashMem ((beValue rest + i) % FLASH_SIZE)
    else if op = FLASH_CMD_RES ∧ rest.length = 3 then 0x15
    else if op = FLASH_CMD_REMS ∧ rest.length = 3 then
      (if (i + rest.getD 2 0) % 2 = 0 then 0xC2 else 0x15)
    else 0xFF

/-- Page program of the reference flash: the bytes go to consecutive offsets of the page
of `a`, wrapping inside the page; only the last 256 bytes count; bits can only be cleared. -/
def refProgram (mem : Nat → Nat) (a : Nat) (data : List Nat) : Nat → Nat :=
  let extra := data.length - 256
  let d := data.drop extra
  let start := (a % 256 + extra) % 256
  fun x =>
    if x / 256 = a / 256 ∧ (x % 256 + 256 - start) % 256 < d.length then
      mem x &&& d.getD ((x % 256 + 256 - start) % 256) 0xFF
    else mem x

/-- End of a frame on the reference flash: the collected command takes effect. -/
def refFlashCommit (w : RefWorld) : RefWorld :=
  let idle : RefWorld := { w with flashSel := false, flashIn := [], flashOut := 0 }
  match w.flashIn with
  | [] => idle
  | op :: rest =>
    if w.flashBusy > 0 then idle
    else if op = FLASH_CMD_WREN ∧ rest = [] then { idle with flashWel := true }
    else if op = 0x04 ∧ rest = [] then { idle with flashWel := false }
    else if op = FLASH_CMD_PP ∧ rest.length > refAddrLen w ∧ w.flashWel then
      { idle with
        flashMem := refProgram w.flashMem (beValue (rest.take (refAddrLen w)) % FLASH_SIZE)
          (rest.drop (refAddrLen w)),
        flashWel := false, flashBusy := w.flashTprog }
    else if op = FLASH_CMD_SE ∧ rest.length = refAddrLen w ∧ w.flashWel then
      { idle with
        flashMem := fun x =>
          if x / 4096 = (beValue rest % FLASH_SIZE) / 4096 then 0xFF else w.flashMem x,
        flashWel := false, flashBusy := w.flashTerase }
    else if op = FLASH_CMD_CE ∧ rest = [] ∧ w.flashWel then
      { idle with flashMem := fun _ => 0xFF, flashWel := false, flashBusy := w.flashTchip }
    else idle

/-- The `i`-th byte the reference FRAM puts out in the current frame. -/
def refFramReply (w : RefWorld) (i : Nat) : Nat :=
  match w.framIn with
  | [] => 0xFF
  | op :: rest =>
    if op = FRAM_OPCODE_RDSR ∧ rest = [] then (if w.framWel then 2 else 0)
    else if op = FRAM_OPCODE_RDID ∧ rest = [] then [0x04, 0x7F, 0x05, 0x09].getD (i % 4) 0
    else if op = FRAM_OPCODE_READ ∧ rest.length = 2 then
      w.framMem ((beValue rest + i) % REF_FRAM_SIZE)
    else 0xFF

/-- End of a frame on the reference FRAM. A write needs the write-enable latch and
clears it. -/
def refFramCommit (w : RefWorld) : RefWorld :=
  let idle : RefWorld := { w with framSel := false, framIn := [], framOut := 0 }
  match w.framIn with
  | [] => idle
  | op :: rest =>
    if op = FRAM_OPCODE_WREN ∧ rest = [] then { idle with framWel := true }
    else if op = FRAM_OPCODE_WRDI ∧ rest = [] then { idle with framWel := false }
    else if op = FRAM_OPCODE_WRITE ∧ rest.length ≥ 2 ∧ w.framWel then
      { idle with
        framMem := fun x =>
          let off := (x + REF_FRAM_SIZE - beValue (rest.take 2) % REF_FRAM_SIZE) % REF_FRAM_SIZE
          if x < REF_FRAM_SIZE ∧ off < (rest.drop 2).length then (rest.drop 2).getD off 0
          else w.framMem x,
        framWel := false }
    else idle

/-- The `i`-th byte the reference accelerometer puts out: a read command (bit 7 set)
returns consecutive registers. -/
def refAccelReply (w : RefWorld) (i : Nat) : Nat :=
  match w.accelIn with
  | [cmd] => if cmd / 128 % 2 = 1 then w.accelReg (cmd % 64 + i) else 0xFF
  | _ => 0xFF

/-- End of a frame on the reference accelerometer: a write command stores one register. -/
def refAccelCommit (w : RefWorld) : RefWorld :=
  let idle : RefWorld := { w with accelSel := false, accelIn := [], accelOut := 0 }
  match w.accelIn with
  | [reg, v] =>
    if reg / 128 % 2 = 0 then
      { idle with accelReg := fun r => if r = reg % 64 then v else w.accelReg r }
    else idle
  | _ => idle

/-- A chip-select edge in the reference world. -/
def refWritePin (line : CsLine) (level : Bool) (w : RefWorld) : RefWorld :=
  match line, level with
  | CsLine.FLASH_CS, false => { w with flashSel := true, flashIn := [], flashOut := 0 }
  | CsLine.FLASH_CS, true => if w.flashSel then refFlashCommit w else w
  | CsLine.FRAM_CS, false => { w with framSel := true, framIn := [], framOut := 0 }
  | CsLine.FRAM_CS, true => if w.framSel then refFramCommit w else w
  | CsLine.ACCEL_CS, false => { w with accelSel := true, accelIn := [], accelOut := 0 }
  | CsLine.ACCEL_CS, true => if w.accelSel then refAccelCommit w else w

/-- Taking the mutex in the reference world: the next entry of `mutexFaults` says
whether the take times out. -/
def refTake (w : RefWorld) : Bool × RefWorld :=
  match w.mutexFaults with
  | [] => (true, w)
  | fault :: rest => (!fault, { w with mutexFaults := rest })

/-- A transmit in the reference world: the next entry of `halFaults` says whether the
call fails; otherwise every selected device on the bus collects the bytes. -/
def refTransmit (bus : SpiBus) (bytes : List Nat) (w : RefWorld) :
    HAL_StatusTypeDef × RefWorld :=
  match w.halFaults with
  | true :: rest => (HAL_StatusTypeDef.HAL_ERROR, { w with halFaults := rest })
  | faults =>
    let w1 : RefWorld := { w with halFaults := faults.tail }
    match bus with
    | SpiBus.xAccelSpiHandle =>
      (HAL_StatusTypeDef.HAL_OK,
        if w1.accelSel then { w1 with accelIn := w1.accelIn ++ bytes } else w1)
    | SpiBus.xSharedSpiHandle =>
      let w2 : RefWorld := if w1.flashSel then { w1 with flashIn := w1.flashIn ++ bytes } else w1
      (HAL_StatusTypeDef.HAL_OK,
        if w2.framSel then { w2 with framIn := w2.framIn ++ bytes } else w2)

/-- A receive in the reference world. On the shared bus the device that is selected
alone answers. -/
def refReceive (bus : SpiBus) (len : Nat) (w : RefWorld) :
    HAL_StatusTypeDef × List Nat × RefWorld :=
  match w.halFaults with
  | true :: rest => (HAL_StatusTypeDef.HAL_ERROR, [], { w with halFaults := rest })
  | faults =>
    let w1 : RefWorld := { w with halFaults := faults.tail }
    match bus with
    | SpiBus.xAccelSpiHandle =>
      if w1.accelSel then
        (HAL_StatusTypeDef.HAL_OK,
          (List.range len).map (fun j => refAccelReply w1 (w1.accelOut + j)),
          { w1 with accelOut := w1.accelOut + len })
      else (HAL_StatusTypeDef.HAL_OK, List.replicate len 0xFF, w1)
    | SpiBus.xSharedSpiHandle =>
      if w1.flashSel ∧ ¬ w1.framSel then
        (HAL_StatusTypeDef.HAL_OK,
          (List.range len).map (fun j => refFlashReply w1 (w1.flashOut + j)),
          { w1 with flashOut := w1.flashOut + len })
      else if w1.framSel ∧ ¬ w1.flashSel then
        (HAL_StatusTypeDef.HAL_OK,
          (List.range len).map (fun j => refFramReply w1 (w1.framOut + j)),
          { w1 with framOut := w1.framOut + len })
      else (HAL_StatusTypeDef.HAL_OK, List.replicate len 0xFF, w1)

/-- Passing of `ticks` ticks in the reference world: the flash gets on with its erase or
program unless it hangs. -/
def refDelay (ticks : Nat) (w : RefWorld) : RefWorld :=
  { w with tick := w.tick + ticks,
           flashBusy := if w.flashHang then w.flashBusy else w.flashBusy - ticks }

/-- The reference environment. -/
def refEnv : Env RefWorld where
  HAL_GPIO_WritePin := refWritePin
  xSemaphoreTake := refTake
  xSemaphoreGive := fun w => w
  HAL_SPI_Transmit := refTransmit
  HAL_SPI_Receive := refReceive
  xTaskGetTickCount := fun w => w.tick
  vTaskDelay := refDelay
  HAL_Delay := refDelay
  uninit := fun w => w.garbage
  pdMS_TO_TICKS := fun ms => ms
  FRAM_SIZE_IN_BYTES := REF_FRAM_SIZE

/-- A reference world at rest: all select lines high, erased flash, zeroed FRAM, no
faults, datasheet cycle times. -/
def refIdle : RefWorld where
  tick := 0
  halFaults := []
  mutexFaults := []
  garbage := 0
  flashSel := false
  flashIn := []
  flashOut := 0
  flashMem := fun _ => 0xFF
  flashWel := false
  flashBusy := 0
  flashHang := false
  flashAddr4 := false
  flashTprog := 1
  flashTerase := 60
  flashTchip := 20000
  framSel := false
  framIn := []
  framOut := 0
  framMem := fun _ => 0
  framWel := false
  accelSel := false
  accelIn := []
  accelOut := 0
  accelReg := fun r => if r = 0x0F then 0x3F else 0

/-- Effect of one complete frame on line `L` on the observer of `line`. -/
def frameStep (L line : CsLine) (p : CsPhase) : Option CsPhase :=
  if L = line then (if p = CsPhase.low then none else some CsPhase.closed) else some p

/-- From every phase in which the line is high, the observer of `line` accepts the trace
and ends either where it started or after a completed frame. -/
def CsFramed (line : CsLine) (ev : List Event) : Prop :=
  ∀ p, p ≠ CsPhase.low → csRun line ev p = some p ∨ csRun line ev p = some CsPhase.closed

/-- The command frame of `MX25_CE` with its status check (mx25v1635f.c:517-529), as it
stands inside `MX25_CE_issue`. -/
def MX25_CE_frame {σ : Type} (E : Env σ) : Bus σ (Option flashReturnMsg_t) := do
  flashChipSelectLow E
  let r ← SPI_Transfer E MX25_FLASH [FLASH_CMD_CE] 1 0
  flashChipSelectHigh E
  if !r.1 then pure (some FLASH_OPERATION_FAILED) else pure none

/-- The command frame of `MX25_SE` with its status check (mx25v1635f.c:572-589), as it
stands inside `MX25_SE_issue`. -/
def MX25_SE_frame {σ : Type} (E : Env σ) (flashAddress : Nat) (addr4ByteMode : Bool) :
    Bus σ (Option flashReturnMsg_t) := do
  flashChipSelectLow E
  let r ← SPI_Transfer E MX25_FLASH [FLASH_CMD_SE] 1 0
  let status := r.1
  let status ← (if status then flashSendAddr E flashAddress addr4ByteMode
                else pure status)
  flashChipSelectHigh E
  if !status then pure (some FLASH_OPERATION_FAILED) else pure none

/-- The command frame of `MX25_PP` with its status check (mx25v1635f.c:642-665), as it
stands inside `MX25_PP_issue`. -/
def MX25_PP_frame {σ : Type} (E : Env σ) (flashAddress : Nat) (sourceAddress : List Nat)
    (byteLength : Nat) (addr4ByteMode : Bool) : Bus σ (Option flashReturnMsg_t) := do
  flashChipSelectLow E
  let r ← SPI_Transfer E MX25_FLASH [FLASH_CMD_PP] 1 0
  let status := r.1
  let _ ← (if status then flashSendAddr E flashAddress addr4ByteMode else pure status)
  let status ← (if status then do
                  let q ← SPI_Transfer E MX25_FLASH sourceAddress byteLength 0
                  pure q.1
                else pure status)
  flashChipSelectHigh E
  if !status then pure (some FLASH_TIME_OUT) else pure none

/-- A reference world between operations: no faults pending, no device selected, no frame
in progress. -/
def RefClean (w : RefWorld) : Prop :=
  w.halFaults = [] ∧ w.mutexFaults = [] ∧
  w.flashSel = false ∧ w.flashIn = [] ∧ w.flashOut = 0 ∧
  w.framSel = false ∧ w.framIn = [] ∧ w.framOut = 0

/-- Trace of one status poll of the flash that goes through. -/
def pollEvents : List Event :=
  [Event.csLow CsLine.FLASH_CS, Event.take true,
   Event.transmit SpiBus.xSharedSpiHandle [FLASH_CMD_RDSR] HAL_StatusTypeDef.HAL_OK,
   Event.receive SpiBus.xSharedSpiHandle 1 HAL_StatusTypeDef.HAL_OK,
   Event.give, Event.csHigh CsLine.FLASH_CS]

/-- A reference world in the middle of a flash frame: no faults pending, the flash
selected alone. -/
def RefFlashOpen (w : RefWorld) : Prop :=
  w.halFaults = [] ∧ w.mutexFaults = [] ∧ w.flashSel = true ∧ w.framSel = false

/-- A reference world in the middle of a FRAM frame: no faults pending, the FRAM
selected alone. -/
def RefFramOpen (w : RefWorld) : Prop :=
  w.halFaults = [] ∧ w.mutexFaults = [] ∧ w.flashSel = false ∧ w.framSel = true

/-- Trace of one read of the security register of the flash that goes through. -/
def scurEvents : List Event :=
  [Event.csLow CsLine.FLASH_CS, Event.take true,
   Event.transmit SpiBus.xSharedSpiHandle [FLASH_CMD_RDSCUR] HAL_StatusTypeDef.HAL_OK,
   Event.receive SpiBus.xSharedSpiHandle 1 HAL_StatusTypeDef.HAL_OK,
   Event.give, Event.csHigh CsLine.FLASH_CS]

/-- Trace of a frame on line `line` made of the given successful transmits, each in its
own transfer. -/
def sendFrame (line : CsLine) (parts : List (List Nat)) : List Event :=
  Event.csLow line ::
    (parts.map (fun bytes =>
      [Event.take true,
       Event.transmit SpiBus.xSharedSpiHandle bytes HAL_StatusTypeDef.HAL_OK,
       Event.give])).flatten ++ [Event.csHigh line]

/-- Trace of a wait on the reference flash that sees it busy `b` times and then ready. -/
def refWaitEvents : Nat → List Event
  | 0 => pollEvents
  | b + 1 => pollEvents ++ Event.delay 1 :: refWaitEvents b

/-- Trace of a frame on the flash that sends an opcode and an address and then receives
`n` bytes, all transfers going through. -/
def readFrame (op : Nat) (addr : List Nat) (n : Nat) : List Event :=
  [Event.csLow CsLine.FLASH_CS, Event.take true,
   Event.transmit SpiBus.xSharedSpiHandle [op] HAL_StatusTypeDef.HAL_OK, Event.give,
   Event.take true,
   Event.transmit SpiBus.xSharedSpiHandle addr HAL_StatusTypeDef.HAL_OK, Event.give,
   Event.take true,
   Event.receive SpiBus.xSharedSpiHandle n HAL_StatusTypeDef.HAL_OK, Event.give,
   Event.csHigh CsLine.FLASH_CS]

/-- The bytes that went out in a frame: the payloads of its successful transmits, in
order. -/
def sentBytes : List Event → List Nat
  | [] => []
  | Event.transmit _ bytes HAL_StatusTypeDef.HAL_OK :: es => bytes ++ sentBytes es
  | _ :: es => sentBytes es

/-- Trace of the program frame of `MX25_PP` for an empty payload: opcode and address go
out, the data transfer takes and gives the mutex without a transmit. -/
def emptyProgramFrame (addr : List Nat) : List Event :=
  [Event.csLow CsLine.FLASH_CS, Event.take true,
   Event.transmit SpiBus.xSharedSpiHandle [FLASH_CMD_PP] HAL_StatusTypeDef.HAL_OK, Event.give,
   Event.take true,
   Event.transmit SpiBus.xSharedSpiHandle addr HAL_StatusTypeDef.HAL_OK, Event.give,
   Event.take true, Event.give, Event.csHigh CsLine.FLASH_CS]

/-- Trace of the read frame of `MX25_READ` for a length of zero. -/
def emptyReadFrame (addr : List Nat) : List Event :=
  [Event.csLow CsLine.FLASH_CS, Event.take true,
   Event.transmit SpiBus.xSharedSpiHandle [FLASH_CMD_READ] HAL_StatusTypeDef.HAL_OK, Event.give,
   Event.take true,
   Event.transmit SpiBus.xSharedSpiHandle addr HAL_StatusTypeDef.HAL_OK, Event.give,
   Event.take true, Event.give, Event.csHigh CsLine.FLASH_CS]

/-- Trace of a frame on the FRAM that sends an opcode and an address and then receives
`n` bytes, all transfers going through. -/
def framReadFrame (addr : List Nat) (n : Nat) : List Event :=
  [Event.csLow CsLine.FRAM_CS, Event.take true,
   Event.transmit SpiBus.xSharedSpiHandle [FRAM_OPCODE_READ] HAL_StatusTypeDef.HAL_OK,
   Event.give, Event.take true,
   Event.transmit SpiBus.xSharedSpiHandle addr HAL_StatusTypeDef.HAL_OK, Event.give,
   Event.take true,
   Event.receive SpiBus.xSharedSpiHandle n HAL_StatusTypeDef.HAL_OK, Event.give,
   Event.csHigh CsLine.FRAM_CS]

/-- Trace of a frame on the FRAM that sends an opcode and an address and then runs a
transfer of length zero. -/
def framEmptyFrame (op : Nat) (addr : List Nat) : List Event :=
  [Event.csLow CsLine.FRAM_CS, Event.take true,
   Event.transmit SpiBus.xSharedSpiHandle [op] HAL_StatusTypeDef.HAL_OK,
   Event.give, Event.take true,
   Event.transmit SpiBus.xSharedSpiHandle addr HAL_StatusTypeDef.HAL_OK, Event.give,
   Event.take true, Event.give, Event.csHigh CsLine.FRAM_CS]

/-- Memory of the reference FRAM after a write of `data` at `a`. -/
def refFramWrite (mem : Nat → Nat) (a : Nat) (data : List Nat) : Nat → Nat := fun x =>
  if x < REF_FRAM_SIZE ∧ (x + REF_FRAM_SIZE - a % REF_FRAM_SIZE) % REF_FRAM_SIZE < data.length
  then data.getD ((x + REF_FRAM_SIZE - a % REF_FRAM_SIZE) % REF_FRAM_SIZE) 0
  else mem x

/-- State after one round of the wait loop that finds the flash busy: the status poll, then
the one-tick delay (mx25v1635f.c:197-200). -/
def waitRound {σ : Type} (E : Env σ) (s : σ) : σ :=
  (vTaskDelay E (E.pdMS_TO_TICKS 1 % U32) (flashIsBusy E s).st).st

/-- Advance of the 32-bit tick counter over one round of the wait loop. -/
def roundAdvance {σ : Type} (E : Env σ) (s : σ) : Nat :=
  (E.xTaskGetTickCount (waitRound E s) % U32 + U32 - E.xTaskGetTickCount s % U32) % U32

/-- The flash stays busy on the states `P`: every poll reports write in progress, a round of
the wait loop leads back into `P`, and the tick counter advances over a round by at least
one and at most `d`. -/
def StuckBusy {σ : Type} (E : Env σ) (P : σ → Prop) (d : Nat) : Prop :=
  ∀ s, P s → (flashIsBusy E s).val = true ∧ P (waitRound E s) ∧
    1 ≤ roundAdvance E s ∧ roundAdvance E s ≤ d

/-- A reference world between operations whose flash hangs in an erase or program. -/
def RefStuck (w : RefWorld) : Prop :=
  RefClean w ∧ w.flashHang = true ∧ 0 < w.flashBusy

/-! ## Two tasks on the shared bus

FreeRTOS may switch tasks between any two primitive calls; `xSemaphoreTake` succeeds only
while no other task holds the mutex. A concurrent run of two driver operations is therefore
an interleaving of their traces in which the mutex is never taken while held.
Events are tagged with the task that causes them (`true` for the first task).
-/

/-- Interleaving of the traces of two tasks by a schedule; `true` lets the first task make
its next primitive call. When the schedule ends, or names a task that has finished, the
remaining events follow in task order. -/
def interleave : List Bool → List Event → List Event → List (Bool × Event)
  | true :: sch, e :: a, b => (true, e) :: interleave sch a b
  | false :: sch, a, e :: b => (false, e) :: interleave sch a b
  | _, a, b => a.map (fun e => (true, e)) ++ b.map (fun e => (false, e))

/-- The events of one task in a tagged trace. -/
def taskTrace (task : Bool) (tr : List (Bool × Event)) : List Event :=
  (tr.filter (fun x => x.1 == task)).map (fun x => x.2)

/-- Mutex semantics on a tagged trace: a successful take needs the mutex free, a give is
made by the holder. `owner` is the holder before the trace. -/
def mutexRespected : Option Bool → List (Bool × Event) → Bool
  | _, [] => true
  | owner, (t, Event.take true) :: es => owner.isNone && mutexRespected (some t) es
  | owner, (t, Event.give) :: es => (owner == some t) && mutexRespected none es
  | owner, _ :: es => mutexRespected owner es

/-- No interleaving of frames on a tagged trace: while the chip select asserted by one task
is low, the other task asserts no chip select and moves no byte. `sel` is the task whose
chip select is low before the trace. -/
def framesExclusive : Option Bool → List (Bool × Event) → Bool
  | _, [] => true
  | sel, (t, Event.csLow _) :: es => (sel != some (!t)) && framesExclusive (some t) es
  | sel, (t, Event.csHigh _) :: es =>
    framesExclusive (if sel == some t then none else sel) es
  | sel, (t, Event.transmit _ _ _) :: es => (sel != some (!t)) && framesExclusive sel es
  | sel, (t, Event.receive _ _ _) :: es => (sel != some (!t)) && framesExclusive sel es
  | sel, _ :: es => framesExclusive sel es

/-- A schedule that lets the first task make ten primitive calls, then the second task
eleven, then the first task the rest. -/
def preemptAfterOpcode : List Bool :=
  List.replicate 10 true ++ List.replicate 11 false

/-! Decidability of the predicates on the reference world. -/

instance (w : RefWorld) : Decidable (RefClean w) := by
  unfold RefClean; infer_instance

instance (w : RefWorld) : Decidable (RefFlashOpen w) := by
  unfold RefFlashOpen; infer_instance

instance (w : RefWorld) : Decidable (RefFramOpen w) := by
  unfold RefFramOpen; infer_instance

instance (w : RefWorld) : Decidable (RefStuck w) := by
  unfold RefStuck; infer_instance

/-- Number of times the mutex is given back in a trace. -/
def countGives : List Event → Nat
  | [] => 0
  | Event.give :: es => countGives es + 1
  | _ :: es => countGives es

/-- Number of attempts to take the mutex in a trace. -/
def countTakes : List Event → Nat
  | [] => 0
  | Event.take _ :: es => countTakes es + 1
  | _ :: es => countTakes es

/-- Every transmit and receive of the trace reported `HAL_OK`. -/
def halAllOk (ev : List Event) : Bool :=
  ev.all (fun e =>
    match e with
    | Event.transmit _ _ stat => decide (stat = HAL_StatusTypeDef.HAL_OK)
    | Event.receive _ _ stat => decide (stat = HAL_StatusTypeDef.HAL_OK)
    | _ => true)

/-- State after `k` rounds of the wait loop that find the flash busy. -/
def waitRounds {σ : Type} (E : Env σ) : Nat → σ → σ
  | 0, s => s
  | k + 1, s => waitRounds E k (waitRound E s)

/-- The reference world in which the seventh HAL call fails: in `MX25_PP` that is the
transmit of the address. -/
def refAddressFault : RefWorld :=
  { refIdle with halFaults := [false, false, false, false, false, false, true] }

/-- The reference world in which the fifth HAL call fails: in `MX25_READ` that is the
receive of the data, in `MX25_SE` and `MX25_PP` the transmit of the write-enable command. -/
def refFifthFault : RefWorld :=
  { refIdle with halFaults := [false, false, false, false, true] }

/-- The reference world in which the fourth HAL call fails: in `MB85RS256_Write` that is
the transmit of the payload. -/
def refFourthFault : RefWorld :=
  { refIdle with halFaults := [false, false, false, true] }

/-- The reference world in which the sixth HAL call fails: in `MX25_SE` and `MX25_PP` that
is the transmit of the opcode of the command frame. -/
def refSixthFault : RefWorld :=
  { refIdle with halFaults := [false, false, false, false, false, true] }

/-- The reference environment for a task that is kept from running: `vTaskDelay` returns
only `2 ^ 32` ticks after the delay that was asked for has passed. -/
def refStarvedEnv : Env RefWorld :=
  { refEnv with vTaskDelay := fun ticks w => refDelay (ticks + 4294967296) w }

/-- The payloads handed to the transmits of a trace, in order, whatever they reported. -/
def transmitsOf : List Event → List (List Nat)
  | [] => []
  | Event.transmit _ bytes _ :: es => bytes :: transmitsOf es
  | _ :: es => transmitsOf es

/-- The lengths asked of the receives of a trace, in order, whatever they reported. -/
def receivesOf : List Event → List Nat
  | [] => []
  | Event.receive _ len _ :: es => len :: receivesOf es
  | _ :: es => receivesOf es

/-- A trace without transport failure: every take obtained the mutex and every transmit
and receive reported `HAL_OK`. -/
def cleanRun (ev : List Event) : Bool :=
  ev.all (fun e =>
    match e with
    | Event.take ok => ok
    | Event.transmit _ _ stat => decide (stat = HAL_StatusTypeDef.HAL_OK)
    | Event.receive _ _ stat => decide (stat = HAL_StatusTypeDef.HAL_OK)
    | _ => true)

/-- The reference environment for a task that is kept from running at every second delay:
`vTaskDelay` returns after one tick when the 32-bit tick counter stands at zero and after
`2 ^ 32 - 1` ticks otherwise, so every delay advances the counter by at least one;
`ticksOf` is the conversion `pdMS_TO_TICKS` of the configured tick rate. -/
def refSlowEnv (ticksOf : Nat → Nat) : Env RefWorld :=
  { refEnv with
    vTaskDelay := fun _ w => refDelay (if w.tick % 4294967296 = 0 then 1 else 4294967295) w
    pdMS_TO_TICKS := ticksOf }

/-! ## Laws of the recording state transformer -/

section Laws
variable {σ α β : Type}

@[simp] theorem ev_bind (m : Bus σ α) (f : α → Bus σ β) (s : σ) :
    ((m >>= f) s).ev = (m s).ev ++ (f (m s).val (m s).st).ev := rfl

@[simp] theorem val_bind (m : Bus σ α) (f : α → Bus σ β) (s : σ) :
    ((m >>= f) s).val = (f (m s).val (m s).st).val := rfl

@[simp] theorem st_bind (m : Bus σ α) (f : α → Bus σ β) (s : σ) :
    ((m >>= f) s).st = (f (m s).val (m s).st).st := rfl

@[simp] theorem ev_pure (a : α) (s : σ) : ((pure a : Bus σ α) s).ev = [] := rfl

@[simp] theorem val_pure (a : α) (s : σ) : ((pure a : Bus σ α) s).val = a := rfl

@[simp] theorem st_pure (a : α) (s : σ) : ((pure a : Bus σ α) s).st = s := rfl

@[simp] theorem run_ite (c : Prop) [Decidable c] (m n : Bus σ α) (s : σ) :
    (if c then m else n) s = if c then m s else n s := by
  split <;> rfl

@[simp] theorem ev_ite (c : Prop) [Decidable c] (a b : Out σ α) :
    (if c then a else b).ev = if c then a.ev else b.ev := by
  split <;> rfl

@[simp] theorem val_ite (c : Prop) [Decidable c] (a b : Out σ α) :
    (if c then a else b).val = if c then a.val else b.val := by
  split <;> rfl

@[simp] theorem st_ite (c : Prop) [Decidable c] (a b : Out σ α) :
    (if c then a else b).st = if c then a.st else b.st := by
  split <;> rfl

@[simp] theorem ev_writeCs (E : Env σ) (line : CsLine) (level : Bool) (s : σ) :
    (writeCs E line level s).ev = [if level then Event.csHigh line else Event.csLow line] := rfl

@[simp] theorem ev_vTaskDelay (E : Env σ) (t : Nat) (s : σ) :
    (vTaskDelay E t s).ev = [Event.delay t] := rfl

@[simp] theorem st_vTaskDelay (E : Env σ) (t : Nat) (s : σ) :
    (vTaskDelay E t s).st = E.vTaskDelay t s := rfl

@[simp] theorem ev_xTaskGetTickCount (E : Env σ) (s : σ) : (xTaskGetTickCount E s).ev = [] := rfl

@[simp] theorem st_xTaskGetTickCount (E : Env σ) (s : σ) : (xTaskGetTickCount E s).st = s := rfl

@[simp] theorem val_xTaskGetTickCount (E : Env σ) (s : σ) :
    (xTaskGetTickCount E s).val = E.xTaskGetTickCount s % U32 := rfl

@[simp] theorem ev_readUninit (E : Env σ) (s : σ) : (readUninit E s).ev = [] := rfl

@[simp] theorem st_readUninit (E : Env σ) (s : σ) : (readUninit E s).st = s := rfl

@[simp] theorem st_writeCs (E : Env σ) (line : CsLine) (level : Bool) (s : σ) :
    (writeCs E line level s).st = E.HAL_GPIO_WritePin line level s := rfl

end Laws

/-! ## Chip-select observers on the building blocks -/

section CsLemmas
variable {σ : Type}

theorem quiet_append (a b : List Event) : quiet (a ++ b) = (quiet a && quiet b) := by
  simp [quiet]

theorem quiet_ite (c : Prop) [Decidable c] (a b : List Event) :
    quiet (if c then a else b) = if c then quiet a else quiet b := by
  split <;> rfl

theorem csRun_append (line : CsLine) (a b : List Event) (p : CsPhase) :
    csRun line (a ++ b) p = (csRun line a p).bind (csRun line b) := by
  induction a generalizing p with
  | nil => simp [csRun]
  | cons e es ih =>
    simp only [List.cons_append, csRun]
    cases csStep line p e with
    | none => simp
    | some q => simp [ih]

theorem csRun_ite (line : CsLine) (c : Prop) [Decidable c] (a b : List Event) (p : CsPhase) :
    csRun line (if c then a else b) p = if c then csRun line a p else csRun line b p := by
  split <;> rfl

theorem csRun_quiet (line : CsLine) (ev : List Event) (p : CsPhase) (h : quiet ev = true) :
    csRun line ev p = some p := by
  induction ev with
  | nil => rfl
  | cons e es ih =>
    simp only [quiet, List.all_cons, Bool.and_eq_true] at h
    have hes : quiet es = true := h.2
    cases e <;> simp_all [csRun, csStep, Event.isCs]

theorem csRun_frame (L line : CsLine) (body : List Event) (p : CsPhase)
    (h : quiet body = true) :
    csRun line (Event.csLow L :: (body ++ [Event.csHigh L])) p = frameStep L line p := by
  simp only [csRun, csRun_append, csRun_quiet line body _ h]
  cases L <;> cases line <;> cases p <;> simp [csStep, frameStep, csRun]

theorem quiet_SPI_Transfer (E : Env σ) (device : SpiDevice_t) (b : List Nat) (l1 l2 : Nat)
    (s : σ) : quiet (SPI_Transfer E device b l1 l2 s).ev = true := by
  unfold SPI_Transfer
  cases spiHandleOf device with
  | none => simp [quiet]
  | some h =>
    simp only [quiet, List.all_eq_true, ev_bind, run_ite, ev_ite, ev_pure, spiMutexAcquire,
      spiMutexRelease, HAL_SPI_Transmit, HAL_SPI_Receive, val_bind, st_bind, val_ite, st_ite,
      val_pure, st_pure]
    intro x hx
    split_ifs at hx <;> simp at hx <;> rcases hx with rfl | rfl | rfl | rfl <;> rfl

theorem quiet_flashInsertDummyLoop (E : Env σ) (n : Nat) (status : Bool) (s : σ) :
    quiet (flashInsertDummyLoop E n status s).ev = true := by
  induction n generalizing status s with
  | zero => simp [flashInsertDummyLoop, quiet]
  | succ n ih =>
    simp only [flashInsertDummyLoop]
    cases status with
    | false => simp [quiet]
    | true => simp [quiet_append, quiet_SPI_Transfer, ih]

theorem quiet_flashInsertDummyCycle (E : Env σ) (n : Nat) (s : σ) :
    quiet (flashInsertDummyCycle E n s).ev = true :=
  quiet_flashInsertDummyLoop E _ _ s

theorem quiet_flashSendAddr (E : Env σ) (a : Nat) (m : Bool) (s : σ) :
    quiet (flashSendAddr E a m s).ev = true := by
  simp [flashSendAddr, quiet_SPI_Transfer]

@[simp] theorem csRun_xfer (line : CsLine) (E : Env σ) (device : SpiDevice_t)
    (b : List Nat) (l1 l2 : Nat) (s : σ) (p : CsPhase) :
    csRun line (SPI_Transfer E device b l1 l2 s).ev p = some p :=
  csRun_quiet _ _ _ (quiet_SPI_Transfer E device b l1 l2 s)

@[simp] theorem csRun_dummy (line : CsLine) (E : Env σ) (n : Nat) (s : σ) (p : CsPhase) :
    csRun line (flashInsertDummyCycle E n s).ev p = some p :=
  csRun_quiet _ _ _ (quiet_flashInsertDummyCycle E n s)

@[simp] theorem csRun_flashSendAddr (line : CsLine) (E : Env σ) (a : Nat) (m : Bool) (s : σ)
    (p : CsPhase) : csRun line (flashSendAddr E a m s).ev p = some p :=
  csRun_quiet _ _ _ (quiet_flashSendAddr E a m s)

@[simp] theorem ev_flashRead (E : Env σ) (c : List Nat) (l1 l2 : Nat) (s : σ) :
    (flashRead E c l1 l2 s).ev = Event.csLow CsLine.FLASH_CS ::
      ((SPI_Transfer E MX25_FLASH [c.headD 0] (l1 % U8) (l2 % U8)
          (E.HAL_GPIO_WritePin CsLine.FLASH_CS false s)).ev ++ [Event.csHigh CsLine.FLASH_CS]) := by
  simp [flashRead, flashChipSelectLow, flashChipSelectHigh]

@[simp] theorem ev_flashWrite (E : Env σ) (c : List Nat) (l1 : Nat) (s : σ) :
    (flashWrite E c l1 s).ev = Event.csLow CsLine.FLASH_CS ::
      ((SPI_Transfer E MX25_FLASH c (l1 % U8) 0
          (E.HAL_GPIO_WritePin CsLine.FLASH_CS false s)).ev ++ [Event.csHigh CsLine.FLASH_CS]) := by
  simp [flashWrite, flashChipSelectLow, flashChipSelectHigh]

theorem ev_MX25_RDSR (E : Env σ) (old : Nat) (s : σ) :
    (MX25_RDSR E (some old) s).ev = (flashRead E [FLASH_CMD_RDSR] 1 1 s).ev := by
  simp only [MX25_RDSR, readUninit, ev_bind, run_ite, ev_ite, ev_pure]
  simp

theorem ev_MX25_RDSCUR (E : Env σ) (old : Nat) (s : σ) :
    (MX25_RDSCUR E (some old) s).ev = (flashRead E [FLASH_CMD_RDSCUR] 1 1 s).ev := by
  simp only [MX25_RDSCUR, readUninit, ev_bind, run_ite, ev_ite, ev_pure]
  simp

theorem ev_flashIsBusy (E : Env σ) (s : σ) :
    (flashIsBusy E s).ev = (flashRead E [FLASH_CMD_RDSR] 1 1 s).ev := by
  simp only [flashIsBusy, ev_bind, ev_pure, ev_MX25_RDSR, readUninit]
  simp

theorem ev_flashIs4Byte (E : Env σ) (s : σ) :
    (flashIs4Byte E s).ev = (flashRead E [FLASH_CMD_RDSCUR] 1 1 s).ev := by
  simp only [flashIs4Byte, ev_bind, ev_pure, ev_MX25_RDSCUR, readUninit]
  simp

theorem ev_MX25_WREN (E : Env σ) (s : σ) :
    (MX25_WREN E s).ev = (flashWrite E [FLASH_CMD_WREN] 1 s).ev := by
  simp only [MX25_WREN, ev_bind, run_ite, ev_ite, ev_pure]
  simp

@[simp] theorem csRun_flashRead (line : CsLine) (E : Env σ) (c : List Nat) (l1 l2 : Nat)
    (s : σ) (p : CsPhase) :
    csRun line (flashRead E c l1 l2 s).ev p = frameStep CsLine.FLASH_CS line p := by
  rw [ev_flashRead]
  exact csRun_frame _ _ _ _ (quiet_SPI_Transfer _ _ _ _ _ _)

@[simp] theorem csRun_flashWrite (line : CsLine) (E : Env σ) (c : List Nat) (l1 : Nat)
    (s : σ) (p : CsPhase) :
    csRun line (flashWrite E c l1 s).ev p = frameStep CsLine.FLASH_CS line p := by
  rw [ev_flashWrite]
  exact csRun_frame _ _ _ _ (quiet_SPI_Transfer _ _ _ _ _ _)

@[simp] theorem csRun_MX25_RDSR (line : CsLine) (E : Env σ) (old : Nat) (s : σ) (p : CsPhase) :
    csRun line (MX25_RDSR E (some old) s).ev p = frameStep CsLine.FLASH_CS line p := by
  rw [ev_MX25_RDSR]; exact csRun_flashRead _ _ _ _ _ _ _

@[simp] theorem csRun_MX25_RDSCUR (line : CsLine) (E : Env σ) (old : Nat) (s : σ)
    (p : CsPhase) :
    csRun line (MX25_RDSCUR E (some old) s).ev p = frameStep CsLine.FLASH_CS line p := by
  rw [ev_MX25_RDSCUR]; exact csRun_flashRead _ _ _ _ _ _ _

@[simp] theorem csRun_flashIsBusy (line : CsLine) (E : Env σ) (s : σ) (p : CsPhase) :
    csRun line (flashIsBusy E s).ev p = frameStep CsLine.FLASH_CS line p := by
  rw [ev_flashIsBusy]; exact csRun_flashRead _ _ _ _ _ _ _

@[simp] theorem csRun_flashIs4Byte (line : CsLine) (E : Env σ) (s : σ) (p : CsPhase) :
    csRun line (flashIs4Byte E s).ev p = frameStep CsLine.FLASH_CS line p := by
  rw [ev_flashIs4Byte]; exact csRun_flashRead _ _ _ _ _ _ _

@[simp] theorem csRun_MX25_WREN (line : CsLine) (E : Env σ) (s : σ) (p : CsPhase) :
    csRun line (MX25_WREN E s).ev p = frameStep CsLine.FLASH_CS line p := by
  rw [ev_MX25_WREN]; exact csRun_flashWrite _ _ _ _ _ _

end CsLemmas

section CsFramedLemmas
variable {σ : Type}

theorem csRun_nil (line : CsLine) (p : CsPhase) : csRun line [] p = some p := rfl

theorem csRun_cons (line : CsLine) (e : Event) (es : List Event) (p : CsPhase) :
    csRun line (e :: es) p = (csStep line p e).bind (csRun line es) := rfl

theorem csFramed_nil (line : CsLine) : CsFramed line [] := fun _ _ => Or.inl rfl

theorem csFramed_append (line : CsLine) (a b : List Event) (ha : CsFramed line a)
    (hb : CsFramed line b) : CsFramed line (a ++ b) := by
  intro p hp
  rw [csRun_append]
  rcases ha p hp with h | h
  · rw [h]; exact hb p hp
  · rw [h]
    rcases hb CsPhase.closed (by decide) with h2 | h2 <;> exact Or.inr h2

theorem csFramed_quiet (line : CsLine) (ev : List Event) (h : quiet ev = true) :
    CsFramed line ev := fun p _ => Or.inl (csRun_quiet line ev p h)

theorem csFramed_of_frameStep (L line : CsLine) (ev : List Event)
    (h : ∀ p, csRun line ev p = frameStep L line p) : CsFramed line ev := by
  intro p hp
  rw [h]
  cases L <;> cases line <;> cases p <;> simp [frameStep] at hp ⊢

theorem csWellNested_of_framed (line : CsLine) (ev : List Event) (h : CsFramed line ev) :
    csWellNested line ev = true := by
  unfold csWellNested
  rcases h CsPhase.fresh (by decide) with h1 | h1 <;> rw [h1]

theorem csWellNested_init (L line : CsLine) (ev : List Event) (h : CsFramed line ev) :
    csWellNested line (Event.csHigh L :: ev) = true := by
  unfold csWellNested
  have h0 : csRun line (Event.csHigh L :: ev) CsPhase.fresh = csRun line ev CsPhase.fresh := by
    cases L <;> cases line <;> simp [csRun_cons, csStep]
  rw [h0]
  rcases h CsPhase.fresh (by decide) with h1 | h1 <;> rw [h1]

theorem csFramed_flashIsBusy (line : CsLine) (E : Env σ) (s : σ) :
    CsFramed line (flashIsBusy E s).ev :=
  csFramed_of_frameStep CsLine.FLASH_CS line _ (fun p => csRun_flashIsBusy line E s p)

theorem csFramed_flashWaitLoop (line : CsLine) (E : Env σ) (t0 tmax fuel : Nat) (s : σ) :
    CsFramed line (flashWaitLoop E t0 tmax fuel s).ev := by
  induction fuel generalizing s with
  | zero => exact csFramed_nil line
  | succ n ih =>
    simp only [flashWaitLoop, ev_bind, val_bind, st_bind, run_ite, ev_ite, ev_pure]
    apply csFramed_append _ _ _ (csFramed_flashIsBusy line E s)
    split_ifs
    · apply csFramed_append
      · exact csFramed_quiet _ _ (by simp [vTaskDelay, quiet, Event.isCs])
      · apply csFramed_append
        · exact csFramed_quiet _ _ (by simp [xTaskGetTickCount, quiet])
        · exact csFramed_nil line
    · apply csFramed_append
      · exact csFramed_quiet _ _ (by simp [vTaskDelay, quiet, Event.isCs])
      · apply csFramed_append
        · exact csFramed_quiet _ _ (by simp [xTaskGetTickCount, quiet])
        · exact ih _
    · exact csFramed_nil line

theorem csFramed_flashWaitTillReady (line : CsLine) (E : Env σ) (fuel t : Nat) (s : σ) :
    CsFramed line (flashWaitTillReady E fuel t s).ev := by
  simp only [flashWaitTillReady, ev_bind]
  apply csFramed_append
  · exact csFramed_quiet _ _ (by simp [xTaskGetTickCount, quiet])
  · exact csFramed_flashWaitLoop line E _ _ _ _

theorem csFramed_MX25_CE_issue (line : CsLine) (E : Env σ) (s : σ) :
    CsFramed line (MX25_CE_issue E s).ev := by
  intro p hp
  cases line <;> cases p <;> first | exact absurd rfl hp | skip
  all_goals
    simp [MX25_CE_issue, flashChipSelectLow, flashChipSelectHigh,
      csRun_append, csRun_ite, csRun_cons, csRun_nil, frameStep, csStep]

theorem csFramed_MX25_SE_issue (line : CsLine) (E : Env σ) (A : Nat) (s : σ) :
    CsFramed line (MX25_SE_issue E A s).ev := by
  intro p hp
  cases line <;> cases p <;> first | exact absurd rfl hp | skip
  all_goals
    simp [MX25_SE_issue, flashChipSelectLow, flashChipSelectHigh,
      csRun_append, csRun_ite, csRun_cons, csRun_nil, frameStep, csStep]
  all_goals omega

theorem csFramed_MX25_PP_issue (line : CsLine) (E : Env σ) (A n : Nat) (D : List Nat)
    (s : σ) : CsFramed line (MX25_PP_issue E A D n s).ev := by
  intro p hp
  cases line <;> cases p <;> first | exact absurd rfl hp | skip
  all_goals
    simp [MX25_PP_issue, flashChipSelectLow, flashChipSelectHigh,
      csRun_append, csRun_ite, csRun_cons, csRun_nil, frameStep, csStep]
  all_goals omega

theorem csFramed_MX25_CE (line : CsLine) (E : Env σ) (fuel : Nat) (s : σ) :
    CsFramed line (MX25_CE E fuel s).ev := by
  simp only [MX25_CE, ev_bind]
  apply csFramed_append _ _ _ (csFramed_MX25_CE_issue line E s)
  cases (MX25_CE_issue E s).val with
  | some msg => exact csFramed_nil line
  | none =>
    simp only [ev_bind, ev_pure, List.append_nil]
    exact csFramed_flashWaitTillReady line E _ _ _

theorem csFramed_MX25_SE (line : CsLine) (E : Env σ) (fuel A : Nat) (s : σ) :
    CsFramed line (MX25_SE E fuel A s).ev := by
  simp only [MX25_SE, ev_bind]
  apply csFramed_append _ _ _ (csFramed_MX25_SE_issue line E A s)
  cases (MX25_SE_issue E A s).val with
  | some msg => exact csFramed_nil line
  | none =>
    simp only [ev_bind, ev_pure, List.append_nil]
    exact csFramed_flashWaitTillReady line E _ _ _

theorem csFramed_MX25_PP (line : CsLine) (E : Env σ) (fuel A n : Nat) (D : List Nat) (s : σ) :
    CsFramed line (MX25_PP E fuel A D n s).ev := by
  simp only [MX25_PP, ev_bind]
  apply csFramed_append _ _ _ (csFramed_MX25_PP_issue line E A n D s)
  cases (MX25_PP_issue E A D n s).val with
  | some msg => exact csFramed_nil line
  | none =>
    simp only [ev_bind, ev_pure, List.append_nil]
    exact csFramed_flashWaitTillReady line E _ _ _

end CsFramedLemmas

section CsFramedOps
variable {σ : Type}

theorem csFramed_flashRead (line : CsLine) (E : Env σ) (c : List Nat) (l1 l2 : Nat) (s : σ) :
    CsFramed line (flashRead E c l1 l2 s).ev :=
  csFramed_of_frameStep CsLine.FLASH_CS line _ (fun p => csRun_flashRead line E c l1 l2 s p)

theorem csFramed_flashWrite (line : CsLine) (E : Env σ) (c : List Nat) (l1 : Nat) (s : σ) :
    CsFramed line (flashWrite E c l1 s).ev :=
  csFramed_of_frameStep CsLine.FLASH_CS line _ (fun p => csRun_flashWrite line E c l1 s p)

theorem csFramed_MX25_RDID (line : CsLine) (E : Env σ) (id : Nat) (s : σ) :
    CsFramed line (MX25_RDID E id s).ev := by
  have h : (MX25_RDID E id s).ev = (flashRead E [FLASH_CMD_RDID] 1 3 s).ev := by
    simp only [MX25_RDID, ev_bind, run_ite, ev_ite, ev_pure]
    simp
  rw [h]; exact csFramed_flashRead line E _ _ _ s

theorem csFramed_MX25_RDSR (line : CsLine) (E : Env σ) (reg : Option Nat) (s : σ) :
    CsFramed line (MX25_RDSR E reg s).ev := by
  cases reg with
  | none => exact csFramed_nil line
  | some old => rw [ev_MX25_RDSR]; exact csFramed_flashRead line E _ _ _ s

theorem csFramed_MX25_RDSCUR (line : CsLine) (E : Env σ) (reg : Option Nat) (s : σ) :
    CsFramed line (MX25_RDSCUR E reg s).ev := by
  cases reg with
  | none => exact csFramed_nil line
  | some old => rw [ev_MX25_RDSCUR]; exact csFramed_flashRead line E _ _ _ s

theorem csFramed_MX25_WREN (line : CsLine) (E : Env σ) (s : σ) :
    CsFramed line (MX25_WREN E s).ev := by
  rw [ev_MX25_WREN]; exact csFramed_flashWrite line E _ _ s

theorem csFramed_MX25_DP (line : CsLine) (E : Env σ) (s : σ) :
    CsFramed line (MX25_DP E s).ev := by
  simp only [MX25_DP, ev_bind, run_ite, ev_ite, ev_pure]
  apply csFramed_append _ _ _ (csFramed_flashWrite line E _ _ s)
  exact csFramed_quiet _ _ (by simp [vTaskDelay, quiet, Event.isCs])

theorem csFramed_MX25_WAKE (line : CsLine) (E : Env σ) (s : σ) :
    CsFramed line (MX25_WAKE E s).ev := by
  intro p hp
  cases line <;> cases p <;> first | exact absurd rfl hp | skip
  all_goals
    simp [MX25_WAKE, flashChipSelectLow, flashChipSelectHigh, vTaskDelay,
      csRun_cons, csRun_nil, csStep]

theorem csFramed_MX25_RES (line : CsLine) (E : Env σ) (s : σ) :
    CsFramed line (MX25_RES E s).ev := by
  intro p hp
  cases line <;> cases p <;> first | exact absurd rfl hp | skip
  all_goals
    simp [MX25_RES, flashChipSelectLow, flashChipSelectHigh,
      csRun_append, csRun_ite, csRun_cons, csRun_nil, csStep]

theorem csFramed_MX25_REMS (line : CsLine) (E : Env σ) (id : Nat) (opt : Bool) (s : σ) :
    CsFramed line (MX25_REMS E id opt s).ev := by
  intro p hp
  cases line <;> cases p <;> first | exact absurd rfl hp | skip
  all_goals
    simp [MX25_REMS, flashChipSelectLow, flashChipSelectHigh,
      csRun_append, csRun_ite, csRun_cons, csRun_nil, csStep]

theorem csFramed_MX25_READ (line : CsLine) (E : Env σ) (A n : Nat) (s : σ) :
    CsFramed line (MX25_READ E A n s).ev := by
  intro p hp
  cases line <;> cases p <;> first | exact absurd rfl hp | skip
  all_goals
    simp [MX25_READ, flashChipSelectLow, flashChipSelectHigh,
      csRun_append, csRun_ite, csRun_cons, csRun_nil, frameStep, csStep]
  all_goals omega

theorem ev_framReadRegister (E : Env σ) (c l : Nat) (s : σ) :
    (framReadRegister E c l s).ev = Event.csLow CsLine.FRAM_CS ::
      ((SPI_Transfer E MB85_FRAM [c % U8] FRAM_OP_CODE_LENGTH_IN_BYTES (l % U16)
          (E.HAL_GPIO_WritePin CsLine.FRAM_CS false s)).ev ++ [Event.csHigh CsLine.FRAM_CS]) := by
  simp [framReadRegister, framChipSelectLow, framChipSelectHigh]

theorem ev_framSendCommand (E : Env σ) (c : Nat) (s : σ) :
    (framSendCommand E c s).ev = Event.csLow CsLine.FRAM_CS ::
      ((SPI_Transfer E MB85_FRAM [c % U8] FRAM_OP_CODE_LENGTH_IN_BYTES 0
          (E.HAL_GPIO_WritePin CsLine.FRAM_CS false s)).ev ++ [Event.csHigh CsLine.FRAM_CS]) := by
  simp [framSendCommand, framChipSelectLow, framChipSelectHigh]

theorem ev_accelRead (E : Env σ) (r l : Nat) (s : σ) :
    (accelRead E r l s).ev = Event.csLow CsLine.ACCEL_CS ::
      ((SPI_Transfer E LIS3DSH_ACCEL [(r ||| LIS3DSH_READ_BITMASK) % U8] LIS3DSH_REGISTER_LEN
          (l % U8) (E.HAL_GPIO_WritePin CsLine.ACCEL_CS false s)).ev ++
        [Event.csHigh CsLine.ACCEL_CS]) := by
  simp [accelRead, accelChipSelectLow, accelChipSelectHigh]

@[simp] theorem csRun_framReadRegister (line : CsLine) (E : Env σ) (c l : Nat) (s : σ)
    (p : CsPhase) :
    csRun line (framReadRegister E c l s).ev p = frameStep CsLine.FRAM_CS line p := by
  rw [ev_framReadRegister]
  exact csRun_frame _ _ _ _ (quiet_SPI_Transfer _ _ _ _ _ _)

@[simp] theorem csRun_framSendCommand (line : CsLine) (E : Env σ) (c : Nat) (s : σ)
    (p : CsPhase) :
    csRun line (framSendCommand E c s).ev p = frameStep CsLine.FRAM_CS line p := by
  rw [ev_framSendCommand]
  exact csRun_frame _ _ _ _ (quiet_SPI_Transfer _ _ _ _ _ _)

@[simp] theorem csRun_accelRead (line : CsLine) (E : Env σ) (r l : Nat) (s : σ)
    (p : CsPhase) :
    csRun line (accelRead E r l s).ev p = frameStep CsLine.ACCEL_CS line p := by
  rw [ev_accelRead]
  exact csRun_frame _ _ _ _ (quiet_SPI_Transfer _ _ _ _ _ _)

@[simp] theorem csRun_accelWrite (line : CsLine) (E : Env σ) (r : Nat) (d : List Nat)
    (l : Nat) (s : σ) (p : CsPhase) :
    csRun line (accelWrite E r d l s).ev p = frameStep CsLine.ACCEL_CS line p := by
  have h : (accelWrite E r d l s).ev = Event.csLow CsLine.ACCEL_CS ::
      (((SPI_Transfer E LIS3DSH_ACCEL [r] LIS3DSH_REGISTER_LEN 0
          (E.HAL_GPIO_WritePin CsLine.ACCEL_CS false s)).ev ++
        (if (SPI_Transfer E LIS3DSH_ACCEL [r] LIS3DSH_REGISTER_LEN 0
            (E.HAL_GPIO_WritePin CsLine.ACCEL_CS false s)).val.1 = true then
          (SPI_Transfer E LIS3DSH_ACCEL d (l % U8) 0
            (SPI_Transfer E LIS3DSH_ACCEL [r] LIS3DSH_REGISTER_LEN 0
              (E.HAL_GPIO_WritePin CsLine.ACCEL_CS false s)).st).ev
         else [])) ++ [Event.csHigh CsLine.ACCEL_CS]) := by
    simp [accelWrite, accelChipSelectLow, accelChipSelectHigh]
  rw [h]
  apply csRun_frame
  rw [quiet_append, quiet_SPI_Transfer, Bool.true_and]
  split_ifs
  · exact quiet_SPI_Transfer _ _ _ _ _ _
  · rfl

theorem csFramed_framReadRegister (line : CsLine) (E : Env σ) (c l : Nat) (s : σ) :
    CsFramed line (framReadRegister E c l s).ev :=
  csFramed_of_frameStep CsLine.FRAM_CS line _ (fun p => csRun_framReadRegister line E c l s p)

theorem csFramed_framSendCommand (line : CsLine) (E : Env σ) (c : Nat) (s : σ) :
    CsFramed line (framSendCommand E c s).ev :=
  csFramed_of_frameStep CsLine.FRAM_CS line _ (fun p => csRun_framSendCommand line E c s p)

theorem csFramed_MB85RS256_Read (line : CsLine) (E : Env σ) (A n : Nat) (s : σ) :
    CsFramed line (MB85RS256_Read E A n s).ev := by
  intro p hp
  cases line <;> cases p <;> first | exact absurd rfl hp | skip
  all_goals
    simp [MB85RS256_Read, framChipSelectLow, framChipSelectHigh,
      csRun_append, csRun_ite, csRun_cons, csRun_nil, frameStep, csStep]

theorem csFramed_MB85RS256_Write (line : CsLine) (E : Env σ) (A n : Nat) (D : List Nat)
    (s : σ) : CsFramed line (MB85RS256_Write E A D n s).ev := by
  intro p hp
  cases line <;> cases p <;> first | exact absurd rfl hp | skip
  all_goals
    simp [MB85RS256_Write, MB85RS256_WREN, MB85RS256_WRDI, framChipSelectLow,
      framChipSelectHigh, csRun_append, csRun_ite, csRun_cons, csRun_nil, frameStep, csStep]

theorem csFramed_MB85RS256_RDID (line : CsLine) (E : Env σ) (id : Nat) (s : σ) :
    CsFramed line (MB85RS256_RDID E id s).ev := by
  have h : (MB85RS256_RDID E id s).ev = (framReadRegister E FRAM_OPCODE_RDID 4 s).ev := by
    simp only [MB85RS256_RDID, ev_bind, run_ite, ev_ite, ev_pure]
    simp
  rw [h]; exact csFramed_framReadRegister line E _ _ s

theorem csFramed_accelRead (line : CsLine) (E : Env σ) (r l : Nat) (s : σ) :
    CsFramed line (accelRead E r l s).ev :=
  csFramed_of_frameStep CsLine.ACCEL_CS line _ (fun p => csRun_accelRead line E r l s p)

theorem csFramed_accelWrite (line : CsLine) (E : Env σ) (r : Nat) (d : List Nat) (l : Nat)
    (s : σ) : CsFramed line (accelWrite E r d l s).ev :=
  csFramed_of_frameStep CsLine.ACCEL_CS line _ (fun p => csRun_accelWrite line E r d l s p)

theorem csFramed_accelConfigure (line : CsLine) (E : Env σ) (odr bw : Nat) (s : σ) :
    CsFramed line (accelConfigure E odr bw s).ev := by
  intro p hp
  cases line <;> cases p <;> first | exact absurd rfl hp | skip
  all_goals
    simp [accelConfigure, csRun_append, csRun_ite, csRun_nil, frameStep]

theorem csFramed_LIS3DSH_PerformSoftReset (line : CsLine) (E : Env σ) (s : σ) :
    CsFramed line (LIS3DSH_PerformSoftReset E s).ev := by
  intro p hp
  cases line <;> cases p <;> first | exact absurd rfl hp | skip
  all_goals
    simp [LIS3DSH_PerformSoftReset, HAL_Delay, csRun_append, csRun_ite, csRun_nil, csRun_cons,
      csStep, frameStep]

theorem csFramed_LIS3DSH_ReadAccelData (line : CsLine) (E : Env σ) (s : σ) :
    CsFramed line (LIS3DSH_ReadAccelData E s).ev := by
  have h : (LIS3DSH_ReadAccelData E s).ev =
      (accelRead E LIS3DSH_OUT_X_L_REGISTER_ADDR ACCEL_DATA_NUM_BYTES s).ev := by
    simp only [LIS3DSH_ReadAccelData, ev_bind, run_ite, ev_ite, ev_pure]
    simp
  rw [h]; exact csFramed_accelRead line E _ _ s

theorem csFramed_LIS3DSH_EnableInterrupt (line : CsLine) (E : Env σ) (s : σ) :
    CsFramed line (LIS3DSH_EnableInterrupt E s).ev := by
  intro p hp
  cases line <;> cases p <;> first | exact absurd rfl hp | skip
  all_goals
    simp [LIS3DSH_EnableInterrupt, csRun_append, csRun_ite, csRun_nil, frameStep]

theorem csFramed_LIS3DSH_ReadID (line : CsLine) (E : Env σ) (s : σ) :
    CsFramed line (LIS3DSH_ReadID E s).ev := by
  have h : (LIS3DSH_ReadID E s).ev =
      (accelRead E LIS3DSH_WHO_AM_I_REGISTER_ADDR LIS3DSH_REGISTER_LEN s).ev := by
    simp only [LIS3DSH_ReadID, ev_bind, run_ite, ev_ite, ev_pure]
    split_ifs <;> simp
  rw [h]; exact csFramed_accelRead line E _ _ s

theorem csWellNested_LIS3DSH_Init (line : CsLine) (E : Env σ) (flag : Bool) (s : σ) :
    csWellNested line (LIS3DSH_Init E flag s).ev = true := by
  simp only [LIS3DSH_Init, accelChipSelectHigh, ev_bind, ev_writeCs, if_true,
    List.singleton_append, val_bind, st_bind, run_ite, ev_ite, ev_pure, val_ite, st_ite,
    val_pure, st_pure, List.append_nil, reduceIte]
  apply csWellNested_init
  apply csFramed_append _ _ _ (csFramed_LIS3DSH_ReadID line E _)
  apply csFramed_append
  · split_ifs
    · exact csFramed_accelConfigure line E _ _ _
    · exact csFramed_nil line
  · split_ifs <;>
      first
      | exact csFramed_LIS3DSH_EnableInterrupt line E _
      | exact csFramed_nil line

end CsFramedOps

/-! ## Frames and the write-enable guard -/

section GuardLemmas
variable {σ : Type}

theorem framesFrom_quiet_append (f q rest : List Event) (h : quiet q = true) :
    framesFrom (some f) (q ++ rest) = framesFrom (some (f ++ q)) rest := by
  induction q generalizing f with
  | nil => simp
  | cons e es ih =>
    simp only [quiet, List.all_cons, Bool.and_eq_true] at h
    have hes : quiet es = true := h.2
    have h1 := h.1
    cases e <;> simp_all [framesFrom, Event.isCs]

theorem framesFrom_none_quiet_append (q rest : List Event) (h : quiet q = true) :
    framesFrom none (q ++ rest) = framesFrom none rest := by
  induction q with
  | nil => simp
  | cons e es ih =>
    simp only [quiet, List.all_cons, Bool.and_eq_true] at h
    have hes : quiet es = true := h.2
    have h1 := h.1
    cases e <;> simp_all [framesFrom, Event.isCs]

theorem framesFrom_frame (l l2 : CsLine) (body rest : List Event) (h : quiet body = true) :
    framesFrom none (Event.csLow l :: (body ++ Event.csHigh l2 :: rest)) =
      body :: framesFrom none rest := by
  simp [framesFrom, framesFrom_quiet_append _ _ _ h]

theorem sendsOp_append (op : Nat) (a b : List Event) :
    sendsOp op (a ++ b) = (sendsOp op a || sendsOp op b) := by
  simp [sendsOp]

theorem sendsOp_xfer_ne (op : Nat) (E : Env σ) (device : SpiDevice_t)
    (b : List Nat) (l1 l2 : Nat) (s : σ) (h : b.take (l1 % U16) ≠ [op]) :
    sendsOp op (SPI_Transfer E device b l1 l2 s).ev = false := by
  unfold SPI_Transfer
  cases spiHandleOf device with
  | none => simp [sendsOp]
  | some hd =>
    simp only [sendsOp, ev_bind, run_ite, ev_ite, ev_pure, spiMutexAcquire,
      spiMutexRelease, HAL_SPI_Transmit, HAL_SPI_Receive, val_bind, st_bind, val_ite, st_ite,
      val_pure, st_pure]
    split_ifs <;> simp [h]

theorem ev_xfer_ok (E : Env σ) (c : Nat) (s : σ)
    (h : (SPI_Transfer E MX25_FLASH [c] 1 0 s).val.1 = true) :
    (SPI_Transfer E MX25_FLASH [c] 1 0 s).ev =
      [Event.take true, Event.transmit SpiBus.xSharedSpiHandle [c] HAL_StatusTypeDef.HAL_OK,
       Event.give] := by
  revert h
  have hh : spiHandleOf MX25_FLASH = some SpiBus.xSharedSpiHandle := rfl
  simp only [SPI_Transfer, hh, U16, spiMutexAcquire, spiMutexRelease, HAL_SPI_Transmit, ev_bind,
    val_bind, st_bind, run_ite, ev_ite, val_ite, st_ite, ev_pure, val_pure, st_pure]
  by_cases h1 : (E.xSemaphoreTake s).1 = true
  · by_cases h2 : (E.HAL_SPI_Transmit SpiBus.xSharedSpiHandle [c] (E.xSemaphoreTake s).2).1 =
        HAL_StatusTypeDef.HAL_OK
    · simp [h1, h2]
    · simp [h1, h2]
  · simp [h1]

theorem guard_frame (op : Nat) (prev : Option (List Event)) (l l2 : CsLine)
    (body rest : List Event) (hq : quiet body = true)
    (hs : sendsOp op body = false ∨ prev = some wrenOkFrame)
    (hr : wrenGuarded op (some body) (framesFrom none rest) = true) :
    wrenGuarded op prev (framesFrom none (Event.csLow l :: (body ++ Event.csHigh l2 :: rest)))
      = true := by
  rw [framesFrom_frame _ _ _ _ hq]
  simp only [wrenGuarded, Bool.and_eq_true, Bool.or_eq_true, Bool.not_eq_true',
    decide_eq_true_eq]
  exact ⟨hs, hr⟩

theorem guard_quiet (op : Nat) (prev : Option (List Event)) (q rest : List Event)
    (hq : quiet q = true) (hr : wrenGuarded op prev (framesFrom none rest) = true) :
    wrenGuarded op prev (framesFrom none (q ++ rest)) = true := by
  rw [framesFrom_none_quiet_append _ _ hq]; exact hr

theorem guard_flashRead (op : Nat) (prev : Option (List Event)) (E : Env σ) (c : Nat)
    (l2 : Nat) (s : σ) (rest : List Event) (hop : c ≠ op)
    (hr : ∀ prev2, wrenGuarded op prev2 (framesFrom none rest) = true) :
    wrenGuarded op prev (framesFrom none ((flashRead E [c] 1 l2 s).ev ++ rest)) = true := by
  rw [ev_flashRead]
  simp only [List.cons_append, List.append_assoc, List.singleton_append]
  apply guard_frame _ _ _ _ _ _ (quiet_SPI_Transfer _ _ _ _ _ _)
  · left
    apply sendsOp_xfer_ne
    simp [U8, U16, hop]
  · exact hr _

theorem guard_flashIsBusy (op : Nat) (prev : Option (List Event)) (E : Env σ) (s : σ)
    (rest : List Event) (hop : FLASH_CMD_RDSR ≠ op)
    (hr : ∀ prev2, wrenGuarded op prev2 (framesFrom none rest) = true) :
    wrenGuarded op prev (framesFrom none ((flashIsBusy E s).ev ++ rest)) = true := by
  rw [ev_flashIsBusy]; exact guard_flashRead op prev E _ _ s rest hop hr

theorem guard_flashIs4Byte (op : Nat) (prev : Option (List Event)) (E : Env σ) (s : σ)
    (rest : List Event) (hop : FLASH_CMD_RDSCUR ≠ op)
    (hr : ∀ prev2, wrenGuarded op prev2 (framesFrom none rest) = true) :
    wrenGuarded op prev (framesFrom none ((flashIs4Byte E s).ev ++ rest)) = true := by
  rw [ev_flashIs4Byte]; exact guard_flashRead op prev E _ _ s rest hop hr

theorem val_MX25_WREN (E : Env σ) (s : σ) :
    (MX25_WREN E s).val = flashReturnMsg_t.FLASH_OPERATION_SUCCESS ↔
      (SPI_Transfer E MX25_FLASH [FLASH_CMD_WREN] 1 0
        (E.HAL_GPIO_WritePin CsLine.FLASH_CS false s)).val.1 = true := by
  simp only [MX25_WREN, flashWrite, flashChipSelectLow, flashChipSelectHigh, val_bind, st_bind,
    run_ite, val_ite, val_pure, st_writeCs, U8]
  split_ifs with h <;> simp_all

theorem guard_MX25_WREN (op : Nat) (prev : Option (List Event)) (E : Env σ) (s : σ)
    (rest : List Event) (hop : FLASH_CMD_WREN ≠ op)
    (hok : (MX25_WREN E s).val = flashReturnMsg_t.FLASH_OPERATION_SUCCESS →
      wrenGuarded op (some wrenOkFrame) (framesFrom none rest) = true)
    (hfail : (MX25_WREN E s).val ≠ flashReturnMsg_t.FLASH_OPERATION_SUCCESS →
      ∀ prev2, wrenGuarded op prev2 (framesFrom none rest) = true) :
    wrenGuarded op prev (framesFrom none ((MX25_WREN E s).ev ++ rest)) = true := by
  rw [ev_MX25_WREN, ev_flashWrite]
  simp only [List.cons_append, List.append_assoc, List.singleton_append]
  apply guard_frame _ _ _ _ _ _ (quiet_SPI_Transfer _ _ _ _ _ _)
  · left
    apply sendsOp_xfer_ne
    simp [U8, U16, hop]
  · by_cases h : (MX25_WREN E s).val = flashReturnMsg_t.FLASH_OPERATION_SUCCESS
    · have h1 := (val_MX25_WREN E s).1 h
      have h2 : (1 % U8) = 1 := rfl
      rw [h2, ev_xfer_ok E _ _ h1]
      exact hok h
    · exact hfail h _

end GuardLemmas

section IssueEquations
variable {σ : Type}

theorem MX25_CE_issue_eq (E : Env σ) :
    MX25_CE_issue E = (do
      let busy ← flashIsBusy E
      if busy then pure (some flashReturnMsg_t.FLASH_IS_BUSY)
      else do
        let msg ← MX25_WREN E
        if msg ≠ flashReturnMsg_t.FLASH_OPERATION_SUCCESS then pure (some msg)
        else MX25_CE_frame E) := rfl

theorem MX25_SE_issue_eq (E : Env σ) (A : Nat) :
    MX25_SE_issue E A =
      (if A > FLASH_SIZE then pure (some flashReturnMsg_t.FLASH_ADDRESS_INVALID)
      else do
        let busy ← flashIsBusy E
        if busy then pure (some flashReturnMsg_t.FLASH_IS_BUSY)
        else do
          let addr4ByteMode ← flashIs4Byte E
          let msg ← MX25_WREN E
          if msg ≠ flashReturnMsg_t.FLASH_OPERATION_SUCCESS then
            pure (some flashReturnMsg_t.FLASH_TIME_OUT)
          else MX25_SE_frame E A addr4ByteMode) := rfl

theorem MX25_PP_issue_eq (E : Env σ) (A : Nat) (D : List Nat) (n : Nat) :
    MX25_PP_issue E A D n =
      (if A > FLASH_SIZE then pure (some flashReturnMsg_t.FLASH_ADDRESS_INVALID)
      else do
        let busy ← flashIsBusy E
        if busy then pure (some flashReturnMsg_t.FLASH_IS_BUSY)
        else do
          let addr4ByteMode ← flashIs4Byte E
          let msg ← MX25_WREN E
          if msg ≠ flashReturnMsg_t.FLASH_OPERATION_SUCCESS then
            pure (some flashReturnMsg_t.FLASH_TIME_OUT)
          else MX25_PP_frame E A D n addr4ByteMode) := rfl
end IssueEquations

section GuardOps
variable {σ : Type}

theorem guard_nil (op : Nat) (prev : Option (List Event)) :
    wrenGuarded op prev (framesFrom none []) = true := rfl

theorem guard_delay (op : Nat) (prev : Option (List Event)) (t : Nat) (rest : List Event)
    (hr : wrenGuarded op prev (framesFrom none rest) = true) :
    wrenGuarded op prev (framesFrom none (Event.delay t :: rest)) = true := hr

theorem guard_flashWaitLoop (op : Nat) (E : Env σ) (t0 tmax fuel : Nat) (s : σ)
    (rest : List Event) (hop : FLASH_CMD_RDSR ≠ op)
    (hr : ∀ prev2, wrenGuarded op prev2 (framesFrom none rest) = true)
    (prev : Option (List Event)) :
    wrenGuarded op prev (framesFrom none ((flashWaitLoop E t0 tmax fuel s).ev ++ rest)) = true := by
  induction fuel generalizing s prev with
  | zero => simpa [flashWaitLoop] using hr prev
  | succ n ih =>
    simp only [flashWaitLoop, ev_bind, val_bind, st_bind, run_ite, ev_ite, ev_pure,
      List.append_assoc, ev_vTaskDelay, ev_xTaskGetTickCount, st_vTaskDelay,
      st_xTaskGetTickCount, val_xTaskGetTickCount]
    apply guard_flashIsBusy _ _ _ _ _ hop
    intro prev2
    split_ifs
    · exact guard_delay _ _ _ _ (hr prev2)
    · exact guard_delay _ _ _ _ (ih _ _)
    · exact hr prev2

theorem guard_flashWaitTillReady (op : Nat) (E : Env σ) (fuel t : Nat) (s : σ)
    (hop : FLASH_CMD_RDSR ≠ op) (prev : Option (List Event)) :
    wrenGuarded op prev (framesFrom none (flashWaitTillReady E fuel t s).ev) = true := by
  simp only [flashWaitTillReady, ev_bind, ev_xTaskGetTickCount, List.nil_append,
    st_xTaskGetTickCount]
  have h := guard_flashWaitLoop op E ((xTaskGetTickCount E s).val) (E.pdMS_TO_TICKS t % U32) fuel
    s [] hop (fun _ => rfl) prev
  simpa using h

theorem shape_MX25_CE_frame (E : Env σ) (s : σ) :
    ∃ body, quiet body = true ∧ (MX25_CE_frame E s).ev =
      Event.csLow CsLine.FLASH_CS :: (body ++ [Event.csHigh CsLine.FLASH_CS]) := by
  refine ⟨(SPI_Transfer E MX25_FLASH [FLASH_CMD_CE] 1 0
    (E.HAL_GPIO_WritePin CsLine.FLASH_CS false s)).ev, quiet_SPI_Transfer _ _ _ _ _ _, ?_⟩
  simp [MX25_CE_frame, flashChipSelectLow, flashChipSelectHigh]

theorem shape_MX25_SE_frame (E : Env σ) (A : Nat) (m : Bool) (s : σ) :
    ∃ body, quiet body = true ∧ (MX25_SE_frame E A m s).ev =
      Event.csLow CsLine.FLASH_CS :: (body ++ [Event.csHigh CsLine.FLASH_CS]) := by
  refine ⟨(SPI_Transfer E MX25_FLASH [FLASH_CMD_SE] 1 0
      (E.HAL_GPIO_WritePin CsLine.FLASH_CS false s)).ev ++
    (if (SPI_Transfer E MX25_FLASH [FLASH_CMD_SE] 1 0
        (E.HAL_GPIO_WritePin CsLine.FLASH_CS false s)).val.1 = true then
      (flashSendAddr E A m (SPI_Transfer E MX25_FLASH [FLASH_CMD_SE] 1 0
        (E.HAL_GPIO_WritePin CsLine.FLASH_CS false s)).st).ev else []), ?_, ?_⟩
  · rw [quiet_append, quiet_SPI_Transfer, Bool.true_and]
    split_ifs
    · exact quiet_flashSendAddr _ _ _ _
    · rfl
  · simp [MX25_SE_frame, flashChipSelectLow, flashChipSelectHigh]

theorem shape_MX25_PP_frame (E : Env σ) (A : Nat) (D : List Nat) (n : Nat) (m : Bool) (s : σ) :
    ∃ body, quiet body = true ∧ (MX25_PP_frame E A D n m s).ev =
      Event.csLow CsLine.FLASH_CS :: (body ++ [Event.csHigh CsLine.FLASH_CS]) := by
  simp only [MX25_PP_frame, flashChipSelectLow, flashChipSelectHigh, ev_bind, val_bind, st_bind,
    run_ite, ev_ite, val_ite, st_ite, ev_pure, val_pure, st_pure, ev_writeCs, st_writeCs]
  by_cases h : (SPI_Transfer E MX25_FLASH [FLASH_CMD_PP] 1 0
      (E.HAL_GPIO_WritePin CsLine.FLASH_CS false s)).val.1 = true
  · simp only [h, if_true]
    refine ⟨_ ++ (_ ++ _), ?_, by simp; rfl⟩
    simp [quiet_append, quiet_SPI_Transfer, quiet_flashSendAddr]
  · simp only [h, if_false]
    exact ⟨(SPI_Transfer E MX25_FLASH [FLASH_CMD_PP] 1 0
      (E.HAL_GPIO_WritePin CsLine.FLASH_CS false s)).ev, quiet_SPI_Transfer _ _ _ _ _ _, by simp⟩

theorem guard_cmd_frame (op : Nat) (ev rest : List Event)
    (h : ∃ body, quiet body = true ∧
      ev = Event.csLow CsLine.FLASH_CS :: (body ++ [Event.csHigh CsLine.FLASH_CS]))
    (hr : ∀ prev2, wrenGuarded op prev2 (framesFrom none rest) = true) :
    wrenGuarded op (some wrenOkFrame) (framesFrom none (ev ++ rest)) = true := by
  obtain ⟨body, hq, rfl⟩ := h
  simp only [List.cons_append, List.append_assoc, List.singleton_append]
  exact guard_frame _ _ _ _ _ _ hq (Or.inr rfl) (hr _)

end GuardOps

section GuardOps2
variable {σ : Type}

theorem guard_MX25_SE_issue (E : Env σ) (A : Nat) (s : σ) (rest : List Event)
    (prev : Option (List Event))
    (hr : ∀ prev2, wrenGuarded FLASH_CMD_SE prev2 (framesFrom none rest) = true) :
    wrenGuarded FLASH_CMD_SE prev (framesFrom none ((MX25_SE_issue E A s).ev ++ rest)) = true := by
  rw [MX25_SE_issue_eq]
  simp only [ev_bind, val_bind, st_bind, run_ite, ev_ite, ev_pure]
  by_cases hA : A > FLASH_SIZE
  · simpa [hA] using hr prev
  · by_cases hb : (flashIsBusy E s).val = true
    · simp only [hA, hb, if_false, if_true, List.append_nil]
      exact guard_flashIsBusy _ _ _ _ _ (by decide) hr
    · by_cases hw : (MX25_WREN E (flashIs4Byte E (flashIsBusy E s).st).st).val =
          flashReturnMsg_t.FLASH_OPERATION_SUCCESS
      · simp only [hA, hb, hw, if_false, Bool.false_eq_true, List.append_assoc, ne_eq,
          not_true_eq_false]
        apply guard_flashIsBusy _ _ _ _ _ (by decide)
        intro _
        apply guard_flashIs4Byte _ _ _ _ _ (by decide)
        intro _
        apply guard_MX25_WREN _ _ _ _ _ (by decide)
        · intro _
          exact guard_cmd_frame _ _ _ (shape_MX25_SE_frame _ _ _ _) hr
        · intro h; exact absurd hw h
      · simp only [hA, hb, hw, if_false, if_true, Bool.false_eq_true, List.append_assoc, ne_eq,
          not_false_eq_true, List.append_nil]
        apply guard_flashIsBusy _ _ _ _ _ (by decide)
        intro _
        apply guard_flashIs4Byte _ _ _ _ _ (by decide)
        intro _
        apply guard_MX25_WREN _ _ _ _ _ (by decide)
        · intro h; exact absurd h hw
        · intro _ p3; exact hr p3

theorem guard_MX25_PP_issue (E : Env σ) (A : Nat) (D : List Nat) (n : Nat) (s : σ) (rest : List Event)
    (prev : Option (List Event))
    (hr : ∀ prev2, wrenGuarded FLASH_CMD_PP prev2 (framesFrom none rest) = true) :
    wrenGuarded FLASH_CMD_PP prev (framesFrom none ((MX25_PP_issue E A D n s).ev ++ rest)) = true := by
  rw [MX25_PP_issue_eq]
  simp only [ev_bind, val_bind, st_bind, run_ite, ev_ite, ev_pure]
  by_cases hA : A > FLASH_SIZE
  · simpa [hA] using hr prev
  · by_cases hb : (flashIsBusy E s).val = true
    · simp only [hA, hb, if_false, if_true, List.append_nil]
      exact guard_flashIsBusy _ _ _ _ _ (by decide) hr
    · by_cases hw : (MX25_WREN E (flashIs4Byte E (flashIsBusy E s).st).st).val =
          flashReturnMsg_t.FLASH_OPERATION_SUCCESS
      · simp only [hA, hb, hw, if_false, Bool.false_eq_true, List.append_assoc, ne_eq,
          not_true_eq_false]
        apply guard_flashIsBusy _ _ _ _ _ (by decide)
        intro _
        apply guard_flashIs4Byte _ _ _ _ _ (by decide)
        intro _
        apply guard_MX25_WREN _ _ _ _ _ (by decide)
        · intro _
          exact guard_cmd_frame _ _ _ (shape_MX25_PP_frame _ _ _ _ _ _) hr
        · intro h; exact absurd hw h
      · simp only [hA, hb, hw, if_false, if_true, Bool.false_eq_true, List.append_assoc, ne_eq,
          not_false_eq_true, List.append_nil]
        apply guard_flashIsBusy _ _ _ _ _ (by decide)
        intro _
        apply guard_flashIs4Byte _ _ _ _ _ (by decide)
        intro _
        apply guard_MX25_WREN _ _ _ _ _ (by decide)
        · intro h; exact absurd h hw
        · intro _ p3; exact hr p3


theorem guard_MX25_CE_issue (E : Env σ) (s : σ) (rest : List Event)
    (prev : Option (List Event))
    (hr : ∀ prev2, wrenGuarded FLASH_CMD_CE prev2 (framesFrom none rest) = true) :
    wrenGuarded FLASH_CMD_CE prev (framesFrom none ((MX25_CE_issue E s).ev ++ rest)) = true := by
  rw [MX25_CE_issue_eq]
  simp only [ev_bind, val_bind, st_bind, run_ite, ev_ite, ev_pure]
  by_cases hb : (flashIsBusy E s).val = true
  · simp only [hb, if_true, List.append_nil]
    exact guard_flashIsBusy _ _ _ _ _ (by decide) hr
  · by_cases hw : (MX25_WREN E (flashIsBusy E s).st).val =
        flashReturnMsg_t.FLASH_OPERATION_SUCCESS
    · simp only [hb, hw, if_false, Bool.false_eq_true, List.append_assoc, ne_eq,
        not_true_eq_false]
      apply guard_flashIsBusy _ _ _ _ _ (by decide)
      intro _
      apply guard_MX25_WREN _ _ _ _ _ (by decide)
      · intro _
        exact guard_cmd_frame _ _ _ (shape_MX25_CE_frame _ _) hr
      · intro h; exact absurd hw h
    · simp only [hb, hw, if_false, if_true, Bool.false_eq_true, List.append_assoc, ne_eq,
        not_false_eq_true, List.append_nil]
      apply guard_flashIsBusy _ _ _ _ _ (by decide)
      intro _
      apply guard_MX25_WREN _ _ _ _ _ (by decide)
      · intro h; exact absurd h hw
      · intro _ p3; exact hr p3

theorem guard_tail (op : Nat) (E : Env σ) (fuel t : Nat) (hop : FLASH_CMD_RDSR ≠ op)
    (early : Option flashReturnMsg_t) (s : σ) (prev : Option (List Event)) :
    wrenGuarded op prev (framesFrom none
      ((match early with
        | some msg => (pure (some msg) : Bus σ (Option flashReturnMsg_t))
        | none => do
          let ready ← flashWaitTillReady E fuel t
          pure (waitMsg ready)) s).ev) = true := by
  cases early with
  | some msg => rfl
  | none =>
    simp only [ev_bind, ev_pure, List.append_nil]
    exact guard_flashWaitTillReady op E fuel t s hop prev

end GuardOps2

/-- Claim C5. In every run of `MX25_SE`, `MX25_CE` and `MX25_PP`, for every behaviour of
the mutex, the HAL and the device, each chip-select frame in which the erase or program
opcode (0x20, 0x60, 0x02) is handed to the bus comes right after a frame that is exactly a
successful write-enable: mutex taken, the single byte 0x06 transmitted with `HAL_OK`,
mutex given back. No such opcode is sent without it. -/
theorem write_enable_precedes_erase_program {σ : Type} (E : Env σ) (s : σ) (fuel : Nat)
    (flashAddress byteLength : Nat) (sourceAddress : List Nat) :
    wrenGuarded FLASH_CMD_SE none (frames (MX25_SE E fuel flashAddress s).ev) = true ∧
    wrenGuarded FLASH_CMD_CE none (frames (MX25_CE E fuel s).ev) = true ∧
    wrenGuarded FLASH_CMD_PP none
      (frames (MX25_PP E fuel flashAddress sourceAddress byteLength s).ev) = true := by
  refine ⟨?_, ?_, ?_⟩
  · simp only [frames, MX25_SE, ev_bind]
    exact guard_MX25_SE_issue E _ s _ none (fun p => guard_tail _ E fuel _ (by decide) _ _ p)
  · simp only [frames, MX25_CE, ev_bind]
    exact guard_MX25_CE_issue E s _ none (fun p => guard_tail _ E fuel _ (by decide) _ _ p)
  · simp only [frames, MX25_PP, ev_bind]
    exact guard_MX25_PP_issue E _ _ _ s _ none
      (fun p => guard_tail _ E fuel _ (by decide) _ _ p)

/-- Claim C2. For every public operation of the flash, FRAM and accelerometer drivers,
every chip-select line, every world and every behaviour of the mutex, the HAL and the
devices (so every pattern of transfer successes and failures), the chip-select events of
the operation form well-nested low/high pairs: an assertion is never followed by another
assertion before a deassertion, an assertion is answered by exactly one deassertion, and
the line is high at the end of the trace, early returns and failure paths included. For
the erase and program operations this holds for every bound `fuel` on the number of polls
of the final wait. -/
theorem chip_select_well_nested {σ : Type} (E : Env σ) (line : CsLine) (s : σ) :
    csWellNested line (MX25_Init E s).ev = true ∧
    (∀ id, csWellNested line (MX25_RDID E id s).ev = true) ∧
    csWellNested line (MX25_RES E s).ev = true ∧
    (∀ id opt, csWellNested line (MX25_REMS E id opt s).ev = true) ∧
    (∀ reg, csWellNested line (MX25_RDSCUR E reg s).ev = true) ∧
    (∀ a n, csWellNested line (MX25_READ E a n s).ev = true) ∧
    (∀ reg, csWellNested line (MX25_RDSR E reg s).ev = true) ∧
    csWellNested line (MX25_WREN E s).ev = true ∧
    (∀ fuel, csWellNested line (MX25_CE E fuel s).ev = true) ∧
    (∀ fuel a, csWellNested line (MX25_SE E fuel a s).ev = true) ∧
    (∀ fuel a d n, csWellNested line (MX25_PP E fuel a d n s).ev = true) ∧
    csWellNested line (MX25_DP E s).ev = true ∧
    csWellNested line (MX25_WAKE E s).ev = true ∧
    (∀ a n, csWellNested line (MB85RS256_Read E a n s).ev = true) ∧
    (∀ a d n, csWellNested line (MB85RS256_Write E a d n s).ev = true) ∧
    csWellNested line (MB85RS256_RDSR E s).ev = true ∧
    csWellNested line (MB85RS256_WREN E s).ev = true ∧
    csWellNested line (MB85RS256_WRDI E s).ev = true ∧
    (∀ id, csWellNested line (MB85RS256_RDID E id s).ev = true) ∧
    csWellNested line (MB85RS256_Init E s).ev = true ∧
    csWellNested line (LIS3DSH_PerformSoftReset E s).ev = true ∧
    csWellNested line (LIS3DSH_ReadAccelData E s).ev = true ∧
    csWellNested line (LIS3DSH_EnableInterrupt E s).ev = true ∧
    csWellNested line (LIS3DSH_ReadID E s).ev = true ∧
    (∀ flag, csWellNested line (LIS3DSH_Init E flag s).ev = true) := by
  refine ⟨?_, ?_, ?_, ?_, ?_, ?_, ?_, ?_, ?_, ?_, ?_, ?_, ?_, ?_, ?_, ?_, ?_, ?_, ?_, ?_, ?_,
    ?_, ?_, ?_, ?_⟩
  · exact csWellNested_init CsLine.FLASH_CS line [] (csFramed_nil line)
  · exact fun id => csWellNested_of_framed _ _ (csFramed_MX25_RDID line E id s)
  · exact csWellNested_of_framed _ _ (csFramed_MX25_RES line E s)
  · exact fun id opt => csWellNested_of_framed _ _ (csFramed_MX25_REMS line E id opt s)
  · exact fun reg => csWellNested_of_framed _ _ (csFramed_MX25_RDSCUR line E reg s)
  · exact fun a n => csWellNested_of_framed _ _ (csFramed_MX25_READ line E a n s)
  · exact fun reg => csWellNested_of_framed _ _ (csFramed_MX25_RDSR line E reg s)
  · exact csWellNested_of_framed _ _ (csFramed_MX25_WREN line E s)
  · exact fun fuel => csWellNested_of_framed _ _ (csFramed_MX25_CE line E fuel s)
  · exact fun fuel a => csWellNested_of_framed _ _ (csFramed_MX25_SE line E fuel a s)
  · exact fun fuel a d n => csWellNested_of_framed _ _ (csFramed_MX25_PP line E fuel a n d s)
  · exact csWellNested_of_framed _ _ (csFramed_MX25_DP line E s)
  · exact csWellNested_of_framed _ _ (csFramed_MX25_WAKE line E s)
  · exact fun a n => csWellNested_of_framed _ _ (csFramed_MB85RS256_Read line E a n s)
  · exact fun a d n => csWellNested_of_framed _ _ (csFramed_MB85RS256_Write line E a n d s)
  · exact csWellNested_of_framed _ _ (csFramed_framReadRegister line E _ _ s)
  · exact csWellNested_of_framed _ _ (csFramed_framSendCommand line E _ s)
  · exact csWellNested_of_framed _ _ (csFramed_framSendCommand line E _ s)
  · exact fun id => csWellNested_of_framed _ _ (csFramed_MB85RS256_RDID line E id s)
  · exact csWellNested_init CsLine.FRAM_CS line [] (csFramed_nil line)
  · exact csWellNested_of_framed _ _ (csFramed_LIS3DSH_PerformSoftReset line E s)
  · exact csWellNested_of_framed _ _ (csFramed_LIS3DSH_ReadAccelData line E s)
  · exact csWellNested_of_framed _ _ (csFramed_LIS3DSH_EnableInterrupt line E s)
  · exact csWellNested_of_framed _ _ (csFramed_LIS3DSH_ReadID line E s)
  · exact fun flag => csWellNested_LIS3DSH_Init line E flag s

section Vals
variable {σ : Type}

theorem val_MX25_SE_frame (E : Env σ) (A : Nat) (m : Bool) (s : σ) :
    (MX25_SE_frame E A m s).val = some flashReturnMsg_t.FLASH_OPERATION_FAILED ∨
      (MX25_SE_frame E A m s).val = none := by
  simp only [MX25_SE_frame, val_bind, st_bind, run_ite, val_ite, val_pure]
  split_ifs <;> simp

theorem val_MX25_PP_frame (E : Env σ) (A : Nat) (D : List Nat) (n : Nat) (m : Bool) (s : σ) :
    (MX25_PP_frame E A D n m s).val = some flashReturnMsg_t.FLASH_TIME_OUT ∨
      (MX25_PP_frame E A D n m s).val = none := by
  simp only [MX25_PP_frame, val_bind, st_bind, run_ite, val_ite, val_pure]
  split_ifs <;> simp

theorem val_wait_tail (E : Env σ) (fuel t : Nat) (early : Option flashReturnMsg_t) (s : σ)
    (h : early ≠ some flashReturnMsg_t.FLASH_ADDRESS_INVALID) :
    ((match early with
      | some msg => (pure (some msg) : Bus σ (Option flashReturnMsg_t))
      | none => do
        let ready ← flashWaitTillReady E fuel t
        pure (waitMsg ready)) s).val ≠ some flashReturnMsg_t.FLASH_ADDRESS_INVALID := by
  cases early with
  | some msg => simpa using h
  | none =>
    simp only [val_bind, val_pure, waitMsg]
    cases (flashWaitTillReady E fuel t s).val with
    | none => simp
    | some r => cases r <;> simp

theorem val_MX25_SE_issue_valid (E : Env σ) (A : Nat) (s : σ) (hA : ¬ A > FLASH_SIZE) :
    (MX25_SE_issue E A s).val ≠ some flashReturnMsg_t.FLASH_ADDRESS_INVALID := by
  rw [MX25_SE_issue_eq]
  simp only [hA, if_false, val_bind, st_bind, run_ite, val_ite, val_pure]
  split_ifs
  · simp
  · simp
  · rcases val_MX25_SE_frame E A (flashIs4Byte E (flashIsBusy E s).st).val
      (MX25_WREN E (flashIs4Byte E (flashIsBusy E s).st).st).st with h | h <;> rw [h] <;> simp

theorem val_MX25_PP_issue_valid (E : Env σ) (A : Nat) (D : List Nat) (n : Nat) (s : σ)
    (hA : ¬ A > FLASH_SIZE) :
    (MX25_PP_issue E A D n s).val ≠ some flashReturnMsg_t.FLASH_ADDRESS_INVALID := by
  rw [MX25_PP_issue_eq]
  simp only [hA, if_false, val_bind, st_bind, run_ite, val_ite, val_pure]
  split_ifs
  · simp
  · simp
  · rcases val_MX25_PP_frame E A D n (flashIs4Byte E (flashIsBusy E s).st).val
      (MX25_WREN E (flashIs4Byte E (flashIsBusy E s).st).st).st with h | h <;> rw [h] <;> simp

end Vals

section C1C4
variable {σ : Type}

theorem lockedFrames_csLow (held sel : Bool) (l : CsLine) (es : List Event) :
    lockedFrames held sel (Event.csLow l :: es) = (held && lockedFrames held true es) := rfl

theorem lockedFrames_xfer_frame (E : Env σ) (device : SpiDevice_t) (bus : SpiBus)
    (hd : spiHandleOf device = some bus) (b : List Nat) (l1 l2 : Nat) (s : σ) (held : Bool)
    (l : CsLine) (rest : List Event) :
    lockedFrames held true ((SPI_Transfer E device b l1 l2 s).ev ++ Event.csHigh l :: rest)
      = false := by
  simp only [SPI_Transfer, hd, spiMutexAcquire, spiMutexRelease, HAL_SPI_Transmit,
    HAL_SPI_Receive, ev_bind, val_bind, st_bind, run_ite, ev_ite, val_ite, st_ite, ev_pure,
    val_pure, st_pure]
  split_ifs <;> simp_all [lockedFrames]

/-- Claim C1 (the code breaks it). In every run of a single-transfer frame of each driver
(`MX25_WREN`, `MB85RS256_WREN`, `LIS3DSH_ReadID`), whatever the mutex, the HAL and the
device do and whether or not the caller holds the mutex beforehand, the trace violates the
transaction invariant: the mutex is taken only after chip select is asserted and is given
back, inside `SPI_Transfer`, before chip select is deasserted. The reference run of
`MB85RS256_Read` shows the mutex taken and given back once per sub-transfer of one frame. -/
theorem mutex_released_inside_frame :
    (∀ (σ : Type) (E : Env σ) (s : σ) (held : Bool),
      lockedFrames held false (MX25_WREN E s).ev = false ∧
      lockedFrames held false (MB85RS256_WREN E s).ev = false ∧
      lockedFrames held false (LIS3DSH_ReadID E s).ev = false) ∧
    (MB85RS256_Read refEnv 0 2 refIdle).ev =
      [Event.csLow CsLine.FRAM_CS,
       Event.take true,
       Event.transmit SpiBus.xSharedSpiHandle [0x03] HAL_StatusTypeDef.HAL_OK,
       Event.give,
       Event.take true,
       Event.transmit SpiBus.xSharedSpiHandle [0, 0] HAL_StatusTypeDef.HAL_OK,
       Event.give,
       Event.take true,
       Event.receive SpiBus.xSharedSpiHandle 2 HAL_StatusTypeDef.HAL_OK,
       Event.give,
       Event.csHigh CsLine.FRAM_CS] ∧
    lockedFrames false false (MB85RS256_Read refEnv 0 2 refIdle).ev = false := by
  refine ⟨fun σ E s held => ⟨?_, ?_, ?_⟩, by decide, by decide⟩
  · rw [ev_MX25_WREN, ev_flashWrite]
    rw [lockedFrames_csLow, lockedFrames_xfer_frame E MX25_FLASH _ rfl, Bool.and_false]
  · simp only [MB85RS256_WREN]
    rw [ev_framSendCommand]
    rw [lockedFrames_csLow, lockedFrames_xfer_frame E MB85_FRAM _ rfl, Bool.and_false]
  · have h : (LIS3DSH_ReadID E s).ev =
        (accelRead E LIS3DSH_WHO_AM_I_REGISTER_ADDR LIS3DSH_REGISTER_LEN s).ev := by
      simp only [LIS3DSH_ReadID, ev_bind, run_ite, ev_ite, ev_pure]
      split_ifs <;> simp
    rw [h, ev_accelRead]
    rw [lockedFrames_csLow, lockedFrames_xfer_frame E LIS3DSH_ACCEL _ rfl, Bool.and_false]

/-- Claim C4 (the code breaks it at one address). For every address above `FLASH_SIZE`
the three operations return `FLASH_ADDRESS_INVALID` and cause no event at all. At the
address `FLASH_SIZE` itself, which is outside the device, the check `>` lets the call
through: none of the three returns `FLASH_ADDRESS_INVALID`, each asserts chip select, and
in the reference world `MX25_READ` reports success after a bus transfer. -/
theorem address_check_off_by_one :
    (∀ (σ : Type) (E : Env σ) (s : σ) (k n fuel : Nat) (d : List Nat),
      ((MX25_READ E (FLASH_SIZE + 1 + k) n s).val.1 = flashReturnMsg_t.FLASH_ADDRESS_INVALID ∧
        (MX25_READ E (FLASH_SIZE + 1 + k) n s).ev = []) ∧
      ((MX25_SE E fuel (FLASH_SIZE + 1 + k) s).val = some flashReturnMsg_t.FLASH_ADDRESS_INVALID ∧
        (MX25_SE E fuel (FLASH_SIZE + 1 + k) s).ev = []) ∧
      ((MX25_PP E fuel (FLASH_SIZE + 1 + k) d n s).val = some flashReturnMsg_t.FLASH_ADDRESS_INVALID ∧
        (MX25_PP E fuel (FLASH_SIZE + 1 + k) d n s).ev = [])) ∧
    (∀ (σ : Type) (E : Env σ) (s : σ) (n fuel : Nat) (d : List Nat),
      ((MX25_READ E FLASH_SIZE n s).val.1 ≠ flashReturnMsg_t.FLASH_ADDRESS_INVALID ∧
        Event.csLow CsLine.FLASH_CS ∈ (MX25_READ E FLASH_SIZE n s).ev) ∧
      ((MX25_SE E fuel FLASH_SIZE s).val ≠ some flashReturnMsg_t.FLASH_ADDRESS_INVALID ∧
        Event.csLow CsLine.FLASH_CS ∈ (MX25_SE E fuel FLASH_SIZE s).ev) ∧
      ((MX25_PP E fuel FLASH_SIZE d n s).val ≠ some flashReturnMsg_t.FLASH_ADDRESS_INVALID ∧
        Event.csLow CsLine.FLASH_CS ∈ (MX25_PP E fuel FLASH_SIZE d n s).ev)) ∧
    (MX25_READ refEnv 0x200000 4 refIdle).val =
      (flashReturnMsg_t.FLASH_OPERATION_SUCCESS, some [0xFF, 0xFF, 0xFF, 0xFF]) ∧
    noTransfer (MX25_READ refEnv 0x200000 4 refIdle).ev = false := by
  refine ⟨?_, ?_, by decide, by decide⟩
  · intro σ E s k n fuel d
    have hk : FLASH_SIZE + 1 + k > FLASH_SIZE := by omega
    refine ⟨?_, ?_, ?_⟩
    · simp [MX25_READ, hk]
    · simp [MX25_SE, MX25_SE_issue, hk]
    · simp [MX25_PP, MX25_PP_issue, hk]
  · intro σ E s n fuel d
    have hA : ¬ FLASH_SIZE > FLASH_SIZE := by omega
    refine ⟨⟨?_, ?_⟩, ⟨?_, ?_⟩, ⟨?_, ?_⟩⟩
    · simp only [MX25_READ, hA, if_false, val_bind, st_bind, run_ite, val_ite, val_pure]
      split_ifs <;> simp
    · simp [MX25_READ, hA, flashChipSelectLow, ev_flashIs4Byte]
    · simp only [MX25_SE, val_bind]
      exact val_wait_tail E fuel _ _ _ (val_MX25_SE_issue_valid E _ s hA)
    · simp [MX25_SE, MX25_SE_issue, hA, ev_flashIsBusy]
    · simp only [MX25_PP, val_bind]
      exact val_wait_tail E fuel _ _ _ (val_MX25_PP_issue_valid E _ d n s hA)
    · simp [MX25_PP, MX25_PP_issue, hA, ev_flashIsBusy]

end C1C4

section C6
variable {σ : Type}

theorem frames_flashIsBusy (E : Env σ) (s : σ) :
    frames (flashIsBusy E s).ev =
      [(SPI_Transfer E MX25_FLASH [FLASH_CMD_RDSR] 1 1
        (E.HAL_GPIO_WritePin CsLine.FLASH_CS false s)).ev] := by
  rw [ev_flashIsBusy, ev_flashRead]
  have h := framesFrom_frame CsLine.FLASH_CS CsLine.FLASH_CS
    (SPI_Transfer E MX25_FLASH [FLASH_CMD_RDSR] 1 1
      (E.HAL_GPIO_WritePin CsLine.FLASH_CS false s)).ev [] (quiet_SPI_Transfer _ _ _ _ _ _)
  simpa [frames, U8] using h

/-- Claim C6. For `MX25_SE` and `MX25_PP` with a valid address and for `MX25_CE`: when the
status read at the start of the operation shows the write-in-progress bit (`flashIsBusy`
returns true), the operation returns `FLASH_IS_BUSY` and its whole trace is the trace of
that one status read, a single frame carrying the 0x05 transfer. Nothing else is issued:
no write-enable, no command, no address, no data, no further poll, and the world is left
as the status read left it. -/
theorem busy_device_returns_without_further_transfer (E : Env σ) (s : σ) (fuel : Nat)
    (flashAddress byteLength : Nat) (sourceAddress : List Nat)
    (hvalid : flashAddress < FLASH_SIZE) (hbusy : (flashIsBusy E s).val = true) :
    ((MX25_SE E fuel flashAddress s).val = some flashReturnMsg_t.FLASH_IS_BUSY ∧
      (MX25_SE E fuel flashAddress s).ev = (flashIsBusy E s).ev ∧
      (MX25_SE E fuel flashAddress s).st = (flashIsBusy E s).st) ∧
    ((MX25_CE E fuel s).val = some flashReturnMsg_t.FLASH_IS_BUSY ∧
      (MX25_CE E fuel s).ev = (flashIsBusy E s).ev ∧
      (MX25_CE E fuel s).st = (flashIsBusy E s).st) ∧
    ((MX25_PP E fuel flashAddress sourceAddress byteLength s).val =
        some flashReturnMsg_t.FLASH_IS_BUSY ∧
      (MX25_PP E fuel flashAddress sourceAddress byteLength s).ev = (flashIsBusy E s).ev ∧
      (MX25_PP E fuel flashAddress sourceAddress byteLength s).st = (flashIsBusy E s).st) ∧
    frames (flashIsBusy E s).ev =
      [(SPI_Transfer E MX25_FLASH [FLASH_CMD_RDSR] 1 1
        (E.HAL_GPIO_WritePin CsLine.FLASH_CS false s)).ev] := by
  have hA : ¬ flashAddress > FLASH_SIZE := by omega
  refine ⟨?_, ?_, ?_, frames_flashIsBusy E s⟩
  · simp [MX25_SE, MX25_SE_issue, hA, hbusy]
  · simp [MX25_CE, MX25_CE_issue, hbusy]
  · simp [MX25_PP, MX25_PP_issue, hA, hbusy]

/-- Witness for claim C6: the reference flash in the middle of an erase (5 ticks left). -/
theorem busy_device_returns_without_further_transfer_witness :
    (0x1000 < FLASH_SIZE ∧
      (flashIsBusy refEnv { refIdle with flashBusy := 5 }).val = true) ∧
    (MX25_SE refEnv 10 0x1000 { refIdle with flashBusy := 5 }).val =
      some flashReturnMsg_t.FLASH_IS_BUSY :=
  ⟨⟨by decide, by decide⟩,
    (busy_device_returns_without_further_transfer refEnv { refIdle with flashBusy := 5 } 10
      0x1000 3 [1, 2, 3] (by decide) (by decide)).1.1⟩

end C6

section C7
variable {σ : Type}

theorem ev_xfer_cmd_ok (E : Env σ) (device : SpiDevice_t) (bus : SpiBus)
    (hd : spiHandleOf device = some bus) (c : Nat) (s : σ)
    (h : (SPI_Transfer E device [c] 1 0 s).val.1 = true) :
    (SPI_Transfer E device [c] 1 0 s).ev =
      [Event.take true, Event.transmit bus [c] HAL_StatusTypeDef.HAL_OK, Event.give] := by
  revert h
  simp only [SPI_Transfer, hd, U16, spiMutexAcquire, spiMutexRelease, HAL_SPI_Transmit, ev_bind,
    val_bind, st_bind, run_ite, ev_ite, val_ite, st_ite, ev_pure, val_pure, st_pure]
  by_cases h1 : (E.xSemaphoreTake s).1 = true
  · by_cases h2 : (E.HAL_SPI_Transmit bus [c] (E.xSemaphoreTake s).2).1 =
        HAL_StatusTypeDef.HAL_OK
    · simp [h1, h2]
    · simp [h1, h2]
  · simp [h1]

theorem attempt_xfer_cmd (E : Env σ) (c : Nat) (s : σ) :
    isCommandAttempt c (SPI_Transfer E MB85_FRAM [c] 1 0 s).ev = true := by
  have hd : spiHandleOf MB85_FRAM = some SpiBus.xSharedSpiHandle := rfl
  simp only [SPI_Transfer, hd, U16, spiMutexAcquire, spiMutexRelease, HAL_SPI_Transmit, ev_bind,
    val_bind, st_bind, run_ite, ev_ite, val_ite, st_ite, ev_pure, val_pure, st_pure]
  by_cases h1 : (E.xSemaphoreTake s).1 = true
  · simp [h1, isCommandAttempt]
  · simp [h1, isCommandAttempt]

theorem shape_MB85RS256_Write (E : Env σ) (A n : Nat) (D : List Nat) (s : σ)
    (hwren : (MB85RS256_WREN E s).val = true) :
    ∃ body s2, quiet body = true ∧
      (MB85RS256_Write E A D n s).ev = (MB85RS256_WREN E s).ev ++
        Event.csLow CsLine.FRAM_CS :: (body ++
          Event.csHigh CsLine.FRAM_CS :: (MB85RS256_WRDI E s2).ev) ∧
      (MB85RS256_Write E A D n s).val = (MB85RS256_WRDI E s2).val := by
  simp only [MB85RS256_Write, hwren, framChipSelectLow, framChipSelectHigh, ev_bind, val_bind,
    st_bind, run_ite, ev_ite, val_ite, st_ite, ev_pure, val_pure, st_pure, ev_writeCs,
    st_writeCs, Bool.not_true, Bool.false_eq_true, if_false]
  by_cases h1 : (SPI_Transfer E MB85_FRAM [FRAM_OPCODE_WRITE] 1 0
      (E.HAL_GPIO_WritePin CsLine.FRAM_CS false (MB85RS256_WREN E s).st)).val.1 = true
  · by_cases h2 : (SPI_Transfer E MB85_FRAM (framAddrBytes A) FRAM_ADDRESS_LENGTH_IN_BYTES 0
        (SPI_Transfer E MB85_FRAM [FRAM_OPCODE_WRITE] 1 0
          (E.HAL_GPIO_WritePin CsLine.FRAM_CS false (MB85RS256_WREN E s).st)).st).val.1 = true
    · simp only [h1, h2, if_true]
      refine ⟨_ ++ (_ ++ _), _, ?_, by simp; rfl, rfl⟩
      simp [quiet_append, quiet_SPI_Transfer]
    · simp only [h1, h2, if_true, if_false]
      refine ⟨_ ++ _, _, ?_, by simp; rfl, rfl⟩
      simp [quiet_append, quiet_SPI_Transfer]
  · simp only [h1, if_false]
    exact ⟨(SPI_Transfer E MB85_FRAM [FRAM_OPCODE_WRITE] 1 0
      (E.HAL_GPIO_WritePin CsLine.FRAM_CS false (MB85RS256_WREN E s).st)).ev, _,
      quiet_SPI_Transfer _ _ _ _ _ _, by simp, rfl⟩

end C7

section RefLemmas

theorem ref_flashRead (w : RefWorld) (hc : RefClean w) (c : Nat) :
    flashRead refEnv [c] 1 1 w =
      ⟨(true, some [refFlashReply { w with flashSel := true, flashIn := [c], flashOut := 0 } 0 % U8]),
       refFlashCommit { w with flashSel := true, flashIn := [c], flashOut := 1 },
       [Event.csLow CsLine.FLASH_CS, Event.take true,
        Event.transmit SpiBus.xSharedSpiHandle [c] HAL_StatusTypeDef.HAL_OK,
        Event.receive SpiBus.xSharedSpiHandle 1 HAL_StatusTypeDef.HAL_OK,
        Event.give, Event.csHigh CsLine.FLASH_CS]⟩ := by
  obtain ⟨tick, halFaults, mutexFaults, garbage, flashSel, flashIn, flashOut, flashMem, flashWel,
    flashBusy, flashHang, flashAddr4, flashTprog, flashTerase, flashTchip, framSel, framIn,
    framOut, framMem, framWel, accelSel, accelIn, accelOut, accelReg⟩ := w
  obtain ⟨h1, h2, h3, h4, h5, h6, h7, h8⟩ := hc
  simp only at h1 h2 h3 h4 h5 h6 h7 h8
  subst h1 h2 h3 h4 h5 h6 h7 h8
  rfl

theorem ref_commit_status (w : RefWorld) (hc : RefClean w) :
    refFlashCommit { w with flashSel := true, flashIn := [FLASH_CMD_RDSR], flashOut := 1 } = w := by
  obtain ⟨tick, halFaults, mutexFaults, garbage, flashSel, flashIn, flashOut, flashMem, flashWel,
    flashBusy, flashHang, flashAddr4, flashTprog, flashTerase, flashTchip, framSel, framIn,
    framOut, framMem, framWel, accelSel, accelIn, accelOut, accelReg⟩ := w
  obtain ⟨h1, h2, h3, h4, h5, h6, h7, h8⟩ := hc
  simp only at h1 h2 h3 h4 h5 h6 h7 h8
  subst h1 h2 h3 h4 h5 h6 h7 h8
  simp [refFlashCommit, refAddrLen, FLASH_CMD_RDSR, FLASH_CMD_WREN, FLASH_CMD_PP, FLASH_CMD_SE,
    FLASH_CMD_CE]

theorem ref_flashIsBusy (w : RefWorld) (hc : RefClean w) :
    flashIsBusy refEnv w = ⟨decide (0 < w.flashBusy), w, pollEvents⟩ := by
  have hst : (flashIsBusy refEnv w).st = w := by
    simp only [flashIsBusy, MX25_RDSR, st_bind, st_readUninit, ref_flashRead w hc, run_ite,
      st_ite, st_pure, if_true, ref_commit_status w hc]
  have hev : (flashIsBusy refEnv w).ev = pollEvents := by
    rw [ev_flashIsBusy, ref_flashRead w hc]; rfl
  have hval : (flashIsBusy refEnv w).val = decide (0 < w.flashBusy) := by
    simp only [flashIsBusy, MX25_RDSR, val_bind, st_bind, st_readUninit, ref_flashRead w hc,
      run_ite, val_ite, val_pure, if_true, Option.getD_some, List.headD_cons,
      refFlashReply, refFlashStatus, FLASH_CMD_RDSR, FLASH_WIP_MASK, U8]
    by_cases hb : 0 < w.flashBusy <;> cases hw : w.flashWel <;> simp [hb, hw]
  calc flashIsBusy refEnv w
      = ⟨(flashIsBusy refEnv w).val, (flashIsBusy refEnv w).st, (flashIsBusy refEnv w).ev⟩ := rfl
    _ = _ := by rw [hst, hev, hval]

end RefLemmas

section RefFlashSteps

theorem ref_flash_send (w : RefWorld) (h : RefFlashOpen w) (bytes : List Nat) (len : Nat)
    (hl : 0 < len % U16) :
    SPI_Transfer refEnv MX25_FLASH bytes len 0 w =
      ⟨(true, none), { w with flashIn := w.flashIn ++ bytes.take (len % U16) },
       [Event.take true,
        Event.transmit SpiBus.xSharedSpiHandle (bytes.take (len % U16)) HAL_StatusTypeDef.HAL_OK,
        Event.give]⟩ := by
  obtain ⟨tick, halFaults, mutexFaults, garbage, flashSel, flashIn, flashOut, flashMem, flashWel,
    flashBusy, flashHang, flashAddr4, flashTprog, flashTerase, flashTchip, framSel, framIn,
    framOut, framMem, framWel, accelSel, accelIn, accelOut, accelReg⟩ := w
  obtain ⟨h1, h2, h3, h4⟩ := h
  simp only at h1 h2 h3 h4
  subst h1 h2 h3 h4
  have hh : spiHandleOf MX25_FLASH = some SpiBus.xSharedSpiHandle := rfl
  simp only [SPI_Transfer, hh]
  rw [if_pos hl]
  rfl

theorem ref_flash_recv (w : RefWorld) (h : RefFlashOpen w) (len : Nat) (hl : 0 < len % U16) :
    SPI_Transfer refEnv MX25_FLASH [] 0 len w =
      ⟨(true, some (recvBuf (len % U16)
          ((List.range (len % U16)).map (fun j => refFlashReply w (w.flashOut + j))))),
       { w with flashOut := w.flashOut + len % U16 },
       [Event.take true,
        Event.receive SpiBus.xSharedSpiHandle (len % U16) HAL_StatusTypeDef.HAL_OK,
        Event.give]⟩ := by
  obtain ⟨tick, halFaults, mutexFaults, garbage, flashSel, flashIn, flashOut, flashMem, flashWel,
    flashBusy, flashHang, flashAddr4, flashTprog, flashTerase, flashTchip, framSel, framIn,
    framOut, framMem, framWel, accelSel, accelIn, accelOut, accelReg⟩ := w
  obtain ⟨h1, h2, h3, h4⟩ := h
  simp only at h1 h2 h3 h4
  subst h1 h2 h3 h4
  have hh : spiHandleOf MX25_FLASH = some SpiBus.xSharedSpiHandle := rfl
  have hl2 : (len % U16 > 0) = True := eq_true hl
  simp only [SPI_Transfer, hh, hl2, if_true]
  rfl

end RefFlashSteps
section RefFlashOps

theorem ref_csLow_flash (w : RefWorld) :
    flashChipSelectLow refEnv w =
      ⟨(), { w with flashSel := true, flashIn := [], flashOut := 0 },
       [Event.csLow CsLine.FLASH_CS]⟩ := rfl

theorem ref_csHigh_flash (w : RefWorld) (h : w.flashSel = true) :
    flashChipSelectHigh refEnv w = ⟨(), refFlashCommit w, [Event.csHigh CsLine.FLASH_CS]⟩ := by
  obtain ⟨tick, halFaults, mutexFaults, garbage, flashSel, flashIn, flashOut, flashMem, flashWel,
    flashBusy, flashHang, flashAddr4, flashTprog, flashTerase, flashTchip, framSel, framIn,
    framOut, framMem, framWel, accelSel, accelIn, accelOut, accelReg⟩ := w
  simp only at h
  subst h
  rfl

theorem ref_flashSendAddr (w : RefWorld) (h : RefFlashOpen w) (A : Nat) (m : Bool) :
    flashSendAddr refEnv A m w =
      ⟨true, { w with flashIn := w.flashIn ++ flashAddrBytes A m },
       [Event.take true,
        Event.transmit SpiBus.xSharedSpiHandle (flashAddrBytes A m) HAL_StatusTypeDef.HAL_OK,
        Event.give]⟩ := by
  cases m
  · have := ref_flash_send w h (flashAddrBytes A false) 3 (by decide)
    show (SPI_Transfer refEnv MX25_FLASH (flashAddrBytes A false) 3 0 >>= fun r => pure r.1) w = _
    have e : ((SPI_Transfer refEnv MX25_FLASH (flashAddrBytes A false) 3 0 >>=
        fun r => (pure r.1 : Bus RefWorld Bool)) w) =
        ⟨(SPI_Transfer refEnv MX25_FLASH (flashAddrBytes A false) 3 0 w).val.1,
         (SPI_Transfer refEnv MX25_FLASH (flashAddrBytes A false) 3 0 w).st,
         (SPI_Transfer refEnv MX25_FLASH (flashAddrBytes A false) 3 0 w).ev ++ []⟩ := rfl
    rw [e, this]
    rfl
  · have := ref_flash_send w h (flashAddrBytes A true) 4 (by decide)
    have e : (flashSendAddr refEnv A true w) =
        ⟨(SPI_Transfer refEnv MX25_FLASH (flashAddrBytes A true) 4 0 w).val.1,
         (SPI_Transfer refEnv MX25_FLASH (flashAddrBytes A true) 4 0 w).st,
         (SPI_Transfer refEnv MX25_FLASH (flashAddrBytes A true) 4 0 w).ev ++ []⟩ := rfl
    rw [e, this]
    rfl

end RefFlashOps
section RefFlashFrames

theorem out_eta {σ α : Type} (o : Out σ α) : o = ⟨o.val, o.st, o.ev⟩ := rfl

theorem ref_flash_send1 (w : RefWorld) (h : RefFlashOpen w) (c : Nat) :
    SPI_Transfer refEnv MX25_FLASH [c] 1 0 w =
      ⟨(true, none), { w with flashIn := w.flashIn ++ [c] },
       [Event.take true,
        Event.transmit SpiBus.xSharedSpiHandle [c] HAL_StatusTypeDef.HAL_OK,
        Event.give]⟩ :=
  ref_flash_send w h [c] 1 (by decide)

theorem ref_PP_frame (w : RefWorld) (hc : RefClean w) (A : Nat) (D : List Nat) (n : Nat)
    (m : Bool) (hn : 0 < n % U16) :
    MX25_PP_frame refEnv A D n m w =
      ⟨none,
       refFlashCommit { w with flashSel := true,
                               flashIn := FLASH_CMD_PP :: (flashAddrBytes A m ++ D.take (n % U16)),
                               flashOut := 0 },
       sendFrame CsLine.FLASH_CS [[FLASH_CMD_PP], flashAddrBytes A m, D.take (n % U16)]⟩ := by
  obtain ⟨tick, halFaults, mutexFaults, garbage, flashSel, flashIn, flashOut, flashMem, flashWel,
    flashBusy, flashHang, flashAddr4, flashTprog, flashTerase, flashTchip, framSel, framIn,
    framOut, framMem, framWel, accelSel, accelIn, accelOut, accelReg⟩ := w
  obtain ⟨h1, h2, h3, h4, h5, h6, h7, h8⟩ := hc
  simp only at h1 h2 h3 h4 h5 h6 h7 h8
  subst h1 h2 h3 h4 h5 h6 h7 h8
  rw [out_eta (MX25_PP_frame refEnv A D n m _)]
  simp only [MX25_PP_frame, st_bind, val_bind, ev_bind, ref_csLow_flash, ref_flash_send1,
    ref_flashSendAddr, ref_flash_send, ref_csHigh_flash, RefFlashOpen, hn, and_self, if_true,
    run_ite, st_ite, val_ite, ev_ite, val_pure, st_pure, ev_pure, List.nil_append,
    List.cons_append, Bool.not_true, Bool.false_eq_true, if_false, sendFrame, List.map,
    List.flatten, List.append_nil, List.append_assoc]

end RefFlashFrames
section RefFlashOps2

theorem ref_commit_scur (w : RefWorld) (hc : RefClean w) :
    refFlashCommit { w with flashSel := true, flashIn := [FLASH_CMD_RDSCUR], flashOut := 1 } = w := by
  obtain ⟨tick, halFaults, mutexFaults, garbage, flashSel, flashIn, flashOut, flashMem, flashWel,
    flashBusy, flashHang, flashAddr4, flashTprog, flashTerase, flashTchip, framSel, framIn,
    framOut, framMem, framWel, accelSel, accelIn, accelOut, accelReg⟩ := w
  obtain ⟨h1, h2, h3, h4, h5, h6, h7, h8⟩ := hc
  simp only at h1 h2 h3 h4 h5 h6 h7 h8
  subst h1 h2 h3 h4 h5 h6 h7 h8
  simp [refFlashCommit, refAddrLen, FLASH_CMD_RDSCUR, FLASH_CMD_WREN, FLASH_CMD_PP, FLASH_CMD_SE,
    FLASH_CMD_CE]

theorem ref_flashIs4Byte (w : RefWorld) (hc : RefClean w) :
    flashIs4Byte refEnv w = ⟨w.flashAddr4, w, scurEvents⟩ := by
  have hst : (flashIs4Byte refEnv w).st = w := by
    simp only [flashIs4Byte, MX25_RDSCUR, st_bind, st_readUninit, ref_flashRead w hc, run_ite,
      st_ite, st_pure, if_true, ref_commit_scur w hc]
  have hev : (flashIs4Byte refEnv w).ev = scurEvents := by
    rw [ev_flashIs4Byte, ref_flashRead w hc]; rfl
  have hval : (flashIs4Byte refEnv w).val = w.flashAddr4 := by
    simp only [flashIs4Byte, MX25_RDSCUR, val_bind, st_bind, st_readUninit, ref_flashRead w hc,
      run_ite, val_ite, val_pure, if_true, Option.getD_some, List.headD_cons,
      refFlashReply, refFlashStatus, FLASH_CMD_RDSR, FLASH_CMD_RDSCUR, FLASH_4BYTE_MASK, U8]
    cases hw : w.flashAddr4 <;> simp
  calc flashIs4Byte refEnv w
      = ⟨(flashIs4Byte refEnv w).val, (flashIs4Byte refEnv w).st, (flashIs4Byte refEnv w).ev⟩ := rfl
    _ = _ := by rw [hst, hev, hval]

theorem one_mod_U8 : 1 % U8 = 1 := rfl

theorem ref_commit_wren (w : RefWorld) (hc : RefClean w) (hb : w.flashBusy = 0) :
    refFlashCommit { w with flashSel := true, flashIn := [FLASH_CMD_WREN], flashOut := 0 } =
      { w with flashWel := true } := by
  obtain ⟨tick, halFaults, mutexFaults, garbage, flashSel, flashIn, flashOut, flashMem, flashWel,
    flashBusy, flashHang, flashAddr4, flashTprog, flashTerase, flashTchip, framSel, framIn,
    framOut, framMem, framWel, accelSel, accelIn, accelOut, accelReg⟩ := w
  obtain ⟨h1, h2, h3, h4, h5, h6, h7, h8⟩ := hc
  simp only at h1 h2 h3 h4 h5 h6 h7 h8 hb
  subst h1 h2 h3 h4 h5 h6 h7 h8 hb
  simp [refFlashCommit, FLASH_CMD_WREN]

theorem ref_MX25_WREN (w : RefWorld) (hc : RefClean w) (hb : w.flashBusy = 0) :
    MX25_WREN refEnv w =
      ⟨FLASH_OPERATION_SUCCESS, { w with flashWel := true },
       sendFrame CsLine.FLASH_CS [[FLASH_CMD_WREN]]⟩ := by
  rw [← ref_commit_wren w hc hb]
  obtain ⟨tick, halFaults, mutexFaults, garbage, flashSel, flashIn, flashOut, flashMem, flashWel,
    flashBusy, flashHang, flashAddr4, flashTprog, flashTerase, flashTchip, framSel, framIn,
    framOut, framMem, framWel, accelSel, accelIn, accelOut, accelReg⟩ := w
  obtain ⟨h1, h2, h3, h4, h5, h6, h7, h8⟩ := hc
  simp only at h1 h2 h3 h4 h5 h6 h7 h8 hb
  subst h1 h2 h3 h4 h5 h6 h7 h8 hb
  rw [out_eta (MX25_WREN refEnv _)]
  simp only [MX25_WREN, flashWrite, st_bind, val_bind, ev_bind, ref_csLow_flash, one_mod_U8,
    ref_flash_send1, ref_csHigh_flash, RefFlashOpen, and_self, if_true,
    run_ite, st_ite, val_ite, ev_ite, val_pure, st_pure, ev_pure, List.nil_append,
    List.cons_append, sendFrame, List.map, List.flatten, List.append_nil, List.append_assoc]

theorem beValue_flashAddrBytes (A : Nat) (m : Bool) (h : A < 16777216) :
    beValue (flashAddrBytes A m) = A := by
  cases m <;> simp only [flashAddrBytes, beValue, List.foldl, U8, if_true, if_false,
    Bool.false_eq_true] <;> omega

theorem length_flashAddrBytes (A : Nat) (m : Bool) :
    (flashAddrBytes A m).length = if m then 4 else 3 := by
  cases m <;> rfl

end RefFlashOps2
section RefFlashProgram

theorem ref_commit_PP (w : RefWorld) (hc : RefClean w) (hb : w.flashBusy = 0)
    (hw : w.flashWel = true) (A : Nat) (D : List Nat) (hD : D ≠ []) :
    refFlashCommit { w with flashSel := true,
                            flashIn := FLASH_CMD_PP :: (flashAddrBytes A w.flashAddr4 ++ D),
                            flashOut := 0 } =
      { w with flashMem := refProgram w.flashMem
                 (beValue (flashAddrBytes A w.flashAddr4) % FLASH_SIZE) D,
               flashWel := false, flashBusy := w.flashTprog } := by
  obtain ⟨tick, halFaults, mutexFaults, garbage, flashSel, flashIn, flashOut, flashMem, flashWel,
    flashBusy, flashHang, flashAddr4, flashTprog, flashTerase, flashTchip, framSel, framIn,
    framOut, framMem, framWel, accelSel, accelIn, accelOut, accelReg⟩ := w
  obtain ⟨h1, h2, h3, h4, h5, h6, h7, h8⟩ := hc
  simp only at h1 h2 h3 h4 h5 h6 h7 h8 hb hw
  subst h1 h2 h3 h4 h5 h6 h7 h8 hb hw
  have hl : 0 < D.length := List.length_pos.mpr hD
  cases flashAddr4 <;>
    simp [refFlashCommit, refAddrLen, flashAddrBytes, FLASH_CMD_PP, FLASH_CMD_WREN, hl]

theorem ref_PP_issue (w : RefWorld) (hc : RefClean w) (hb : w.flashBusy = 0) (A : Nat)
    (hA : A ≤ FLASH_SIZE) (D : List Nat) (n : Nat) (hn : 0 < n % U16)
    (hD : D.take (n % U16) ≠ []) :
    MX25_PP_issue refEnv A D n w =
      ⟨none,
       { w with flashMem := refProgram w.flashMem (A % FLASH_SIZE) (D.take (n % U16)),
                flashWel := false, flashBusy := w.flashTprog },
       pollEvents ++ (scurEvents ++ (sendFrame CsLine.FLASH_CS [[FLASH_CMD_WREN]] ++
         sendFrame CsLine.FLASH_CS
           [[FLASH_CMD_PP], flashAddrBytes A w.flashAddr4, D.take (n % U16)]))⟩ := by
  have hA2 : ¬ A > FLASH_SIZE := by omega
  have hA3 : A < 16777216 := by simp only [FLASH_SIZE] at hA; omega
  have hcw : RefClean { w with flashWel := true } := hc
  have hcommit := ref_commit_PP { w with flashWel := true } hcw hb rfl A (D.take (n % U16)) hD
  rw [beValue_flashAddrBytes A _ hA3] at hcommit
  simp only at hcommit
  rw [out_eta (MX25_PP_issue refEnv A D n w), MX25_PP_issue_eq]
  have hbusy : decide (0 < w.flashBusy) = false := by simp [hb]
  simp only [run_ite, hA2, if_false, st_bind, val_bind, ev_bind, ref_flashIsBusy w hc, hbusy,
    Bool.false_eq_true, ref_flashIs4Byte w hc,
    ref_MX25_WREN w hc hb, ne_eq, not_true_eq_false, ref_PP_frame _ hcw, hn, hcommit,
    st_ite, val_ite, ev_ite, val_pure, st_pure, ev_pure]

end RefFlashProgram
section RefFlashWait

theorem elapsed_within (t tick0 T : Nat) (h0 : tick0 ≤ t) (h1 : t - tick0 ≤ T) (h2 : T < U32) :
    ¬ ((t % U32 + U32 - tick0 % U32) % U32 > T) := by
  simp only [U32] at *
  omega

theorem ref_waitLoop_step (w : RefWorld) (hc : RefClean w) (hb : 0 < w.flashBusy)
    (tick0 T f : Nat) (h0 : tick0 ≤ w.tick) (h1 : w.tick + 1 - tick0 ≤ T) (h2 : T < U32) :
    flashWaitLoop refEnv (tick0 % U32) T (f + 1) w =
      ⟨(flashWaitLoop refEnv (tick0 % U32) T f (refDelay 1 w)).val,
       (flashWaitLoop refEnv (tick0 % U32) T f (refDelay 1 w)).st,
       pollEvents ++ Event.delay 1 :: (flashWaitLoop refEnv (tick0 % U32) T f (refDelay 1 w)).ev⟩ := by
  have hbusy : decide (0 < w.flashBusy) = true := by simp [hb]
  have hel := elapsed_within (w.tick + 1) tick0 T (by omega) h1 h2
  have hp : refEnv.pdMS_TO_TICKS 1 % U32 = 1 := rfl
  have hd : refEnv.vTaskDelay 1 w = refDelay 1 w := rfl
  have ht : refEnv.xTaskGetTickCount (refDelay 1 w) = w.tick + 1 := rfl
  rw [out_eta (flashWaitLoop refEnv (tick0 % U32) T (f + 1) w)]
  simp only [flashWaitLoop, st_bind, val_bind, ev_bind, ref_flashIsBusy w hc, hbusy, if_true,
    run_ite, st_ite, val_ite, ev_ite, hp, hd, ht, st_vTaskDelay, ev_vTaskDelay,
    val_xTaskGetTickCount, st_xTaskGetTickCount, ev_xTaskGetTickCount, hel, if_false,
    List.nil_append, List.singleton_append]

theorem ref_waitLoop (b : Nat) : ∀ (w : RefWorld) (fuel tick0 T : Nat), RefClean w →
    w.flashHang = false → w.flashBusy = b → b < fuel → tick0 ≤ w.tick →
    w.tick + b - tick0 ≤ T → T < U32 →
    flashWaitLoop refEnv (tick0 % U32) T fuel w =
      ⟨some true, { w with tick := w.tick + b, flashBusy := 0 }, refWaitEvents b⟩ := by
  induction b with
  | zero =>
    intro w fuel tick0 T hc hh hb hf h0 h1 h2
    obtain ⟨f, rfl⟩ : ∃ f, fuel = f + 1 := ⟨fuel - 1, by omega⟩
    have hbusy : decide (0 < w.flashBusy) = false := by simp [hb]
    rw [out_eta (flashWaitLoop refEnv (tick0 % U32) T (f + 1) w)]
    simp only [flashWaitLoop, st_bind, val_bind, ev_bind, ref_flashIsBusy w hc, hbusy,
      Bool.false_eq_true, if_false, run_ite, st_pure, val_pure, ev_pure, List.append_nil,
      refWaitEvents, Nat.add_zero]
    obtain ⟨tick, halFaults, mutexFaults, garbage, flashSel, flashIn, flashOut, flashMem,
      flashWel, flashBusy, flashHang, flashAddr4, flashTprog, flashTerase, flashTchip, framSel,
      framIn, framOut, framMem, framWel, accelSel, accelIn, accelOut, accelReg⟩ := w
    simp only at hb
    subst hb
    rfl
  | succ b ih =>
    intro w fuel tick0 T hc hh hb hf h0 h1 h2
    obtain ⟨f, rfl⟩ : ∃ f, fuel = f + 1 := ⟨fuel - 1, by omega⟩
    have hc2 : RefClean (refDelay 1 w) := hc
    have hh2 : (refDelay 1 w).flashHang = false := hh
    have hb2 : (refDelay 1 w).flashBusy = b := by
      simp only [refDelay, hh, Bool.false_eq_true, if_false, hb]
      omega
    have ht2 : (refDelay 1 w).tick = w.tick + 1 := rfl
    rw [ref_waitLoop_step w hc (by omega) tick0 T f h0 (by omega) h2,
      ih (refDelay 1 w) f tick0 T hc2 hh2 hb2 (by omega) (by omega) (by omega) h2]
    obtain ⟨tick, halFaults, mutexFaults, garbage, flashSel, flashIn, flashOut, flashMem,
      flashWel, flashBusy, flashHang, flashAddr4, flashTprog, flashTerase, flashTchip, framSel,
      framIn, framOut, framMem, framWel, accelSel, accelIn, accelOut, accelReg⟩ := w
    simp only [refDelay, refWaitEvents, Nat.add_assoc, Nat.add_comm 1 b]

theorem ref_flashWaitTillReady (w : RefWorld) (hc : RefClean w) (hh : w.flashHang = false)
    (fuel t : Nat) (hf : w.flashBusy < fuel) (ht : w.flashBusy ≤ t) (ht2 : t < U32) :
    flashWaitTillReady refEnv fuel t w =
      ⟨some true, { w with tick := w.tick + w.flashBusy, flashBusy := 0 },
       refWaitEvents w.flashBusy⟩ := by
  have hT : refEnv.pdMS_TO_TICKS t % U32 = t := Nat.mod_eq_of_lt ht2
  have hx : refEnv.xTaskGetTickCount w = w.tick := rfl
  rw [out_eta (flashWaitTillReady refEnv fuel t w)]
  simp only [flashWaitTillReady, st_bind, val_bind, ev_bind, val_xTaskGetTickCount,
    st_xTaskGetTickCount, ev_xTaskGetTickCount, hT, hx, List.nil_append,
    ref_waitLoop w.flashBusy w fuel w.tick t hc hh rfl hf (Nat.le_refl _) (by omega) ht2]

end RefFlashWait
section RefFlashRead

theorem ref_MX25_PP (w : RefWorld) (hc : RefClean w) (hb : w.flashBusy = 0)
    (hh : w.flashHang = false) (ht : w.flashTprog ≤ PAGE_PROGRAM_CYCLE_TIME) (A : Nat)
    (hA : A ≤ FLASH_SIZE) (D : List Nat) (n : Nat) (hn : 0 < n % U16)
    (hD : D.take (n % U16) ≠ []) (fuel : Nat) (hf : w.flashTprog < fuel) :
    MX25_PP refEnv fuel A D n w =
      ⟨some FLASH_OPERATION_SUCCESS,
       { w with tick := w.tick + w.flashTprog,
                flashMem := refProgram w.flashMem (A % FLASH_SIZE) (D.take (n % U16)),
                flashWel := false, flashBusy := 0 },
       (pollEvents ++ (scurEvents ++ (sendFrame CsLine.FLASH_CS [[FLASH_CMD_WREN]] ++
         sendFrame CsLine.FLASH_CS
           [[FLASH_CMD_PP], flashAddrBytes A w.flashAddr4, D.take (n % U16)]))) ++
         refWaitEvents w.flashTprog⟩ := by
  have hc2 : RefClean { w with
      flashMem := refProgram w.flashMem (A % FLASH_SIZE) (D.take (n % U16)),
      flashWel := false, flashBusy := w.flashTprog } := hc
  have hw := ref_flashWaitTillReady _ hc2 hh fuel PAGE_PROGRAM_CYCLE_TIME hf ht (by decide)
  simp only at hw
  rw [out_eta (MX25_PP refEnv fuel A D n w)]
  simp only [MX25_PP, st_bind, val_bind, ev_bind, ref_PP_issue w hc hb A hA D n hn hD, hw,
    val_pure, st_pure, ev_pure, waitMsg, Option.map_some', if_true, List.append_nil]

theorem ref_commit_read (w : RefWorld) (hc : RefClean w) (rest : List Nat) (k : Nat) :
    refFlashCommit { w with flashSel := true, flashIn := FLASH_CMD_READ :: rest, flashOut := k } =
      w := by
  obtain ⟨tick, halFaults, mutexFaults, garbage, flashSel, flashIn, flashOut, flashMem, flashWel,
    flashBusy, flashHang, flashAddr4, flashTprog, flashTerase, flashTchip, framSel, framIn,
    framOut, framMem, framWel, accelSel, accelIn, accelOut, accelReg⟩ := w
  obtain ⟨h1, h2, h3, h4, h5, h6, h7, h8⟩ := hc
  simp only at h1 h2 h3 h4 h5 h6 h7 h8
  subst h1 h2 h3 h4 h5 h6 h7 h8
  simp [refFlashCommit, refAddrLen, FLASH_CMD_READ, FLASH_CMD_WREN, FLASH_CMD_PP, FLASH_CMD_SE,
    FLASH_CMD_CE]

theorem ref_reply_read (w : RefWorld) (A : Nat) (hA : A < 16777216) (sel : Bool) (k i : Nat) :
    refFlashReply { w with flashSel := sel,
                           flashIn := FLASH_CMD_READ :: flashAddrBytes A w.flashAddr4,
                           flashOut := k } i = w.flashMem ((A + i) % FLASH_SIZE) := by
  have hv := beValue_flashAddrBytes A w.flashAddr4 hA
  have hl := length_flashAddrBytes A w.flashAddr4
  simp only [refFlashReply, refAddrLen, hv, hl, FLASH_CMD_READ, FLASH_CMD_RDSR, FLASH_CMD_RDSCUR,
    FLASH_CMD_RDID]
  cases w.flashAddr4 <;> simp [flashAddrBytes]

theorem ref_MX25_READ (w : RefWorld) (hc : RefClean w) (A : Nat) (hA : A ≤ FLASH_SIZE)
    (n : Nat) (hn : 0 < n % U16) :
    MX25_READ refEnv A n w =
      ⟨(FLASH_OPERATION_SUCCESS,
        some (recvBuf (n % U16)
          ((List.range (n % U16)).map (fun j => w.flashMem ((A + j) % FLASH_SIZE))))),
       w,
       scurEvents ++ readFrame FLASH_CMD_READ (flashAddrBytes A w.flashAddr4) (n % U16)⟩ := by
  have hA2 : ¬ A > FLASH_SIZE := by omega
  have hA3 : A < 16777216 := by simp only [FLASH_SIZE] at hA; omega
  have hcommit := ref_commit_read w hc (flashAddrBytes A w.flashAddr4) (n % U16)
  have hreply := ref_reply_read w A hA3 true 0
  obtain ⟨h1, h2, h3, h4, h5, h6, h7, h8⟩ := hc
  simp only [h1, h2, h6] at hcommit hreply
  rw [out_eta (MX25_READ refEnv A n w)]
  simp only [MX25_READ, run_ite, hA2, if_false, st_bind, val_bind, ev_bind,
    ref_flashIs4Byte w ⟨h1, h2, h3, h4, h5, h6, h7, h8⟩, ref_csLow_flash, ref_flash_send1,
    ref_flashSendAddr, ref_flash_recv, ref_csHigh_flash, RefFlashOpen, h1, h2, h6, hn,
    and_self, if_true, st_ite, val_ite, ev_ite, val_pure, st_pure, ev_pure, List.nil_append,
    List.cons_append, List.append_nil, List.append_assoc, hcommit, hreply, Nat.zero_add,
    readFrame]

end RefFlashRead
section RefFlashData

theorem and_byte (d : Nat) (h : d < 256) : 255 &&& d = d := by
  rw [Nat.and_comm]
  have := Nat.and_pow_two_sub_one_eq_mod d 8
  simp only [Nat.reducePow, Nat.reduceSub] at this
  rw [this]; exact Nat.mod_eq_of_lt h

theorem recvBuf_eq (D : List Nat) (f : Nat → Nat) (h : ∀ j, j < D.length → f j = D.getD j 0)
    (hbytes : ∀ d ∈ D, d < U8) :
    recvBuf D.length ((List.range D.length).map f) = D := by
  apply List.ext_getElem
  · simp [recvBuf]
  · intro i h1 h2
    have hi : i < D.length := h2
    have hd : D[i] < U8 := hbytes _ (List.getElem_mem _)
    simp only [recvBuf, List.getElem_map, List.getElem_range, List.getD_eq_getElem?_getD,
      List.getElem?_map, List.getElem?_range hi, Option.map_some', Option.getD_some]
    rw [h i hi, List.getD_eq_getElem?_getD, List.getElem?_eq_getElem hi, Option.getD_some]
    exact Nat.mod_eq_of_lt hd

theorem refProgram_read (mem : Nat → Nat) (A : Nat) (D : List Nat) (hA : A < FLASH_SIZE)
    (hpage : A % 256 + D.length ≤ 256) (hbytes : ∀ d ∈ D, d < U8)
    (herased : ∀ i, i < D.length → mem (A + i) = 0xFF) (j : Nat) (hj : j < D.length) :
    refProgram mem (A % FLASH_SIZE) D ((A + j) % FLASH_SIZE) = D.getD j 0 := by
  have e1 : A % FLASH_SIZE = A := Nat.mod_eq_of_lt hA
  have e2 : (A + j) % FLASH_SIZE = A + j := by
    apply Nat.mod_eq_of_lt
    simp only [FLASH_SIZE] at *
    omega
  have e3 : D.length - 256 = 0 := by omega
  have e4 : (A + j) / 256 = A / 256 := by omega
  have e5 : ((A + j) % 256 + 256 - (A % 256 + 0) % 256) % 256 = j := by omega
  have hd : D[j] < 256 := hbytes _ (List.getElem_mem _)
  simp only [refProgram, e1, e2, e3, e4, e5, List.drop_zero, hj, and_self, if_true,
    herased j hj, List.getD_eq_getElem?_getD, List.getElem?_eq_getElem hj, Option.getD_some]
  exact and_byte _ hd

end RefFlashData

section RefFlashEmpty

theorem ref_flash_idle (w : RefWorld) (h : RefFlashOpen w) :
    SPI_Transfer refEnv MX25_FLASH [] 0 0 w =
      ⟨(true, none), w, [Event.take true, Event.give]⟩ := by
  obtain ⟨tick, halFaults, mutexFaults, garbage, flashSel, flashIn, flashOut, flashMem, flashWel,
    flashBusy, flashHang, flashAddr4, flashTprog, flashTerase, flashTchip, framSel, framIn,
    framOut, framMem, framWel, accelSel, accelIn, accelOut, accelReg⟩ := w
  obtain ⟨h1, h2, h3, h4⟩ := h
  simp only at h1 h2 h3 h4
  subst h1 h2 h3 h4
  rfl

theorem ref_commit_PP_empty (w : RefWorld) (hc : RefClean w) (A : Nat) :
    refFlashCommit { w with flashSel := true,
                            flashIn := FLASH_CMD_PP :: flashAddrBytes A w.flashAddr4,
                            flashOut := 0 } = w := by
  obtain ⟨tick, halFaults, mutexFaults, garbage, flashSel, flashIn, flashOut, flashMem, flashWel,
    flashBusy, flashHang, flashAddr4, flashTprog, flashTerase, flashTchip, framSel, framIn,
    framOut, framMem, framWel, accelSel, accelIn, accelOut, accelReg⟩ := w
  obtain ⟨h1, h2, h3, h4, h5, h6, h7, h8⟩ := hc
  simp only at h1 h2 h3 h4 h5 h6 h7 h8
  subst h1 h2 h3 h4 h5 h6 h7 h8
  cases flashAddr4 <;>
    simp [refFlashCommit, refAddrLen, flashAddrBytes, FLASH_CMD_PP, FLASH_CMD_WREN, FLASH_CMD_SE,
      FLASH_CMD_CE]

theorem ref_PP_frame_empty (w : RefWorld) (hc : RefClean w) (A : Nat) :
    MX25_PP_frame refEnv A [] 0 w.flashAddr4 w =
      ⟨none, w, emptyProgramFrame (flashAddrBytes A w.flashAddr4)⟩ := by
  have hcommit := ref_commit_PP_empty w hc A
  obtain ⟨h1, h2, h3, h4, h5, h6, h7, h8⟩ := hc
  simp only [h1, h2, h6] at hcommit
  rw [out_eta (MX25_PP_frame refEnv A [] 0 w.flashAddr4 w)]
  simp only [MX25_PP_frame, st_bind, val_bind, ev_bind, ref_csLow_flash, ref_flash_send1,
    ref_flashSendAddr, ref_flash_idle, ref_csHigh_flash, RefFlashOpen, h1, h2, h6, and_self,
    if_true, run_ite, st_ite, val_ite, ev_ite, val_pure, st_pure, ev_pure, List.nil_append,
    List.cons_append, Bool.not_true, Bool.false_eq_true, if_false, List.append_nil,
    List.append_assoc, hcommit, emptyProgramFrame]

theorem ref_MX25_PP_empty (w : RefWorld) (hc : RefClean w) (hb : w.flashBusy = 0)
    (A : Nat) (hA : A ≤ FLASH_SIZE) (fuel : Nat) (hf : 0 < fuel) :
    MX25_PP refEnv fuel A [] 0 w =
      ⟨some FLASH_OPERATION_SUCCESS, { w with flashWel := true },
       (pollEvents ++ (scurEvents ++ (sendFrame CsLine.FLASH_CS [[FLASH_CMD_WREN]] ++
         emptyProgramFrame (flashAddrBytes A w.flashAddr4)))) ++ pollEvents⟩ := by
  have hA2 : ¬ A > FLASH_SIZE := by omega
  have hcw : RefClean { w with flashWel := true } := hc
  have hfr := ref_PP_frame_empty { w with flashWel := true } hcw A
  have hbusy : decide (0 < w.flashBusy) = false := by simp [hb]
  have hbusy2 : decide (0 < ({ w with flashWel := true } : RefWorld).flashBusy) = false := hbusy
  obtain ⟨f, rfl⟩ : ∃ f, fuel = f + 1 := ⟨fuel - 1, by omega⟩
  simp only at hfr
  rw [out_eta (MX25_PP refEnv (f + 1) A [] 0 w), MX25_PP, MX25_PP_issue_eq]
  simp only [run_ite, hA2, if_false, st_bind, val_bind, ev_bind, ref_flashIsBusy w hc, hbusy,
    Bool.false_eq_true, ref_flashIs4Byte w hc, ref_MX25_WREN w hc hb, ne_eq, not_true_eq_false,
    hfr, st_ite, val_ite, ev_ite, val_pure, st_pure, ev_pure, flashWaitTillReady, flashWaitLoop,
    val_xTaskGetTickCount, st_xTaskGetTickCount, ev_xTaskGetTickCount,
    ref_flashIsBusy _ hcw, hbusy2, waitMsg, Option.map_some', if_true, List.append_nil,
    List.nil_append]

theorem ref_MX25_READ_empty (w : RefWorld) (hc : RefClean w) (A : Nat) (hA : A ≤ FLASH_SIZE) :
    MX25_READ refEnv A 0 w =
      ⟨(FLASH_OPERATION_SUCCESS, none), w,
       scurEvents ++ emptyReadFrame (flashAddrBytes A w.flashAddr4)⟩ := by
  have hA2 : ¬ A > FLASH_SIZE := by omega
  have hcommit := ref_commit_read w hc (flashAddrBytes A w.flashAddr4) 0
  obtain ⟨h1, h2, h3, h4, h5, h6, h7, h8⟩ := hc
  simp only [h1, h2, h6] at hcommit
  rw [out_eta (MX25_READ refEnv A 0 w)]
  simp only [MX25_READ, run_ite, hA2, if_false, st_bind, val_bind, ev_bind,
    ref_flashIs4Byte w ⟨h1, h2, h3, h4, h5, h6, h7, h8⟩, ref_csLow_flash, ref_flash_send1,
    ref_flashSendAddr, ref_flash_idle, ref_csHigh_flash, RefFlashOpen, h1, h2, h6,
    and_self, if_true, st_ite, val_ite, ev_ite, val_pure, st_pure, ev_pure, List.nil_append,
    List.cons_append, List.append_nil, List.append_assoc, hcommit, emptyReadFrame]

end RefFlashEmpty
section C8

/-- Claim C8: against the reference flash with no transfer failures, a device that is idle
and programs a page within the datasheet time, an address `A` below `FLASH_SIZE`, a payload
`D` of bytes that stays inside the page of `A`, and an erased target range, `MX25_PP(A, D,
|D|)` returns `FLASH_OPERATION_SUCCESS` once the fuel covers the program time, the following
`MX25_READ(A, buf, |D|)` returns `FLASH_OPERATION_SUCCESS` and stores exactly `D` (nothing
is stored for an empty payload), the program frame carries the opcode, the address bytes of
`A` and then `D`, and the read frame carries the opcode and the same address bytes. -/
theorem flash_program_read_round_trip (w : RefWorld) (A : Nat) (D : List Nat) (fuel : Nat)
    (hc : RefClean w) (hb : w.flashBusy = 0) (hh : w.flashHang = false)
    (ht : w.flashTprog ≤ PAGE_PROGRAM_CYCLE_TIME) (hf : w.flashTprog < fuel)
    (hA : A < FLASH_SIZE) (hpage : A % 256 + D.length ≤ 256) (hbytes : ∀ d ∈ D, d < U8)
    (herased : ∀ i, i < D.length → w.flashMem (A + i) = 0xFF) :
    (MX25_PP refEnv fuel A D D.length w).val = some FLASH_OPERATION_SUCCESS ∧
    (MX25_READ refEnv A D.length (MX25_PP refEnv fuel A D D.length w).st).val =
      (FLASH_OPERATION_SUCCESS, if D = [] then none else some D) ∧
    FLASH_CMD_PP :: (flashAddrBytes A w.flashAddr4 ++ D) ∈
      (frames (MX25_PP refEnv fuel A D D.length w).ev).map sentBytes ∧
    FLASH_CMD_READ :: flashAddrBytes A w.flashAddr4 ∈
      (frames (MX25_READ refEnv A D.length
        (MX25_PP refEnv fuel A D D.length w).st).ev).map sentBytes := by
  have hA1 : A ≤ FLASH_SIZE := Nat.le_of_lt hA
  by_cases hD : D = []
  · subst hD
    have hcw : RefClean { w with flashWel := true } := hc
    have hp := ref_MX25_PP_empty w hc hb A hA1 fuel (by omega)
    have hr := ref_MX25_READ_empty _ hcw A hA1
    simp only [List.length_nil, hp, hr, if_true, List.append_nil]
    refine ⟨trivial, trivial, ?_, ?_⟩
    · simp [frames, framesFrom, pollEvents, scurEvents, sendFrame, emptyProgramFrame, sentBytes]
    · simp [frames, framesFrom, scurEvents, emptyReadFrame, sentBytes]
  · have hlen : 0 < D.length := List.length_pos.mpr hD
    have hmod : D.length % U16 = D.length := Nat.mod_eq_of_lt (by simp only [U16]; omega)
    have htake : D.take (D.length % U16) = D := by rw [hmod, List.take_length]
    have hp := ref_MX25_PP w hc hb hh ht A hA1 D D.length (by omega) (by rw [htake]; exact hD)
      fuel hf
    rw [htake] at hp
    have hc2 : RefClean { w with
        tick := w.tick + w.flashTprog,
        flashMem := refProgram w.flashMem (A % FLASH_SIZE) D,
        flashWel := false, flashBusy := 0 } := hc
    have hr := ref_MX25_READ _ hc2 A hA1 D.length (by omega)
    rw [hmod] at hr
    simp only at hr
    have hbuf := recvBuf_eq D
      (fun j => refProgram w.flashMem (A % FLASH_SIZE) D ((A + j) % FLASH_SIZE))
      (fun j hj => refProgram_read w.flashMem A D hA hpage hbytes herased j hj) hbytes
    simp only [hp, hr, hbuf, hD, if_false]
    refine ⟨trivial, trivial, ?_, ?_⟩
    · simp [frames, framesFrom, pollEvents, scurEvents, sendFrame, sentBytes]
    · simp [frames, framesFrom, scurEvents, readFrame, sentBytes]

/-- Witness for claim C8: three bytes programmed at 0x1000 of the erased reference flash. -/
theorem flash_program_read_round_trip_witness :
    (MX25_PP refEnv 2 0x1000 [0x12, 0x34, 0x56] 3 refIdle).val =
      some flashReturnMsg_t.FLASH_OPERATION_SUCCESS ∧
    (MX25_READ refEnv 0x1000 3 (MX25_PP refEnv 2 0x1000 [0x12, 0x34, 0x56] 3 refIdle).st).val =
      (flashReturnMsg_t.FLASH_OPERATION_SUCCESS, some [0x12, 0x34, 0x56]) :=
  have h := flash_program_read_round_trip refIdle 0x1000 [0x12, 0x34, 0x56] 2
    ⟨rfl, rfl, rfl, rfl, rfl, rfl, rfl, rfl⟩ rfl rfl (by decide) (by decide) (by decide)
    (by decide) (by decide) (fun _ _ => rfl)
  ⟨h.1, h.2.1⟩

end C8

section RefFramSteps

theorem ref_fram_send (w : RefWorld) (h : RefFramOpen w) (bytes : List Nat) (len : Nat)
    (hl : 0 < len % U16) :
    SPI_Transfer refEnv MB85_FRAM bytes len 0 w =
      ⟨(true, none), { w with framIn := w.framIn ++ bytes.take (len % U16) },
       [Event.take true,
        Event.transmit SpiBus.xSharedSpiHandle (bytes.take (len % U16)) HAL_StatusTypeDef.HAL_OK,
        Event.give]⟩ := by
  obtain ⟨tick, halFaults, mutexFaults, garbage, flashSel, flashIn, flashOut, flashMem, flashWel,
    flashBusy, flashHang, flashAddr4, flashTprog, flashTerase, flashTchip, framSel, framIn,
    framOut, framMem, framWel, accelSel, accelIn, accelOut, accelReg⟩ := w
  obtain ⟨h1, h2, h3, h4⟩ := h
  simp only at h1 h2 h3 h4
  subst h1 h2 h3 h4
  have hh : spiHandleOf MB85_FRAM = some SpiBus.xSharedSpiHandle := rfl
  simp only [SPI_Transfer, hh]
  rw [if_pos hl]
  rfl

theorem ref_fram_send1 (w : RefWorld) (h : RefFramOpen w) (c : Nat) :
    SPI_Transfer refEnv MB85_FRAM [c] 1 0 w =
      ⟨(true, none), { w with framIn := w.framIn ++ [c] },
       [Event.take true,
        Event.transmit SpiBus.xSharedSpiHandle [c] HAL_StatusTypeDef.HAL_OK,
        Event.give]⟩ :=
  ref_fram_send w h [c] 1 (by decide)

theorem ref_fram_addr (w : RefWorld) (h : RefFramOpen w) (A : Nat) :
    SPI_Transfer refEnv MB85_FRAM (framAddrBytes A) 2 0 w =
      ⟨(true, none), { w with framIn := w.framIn ++ framAddrBytes A },
       [Event.take true,
        Event.transmit SpiBus.xSharedSpiHandle (framAddrBytes A) HAL_StatusTypeDef.HAL_OK,
        Event.give]⟩ :=
  ref_fram_send w h (framAddrBytes A) 2 (by decide)

theorem ref_fram_recv (w : RefWorld) (h : RefFramOpen w) (len : Nat) (hl : 0 < len % U16) :
    SPI_Transfer refEnv MB85_FRAM [] 0 len w =
      ⟨(true, some (recvBuf (len % U16)
          ((List.range (len % U16)).map (fun j => refFramReply w (w.framOut + j))))),
       { w with framOut := w.framOut + len % U16 },
       [Event.take true,
        Event.receive SpiBus.xSharedSpiHandle (len % U16) HAL_StatusTypeDef.HAL_OK,
        Event.give]⟩ := by
  obtain ⟨tick, halFaults, mutexFaults, garbage, flashSel, flashIn, flashOut, flashMem, flashWel,
    flashBusy, flashHang, flashAddr4, flashTprog, flashTerase, flashTchip, framSel, framIn,
    framOut, framMem, framWel, accelSel, accelIn, accelOut, accelReg⟩ := w
  obtain ⟨h1, h2, h3, h4⟩ := h
  simp only at h1 h2 h3 h4
  subst h1 h2 h3 h4
  have hh : spiHandleOf MB85_FRAM = some SpiBus.xSharedSpiHandle := rfl
  have hl2 : (len % U16 > 0) = True := eq_true hl
  simp only [SPI_Transfer, hh, hl2, if_true]
  rfl

theorem ref_fram_idle (w : RefWorld) (h : RefFramOpen w) (bytes : List Nat) :
    SPI_Transfer refEnv MB85_FRAM bytes 0 0 w =
      ⟨(true, none), w, [Event.take true, Event.give]⟩ := by
  obtain ⟨tick, halFaults, mutexFaults, garbage, flashSel, flashIn, flashOut, flashMem, flashWel,
    flashBusy, flashHang, flashAddr4, flashTprog, flashTerase, flashTchip, framSel, framIn,
    framOut, framMem, framWel, accelSel, accelIn, accelOut, accelReg⟩ := w
  obtain ⟨h1, h2, h3, h4⟩ := h
  simp only at h1 h2 h3 h4
  subst h1 h2 h3 h4
  rfl

theorem ref_csLow_fram (w : RefWorld) :
    framChipSelectLow refEnv w =
      ⟨(), { w with framSel := true, framIn := [], framOut := 0 },
       [Event.csLow CsLine.FRAM_CS]⟩ := rfl

theorem ref_csHigh_fram (w : RefWorld) (h : w.framSel = true) :
    framChipSelectHigh refEnv w = ⟨(), refFramCommit w, [Event.csHigh CsLine.FRAM_CS]⟩ := by
  obtain ⟨tick, halFaults, mutexFaults, garbage, flashSel, flashIn, flashOut, flashMem, flashWel,
    flashBusy, flashHang, flashAddr4, flashTprog, flashTerase, flashTchip, framSel, framIn,
    framOut, framMem, framWel, accelSel, accelIn, accelOut, accelReg⟩ := w
  simp only at h
  subst h
  rfl

theorem ref_commit_fram_wren (w : RefWorld) (hc : RefClean w) :
    refFramCommit { w with framSel := true, framIn := [FRAM_OPCODE_WREN], framOut := 0 } =
      { w with framWel := true } := by
  obtain ⟨tick, halFaults, mutexFaults, garbage, flashSel, flashIn, flashOut, flashMem, flashWel,
    flashBusy, flashHang, flashAddr4, flashTprog, flashTerase, flashTchip, framSel, framIn,
    framOut, framMem, framWel, accelSel, accelIn, accelOut, accelReg⟩ := w
  obtain ⟨h1, h2, h3, h4, h5, h6, h7, h8⟩ := hc
  simp only at h1 h2 h3 h4 h5 h6 h7 h8
  subst h1 h2 h3 h4 h5 h6 h7 h8
  simp [refFramCommit, FRAM_OPCODE_WREN]

theorem ref_commit_fram_wrdi (w : RefWorld) (hc : RefClean w) :
    refFramCommit { w with framSel := true, framIn := [FRAM_OPCODE_WRDI], framOut := 0 } =
      { w with framWel := false } := by
  obtain ⟨tick, halFaults, mutexFaults, garbage, flashSel, flashIn, flashOut, flashMem, flashWel,
    flashBusy, flashHang, flashAddr4, flashTprog, flashTerase, flashTchip, framSel, framIn,
    framOut, framMem, framWel, accelSel, accelIn, accelOut, accelReg⟩ := w
  obtain ⟨h1, h2, h3, h4, h5, h6, h7, h8⟩ := hc
  simp only at h1 h2 h3 h4 h5 h6 h7 h8
  subst h1 h2 h3 h4 h5 h6 h7 h8
  simp [refFramCommit, FRAM_OPCODE_WREN, FRAM_OPCODE_WRDI]

theorem beValue_framAddrBytes (A : Nat) (h : A < U16) : beValue (framAddrBytes A) = A := by
  simp only [framAddrBytes, beValue, List.foldl, U8, U16] at *
  omega

theorem ref_commit_fram_write (A : Nat) (D : List Nat) (w : RefWorld)
    (hin : w.framIn = FRAM_OPCODE_WRITE :: (framAddrBytes A ++ D)) (hw : w.framWel = true)
    (hA : A < U16) :
    refFramCommit w =
      { w with framSel := false, framIn := [], framOut := 0,
               framMem := refFramWrite w.framMem A D, framWel := false } := by
  have hv := beValue_framAddrBytes A hA
  obtain ⟨tick, halFaults, mutexFaults, garbage, flashSel, flashIn, flashOut, flashMem, flashWel,
    flashBusy, flashHang, flashAddr4, flashTprog, flashTerase, flashTchip, framSel, framIn,
    framOut, framMem, framWel, accelSel, accelIn, accelOut, accelReg⟩ := w
  simp only at hin hw
  subst hin hw
  have ht : List.take 2 (framAddrBytes A ++ D) = framAddrBytes A := by simp [framAddrBytes]
  have hd : List.drop 2 (framAddrBytes A ++ D) = D := by simp [framAddrBytes]
  have hl : (framAddrBytes A ++ D).length ≥ 2 := by simp [framAddrBytes]
  simp only [refFramCommit, ht, hd, hl, hv, FRAM_OPCODE_WRITE, FRAM_OPCODE_WREN,
    FRAM_OPCODE_WRDI]
  simp
  funext x
  simp [refFramWrite]

theorem ref_commit_fram_read (w : RefWorld) (hc : RefClean w) (rest : List Nat) (k : Nat) :
    refFramCommit { w with framSel := true, framIn := FRAM_OPCODE_READ :: rest, framOut := k } =
      w := by
  obtain ⟨tick, halFaults, mutexFaults, garbage, flashSel, flashIn, flashOut, flashMem, flashWel,
    flashBusy, flashHang, flashAddr4, flashTprog, flashTerase, flashTchip, framSel, framIn,
    framOut, framMem, framWel, accelSel, accelIn, accelOut, accelReg⟩ := w
  obtain ⟨h1, h2, h3, h4, h5, h6, h7, h8⟩ := hc
  simp only at h1 h2 h3 h4 h5 h6 h7 h8
  subst h1 h2 h3 h4 h5 h6 h7 h8
  simp [refFramCommit, FRAM_OPCODE_READ, FRAM_OPCODE_WREN, FRAM_OPCODE_WRDI, FRAM_OPCODE_WRITE]

theorem ref_reply_fram_read (w : RefWorld) (A : Nat) (hA : A < U16) (sel : Bool) (k i : Nat) :
    refFramReply { w with framSel := sel, framIn := FRAM_OPCODE_READ :: framAddrBytes A,
                          framOut := k } i = w.framMem ((A + i) % REF_FRAM_SIZE) := by
  have hv := beValue_framAddrBytes A hA
  simp only [refFramReply, hv, FRAM_OPCODE_READ, FRAM_OPCODE_RDSR, FRAM_OPCODE_RDID]
  simp [framAddrBytes]

end RefFramSteps
section RefFramOps

theorem fram_wren_byte : FRAM_OPCODE_WREN % U8 = FRAM_OPCODE_WREN := rfl

theorem fram_wrdi_byte : FRAM_OPCODE_WRDI % U8 = FRAM_OPCODE_WRDI := rfl

theorem ref_MB85RS256_WREN (w : RefWorld) (hc : RefClean w) :
    MB85RS256_WREN refEnv w =
      ⟨true, { w with framWel := true }, sendFrame CsLine.FRAM_CS [[FRAM_OPCODE_WREN]]⟩ := by
  have hcommit := ref_commit_fram_wren w hc
  obtain ⟨h1, h2, h3, h4, h5, h6, h7, h8⟩ := hc
  simp only [h1, h2, h3] at hcommit
  rw [out_eta (MB85RS256_WREN refEnv w)]
  simp only [MB85RS256_WREN, framSendCommand, FRAM_OP_CODE_LENGTH_IN_BYTES, fram_wren_byte,
    st_bind, val_bind, ev_bind, ref_csLow_fram, ref_fram_send1, ref_csHigh_fram, RefFramOpen,
    h1, h2, h3, and_self, val_pure, st_pure, ev_pure, List.nil_append, List.cons_append,
    sendFrame, List.map, List.flatten, List.append_nil, List.append_assoc, hcommit]

theorem ref_MB85RS256_WRDI (w : RefWorld) (hc : RefClean w) :
    MB85RS256_WRDI refEnv w =
      ⟨true, { w with framWel := false }, sendFrame CsLine.FRAM_CS [[FRAM_OPCODE_WRDI]]⟩ := by
  have hcommit := ref_commit_fram_wrdi w hc
  obtain ⟨h1, h2, h3, h4, h5, h6, h7, h8⟩ := hc
  simp only [h1, h2, h3] at hcommit
  rw [out_eta (MB85RS256_WRDI refEnv w)]
  simp only [MB85RS256_WRDI, framSendCommand, FRAM_OP_CODE_LENGTH_IN_BYTES, fram_wrdi_byte,
    st_bind, val_bind, ev_bind, ref_csLow_fram, ref_fram_send1, ref_csHigh_fram, RefFramOpen,
    h1, h2, h3, and_self, val_pure, st_pure, ev_pure, List.nil_append, List.cons_append,
    sendFrame, List.map, List.flatten, List.append_nil, List.append_assoc, hcommit]

theorem ref_framClampLength (n : Nat) (h : n ≤ REF_FRAM_SIZE) :
    framClampLength refEnv n = n := by
  have e : refEnv.FRAM_SIZE_IN_BYTES = REF_FRAM_SIZE := rfl
  simp only [framClampLength, e, REF_FRAM_SIZE, U16] at *
  have : n % 65536 = n := Nat.mod_eq_of_lt (by omega)
  rw [this, if_neg (by omega)]

theorem ref_MB85RS256_Write (w : RefWorld) (hc : RefClean w) (A : Nat) (hA : A < U16)
    (D : List Nat) (n : Nat) (hn : 0 < n) (hn2 : n ≤ REF_FRAM_SIZE) :
    MB85RS256_Write refEnv A D n w =
      ⟨true, { w with framMem := refFramWrite w.framMem A (D.take n), framWel := false },
       sendFrame CsLine.FRAM_CS [[FRAM_OPCODE_WREN]] ++
         (sendFrame CsLine.FRAM_CS [[FRAM_OPCODE_WRITE], framAddrBytes A, D.take n] ++
          sendFrame CsLine.FRAM_CS [[FRAM_OPCODE_WRDI]])⟩ := by
  have hmod : n % U16 = n := Nat.mod_eq_of_lt (by simp only [U16, REF_FRAM_SIZE] at *; omega)
  have hpos : 0 < n % U16 := by omega
  obtain ⟨tick, halFaults, mutexFaults, garbage, flashSel, flashIn, flashOut, flashMem, flashWel,
    flashBusy, flashHang, flashAddr4, flashTprog, flashTerase, flashTchip, framSel, framIn,
    framOut, framMem, framWel, accelSel, accelIn, accelOut, accelReg⟩ := w
  obtain ⟨h1, h2, h3, h4, h5, h6, h7, h8⟩ := hc
  simp only at h1 h2 h3 h4 h5 h6 h7 h8
  subst h1 h2 h3 h4 h5 h6 h7 h8
  rw [out_eta (MB85RS256_Write refEnv A D n _)]
  simp only [MB85RS256_Write, ref_framClampLength n hn2, FRAM_ADDRESS_LENGTH_IN_BYTES,
    st_bind, val_bind, ev_bind, ref_MB85RS256_WREN, ref_MB85RS256_WRDI,
    Bool.not_true, Bool.false_eq_true, if_false, run_ite, st_ite, val_ite, ev_ite,
    ref_csLow_fram, ref_fram_send1, ref_fram_addr, ref_fram_send, ref_csHigh_fram,
    RefClean, RefFramOpen, hpos, hA, and_self, if_true, val_pure,
    st_pure, ev_pure, List.nil_append, List.cons_append, List.append_nil, List.append_assoc,
    sendFrame, List.map, List.flatten]
  rw [ref_commit_fram_write A (D.take (n % U16)) _ rfl rfl hA]
  simp only [ref_MB85RS256_WRDI, RefClean, and_self, hmod]
  rfl

end RefFramOps
section RefFramOps2

theorem ref_MB85RS256_Write_empty (w : RefWorld) (hc : RefClean w) (A : Nat) (hA : A < U16) :
    MB85RS256_Write refEnv A [] 0 w =
      ⟨true, { w with framMem := refFramWrite w.framMem A [], framWel := false },
       sendFrame CsLine.FRAM_CS [[FRAM_OPCODE_WREN]] ++
         (framEmptyFrame FRAM_OPCODE_WRITE (framAddrBytes A) ++
          sendFrame CsLine.FRAM_CS [[FRAM_OPCODE_WRDI]])⟩ := by
  obtain ⟨tick, halFaults, mutexFaults, garbage, flashSel, flashIn, flashOut, flashMem, flashWel,
    flashBusy, flashHang, flashAddr4, flashTprog, flashTerase, flashTchip, framSel, framIn,
    framOut, framMem, framWel, accelSel, accelIn, accelOut, accelReg⟩ := w
  obtain ⟨h1, h2, h3, h4, h5, h6, h7, h8⟩ := hc
  simp only at h1 h2 h3 h4 h5 h6 h7 h8
  subst h1 h2 h3 h4 h5 h6 h7 h8
  rw [out_eta (MB85RS256_Write refEnv A [] 0 _)]
  simp only [MB85RS256_Write, ref_framClampLength 0 (Nat.zero_le _), FRAM_ADDRESS_LENGTH_IN_BYTES,
    st_bind, val_bind, ev_bind, ref_MB85RS256_WREN, Bool.not_true, Bool.false_eq_true, if_false,
    run_ite, st_ite, val_ite, ev_ite, ref_csLow_fram, ref_fram_send1, ref_fram_addr,
    ref_fram_idle, ref_csHigh_fram, RefClean, RefFramOpen, and_self, if_true, val_pure,
    st_pure, ev_pure, List.nil_append, List.cons_append, List.append_nil, List.append_assoc,
    sendFrame, List.map, List.flatten]
  rw [ref_commit_fram_write A [] _ rfl rfl hA]
  simp only [ref_MB85RS256_WRDI, RefClean, and_self]
  rfl

theorem ref_MB85RS256_Read (w : RefWorld) (hc : RefClean w) (A : Nat) (hA : A < U16)
    (n : Nat) (hn : 0 < n) (hn2 : n ≤ REF_FRAM_SIZE) :
    MB85RS256_Read refEnv A n w =
      ⟨(true, some (recvBuf n
          ((List.range n).map (fun j => w.framMem ((A + j) % REF_FRAM_SIZE))))),
       w, framReadFrame (framAddrBytes A) n⟩ := by
  have hmod : n % U16 = n := Nat.mod_eq_of_lt (by simp only [U16, REF_FRAM_SIZE] at *; omega)
  have hpos : 0 < n % U16 := by omega
  have hcommit := ref_commit_fram_read w hc (framAddrBytes A) (n % U16)
  have hreply := ref_reply_fram_read w A hA true 0
  obtain ⟨h1, h2, h3, h4, h5, h6, h7, h8⟩ := hc
  simp only [h1, h2, h3] at hcommit hreply
  rw [out_eta (MB85RS256_Read refEnv A n w)]
  simp only [MB85RS256_Read, ref_framClampLength n hn2, FRAM_ADDRESS_LENGTH_IN_BYTES,
    st_bind, val_bind, ev_bind, run_ite, st_ite, val_ite, ev_ite,
    ref_csLow_fram, ref_fram_send1, ref_fram_addr, ref_fram_recv, ref_csHigh_fram,
    RefFramOpen, h1, h2, h3, hpos, and_self, if_true, val_pure, st_pure, ev_pure,
    List.nil_append, List.cons_append, List.append_nil, List.append_assoc, hcommit, hreply,
    Nat.zero_add, framReadFrame]
  simp only [hmod]

theorem ref_MB85RS256_Read_empty (w : RefWorld) (hc : RefClean w) (A : Nat) :
    MB85RS256_Read refEnv A 0 w =
      ⟨(true, none), w, framEmptyFrame FRAM_OPCODE_READ (framAddrBytes A)⟩ := by
  have hcommit := ref_commit_fram_read w hc (framAddrBytes A) 0
  obtain ⟨h1, h2, h3, h4, h5, h6, h7, h8⟩ := hc
  simp only [h1, h2, h3] at hcommit
  rw [out_eta (MB85RS256_Read refEnv A 0 w)]
  simp only [MB85RS256_Read, ref_framClampLength 0 (Nat.zero_le _), FRAM_ADDRESS_LENGTH_IN_BYTES,
    st_bind, val_bind, ev_bind, run_ite, st_ite, val_ite, ev_ite,
    ref_csLow_fram, ref_fram_send1, ref_fram_addr, ref_fram_idle, ref_csHigh_fram,
    RefFramOpen, h1, h2, h3, and_self, if_true, val_pure, st_pure, ev_pure,
    List.nil_append, List.cons_append, List.append_nil, List.append_assoc, hcommit,
    framEmptyFrame]

theorem refFramWrite_read (mem : Nat → Nat) (A : Nat) (D : List Nat)
    (hcap : A + D.length ≤ REF_FRAM_SIZE) (j : Nat) (hj : j < D.length) :
    refFramWrite mem A D ((A + j) % REF_FRAM_SIZE) = D.getD j 0 := by
  have e1 : (A + j) % REF_FRAM_SIZE = A + j := Nat.mod_eq_of_lt (by omega)
  have e2 : A % REF_FRAM_SIZE = A := Nat.mod_eq_of_lt (by omega)
  have e3 : (A + j + REF_FRAM_SIZE - A) % REF_FRAM_SIZE = j := by
    have : A + j + REF_FRAM_SIZE - A = j + REF_FRAM_SIZE := by omega
    rw [this, Nat.add_mod_right]
    exact Nat.mod_eq_of_lt (by omega)
  have e4 : A + j < REF_FRAM_SIZE := by omega
  simp only [refFramWrite, e1, e2, e3, e4, hj, and_self, if_true]

end RefFramOps2

section C9

/-- Claim C9: against the reference FRAM with no transfer failures, for every address `A`
and data `D` of bytes with `A + |D|` within the capacity, `MB85RS256_Write(A, D, |D|)`
returns true and the following `MB85RS256_Read(A, buf, |D|)` returns true and stores exactly
`D` (nothing is stored for empty data). -/
theorem fram_write_read_round_trip (w : RefWorld) (A : Nat) (D : List Nat)
    (hc : RefClean w) (hcap : A + D.length ≤ REF_FRAM_SIZE) (hbytes : ∀ d ∈ D, d < U8) :
    (MB85RS256_Write refEnv A D D.length w).val = true ∧
    (MB85RS256_Read refEnv A D.length (MB85RS256_Write refEnv A D D.length w).st).val =
      (true, if D = [] then none else some D) := by
  have hA : A < U16 := by simp only [U16, REF_FRAM_SIZE] at *; omega
  by_cases hD : D = []
  · subst hD
    have hcw : RefClean { w with framMem := refFramWrite w.framMem A [], framWel := false } := hc
    have hp := ref_MB85RS256_Write_empty w hc A hA
    have hr := ref_MB85RS256_Read_empty _ hcw A
    simp only [List.length_nil, hp, hr, if_true, and_self]
  · have hlen : 0 < D.length := List.length_pos.mpr hD
    have hp := ref_MB85RS256_Write w hc A hA D D.length hlen (by omega)
    rw [List.take_length] at hp
    have hcw : RefClean { w with framMem := refFramWrite w.framMem A D, framWel := false } := hc
    have hr := ref_MB85RS256_Read _ hcw A hA D.length hlen (by omega)
    simp only at hr
    have hbuf := recvBuf_eq D (fun j => refFramWrite w.framMem A D ((A + j) % REF_FRAM_SIZE))
      (fun j hj => refFramWrite_read w.framMem A D hcap j hj) hbytes
    simp only [hp, hr, hbuf, hD, if_false, and_self]

/-- Witness for claim C9: three bytes written at the end of the reference FRAM. -/
theorem fram_write_read_round_trip_witness :
    (MB85RS256_Write refEnv 32765 [0xDE, 0xAD, 0x42] 3 refIdle).val = true ∧
    (MB85RS256_Read refEnv 32765 3
      (MB85RS256_Write refEnv 32765 [0xDE, 0xAD, 0x42] 3 refIdle).st).val =
      (true, some [0xDE, 0xAD, 0x42]) :=
  fram_write_read_round_trip refIdle 32765 [0xDE, 0xAD, 0x42]
    ⟨rfl, rfl, rfl, rfl, rfl, rfl, rfl, rfl⟩ (by decide) (by decide)

end C9

section WaitTimeout
variable {σ : Type}

theorem waitLoop_step_val (E : Env σ) (start T f : Nat) (s : σ)
    (h : (flashIsBusy E s).val = true) :
    (flashWaitLoop E start T (f + 1) s).val =
      if (E.xTaskGetTickCount (waitRound E s) % U32 + U32 - start) % U32 > T then some false
      else (flashWaitLoop E start T f (waitRound E s)).val := by
  simp only [flashWaitLoop, val_bind, st_bind, h, if_true, run_ite, val_ite, val_pure,
    st_vTaskDelay, val_xTaskGetTickCount, st_xTaskGetTickCount, waitRound]

theorem elapsed_advance (x y start T d : Nat) (hx : x < U32) (hy : y < U32)
    (hs : start < U32) (he : (x + U32 - start) % U32 ≤ T) (hT : T + d < U32)
    (ha : (y + U32 - x) % U32 ≤ d) :
    (y + U32 - start) % U32 = (x + U32 - start) % U32 + (y + U32 - x) % U32 := by
  simp only [U32] at *
  omega

theorem waitLoop_times_out (E : Env σ) (P : σ → Prop) (d : Nat) (hstuck : StuckBusy E P d)
    (start T : Nat) (hs : start < U32) (hT : T + d < U32) :
    ∀ (m : Nat) (s : σ) (fuel : Nat), P s →
      (E.xTaskGetTickCount s % U32 + U32 - start) % U32 ≤ T →
      T + 1 - (E.xTaskGetTickCount s % U32 + U32 - start) % U32 ≤ m → m ≤ fuel →
      (flashWaitLoop E start T fuel s).val = some false := by
  intro m
  induction m with
  | zero => intro s fuel _ he hm _; omega
  | succ m ih =>
    intro s fuel hP he hm hf
    obtain ⟨f, rfl⟩ : ∃ f, fuel = f + 1 := ⟨fuel - 1, by omega⟩
    obtain ⟨hb, hP2, ha1, ha2⟩ := hstuck s hP
    rw [waitLoop_step_val E start T f s hb]
    have hadv := elapsed_advance (E.xTaskGetTickCount s % U32)
      (E.xTaskGetTickCount (waitRound E s) % U32) start T d
      (Nat.mod_lt _ (by decide)) (Nat.mod_lt _ (by decide)) hs he hT ha2
    by_cases hc : (E.xTaskGetTickCount (waitRound E s) % U32 + U32 - start) % U32 > T
    · rw [if_pos hc]
    · rw [if_neg hc]
      have ha1' : 1 ≤ (E.xTaskGetTickCount (waitRound E s) % U32 + U32 -
          E.xTaskGetTickCount s % U32) % U32 := ha1
      exact ih (waitRound E s) f hP2 (by omega) (by omega) (by omega)

theorem wait_times_out (E : Env σ) (P : σ → Prop) (d : Nat) (hstuck : StuckBusy E P d)
    (t : Nat) (s : σ) (fuel : Nat) (hP : P s) (hT : E.pdMS_TO_TICKS t % U32 + d < U32)
    (hf : E.pdMS_TO_TICKS t % U32 + 1 ≤ fuel) :
    (flashWaitTillReady E fuel t s).val = some false := by
  have hx : E.xTaskGetTickCount s % U32 < U32 := Nat.mod_lt _ (by decide)
  have h0 : (E.xTaskGetTickCount s % U32 + U32 - E.xTaskGetTickCount s % U32) % U32 = 0 := by
    simp only [U32] at *
    omega
  simp only [flashWaitTillReady, val_bind, st_bind, val_xTaskGetTickCount,
    st_xTaskGetTickCount]
  exact waitLoop_times_out E P d hstuck _ _ hx hT (E.pdMS_TO_TICKS t % U32 + 1) s fuel hP
    (by omega) (by omega) hf

end WaitTimeout
section C10
variable {σ : Type}

theorem waitLoop_never (E : Env σ) (P : σ → Prop) (d : Nat) (hstuck : StuckBusy E P d)
    (start : Nat) :
    ∀ (fuel : Nat) (s : σ), P s → (flashWaitLoop E start (U32 - 1) fuel s).val = none := by
  intro fuel
  induction fuel with
  | zero => intro s _; rfl
  | succ f ih =>
    intro s hP
    obtain ⟨hb, hP2, _, _⟩ := hstuck s hP
    rw [waitLoop_step_val E start (U32 - 1) f s hb]
    have hlt : (E.xTaskGetTickCount (waitRound E s) % U32 + U32 - start) % U32 < U32 :=
      Nat.mod_lt _ (by decide)
    rw [if_neg (by omega)]
    exact ih (waitRound E s) hP2

theorem refStuck_holds : StuckBusy refEnv RefStuck 1 := by
  intro w hw
  obtain ⟨hc, hh, hb⟩ := hw
  have hbusy := ref_flashIsBusy w hc
  have hround : waitRound refEnv w = refDelay 1 w := by
    simp only [waitRound, hbusy, st_vTaskDelay]
    rfl
  have htick : refEnv.xTaskGetTickCount (refDelay 1 w) = w.tick + 1 := rfl
  have htick0 : refEnv.xTaskGetTickCount w = w.tick := rfl
  have hadv : roundAdvance refEnv w = 1 := by
    simp only [roundAdvance, hround, htick, htick0, U32]
    omega
  refine ⟨?_, ?_, ?_, ?_⟩
  · rw [hbusy]; simp [hb]
  · rw [hround]
    refine ⟨hc, hh, ?_⟩
    simp only [refDelay, hh, if_true]
    exact hb
  · omega
  · omega

/-- Claim C10, as the code has it: on a set of states where the flash reports write in
progress on every poll and every round of the wait loop (poll and one-tick delay) advances
the 32-bit tick counter by at least one and at most `d`, `flashWaitTillReady(t)` returns
false within `T + 1` polls, `T` being the timeout in ticks, provided `T + d` is below
`2 ^ 32`; and when the part of `MX25_SE`, `MX25_CE` or `MX25_PP` before the final wait goes
through and leaves the flash in such a state, the operation returns `FLASH_TIME_OUT`. -/
theorem stuck_busy_wait_times_out (E : Env σ) (P : σ → Prop) (d : Nat)
    (hstuck : StuckBusy E P d) :
    (∀ t s fuel, P s → E.pdMS_TO_TICKS t % U32 + d < U32 →
      E.pdMS_TO_TICKS t % U32 + 1 ≤ fuel →
      (flashWaitTillReady E fuel t s).val = some false) ∧
    (∀ A s fuel, (MX25_SE_issue E A s).val = none → P (MX25_SE_issue E A s).st →
      E.pdMS_TO_TICKS SECTOR_ERASE_CYCLE_TIME % U32 + d < U32 →
      E.pdMS_TO_TICKS SECTOR_ERASE_CYCLE_TIME % U32 + 1 ≤ fuel →
      (MX25_SE E fuel A s).val = some FLASH_TIME_OUT) ∧
    (∀ s fuel, (MX25_CE_issue E s).val = none → P (MX25_CE_issue E s).st →
      E.pdMS_TO_TICKS CHIP_ERASE_CYCLE_TIME % U32 + d < U32 →
      E.pdMS_TO_TICKS CHIP_ERASE_CYCLE_TIME % U32 + 1 ≤ fuel →
      (MX25_CE E fuel s).val = some FLASH_TIME_OUT) ∧
    (∀ A D n s fuel, (MX25_PP_issue E A D n s).val = none → P (MX25_PP_issue E A D n s).st →
      E.pdMS_TO_TICKS PAGE_PROGRAM_CYCLE_TIME % U32 + d < U32 →
      E.pdMS_TO_TICKS PAGE_PROGRAM_CYCLE_TIME % U32 + 1 ≤ fuel →
      (MX25_PP E fuel A D n s).val = some FLASH_TIME_OUT) := by
  refine ⟨?_, ?_, ?_, ?_⟩
  · intro t s fuel hP hT hf
    exact wait_times_out E P d hstuck t s fuel hP hT hf
  · intro A s fuel h1 hP hT hf
    have hw := wait_times_out E P d hstuck SECTOR_ERASE_CYCLE_TIME _ fuel hP hT hf
    simp only [MX25_SE, val_bind, st_bind, h1, hw, val_pure, waitMsg, Option.map_some',
      Bool.false_eq_true, if_false]
  · intro s fuel h1 hP hT hf
    have hw := wait_times_out E P d hstuck CHIP_ERASE_CYCLE_TIME _ fuel hP hT hf
    simp only [MX25_CE, val_bind, st_bind, h1, hw, val_pure, waitMsg, Option.map_some',
      Bool.false_eq_true, if_false]
  · intro A D n s fuel h1 hP hT hf
    have hw := wait_times_out E P d hstuck PAGE_PROGRAM_CYCLE_TIME _ fuel hP hT hf
    simp only [MX25_PP, val_bind, st_bind, h1, hw, val_pure, waitMsg, Option.map_some',
      Bool.false_eq_true, if_false]

/-- Witness for claim C10: the reference flash hanging in a sector erase. -/
theorem stuck_busy_wait_times_out_witness :
    (flashWaitTillReady refEnv 5 4 { refIdle with flashHang := true, flashBusy := 1 }).val =
      some false ∧
    (MX25_SE refEnv 241 0x1000 { refIdle with flashHang := true }).val =
      some flashReturnMsg_t.FLASH_TIME_OUT :=
  have h := stuck_busy_wait_times_out refEnv RefStuck 1 refStuck_holds
  ⟨h.1 4 { refIdle with flashHang := true, flashBusy := 1 } 5
      ⟨⟨rfl, rfl, rfl, rfl, rfl, rfl, rfl, rfl⟩, rfl, by decide⟩ (by decide) (by decide),
   h.2.1 0x1000 { refIdle with flashHang := true } 241 (by decide)
      ⟨⟨rfl, rfl, rfl, rfl, rfl, rfl, rfl, rfl⟩, rfl, by decide⟩ (by decide) (by decide)⟩

end C10
section C3

/-- Claim C3 fails in the code: a task in `MX25_READ` on the flash and a task in
`MB85RS256_Read` on the FRAM, every call succeeding. The flash task is preempted after its
read opcode went out and it gave the mutex back, with its chip select still low; the FRAM
task then runs its whole frame. The interleaved trace contains both traces unchanged, never
takes the mutex while it is held, and yet has the FRAM chip select asserted and FRAM bytes
moved between the assertion and the deassertion of the flash chip select. -/
theorem concurrent_frames_interleave :
    taskTrace true (interleave preemptAfterOpcode (MX25_READ refEnv 0 2 refIdle).ev
      (MB85RS256_Read refEnv 0 2 refIdle).ev) = (MX25_READ refEnv 0 2 refIdle).ev ∧
    taskTrace false (interleave preemptAfterOpcode (MX25_READ refEnv 0 2 refIdle).ev
      (MB85RS256_Read refEnv 0 2 refIdle).ev) = (MB85RS256_Read refEnv 0 2 refIdle).ev ∧
    mutexRespected none (interleave preemptAfterOpcode (MX25_READ refEnv 0 2 refIdle).ev
      (MB85RS256_Read refEnv 0 2 refIdle).ev) = true ∧
    framesExclusive none (interleave preemptAfterOpcode (MX25_READ refEnv 0 2 refIdle).ev
      (MB85RS256_Read refEnv 0 2 refIdle).ev) = false ∧
    (interleave preemptAfterOpcode (MX25_READ refEnv 0 2 refIdle).ev
      (MB85RS256_Read refEnv 0 2 refIdle).ev).take 12 =
      [(true, Event.csLow CsLine.FLASH_CS), (true, Event.take true),
       (true, Event.transmit SpiBus.xSharedSpiHandle [FLASH_CMD_RDSCUR] HAL_StatusTypeDef.HAL_OK),
       (true, Event.receive SpiBus.xSharedSpiHandle 1 HAL_StatusTypeDef.HAL_OK),
       (true, Event.give), (true, Event.csHigh CsLine.FLASH_CS),
       (true, Event.csLow CsLine.FLASH_CS), (true, Event.take true),
       (true, Event.transmit SpiBus.xSharedSpiHandle [FLASH_CMD_READ] HAL_StatusTypeDef.HAL_OK),
       (true, Event.give),
       (false, Event.csLow CsLine.FRAM_CS), (false, Event.take true)] := by
  have ha := (ref_MX25_READ refIdle ⟨rfl, rfl, rfl, rfl, rfl, rfl, rfl, rfl⟩ 0 (by decide) 2
    (by decide))
  have hb := (ref_MB85RS256_Read refIdle ⟨rfl, rfl, rfl, rfl, rfl, rfl, rfl, rfl⟩ 0 (by decide) 2
    (by decide) (by decide))
  rw [ha, hb]
  decide

end C3

section C15
variable {σ : Type}

/-- Claim C15: for every device and all lengths, when the mutex is not obtained
`SPI_Transfer` returns false and its whole trace is the one failed take, so nothing is
transmitted or received; for a device value that is none of the three enumerators it
returns false and causes no event at all, so the mutex is not even asked for. -/
theorem transfer_without_mutex_or_device (E : Env σ) (device : SpiDevice_t)
    (dataToSend : List Nat) (lengthToSend lengthToReceive : Nat) (s : σ) :
    ((device = LIS3DSH_ACCEL ∨ device = MX25_FLASH ∨ device = MB85_FRAM) →
      (E.xSemaphoreTake s).1 = false →
      (SPI_Transfer E device dataToSend lengthToSend lengthToReceive s).val = (false, none) ∧
      (SPI_Transfer E device dataToSend lengthToSend lengthToReceive s).ev =
        [Event.take false] ∧
      noTransfer (SPI_Transfer E device dataToSend lengthToSend lengthToReceive s).ev = true) ∧
    (device ≠ LIS3DSH_ACCEL → device ≠ MX25_FLASH → device ≠ MB85_FRAM →
      (SPI_Transfer E device dataToSend lengthToSend lengthToReceive s).val = (false, none) ∧
      (SPI_Transfer E device dataToSend lengthToSend lengthToReceive s).ev = [] ∧
      (SPI_Transfer E device dataToSend lengthToSend lengthToReceive s).st = s) := by
  constructor
  · intro hd ht
    have hh : ∃ bus, spiHandleOf device = some bus := by
      rcases hd with h | h | h <;> subst h
      · exact ⟨_, rfl⟩
      · exact ⟨_, rfl⟩
      · exact ⟨_, rfl⟩
    obtain ⟨bus, hb⟩ := hh
    simp [SPI_Transfer, hb, spiMutexAcquire, ht, noTransfer]
  · intro h0 h1 h2
    have hb : spiHandleOf device = none := by
      simp [spiHandleOf, h0, h1, h2]
    simp [SPI_Transfer, hb]

/-- Witness for claim C15: the reference world with the mutex held elsewhere, and the
device value 7. -/
theorem transfer_without_mutex_or_device_witness :
    (SPI_Transfer refEnv MX25_FLASH [0x9F] 1 3 { refIdle with mutexFaults := [true] }).val =
      (false, none) ∧
    (SPI_Transfer refEnv 7 [0x9F] 1 3 refIdle).ev = [] :=
  have h := transfer_without_mutex_or_device refEnv MX25_FLASH [0x9F] 1 3
    { refIdle with mutexFaults := [true] }
  have g := transfer_without_mutex_or_device refEnv 7 [0x9F] 1 3 refIdle
  ⟨(h.1 (Or.inr (Or.inl rfl)) rfl).1, (g.2 (by decide) (by decide) (by decide)).2.1⟩

end C15
section C16
variable {σ : Type}

/-- Claim C16: for a recognised device, when `SPI_Transfer` obtains the mutex its trace
starts with the take, ends with the give, and holds one take and one give, whatever the
HAL reports; it returns true exactly when the mutex was obtained and every transmit and
receive of the trace reported `HAL_OK`; after a transmit that did not report `HAL_OK` no
receive is made; and with both lengths zero and the mutex obtained the trace is the take
and the give alone and the result is true. Without the mutex nothing is given back. -/
theorem transfer_releases_mutex_once (E : Env σ) (device : SpiDevice_t) (bus : SpiBus)
    (hd : spiHandleOf device = some bus) (dataToSend : List Nat)
    (lengthToSend lengthToReceive : Nat) (s : σ) :
    ((E.xSemaphoreTake s).1 = true →
      (SPI_Transfer E device dataToSend lengthToSend lengthToReceive s).ev.head? =
        some (Event.take true) ∧
      (SPI_Transfer E device dataToSend lengthToSend lengthToReceive s).ev.getLast? =
        some Event.give ∧
      countTakes (SPI_Transfer E device dataToSend lengthToSend lengthToReceive s).ev = 1 ∧
      countGives (SPI_Transfer E device dataToSend lengthToSend lengthToReceive s).ev = 1) ∧
    ((E.xSemaphoreTake s).1 = false →
      countGives (SPI_Transfer E device dataToSend lengthToSend lengthToReceive s).ev = 0) ∧
    ((SPI_Transfer E device dataToSend lengthToSend lengthToReceive s).val.1 = true ↔
      ((E.xSemaphoreTake s).1 = true ∧
       halAllOk (SPI_Transfer E device dataToSend lengthToSend lengthToReceive s).ev = true)) ∧
    (∀ b bytes stat, Event.transmit b bytes stat ∈
        (SPI_Transfer E device dataToSend lengthToSend lengthToReceive s).ev →
      stat ≠ HAL_StatusTypeDef.HAL_OK →
      countReceives (SPI_Transfer E device dataToSend lengthToSend lengthToReceive s).ev = 0) ∧
    ((E.xSemaphoreTake s).1 = true → lengthToSend % U16 = 0 → lengthToReceive % U16 = 0 →
      (SPI_Transfer E device dataToSend lengthToSend lengthToReceive s).ev =
        [Event.take true, Event.give] ∧
      (SPI_Transfer E device dataToSend lengthToSend lengthToReceive s).val = (true, none)) := by
  simp only [SPI_Transfer, hd, spiMutexAcquire, spiMutexRelease, HAL_SPI_Transmit,
    HAL_SPI_Receive, ev_bind, val_bind, st_bind, run_ite, ev_ite, val_ite, st_ite, ev_pure,
    val_pure, st_pure]
  by_cases ht : (E.xSemaphoreTake s).1 = true
  · by_cases h1 : lengthToSend % U16 > 0
    · by_cases h2 : (E.HAL_SPI_Transmit bus (List.take (lengthToSend % U16) dataToSend)
          (E.xSemaphoreTake s).2).1 = HAL_StatusTypeDef.HAL_OK
      · by_cases h3 : lengthToReceive % U16 > 0
        · by_cases h4 : (E.HAL_SPI_Receive bus (lengthToReceive % U16)
            (E.HAL_SPI_Transmit bus (List.take (lengthToSend % U16) dataToSend)
              (E.xSemaphoreTake s).2).2).1 = HAL_StatusTypeDef.HAL_OK
          · simp [ht, h1, h2, h3, h4, countTakes, countGives, halAllOk, countReceives]
            omega
          · simp [ht, h1, h2, h3, h4, countTakes, countGives, halAllOk, countReceives]
            omega
        · simp [ht, h1, h2, h3, countTakes, countGives, halAllOk, countReceives]
          omega
      · simp [ht, h1, h2, countTakes, countGives, halAllOk, countReceives]
        omega
    · by_cases h3 : lengthToReceive % U16 > 0
      · by_cases h4 : (E.HAL_SPI_Receive bus (lengthToReceive % U16)
            (E.xSemaphoreTake s).2).1 = HAL_StatusTypeDef.HAL_OK
        · simp [ht, h1, h3, h4, countTakes, countGives, halAllOk, countReceives]
          omega
        · simp [ht, h1, h3, h4, countTakes, countGives, halAllOk, countReceives]
          omega
      · simp [ht, h1, h3, countTakes, countGives, halAllOk, countReceives]
  · simp [ht, countTakes, countGives, halAllOk, countReceives]

/-- Witness for claim C16: a transfer of length zero on the reference flash, and a transfer
to the reference FRAM whose transmit fails. -/
theorem transfer_releases_mutex_once_witness :
    (SPI_Transfer refEnv MX25_FLASH [] 0 0 refIdle).ev = [Event.take true, Event.give] ∧
    countGives (SPI_Transfer refEnv MB85_FRAM [1, 2] 2 3
      { refIdle with halFaults := [true] }).ev = 1 :=
  ⟨((transfer_releases_mutex_once refEnv MX25_FLASH SpiBus.xSharedSpiHandle rfl [] 0 0
      refIdle).2.2.2.2 rfl rfl rfl).1,
   ((transfer_releases_mutex_once refEnv MB85_FRAM SpiBus.xSharedSpiHandle rfl [1, 2] 2 3
      { refIdle with halFaults := [true] }).1 rfl).2.2.2⟩

end C16
section Conversion

end Conversion
section TransferOk
variable {σ : Type}

theorem xfer_recv_ok (E : Env σ) (device : SpiDevice_t) (b : List Nat) (l1 l2 : Nat) (s : σ)
    (h : (SPI_Transfer E device b l1 l2 s).val.1 = true) (hl : 0 < l2 % U16) :
    ∃ data, (SPI_Transfer E device b l1 l2 s).val.2 = some (recvBuf (l2 % U16) data) := by
  revert h
  unfold SPI_Transfer
  cases hd : spiHandleOf device with
  | none => simp
  | some bus =>
    simp only [spiMutexAcquire, spiMutexRelease, HAL_SPI_Transmit, HAL_SPI_Receive, ev_bind,
      val_bind, st_bind, run_ite, ev_ite, val_ite, st_ite, ev_pure, val_pure, st_pure, hl,
      if_true]
    split_ifs <;> simp_all

theorem xfer_both_ok_events (E : Env σ) (device : SpiDevice_t) (bus : SpiBus)
    (hd : spiHandleOf device = some bus) (b : List Nat) (l1 l2 : Nat) (s : σ)
    (h : (SPI_Transfer E device b l1 l2 s).val.1 = true) (h1 : 0 < l1 % U16)
    (h2 : 0 < l2 % U16) :
    (SPI_Transfer E device b l1 l2 s).ev =
      [Event.take true, Event.transmit bus (b.take (l1 % U16)) HAL_StatusTypeDef.HAL_OK,
       Event.receive bus (l2 % U16) HAL_StatusTypeDef.HAL_OK, Event.give] := by
  revert h
  simp only [SPI_Transfer, hd, spiMutexAcquire, spiMutexRelease, HAL_SPI_Transmit,
    HAL_SPI_Receive, ev_bind, val_bind, st_bind, run_ite, ev_ite, val_ite, st_ite, ev_pure,
    val_pure, st_pure, h1, h2, if_true]
  by_cases ht : (E.xSemaphoreTake s).1 = true
  · by_cases hx : (E.HAL_SPI_Transmit bus (List.take (l1 % U16) b)
        (E.xSemaphoreTake s).2).1 = HAL_StatusTypeDef.HAL_OK
    · by_cases hr : (E.HAL_SPI_Receive bus (l2 % U16)
          (E.HAL_SPI_Transmit bus (List.take (l1 % U16) b) (E.xSemaphoreTake s).2).2).1 =
          HAL_StatusTypeDef.HAL_OK
      · simp [ht, hx, hr]
      · simp [ht, hx, hr]
    · simp [ht, hx]
  · simp [ht]

theorem recvBuf_three (data : List Nat) :
    recvBuf 3 data = [data.getD 0 0 % U8, data.getD 1 0 % U8, data.getD 2 0 % U8] := rfl

theorem or_byte (a b : Nat) (hb : b < 256) : (a * 256) ||| b = a * 256 + b := by
  have h := Nat.mul_add_lt_is_or (show b < 2 ^ 8 from hb) a
  simp only [Nat.reducePow] at h
  rw [Nat.mul_comm a 256]
  exact h.symm

end TransferOk
section C12
variable {σ : Type}

theorem val_flashRead (E : Env σ) (c : Nat) (l1 l2 : Nat) (s : σ) :
    (flashRead E [c] l1 l2 s).val =
      (SPI_Transfer E MX25_FLASH [c] (l1 % U8) (l2 % U8)
        (E.HAL_GPIO_WritePin CsLine.FLASH_CS false s)).val := rfl

theorem rdid_value (b0 b1 b2 : Nat) (h0 : b0 < 256) (h1 : b1 < 256) (h2 : b2 < 256) :
    ((((b0 * 256) % U32) ||| b1) * 256) % U32 ||| b2 = b0 * 65536 + b1 * 256 + b2 := by
  have e0 : (b0 * 256) % U32 = b0 * 256 := Nat.mod_eq_of_lt (by simp only [U32]; omega)
  rw [e0, or_byte b0 b1 h1]
  have e1 : ((b0 * 256 + b1) * 256) % U32 = (b0 * 256 + b1) * 256 :=
    Nat.mod_eq_of_lt (by simp only [U32]; omega)
  rw [e1, or_byte _ b2 h2]
  omega

/-- Claim C12: `MX25_RDID` makes one frame and every transmit in it hands over the single
byte 0x9F. When the identification transfer succeeds it has a 3-byte response
`[b0, b1, b2]`, the frame is take, transmit `[0x9F]`, receive 3, give, and the function
returns `FLASH_OPERATION_SUCCESS` and stores `b0 * 65536 + b1 * 256 + b2`; when the
transfer fails it returns `FLASH_OPERATION_FAILED` and the caller's identification word
keeps its value. -/
theorem rdid_stores_identification (E : Env σ) (identification : Nat) (s : σ) :
    (∀ b0 b1 b2, (flashRead E [FLASH_CMD_RDID] 1 3 s).val = (true, some [b0, b1, b2]) →
      (MX25_RDID E identification s).val =
        (FLASH_OPERATION_SUCCESS, b0 * 65536 + b1 * 256 + b2)) ∧
    ((flashRead E [FLASH_CMD_RDID] 1 3 s).val.1 = true →
      (∃ b0 b1 b2, (flashRead E [FLASH_CMD_RDID] 1 3 s).val.2 = some [b0, b1, b2]) ∧
      frames (MX25_RDID E identification s).ev =
        [[Event.take true,
          Event.transmit SpiBus.xSharedSpiHandle [0x9F] HAL_StatusTypeDef.HAL_OK,
          Event.receive SpiBus.xSharedSpiHandle 3 HAL_StatusTypeDef.HAL_OK, Event.give]]) ∧
    ((flashRead E [FLASH_CMD_RDID] 1 3 s).val.1 = false →
      (MX25_RDID E identification s).val = (FLASH_OPERATION_FAILED, identification)) ∧
    (frames (MX25_RDID E identification s).ev).length = 1 ∧
    (∀ bus bytes stat, Event.transmit bus bytes stat ∈ (MX25_RDID E identification s).ev →
      bytes = [0x9F]) := by
  have hev : (MX25_RDID E identification s).ev = (flashRead E [FLASH_CMD_RDID] 1 3 s).ev := by
    simp only [MX25_RDID, ev_bind, run_ite, ev_ite, ev_pure]
    split_ifs <;> simp
  have hq := quiet_SPI_Transfer E MX25_FLASH [FLASH_CMD_RDID] (1 % U8) (3 % U8)
    (E.HAL_GPIO_WritePin CsLine.FLASH_CS false s)
  have hfr : frames (MX25_RDID E identification s).ev =
      [(SPI_Transfer E MX25_FLASH [FLASH_CMD_RDID] (1 % U8) (3 % U8)
        (E.HAL_GPIO_WritePin CsLine.FLASH_CS false s)).ev] := by
    rw [hev, ev_flashRead]
    simp only [frames, List.headD_cons]
    rw [framesFrom_frame _ _ _ _ hq]
    rfl
  refine ⟨?_, ?_, ?_, ?_, ?_⟩
  · intro b0 b1 b2 h
    have h1 : (flashRead E [FLASH_CMD_RDID] 1 3 s).val.1 = true := by rw [h]
    rw [val_flashRead] at h h1
    obtain ⟨data, hd⟩ := xfer_recv_ok E MX25_FLASH _ _ _ _ h1 (by decide)
    have hb : some [b0, b1, b2] = some (recvBuf 3 data) := by
      rw [h] at hd
      exact hd
    rw [recvBuf_three] at hb
    simp only [Option.some.injEq, List.cons.injEq, and_true] at hb
    obtain ⟨e0, e1, e2⟩ := hb
    have hb0 : b0 < 256 := by rw [e0]; exact Nat.mod_lt _ (by decide)
    have hb1 : b1 < 256 := by rw [e1]; exact Nat.mod_lt _ (by decide)
    have hb2 : b2 < 256 := by rw [e2]; exact Nat.mod_lt _ (by decide)
    have hv : (flashRead E [FLASH_CMD_RDID] 1 3 s).val = (true, some [b0, b1, b2]) := by
      rw [val_flashRead]; exact h
    simp only [MX25_RDID, val_bind, st_bind, run_ite, val_ite, val_pure, hv, if_true,
      Option.getD_some, List.getD_cons_zero, List.getD_cons_succ]
    rw [rdid_value b0 b1 b2 hb0 hb1 hb2]
  · intro h
    rw [val_flashRead] at h
    obtain ⟨data, hd⟩ := xfer_recv_ok E MX25_FLASH _ _ _ _ h (by decide)
    refine ⟨⟨_, _, _, by rw [val_flashRead, hd]; rfl⟩, ?_⟩
    rw [hfr, xfer_both_ok_events E MX25_FLASH _ rfl _ _ _ _ h (by decide) (by decide)]
    rfl
  · intro h
    simp only [MX25_RDID, val_bind, st_bind, run_ite, val_ite, val_pure, h,
      Bool.false_eq_true, if_false]
  · rw [hfr]; rfl
  · intro bus bytes stat hmem
    rw [hev, ev_flashRead] at hmem
    simp only [List.headD_cons, List.mem_cons, List.mem_append, List.mem_singleton,
      reduceCtorEq, false_or, or_false] at hmem
    revert hmem
    have hh : spiHandleOf MX25_FLASH = some SpiBus.xSharedSpiHandle := rfl
    simp only [SPI_Transfer, hh, spiMutexAcquire, spiMutexRelease, HAL_SPI_Transmit,
      HAL_SPI_Receive, ev_bind, val_bind, st_bind, run_ite, ev_ite, val_ite, st_ite, ev_pure,
      val_pure, st_pure]
    split_ifs <;> simp [FLASH_CMD_RDID, U8, U16] <;> intros <;> simp_all

/-- Witness for claim C12: the reference flash answers `[0xC2, 0x23, 0x15]`, which gives
`FLASH_DEVICE_ID`. -/
theorem rdid_stores_identification_witness :
    (flashRead refEnv [FLASH_CMD_RDID] 1 3 refIdle).val = (true, some [0xC2, 0x23, 0x15]) ∧
    (MX25_RDID refEnv 0 refIdle).val = (flashReturnMsg_t.FLASH_OPERATION_SUCCESS, 0xC22315) ∧
    FLASH_DEVICE_ID = 0xC22315 :=
  ⟨by decide,
   (rdid_stores_identification refEnv 0 refIdle).1 0xC2 0x23 0x15 (by decide), rfl⟩

end C12
section C13C14
variable {σ : Type}

end C13C14
section C13
variable {σ : Type}

theorem val_accelRead (E : Env σ) (reg n : Nat) (s : σ) :
    (accelRead E reg n s).val =
      (SPI_Transfer E LIS3DSH_ACCEL [(reg ||| LIS3DSH_READ_BITMASK) % U8] LIS3DSH_REGISTER_LEN
        (n % U8) (E.HAL_GPIO_WritePin CsLine.ACCEL_CS false s)).val := rfl

end C13

section C14
variable {σ : Type}

/-- Claim C14: `LIS3DSH_ReadAccelData` makes the one transfer of `accelRead` (command 0xA8,
six bytes to receive) and returns its flag; when that transfer fails the result is false
and the sample is X = Y = Z = 0, whatever the receive buffer holds. -/
theorem failed_read_zeroes_sample (E : Env σ) (s : σ) :
    (accelRead E LIS3DSH_OUT_X_L_REGISTER_ADDR ACCEL_DATA_NUM_BYTES s).val =
      (SPI_Transfer E LIS3DSH_ACCEL [0xA8] 1 6
        (E.HAL_GPIO_WritePin CsLine.ACCEL_CS false s)).val ∧
    (LIS3DSH_ReadAccelData E s).ev =
      (accelRead E LIS3DSH_OUT_X_L_REGISTER_ADDR ACCEL_DATA_NUM_BYTES s).ev ∧
    (LIS3DSH_ReadAccelData E s).val.1 =
      (accelRead E LIS3DSH_OUT_X_L_REGISTER_ADDR ACCEL_DATA_NUM_BYTES s).val.1 ∧
    ((accelRead E LIS3DSH_OUT_X_L_REGISTER_ADDR ACCEL_DATA_NUM_BYTES s).val.1 = false →
      (LIS3DSH_ReadAccelData E s).val = (false, ⟨0, 0, 0⟩)) := by
  refine ⟨rfl, ?_, ?_, ?_⟩
  · simp only [LIS3DSH_ReadAccelData, ev_bind, run_ite, ev_ite, ev_pure]
    split_ifs <;> simp
  · simp only [LIS3DSH_ReadAccelData, val_bind, st_bind, run_ite, val_ite, val_pure]
    split_ifs <;> rfl
  · intro h
    simp only [LIS3DSH_ReadAccelData, val_bind, st_bind, run_ite, val_ite, val_pure, h,
      Bool.false_eq_true, if_false]

/-- Witness for claim C14: the reference world with a receive that fails. -/
theorem failed_read_zeroes_sample_witness :
    (LIS3DSH_ReadAccelData refEnv { refIdle with halFaults := [false, true] }).val =
      (false, ⟨0, 0, 0⟩) :=
  (failed_read_zeroes_sample refEnv { refIdle with halFaults := [false, true] }).2.2.2
    (by decide)

end C14

section C11
variable {σ : Type}

theorem frames_poll_append (E : Env σ) (s : σ) (rest : List Event) :
    frames ((flashIsBusy E s).ev ++ rest) =
      (SPI_Transfer E MX25_FLASH [FLASH_CMD_RDSR] 1 1
        (E.HAL_GPIO_WritePin CsLine.FLASH_CS false s)).ev :: frames rest := by
  rw [ev_flashIsBusy, ev_flashRead]
  have h := framesFrom_frame CsLine.FLASH_CS CsLine.FLASH_CS
    (SPI_Transfer E MX25_FLASH [FLASH_CMD_RDSR] 1 1
      (E.HAL_GPIO_WritePin CsLine.FLASH_CS false s)).ev rest (quiet_SPI_Transfer _ _ _ _ _ _)
  simpa [frames, U8] using h

theorem frames_delay_cons (d : Nat) (rest : List Event) :
    frames (Event.delay d :: rest) = frames rest := by
  simp [frames, framesFrom]

theorem waitLoop_step_busy (E : Env σ) (start T f : Nat) (s : σ)
    (h : (flashIsBusy E s).val = true)
    (hin : ¬ (E.xTaskGetTickCount (waitRound E s) % U32 + U32 - start) % U32 > T) :
    flashWaitLoop E start T (f + 1) s =
      ⟨(flashWaitLoop E start T f (waitRound E s)).val,
       (flashWaitLoop E start T f (waitRound E s)).st,
       (flashIsBusy E s).ev ++ Event.delay (E.pdMS_TO_TICKS 1 % U32) ::
         (flashWaitLoop E start T f (waitRound E s)).ev⟩ := by
  have hin2 : ¬ (E.xTaskGetTickCount
      (E.vTaskDelay (E.pdMS_TO_TICKS 1 % U32) (flashIsBusy E s).st) % U32 + U32 - start) % U32
        > T := hin
  rw [out_eta (flashWaitLoop E start T (f + 1) s)]
  simp only [flashWaitLoop, val_bind, st_bind, ev_bind, h, if_true, run_ite, val_ite, st_ite,
    ev_ite, val_pure, st_pure, ev_pure, st_vTaskDelay, ev_vTaskDelay, val_xTaskGetTickCount,
    st_xTaskGetTickCount, ev_xTaskGetTickCount, hin2, if_false, List.nil_append,
    List.singleton_append]
  rfl

theorem waitLoop_step_ready (E : Env σ) (start T f : Nat) (s : σ)
    (h : (flashIsBusy E s).val = false) :
    flashWaitLoop E start T (f + 1) s =
      ⟨some true, (flashIsBusy E s).st, (flashIsBusy E s).ev⟩ := by
  rw [out_eta (flashWaitLoop E start T (f + 1) s)]
  simp only [flashWaitLoop, val_bind, st_bind, ev_bind, h, Bool.false_eq_true, if_false,
    run_ite, val_pure, st_pure, ev_pure, List.append_nil]

theorem waitLoop_ready_after (E : Env σ) (start T : Nat) :
    ∀ (k : Nat) (s : σ) (fuel : Nat),
      (∀ i, i < k → (flashIsBusy E (waitRounds E i s)).val = true) →
      (∀ i, i < k →
        (E.xTaskGetTickCount (waitRounds E (i + 1) s) % U32 + U32 - start) % U32 ≤ T) →
      (flashIsBusy E (waitRounds E k s)).val = false → k < fuel →
      (flashWaitLoop E start T fuel s).val = some true ∧
      (frames (flashWaitLoop E start T fuel s).ev).length = k + 1 ∧
      (flashWaitLoop E start T fuel s).st = (flashIsBusy E (waitRounds E k s)).st := by
  intro k
  induction k with
  | zero =>
    intro s fuel _ _ hr hf
    obtain ⟨f, rfl⟩ : ∃ f, fuel = f + 1 := ⟨fuel - 1, by omega⟩
    rw [waitLoop_step_ready E start T f s hr]
    refine ⟨rfl, ?_, rfl⟩
    rw [frames_flashIsBusy]
    rfl
  | succ k ih =>
    intro s fuel hb hin hr hf
    obtain ⟨f, rfl⟩ : ∃ f, fuel = f + 1 := ⟨fuel - 1, by omega⟩
    have hb0 : (flashIsBusy E s).val = true := hb 0 (by omega)
    have hin0 : ¬ (E.xTaskGetTickCount (waitRound E s) % U32 + U32 - start) % U32 > T := by
      have := hin 0 (by omega)
      simp only [waitRounds] at this
      omega
    rw [waitLoop_step_busy E start T f s hb0 hin0]
    obtain ⟨h1, h2, h3⟩ := ih (waitRound E s) f
      (fun i hi => hb (i + 1) (by omega)) (fun i hi => hin (i + 1) (by omega)) hr (by omega)
    refine ⟨h1, ?_, h3⟩
    simp only
    rw [frames_poll_append, frames_delay_cons, List.length_cons, h2]

end C11
section C17
variable {σ : Type}

theorem ev_MX25_PP_frame_opcode_ok (E : Env σ) (A : Nat) (D : List Nat) (n : Nat) (m : Bool)
    (s : σ)
    (h : (SPI_Transfer E MX25_FLASH [FLASH_CMD_PP] 1 0
      (E.HAL_GPIO_WritePin CsLine.FLASH_CS false s)).val.1 = true) :
    (MX25_PP_frame E A D n m s).ev =
      Event.csLow CsLine.FLASH_CS ::
        ((SPI_Transfer E MX25_FLASH [FLASH_CMD_PP] 1 0
            (E.HAL_GPIO_WritePin CsLine.FLASH_CS false s)).ev ++
          ((flashSendAddr E A m (SPI_Transfer E MX25_FLASH [FLASH_CMD_PP] 1 0
              (E.HAL_GPIO_WritePin CsLine.FLASH_CS false s)).st).ev ++
            ((SPI_Transfer E MX25_FLASH D n 0
                (flashSendAddr E A m (SPI_Transfer E MX25_FLASH [FLASH_CMD_PP] 1 0
                  (E.HAL_GPIO_WritePin CsLine.FLASH_CS false s)).st).st).ev ++
              [Event.csHigh CsLine.FLASH_CS]))) ∧
    (MX25_PP_frame E A D n m s).val =
      if (SPI_Transfer E MX25_FLASH D n 0
          (flashSendAddr E A m (SPI_Transfer E MX25_FLASH [FLASH_CMD_PP] 1 0
            (E.HAL_GPIO_WritePin CsLine.FLASH_CS false s)).st).st).val.1 = true
      then none else some FLASH_TIME_OUT := by
  constructor
  · simp only [MX25_PP_frame, flashChipSelectLow, flashChipSelectHigh, ev_bind, val_bind,
      st_bind, run_ite, ev_ite, val_ite, st_ite, ev_pure, val_pure, st_pure, ev_writeCs,
      st_writeCs, h, if_true, Bool.false_eq_true, if_false, List.append_nil,
      List.singleton_append, List.append_assoc]
    split_ifs <;> simp
  · simp only [MX25_PP_frame, flashChipSelectLow, flashChipSelectHigh, val_bind,
      st_bind, run_ite, val_ite, st_ite, val_pure, st_pure, st_writeCs, h, if_true]
    split_ifs <;> simp_all

/-- Claim C17 fails in `MX25_PP`: the result of `flashSendAddr` is dropped
(mx25v1635f.c:650), so once the opcode went out the payload transfer is made whatever the
address transfer reported, and the frame counts as sent when the payload transfer
succeeds. On the reference flash with a failing address transmit, `MX25_PP(0x1000,
{1, 2, 3, 4}, 4)` sends the payload after the failed address, returns
`FLASH_OPERATION_SUCCESS`, leaves 0x1000 erased and programs 0x010203 instead. -/
theorem program_sends_payload_after_failed_address :
    (∀ (τ : Type) (E : Env τ) (A : Nat) (D : List Nat) (n : Nat) (m : Bool) (s : τ),
      (SPI_Transfer E MX25_FLASH [FLASH_CMD_PP] 1 0
        (E.HAL_GPIO_WritePin CsLine.FLASH_CS false s)).val.1 = true →
      (flashSendAddr E A m (SPI_Transfer E MX25_FLASH [FLASH_CMD_PP] 1 0
        (E.HAL_GPIO_WritePin CsLine.FLASH_CS false s)).st).val = false →
      (MX25_PP_frame E A D n m s).ev =
        Event.csLow CsLine.FLASH_CS ::
          ((SPI_Transfer E MX25_FLASH [FLASH_CMD_PP] 1 0
              (E.HAL_GPIO_WritePin CsLine.FLASH_CS false s)).ev ++
            ((flashSendAddr E A m (SPI_Transfer E MX25_FLASH [FLASH_CMD_PP] 1 0
                (E.HAL_GPIO_WritePin CsLine.FLASH_CS false s)).st).ev ++
              ((SPI_Transfer E MX25_FLASH D n 0
                  (flashSendAddr E A m (SPI_Transfer E MX25_FLASH [FLASH_CMD_PP] 1 0
                    (E.HAL_GPIO_WritePin CsLine.FLASH_CS false s)).st).st).ev ++
                [Event.csHigh CsLine.FLASH_CS]))) ∧
      ((SPI_Transfer E MX25_FLASH D n 0
          (flashSendAddr E A m (SPI_Transfer E MX25_FLASH [FLASH_CMD_PP] 1 0
            (E.HAL_GPIO_WritePin CsLine.FLASH_CS false s)).st).st).val.1 = true →
        (MX25_PP_frame E A D n m s).val = none)) ∧
    (MX25_PP refEnv 2 0x1000 [1, 2, 3, 4] 4 refAddressFault).val =
      some FLASH_OPERATION_SUCCESS ∧
    (frames (MX25_PP refEnv 2 0x1000 [1, 2, 3, 4] 4 refAddressFault).ev).getD 3 [] =
      [Event.take true,
       Event.transmit SpiBus.xSharedSpiHandle [0x02] HAL_StatusTypeDef.HAL_OK, Event.give,
       Event.take true,
       Event.transmit SpiBus.xSharedSpiHandle [0x00, 0x10, 0x00] HAL_StatusTypeDef.HAL_ERROR,
       Event.give,
       Event.take true,
       Event.transmit SpiBus.xSharedSpiHandle [1, 2, 3, 4] HAL_StatusTypeDef.HAL_OK,
       Event.give] ∧
    (MX25_PP refEnv 2 0x1000 [1, 2, 3, 4] 4 refAddressFault).st.flashMem 0x1000 = 0xFF ∧
    (MX25_PP refEnv 2 0x1000 [1, 2, 3, 4] 4 refAddressFault).st.flashMem 0x010203 = 4 := by
  refine ⟨?_, by decide, by decide, by decide, by decide⟩
  intro τ E A D n m s h _
  obtain ⟨h1, h2⟩ := ev_MX25_PP_frame_opcode_ok E A D n m s h
  refine ⟨h1, fun hd => ?_⟩
  rw [h2, if_pos hd]

end C17

section C18
variable {σ : Type}

/-- Claim C18 fails: `MX25_READ` does not look at the result of the data receive
(mx25v1635f.c:414). For every address up to `FLASH_SIZE`, once the opcode and the address
went out the function returns `FLASH_OPERATION_SUCCESS` whatever the receive reported; on
the reference flash with a failing receive, `MX25_READ(0, buf, 4)` returns
`FLASH_OPERATION_SUCCESS` although the receive reported `HAL_ERROR`. -/
theorem read_success_despite_failed_receive :
    (∀ (τ : Type) (E : Env τ) (A n : Nat) (s : τ), A ≤ FLASH_SIZE →
      (SPI_Transfer E MX25_FLASH [FLASH_CMD_READ] 1 0
        (E.HAL_GPIO_WritePin CsLine.FLASH_CS false (flashIs4Byte E s).st)).val.1 = true →
      (flashSendAddr E A (flashIs4Byte E s).val
        (SPI_Transfer E MX25_FLASH [FLASH_CMD_READ] 1 0
          (E.HAL_GPIO_WritePin CsLine.FLASH_CS false (flashIs4Byte E s).st)).st).val = true →
      (MX25_READ E A n s).val.1 = FLASH_OPERATION_SUCCESS) ∧
    (MX25_READ refEnv 0 4 refFifthFault).val.1 = FLASH_OPERATION_SUCCESS ∧
    Event.receive SpiBus.xSharedSpiHandle 4 HAL_StatusTypeDef.HAL_ERROR ∈
      (MX25_READ refEnv 0 4 refFifthFault).ev ∧
    halAllOk (MX25_READ refEnv 0 4 refFifthFault).ev = false := by
  refine ⟨?_, by decide, by decide, by decide⟩
  intro τ E A n s hA h1 h2
  have hA2 : ¬ A > FLASH_SIZE := by omega
  simp only [MX25_READ, hA2, if_false, flashChipSelectLow, flashChipSelectHigh, val_bind,
    st_bind, run_ite, val_ite, st_ite, val_pure, st_pure, st_writeCs, h1, h2, if_true]

end C18

section C19
variable {σ : Type}

/-- Claim C19 fails: `MB85RS256_Write` overwrites the status of the write frame with the
status of `MB85RS256_WRDI` (mb85rs256.c:169). Once the write-enable frame went through, the
returned value is the status of the final write-disable frame, whatever happened in the
write frame; on the reference FRAM with a failing payload transmit,
`MB85RS256_Write(0, {1, 2, 3}, 3)` returns true and the memory is unchanged. -/
theorem fram_write_returns_write_disable_status :
    (∀ (τ : Type) (E : Env τ) (A n : Nat) (D : List Nat) (s : τ),
      (MB85RS256_WREN E s).val = true →
      ∃ body s2, quiet body = true ∧
        (MB85RS256_Write E A D n s).ev = (MB85RS256_WREN E s).ev ++
          Event.csLow CsLine.FRAM_CS :: (body ++
            Event.csHigh CsLine.FRAM_CS :: (MB85RS256_WRDI E s2).ev) ∧
        (MB85RS256_Write E A D n s).val = (MB85RS256_WRDI E s2).val) ∧
    (MB85RS256_Write refEnv 0 [1, 2, 3] 3 refFourthFault).val = true ∧
    Event.transmit SpiBus.xSharedSpiHandle [1, 2, 3] HAL_StatusTypeDef.HAL_ERROR ∈
      (MB85RS256_Write refEnv 0 [1, 2, 3] 3 refFourthFault).ev ∧
    (MB85RS256_Write refEnv 0 [1, 2, 3] 3 refFourthFault).st.framMem 0 = 0 := by
  refine ⟨?_, by decide, by decide, by decide⟩
  intro τ E A n D s h
  exact shape_MB85RS256_Write E A n D s h

end C19
section C20
variable {σ : Type}

/-- Claim C20 fails in `MX25_SE` and `MX25_PP`. When the write-enable command fails both
return `FLASH_TIME_OUT` (mx25v1635f.c:566, 637) without having sent the command or polled
the status after it, and `MX25_PP` also returns `FLASH_TIME_OUT` when the opcode transfer
of its command frame fails (mx25v1635f.c:661). On the reference flash with a failing
write-enable transmit `MX25_SE(0x1000)` and `MX25_PP(0x1000, {1, 2}, 2)` return
`FLASH_TIME_OUT`, and with a failing opcode transmit `MX25_PP` returns `FLASH_TIME_OUT`
where `MX25_SE` returns `FLASH_OPERATION_FAILED`. -/
theorem transfer_failure_reported_as_time_out :
    (∀ (τ : Type) (E : Env τ) (A fuel : Nat) (s : τ), A ≤ FLASH_SIZE →
      (flashIsBusy E s).val = false →
      (MX25_WREN E (flashIs4Byte E (flashIsBusy E s).st).st).val = FLASH_OPERATION_FAILED →
      (MX25_SE E fuel A s).val = some FLASH_TIME_OUT ∧
      (MX25_SE E fuel A s).ev = (flashIsBusy E s).ev ++
        ((flashIs4Byte E (flashIsBusy E s).st).ev ++
          (MX25_WREN E (flashIs4Byte E (flashIsBusy E s).st).st).ev)) ∧
    (∀ (τ : Type) (E : Env τ) (A fuel n : Nat) (D : List Nat) (s : τ), A ≤ FLASH_SIZE →
      (flashIsBusy E s).val = false →
      (MX25_WREN E (flashIs4Byte E (flashIsBusy E s).st).st).val = FLASH_OPERATION_FAILED →
      (MX25_PP E fuel A D n s).val = some FLASH_TIME_OUT ∧
      (MX25_PP E fuel A D n s).ev = (flashIsBusy E s).ev ++
        ((flashIs4Byte E (flashIsBusy E s).st).ev ++
          (MX25_WREN E (flashIs4Byte E (flashIsBusy E s).st).st).ev)) ∧
    (∀ (τ : Type) (E : Env τ) (A fuel n : Nat) (D : List Nat) (s : τ), A ≤ FLASH_SIZE →
      (flashIsBusy E s).val = false →
      (MX25_WREN E (flashIs4Byte E (flashIsBusy E s).st).st).val = FLASH_OPERATION_SUCCESS →
      (SPI_Transfer E MX25_FLASH [FLASH_CMD_PP] 1 0
        (E.HAL_GPIO_WritePin CsLine.FLASH_CS false
          (MX25_WREN E (flashIs4Byte E (flashIsBusy E s).st).st).st)).val.1 = false →
      (MX25_PP E fuel A D n s).val = some FLASH_TIME_OUT) ∧
    (MX25_SE refEnv 1 0x1000 refFifthFault).val = some FLASH_TIME_OUT ∧
    (MX25_PP refEnv 1 0x1000 [1, 2] 2 refFifthFault).val = some FLASH_TIME_OUT ∧
    Event.transmit SpiBus.xSharedSpiHandle [0x06] HAL_StatusTypeDef.HAL_ERROR ∈
      (MX25_SE refEnv 1 0x1000 refFifthFault).ev ∧
    sendsOp FLASH_CMD_SE (MX25_SE refEnv 1 0x1000 refFifthFault).ev = false ∧
    (MX25_PP refEnv 1 0x1000 [1, 2] 2 refSixthFault).val = some FLASH_TIME_OUT ∧
    (MX25_SE refEnv 1 0x1000 refSixthFault).val = some FLASH_OPERATION_FAILED := by
  refine ⟨?_, ?_, ?_, by decide, by decide, by decide, by decide, by decide, by decide⟩
  · intro τ E A fuel s hA hb hw
    have hA2 : ¬ A > FLASH_SIZE := by omega
    have hne : FLASH_OPERATION_FAILED ≠ FLASH_OPERATION_SUCCESS := by decide
    constructor
    · simp only [MX25_SE, MX25_SE_issue_eq, hA2, if_false, val_bind, st_bind, run_ite,
        val_ite, st_ite, val_pure, st_pure, hb, Bool.false_eq_true, hw, ne_eq, hne,
        not_false_eq_true, if_true]
    · simp only [MX25_SE, MX25_SE_issue_eq, hA2, if_false, val_bind, st_bind, ev_bind,
        run_ite, val_ite, st_ite, ev_ite, val_pure, st_pure, ev_pure, hb, Bool.false_eq_true,
        hw, ne_eq, hne, not_false_eq_true, if_true, List.append_nil]
  · intro τ E A fuel n D s hA hb hw
    have hA2 : ¬ A > FLASH_SIZE := by omega
    have hne : FLASH_OPERATION_FAILED ≠ FLASH_OPERATION_SUCCESS := by decide
    constructor
    · simp only [MX25_PP, MX25_PP_issue_eq, hA2, if_false, val_bind, st_bind, run_ite,
        val_ite, st_ite, val_pure, st_pure, hb, Bool.false_eq_true, hw, ne_eq, hne,
        not_false_eq_true, if_true]
    · simp only [MX25_PP, MX25_PP_issue_eq, hA2, if_false, val_bind, st_bind, ev_bind,
        run_ite, val_ite, st_ite, ev_ite, val_pure, st_pure, ev_pure, hb, Bool.false_eq_true,
        hw, ne_eq, hne, not_false_eq_true, if_true, List.append_nil]
  · intro τ E A fuel n D s hA hb hw hop
    have hA2 : ¬ A > FLASH_SIZE := by omega
    have hfr : (MX25_PP_frame E A D n (flashIs4Byte E (flashIsBusy E s).st).val
        (MX25_WREN E (flashIs4Byte E (flashIsBusy E s).st).st).st).val =
        some FLASH_TIME_OUT := by
      simp only [MX25_PP_frame, flashChipSelectLow, flashChipSelectHigh, val_bind, st_bind,
        run_ite, val_ite, st_ite, val_pure, st_pure, st_writeCs, hop, Bool.false_eq_true,
        if_false, Bool.not_false, if_true]
    simp only [MX25_PP, MX25_PP_issue_eq, hA2, if_false, val_bind, st_bind, run_ite,
      val_ite, st_ite, val_pure, st_pure, hb, Bool.false_eq_true, hw, ne_eq,
      not_true_eq_false, hfr]

end C20

section XferShape
variable {σ : Type}

theorem recv_mem_xfer (E : Env σ) (device : SpiDevice_t) (b : List Nat) (l1 l2 : Nat) (s : σ)
    (bus : SpiBus) (len : Nat) (stat : HAL_StatusTypeDef)
    (h : Event.receive bus len stat ∈ (SPI_Transfer E device b l1 l2 s).ev) :
    len = l2 % U16 ∧ 0 < l2 % U16 := by
  revert h
  unfold SPI_Transfer
  cases spiHandleOf device with
  | none => simp
  | some hd =>
    simp only [ev_bind, run_ite, ev_ite, ev_pure, spiMutexAcquire,
      spiMutexRelease, HAL_SPI_Transmit, HAL_SPI_Receive, val_bind, st_bind, val_ite, st_ite,
      val_pure, st_pure]
    split_ifs <;> simp <;> intros <;> simp_all

theorem xmit_mem_xfer (E : Env σ) (device : SpiDevice_t) (b : List Nat) (l1 l2 : Nat) (s : σ)
    (bus : SpiBus) (bytes : List Nat) (stat : HAL_StatusTypeDef)
    (h : Event.transmit bus bytes stat ∈ (SPI_Transfer E device b l1 l2 s).ev) :
    bytes = b.take (l1 % U16) ∧ 0 < l1 % U16 := by
  revert h
  unfold SPI_Transfer
  cases spiHandleOf device with
  | none => simp
  | some hd =>
    simp only [ev_bind, run_ite, ev_ite, ev_pure, spiMutexAcquire,
      spiMutexRelease, HAL_SPI_Transmit, HAL_SPI_Receive, val_bind, st_bind, val_ite, st_ite,
      val_pure, st_pure]
    split_ifs <;> simp <;> intros <;> simp_all

theorem recv_mem_dummy (E : Env σ) (n : Nat) (status : Bool) (s : σ)
    (bus : SpiBus) (len : Nat) (stat : HAL_StatusTypeDef) :
    Event.receive bus len stat ∉ (flashInsertDummyLoop E n status s).ev := by
  induction n generalizing status s with
  | zero => simp [flashInsertDummyLoop]
  | succ n ih =>
    simp only [flashInsertDummyLoop]
    cases status with
    | false => simp
    | true =>
      simp only [if_true, ev_bind, List.mem_append, not_or]
      refine ⟨fun h => ?_, ih _ _⟩
      have := (recv_mem_xfer E _ _ _ _ _ _ _ _ h).2
      simp at this

end XferShape

section XferShape2
variable {σ : Type}

theorem recv_mem_xfer_zero (E : Env σ) (device : SpiDevice_t) (b : List Nat) (l1 : Nat) (s : σ)
    (bus : SpiBus) (len : Nat) (stat : HAL_StatusTypeDef) :
    (Event.receive bus len stat ∈ (SPI_Transfer E device b l1 0 s).ev) = False := by
  apply eq_false
  intro h
  have := (recv_mem_xfer E _ _ _ _ _ _ _ _ h).2
  simp at this

theorem recv_mem_dummyCycle (E : Env σ) (n : Nat) (s : σ)
    (bus : SpiBus) (len : Nat) (stat : HAL_StatusTypeDef) :
    (Event.receive bus len stat ∈ (flashInsertDummyCycle E n s).ev) = False :=
  eq_false (recv_mem_dummy E _ _ _ _ _ _)

theorem recv_mem_flashSendAddr (E : Env σ) (a : Nat) (m : Bool) (s : σ)
    (bus : SpiBus) (len : Nat) (stat : HAL_StatusTypeDef) :
    (Event.receive bus len stat ∈ (flashSendAddr E a m s).ev) = False := by
  simp only [flashSendAddr, ev_bind, ev_pure, List.append_nil]
  exact recv_mem_xfer_zero E _ _ _ _ _ _ _

end XferShape2

section FrameAlgebra
variable {σ : Type}

theorem framesFrom_low (l : CsLine) (es : List Event) :
    framesFrom none (Event.csLow l :: es) = framesFrom (some []) es := rfl

theorem framesFrom_high (f : List Event) (l : CsLine) (es : List Event) :
    framesFrom (some f) (Event.csHigh l :: es) = f :: framesFrom none es := rfl

theorem framesFrom_none_nil : framesFrom none [] = [] := rfl

theorem framesFrom_xfer (f : List Event) (E : Env σ) (device : SpiDevice_t) (b : List Nat)
    (l1 l2 : Nat) (s : σ) (rest : List Event) :
    framesFrom (some f) ((SPI_Transfer E device b l1 l2 s).ev ++ rest) =
      framesFrom (some (f ++ (SPI_Transfer E device b l1 l2 s).ev)) rest :=
  framesFrom_quiet_append _ _ _ (quiet_SPI_Transfer _ _ _ _ _ _)

theorem framesFrom_sendAddr (f : List Event) (E : Env σ) (a : Nat) (m : Bool) (s : σ)
    (rest : List Event) :
    framesFrom (some f) ((flashSendAddr E a m s).ev ++ rest) =
      framesFrom (some (f ++ (flashSendAddr E a m s).ev)) rest :=
  framesFrom_quiet_append _ _ _ (quiet_flashSendAddr _ _ _ _)

theorem framesFrom_dummy (f : List Event) (E : Env σ) (n : Nat) (s : σ) (rest : List Event) :
    framesFrom (some f) ((flashInsertDummyCycle E n s).ev ++ rest) =
      framesFrom (some (f ++ (flashInsertDummyCycle E n s).ev)) rest :=
  framesFrom_quiet_append _ _ _ (quiet_flashInsertDummyCycle _ _ _)

theorem frames_MX25_READ (E : Env σ) (A n : Nat) (s : σ) (hA : A ≤ FLASH_SIZE) :
    frames (MX25_READ E A n s).ev =
      [(SPI_Transfer E MX25_FLASH [FLASH_CMD_RDSCUR] 1 1
          (E.HAL_GPIO_WritePin CsLine.FLASH_CS false s)).ev,
       (SPI_Transfer E MX25_FLASH [FLASH_CMD_READ] 1 0
          (E.HAL_GPIO_WritePin CsLine.FLASH_CS false (flashIs4Byte E s).st)).ev ++
        (if (SPI_Transfer E MX25_FLASH [FLASH_CMD_READ] 1 0
            (E.HAL_GPIO_WritePin CsLine.FLASH_CS false (flashIs4Byte E s).st)).val.1 = true then
          (flashSendAddr E A (flashIs4Byte E s).val
            (SPI_Transfer E MX25_FLASH [FLASH_CMD_READ] 1 0
              (E.HAL_GPIO_WritePin CsLine.FLASH_CS false (flashIs4Byte E s).st)).st).ev ++
          (if (flashSendAddr E A (flashIs4Byte E s).val
              (SPI_Transfer E MX25_FLASH [FLASH_CMD_READ] 1 0
                (E.HAL_GPIO_WritePin CsLine.FLASH_CS false (flashIs4Byte E s).st)).st).val = true
           then
            (SPI_Transfer E MX25_FLASH [] 0 n
              (flashSendAddr E A (flashIs4Byte E s).val
                (SPI_Transfer E MX25_FLASH [FLASH_CMD_READ] 1 0
                  (E.HAL_GPIO_WritePin CsLine.FLASH_CS false (flashIs4Byte E s).st)).st).st).ev
           else [])
         else [])] := by
  have hA2 : ¬ A > FLASH_SIZE := by omega
  simp only [MX25_READ, hA2, if_false, flashChipSelectLow, flashChipSelectHigh, ev_bind,
    val_bind, st_bind, run_ite, ev_ite, val_ite, st_ite, ev_pure, val_pure, st_pure,
    ev_writeCs, st_writeCs, ev_flashIs4Byte, ev_flashRead, List.headD_cons]
  by_cases h1 : (SPI_Transfer E MX25_FLASH [FLASH_CMD_READ] 1 0
      (E.HAL_GPIO_WritePin CsLine.FLASH_CS false (flashIs4Byte E s).st)).val.1 = true
  · by_cases h2 : (flashSendAddr E A (flashIs4Byte E s).val
        (SPI_Transfer E MX25_FLASH [FLASH_CMD_READ] 1 0
          (E.HAL_GPIO_WritePin CsLine.FLASH_CS false (flashIs4Byte E s).st)).st).val = true
    · simp only [h1, h2, if_true, frames, List.cons_append, List.append_assoc,
        List.singleton_append, List.nil_append, List.append_nil, Bool.false_eq_true, if_false,
        framesFrom_low, framesFrom_high, framesFrom_xfer, framesFrom_sendAddr,
        framesFrom_none_nil]
      rfl
    · simp only [h1, h2, if_true, frames, List.cons_append, List.append_assoc,
        List.singleton_append, List.nil_append, List.append_nil, Bool.false_eq_true, if_false,
        framesFrom_low, framesFrom_high, framesFrom_xfer, framesFrom_sendAddr,
        framesFrom_none_nil]
      rfl
  · simp only [h1, if_true, frames, List.cons_append, List.append_assoc,
      List.singleton_append, List.nil_append, List.append_nil, Bool.false_eq_true, if_false,
      framesFrom_low, framesFrom_high, framesFrom_xfer, framesFrom_sendAddr,
      framesFrom_none_nil]
    rfl

end FrameAlgebra

section FrameBlocks
variable {σ : Type}

theorem frames_block_append (l l2 : CsLine) (body rest : List Event) (hq : quiet body = true) :
    frames (Event.csLow l :: (body ++ [Event.csHigh l2]) ++ rest) = body :: frames rest := by
  simp only [frames, List.cons_append, List.append_assoc, List.singleton_append]
  exact framesFrom_frame _ _ _ _ hq

theorem frames_flashRead_append (E : Env σ) (c l1 l2 : Nat) (s : σ) (rest : List Event) :
    frames ((flashRead E [c] l1 l2 s).ev ++ rest) =
      (SPI_Transfer E MX25_FLASH [c] (l1 % U8) (l2 % U8)
        (E.HAL_GPIO_WritePin CsLine.FLASH_CS false s)).ev :: frames rest := by
  rw [ev_flashRead]
  exact frames_block_append _ _ _ _ (quiet_SPI_Transfer _ _ _ _ _ _)

theorem frames_flashWrite_append (E : Env σ) (c : List Nat) (l1 : Nat) (s : σ)
    (rest : List Event) :
    frames ((flashWrite E c l1 s).ev ++ rest) =
      (SPI_Transfer E MX25_FLASH c (l1 % U8) 0
        (E.HAL_GPIO_WritePin CsLine.FLASH_CS false s)).ev :: frames rest := by
  rw [ev_flashWrite]
  exact frames_block_append _ _ _ _ (quiet_SPI_Transfer _ _ _ _ _ _)

theorem frames_nil : frames [] = [] := rfl

theorem frames_flashRead_only (E : Env σ) (c l1 l2 : Nat) (s : σ) :
    frames (flashRead E [c] l1 l2 s).ev =
      [(SPI_Transfer E MX25_FLASH [c] (l1 % U8) (l2 % U8)
        (E.HAL_GPIO_WritePin CsLine.FLASH_CS false s)).ev] := by
  have h := frames_flashRead_append E c l1 l2 s []
  rwa [List.append_nil] at h

theorem frames_flashWrite_only (E : Env σ) (c : List Nat) (l1 : Nat) (s : σ) :
    frames (flashWrite E c l1 s).ev =
      [(SPI_Transfer E MX25_FLASH c (l1 % U8) 0
        (E.HAL_GPIO_WritePin CsLine.FLASH_CS false s)).ev] := by
  have h := frames_flashWrite_append E c l1 s []
  rwa [List.append_nil] at h

theorem frames_MX25_CE_frame (E : Env σ) (s : σ) (rest : List Event) :
    frames ((MX25_CE_frame E s).ev ++ rest) =
      (SPI_Transfer E MX25_FLASH [FLASH_CMD_CE] 1 0
        (E.HAL_GPIO_WritePin CsLine.FLASH_CS false s)).ev :: frames rest := by
  have h : (MX25_CE_frame E s).ev = Event.csLow CsLine.FLASH_CS ::
      ((SPI_Transfer E MX25_FLASH [FLASH_CMD_CE] 1 0
        (E.HAL_GPIO_WritePin CsLine.FLASH_CS false s)).ev ++ [Event.csHigh CsLine.FLASH_CS]) := by
    simp [MX25_CE_frame, flashChipSelectLow, flashChipSelectHigh]
  rw [h]
  exact frames_block_append _ _ _ _ (quiet_SPI_Transfer _ _ _ _ _ _)

theorem frames_MX25_SE_frame (E : Env σ) (A : Nat) (m : Bool) (s : σ) (rest : List Event) :
    frames ((MX25_SE_frame E A m s).ev ++ rest) =
      ((SPI_Transfer E MX25_FLASH [FLASH_CMD_SE] 1 0
          (E.HAL_GPIO_WritePin CsLine.FLASH_CS false s)).ev ++
        (if (SPI_Transfer E MX25_FLASH [FLASH_CMD_SE] 1 0
            (E.HAL_GPIO_WritePin CsLine.FLASH_CS false s)).val.1 = true then
          (flashSendAddr E A m (SPI_Transfer E MX25_FLASH [FLASH_CMD_SE] 1 0
            (E.HAL_GPIO_WritePin CsLine.FLASH_CS false s)).st).ev else [])) :: frames rest := by
  have h : (MX25_SE_frame E A m s).ev = Event.csLow CsLine.FLASH_CS ::
      (((SPI_Transfer E MX25_FLASH [FLASH_CMD_SE] 1 0
          (E.HAL_GPIO_WritePin CsLine.FLASH_CS false s)).ev ++
        (if (SPI_Transfer E MX25_FLASH [FLASH_CMD_SE] 1 0
            (E.HAL_GPIO_WritePin CsLine.FLASH_CS false s)).val.1 = true then
          (flashSendAddr E A m (SPI_Transfer E MX25_FLASH [FLASH_CMD_SE] 1 0
            (E.HAL_GPIO_WritePin CsLine.FLASH_CS false s)).st).ev else [])) ++
        [Event.csHigh CsLine.FLASH_CS]) := by
    simp [MX25_SE_frame, flashChipSelectLow, flashChipSelectHigh]
  rw [h]
  apply frames_block_append
  rw [quiet_append, quiet_SPI_Transfer, Bool.true_and]
  split_ifs
  · exact quiet_flashSendAddr _ _ _ _
  · rfl

theorem frames_MX25_PP_frame (E : Env σ) (A : Nat) (D : List Nat) (n : Nat) (m : Bool) (s : σ)
    (rest : List Event) :
    frames ((MX25_PP_frame E A D n m s).ev ++ rest) =
      ((SPI_Transfer E MX25_FLASH [FLASH_CMD_PP] 1 0
          (E.HAL_GPIO_WritePin CsLine.FLASH_CS false s)).ev ++
        (if (SPI_Transfer E MX25_FLASH [FLASH_CMD_PP] 1 0
            (E.HAL_GPIO_WritePin CsLine.FLASH_CS false s)).val.1 = true then
          (flashSendAddr E A m (SPI_Transfer E MX25_FLASH [FLASH_CMD_PP] 1 0
            (E.HAL_GPIO_WritePin CsLine.FLASH_CS false s)).st).ev ++
          (SPI_Transfer E MX25_FLASH D n 0
            (flashSendAddr E A m (SPI_Transfer E MX25_FLASH [FLASH_CMD_PP] 1 0
              (E.HAL_GPIO_WritePin CsLine.FLASH_CS false s)).st).st).ev
         else [])) :: frames rest := by
  have h : (MX25_PP_frame E A D n m s).ev = Event.csLow CsLine.FLASH_CS ::
      (((SPI_Transfer E MX25_FLASH [FLASH_CMD_PP] 1 0
          (E.HAL_GPIO_WritePin CsLine.FLASH_CS false s)).ev ++
        (if (SPI_Transfer E MX25_FLASH [FLASH_CMD_PP] 1 0
            (E.HAL_GPIO_WritePin CsLine.FLASH_CS false s)).val.1 = true then
          (flashSendAddr E A m (SPI_Transfer E MX25_FLASH [FLASH_CMD_PP] 1 0
            (E.HAL_GPIO_WritePin CsLine.FLASH_CS false s)).st).ev ++
          (SPI_Transfer E MX25_FLASH D n 0
            (flashSendAddr E A m (SPI_Transfer E MX25_FLASH [FLASH_CMD_PP] 1 0
              (E.HAL_GPIO_WritePin CsLine.FLASH_CS false s)).st).st).ev
         else [])) ++
        [Event.csHigh CsLine.FLASH_CS]) := by
    simp only [MX25_PP_frame, flashChipSelectLow, flashChipSelectHigh, ev_bind, val_bind,
      st_bind, run_ite, ev_ite, val_ite, st_ite, ev_pure, val_pure, st_pure, ev_writeCs,
      st_writeCs]
    by_cases h1 : (SPI_Transfer E MX25_FLASH [FLASH_CMD_PP] 1 0
        (E.HAL_GPIO_WritePin CsLine.FLASH_CS false s)).val.1 = true
    · simp only [h1, if_true]
      split_ifs <;> simp_all
    · simp only [h1, if_false]
      split_ifs <;> simp_all
  rw [h]
  apply frames_block_append
  rw [quiet_append, quiet_SPI_Transfer, Bool.true_and]
  split_ifs
  · rw [quiet_append, quiet_flashSendAddr, quiet_SPI_Transfer]; rfl
  · rfl

end FrameBlocks

section CmdFrames
variable {σ : Type}

theorem cmd_frame_MX25_SE (E : Env σ) (fuel A : Nat) (s : σ) (hA : A ≤ FLASH_SIZE) :
    (frames (MX25_SE E fuel A s).ev)[3]? =
      if (flashIsBusy E s).val = false ∧
          (MX25_WREN E (flashIs4Byte E (flashIsBusy E s).st).st).val =
            FLASH_OPERATION_SUCCESS then
        (frames (MX25_SE_frame E A (flashIs4Byte E (flashIsBusy E s).st).val
          (MX25_WREN E (flashIs4Byte E (flashIsBusy E s).st).st).st).ev)[0]?
      else none := by
  have hA2 : ¬ A > FLASH_SIZE := by omega
  have hf := frames_MX25_SE_frame E A (flashIs4Byte E (flashIsBusy E s).st).val
    (MX25_WREN E (flashIs4Byte E (flashIsBusy E s).st).st).st []
  rw [List.append_nil] at hf
  simp only [MX25_SE, MX25_SE_issue_eq, hA2, if_false, ev_bind, val_bind, st_bind, run_ite,
    ev_ite, val_ite, st_ite, ev_pure, val_pure, st_pure, List.append_assoc, ev_flashIsBusy,
    ev_flashIs4Byte, ev_MX25_WREN, frames_flashRead_append]
  by_cases hb : (flashIsBusy E s).val = true
  · simp [hb, frames_nil]
  · have hb2 : (flashIsBusy E s).val = false := by simpa using hb
    by_cases hw : (MX25_WREN E (flashIs4Byte E (flashIsBusy E s).st).st).val =
        FLASH_OPERATION_SUCCESS
    · simp only [hb2, hw, Bool.false_eq_true, if_false, ne_eq, not_true_eq_false,
        List.append_assoc, frames_flashRead_append, frames_flashWrite_append,
        frames_MX25_SE_frame, and_self, if_true, hf,
        List.getElem?_cons_succ, List.getElem?_cons_zero]
    · simp only [hb2, hw, Bool.false_eq_true, if_false, ne_eq, not_false_eq_true, if_true,
        ev_pure, List.append_nil, frames_flashRead_append, frames_flashWrite_only, and_false,
        List.getElem?_cons_succ, List.getElem?_nil]

theorem cmd_frame_MX25_PP (E : Env σ) (fuel A n : Nat) (D : List Nat) (s : σ)
    (hA : A ≤ FLASH_SIZE) :
    (frames (MX25_PP E fuel A D n s).ev)[3]? =
      if (flashIsBusy E s).val = false ∧
          (MX25_WREN E (flashIs4Byte E (flashIsBusy E s).st).st).val =
            FLASH_OPERATION_SUCCESS then
        (frames (MX25_PP_frame E A D n (flashIs4Byte E (flashIsBusy E s).st).val
          (MX25_WREN E (flashIs4Byte E (flashIsBusy E s).st).st).st).ev)[0]?
      else none := by
  have hA2 : ¬ A > FLASH_SIZE := by omega
  have hf := frames_MX25_PP_frame E A D n (flashIs4Byte E (flashIsBusy E s).st).val
    (MX25_WREN E (flashIs4Byte E (flashIsBusy E s).st).st).st []
  rw [List.append_nil] at hf
  simp only [MX25_PP, MX25_PP_issue_eq, hA2, if_false, ev_bind, val_bind, st_bind, run_ite,
    ev_ite, val_ite, st_ite, ev_pure, val_pure, st_pure, List.append_assoc, ev_flashIsBusy,
    ev_flashIs4Byte, ev_MX25_WREN, frames_flashRead_append]
  by_cases hb : (flashIsBusy E s).val = true
  · simp [hb, frames_nil]
  · have hb2 : (flashIsBusy E s).val = false := by simpa using hb
    by_cases hw : (MX25_WREN E (flashIs4Byte E (flashIsBusy E s).st).st).val =
        FLASH_OPERATION_SUCCESS
    · simp only [hb2, hw, Bool.false_eq_true, if_false, ne_eq, not_true_eq_false,
        List.append_assoc, frames_flashRead_append, frames_flashWrite_append,
        frames_MX25_PP_frame, and_self, if_true, hf,
        List.getElem?_cons_succ, List.getElem?_cons_zero]
    · simp only [hb2, hw, Bool.false_eq_true, if_false, ne_eq, not_false_eq_true, if_true,
        ev_pure, List.append_nil, frames_flashRead_append, frames_flashWrite_only, and_false,
        List.getElem?_cons_succ, List.getElem?_nil]

end CmdFrames

section C25

/-- Claim C25 fails: `LIS3DSH_Init` sets the module flag right after calling
`accelConfigure`, without looking at its result (lis3dsh.c:425-426). Whenever the identity
check returned a non-zero ID the flag is true afterwards, whatever the configuration
transfers reported; when the identity check fails the flag keeps its value. On the
reference accelerometer with a failing read of CTRL_REG4 (the third HAL call)
`LIS3DSH_Init` returns false, no configuration write was made, and the flag is true. -/
theorem init_flag_set_despite_failed_configuration :
    (∀ (τ : Type) (E : Env τ) (flag : Bool) (s : τ),
      (LIS3DSH_ReadID E (E.HAL_GPIO_WritePin CsLine.ACCEL_CS true s)).val ≠ 0 →
      LIS3DSH_IsModuleInitialized (LIS3DSH_Init E flag s).val.2 = true) ∧
    (∀ (τ : Type) (E : Env τ) (flag : Bool) (s : τ),
      (LIS3DSH_ReadID E (E.HAL_GPIO_WritePin CsLine.ACCEL_CS true s)).val = 0 →
      (LIS3DSH_Init E flag s).val = (false, flag)) ∧
    (LIS3DSH_ReadID refEnv (refEnv.HAL_GPIO_WritePin CsLine.ACCEL_CS true
      { refIdle with halFaults := [false, false, true] })).val = LIS3DSH_DEVICE_ID ∧
    (accelConfigure refEnv LIS3DSH_SAMPLE_RATE_800HZ LIS3DSH_ANTI_ALIAS_FILTER_BW_200HZ
      (LIS3DSH_ReadID refEnv (refEnv.HAL_GPIO_WritePin CsLine.ACCEL_CS true
        { refIdle with halFaults := [false, false, true] })).st).val = false ∧
    (LIS3DSH_Init refEnv false { refIdle with halFaults := [false, false, true] }).val =
      (false, true) ∧
    frames (LIS3DSH_Init refEnv false { refIdle with halFaults := [false, false, true] }).ev =
      [[Event.take true,
        Event.transmit SpiBus.xAccelSpiHandle [0x8F] HAL_StatusTypeDef.HAL_OK,
        Event.receive SpiBus.xAccelSpiHandle 1 HAL_StatusTypeDef.HAL_OK, Event.give],
       [Event.take true,
        Event.transmit SpiBus.xAccelSpiHandle [0xA0] HAL_StatusTypeDef.HAL_ERROR,
        Event.give]] := by
  refine ⟨?_, ?_, by decide, by decide, by decide, by decide⟩
  · intro τ E flag s h
    simp only [LIS3DSH_IsModuleInitialized, LIS3DSH_Init, accelChipSelectHigh, val_bind,
      st_bind, run_ite, val_ite, st_ite, val_pure, st_pure, st_writeCs, ne_eq, h,
      not_false_eq_true, decide_True, if_true]
  · intro τ E flag s h
    simp only [LIS3DSH_Init, accelChipSelectHigh, val_bind,
      st_bind, run_ite, val_ite, st_ite, val_pure, st_pure, st_writeCs, ne_eq, h,
      not_true_eq_false, decide_False, Bool.false_eq_true, if_false]

end C25

section C26

/-- Claim C26 fails in `MX25_RES`. The receive length is `sizeof` of the pointer parameter
(mx25v1635f.c:275), four on the 32-bit target, so every receive `MX25_RES` makes asks for
4 bytes, not 1, and they are written through the pointer to the caller's 1-byte buffer;
and the result of that receive is dropped (line 274), so once the command byte and the
three dummy bytes went out the function returns `FLASH_OPERATION_SUCCESS` whatever the
receive reported. On the reference flash `MX25_RES` sends 0xAB and three dummy bytes and
then receives 4 bytes, and with a failing receive it still returns
`FLASH_OPERATION_SUCCESS`. `MX25_REMS` does what the claim says: 0x90, two dummy bytes,
the arrange-option byte with a 2-byte receive, and the value `d0 * 256 + d1`. -/
theorem res_receives_pointer_size_ignoring_status :
    (∀ (τ : Type) (E : Env τ) (s : τ) (bus : SpiBus) (len : Nat) (stat : HAL_StatusTypeDef),
      Event.receive bus len stat ∈ (MX25_RES E s).ev → len = 4) ∧
    (∀ (τ : Type) (E : Env τ) (s : τ),
      (SPI_Transfer E MX25_FLASH [FLASH_CMD_RES] 1 0
        (E.HAL_GPIO_WritePin CsLine.FLASH_CS false s)).val.1 = true →
      (flashInsertDummyCycle E 3 (SPI_Transfer E MX25_FLASH [FLASH_CMD_RES] 1 0
        (E.HAL_GPIO_WritePin CsLine.FLASH_CS false s)).st).val = true →
      (MX25_RES E s).val.1 = FLASH_OPERATION_SUCCESS) ∧
    (MX25_RES refEnv refIdle).val =
      (FLASH_OPERATION_SUCCESS, some [0x15, 0x15, 0x15, 0x15]) ∧
    frames (MX25_RES refEnv refIdle).ev =
      [[Event.take true,
        Event.transmit SpiBus.xSharedSpiHandle [0xAB] HAL_StatusTypeDef.HAL_OK, Event.give,
        Event.take true,
        Event.transmit SpiBus.xSharedSpiHandle [0xFF] HAL_StatusTypeDef.HAL_OK, Event.give,
        Event.take true,
        Event.transmit SpiBus.xSharedSpiHandle [0xFF] HAL_StatusTypeDef.HAL_OK, Event.give,
        Event.take true,
        Event.transmit SpiBus.xSharedSpiHandle [0xFF] HAL_StatusTypeDef.HAL_OK, Event.give,
        Event.take true,
        Event.receive SpiBus.xSharedSpiHandle 4 HAL_StatusTypeDef.HAL_OK, Event.give]] ∧
    (MX25_RES refEnv { refIdle with halFaults := [false, false, false, false, true] }).val.1 =
      FLASH_OPERATION_SUCCESS ∧
    Event.receive SpiBus.xSharedSpiHandle 4 HAL_StatusTypeDef.HAL_ERROR ∈
      (MX25_RES refEnv { refIdle with halFaults := [false, false, false, false, true] }).ev ∧
    (MX25_REMS refEnv 0 false refIdle).val = (FLASH_OPERATION_SUCCESS, 0xC2 * 256 + 0x15) ∧
    frames (MX25_REMS refEnv 0 false refIdle).ev =
      [[Event.take true,
        Event.transmit SpiBus.xSharedSpiHandle [0x90] HAL_StatusTypeDef.HAL_OK, Event.give,
        Event.take true,
        Event.transmit SpiBus.xSharedSpiHandle [0xFF] HAL_StatusTypeDef.HAL_OK, Event.give,
        Event.take true,
        Event.transmit SpiBus.xSharedSpiHandle [0xFF] HAL_StatusTypeDef.HAL_OK, Event.give,
        Event.take true,
        Event.transmit SpiBus.xSharedSpiHandle [0x00] HAL_StatusTypeDef.HAL_OK,
        Event.receive SpiBus.xSharedSpiHandle 2 HAL_StatusTypeDef.HAL_OK, Event.give]] ∧
    (MX25_REMS refEnv 0 false
      { refIdle with halFaults := [false, false, false, false, true] }).val =
      (FLASH_OPERATION_FAILED, 0) := by
  refine ⟨?_, ?_, by decide, by decide, by decide, by decide, by decide, by decide, by decide⟩
  · intro τ E s bus len stat h
    simp only [MX25_RES, flashChipSelectLow, flashChipSelectHigh, ev_bind, val_bind, st_bind,
      run_ite, ev_ite, val_ite, st_ite, ev_pure, val_pure, st_pure, ev_writeCs, st_writeCs,
      List.mem_append, List.mem_cons, List.mem_singleton, reduceCtorEq, false_or, or_false,
      Bool.false_eq_true, if_false, if_true, List.not_mem_nil, recv_mem_xfer_zero] at h
    split_ifs at h <;>
      simp only [recv_mem_dummyCycle, List.not_mem_nil, or_self, or_false, false_or] at h
    exact (recv_mem_xfer E _ _ _ _ _ _ _ _ h).1
  · intro τ E s h1 h2
    simp only [MX25_RES, flashChipSelectLow, flashChipSelectHigh, val_bind, st_bind,
      run_ite, val_ite, st_ite, val_pure, st_pure, st_writeCs, h1, h2, if_true]

end C26

section C27

theorem xmit_mem_flashSendAddr {σ : Type} (E : Env σ) (a : Nat) (m : Bool) (s : σ)
    (bus : SpiBus) (bytes : List Nat) (stat : HAL_StatusTypeDef)
    (h : Event.transmit bus bytes stat ∈ (flashSendAddr E a m s).ev) :
    bytes = flashAddrBytes a m := by
  simp only [flashSendAddr, ev_bind, ev_pure, List.append_nil] at h
  have h1 := (xmit_mem_xfer E _ _ _ _ _ _ _ _ h).1
  rw [h1]
  cases m <;> simp [flashAddrBytes, U16]

/-- Claim C27 fails for lengths of 65536 and more. `MX25_READ` and `MX25_PP` take a 32-bit
length but hand it to `SPI_Transfer`, whose length parameters are `uint16_t`
(spi-core.c:177), so the length that reaches the bus is `L mod 2 ^ 16`. For every valid
address, every receive in the read frame of `MX25_READ` asks for `L mod 65536` bytes, and
no transmit in the program frame of `MX25_PP` hands over 65536 bytes or more. On the
reference flash `MX25_READ(0, buf, 65540)` receives 4 bytes and `MX25_READ(0, buf, 65536)`
makes no receive at all, both returning `FLASH_OPERATION_SUCCESS`, and `MX25_PP` with a
payload of 65537 bytes sends one payload byte and returns `FLASH_OPERATION_SUCCESS`. -/
theorem transfer_length_reduced_modulo_65536 :
    (∀ (τ : Type) (E : Env τ) (A L : Nat) (s : τ), A ≤ FLASH_SIZE →
      ∀ f, (frames (MX25_READ E A L s).ev)[1]? = some f →
      ∀ bus len stat, Event.receive bus len stat ∈ f → len = L % 65536) ∧
    (∀ (τ : Type) (E : Env τ) (fuel A L : Nat) (D : List Nat) (s : τ), A ≤ FLASH_SIZE →
      ∀ f, (frames (MX25_PP E fuel A D L s).ev)[3]? = some f →
      ∀ bus bytes stat, Event.transmit bus bytes stat ∈ f → bytes.length < 65536) ∧
    (MX25_READ refEnv 0 65540 refIdle).val =
      (FLASH_OPERATION_SUCCESS, some [0xFF, 0xFF, 0xFF, 0xFF]) ∧
    (frames (MX25_READ refEnv 0 65540 refIdle).ev)[1]? = some
      [Event.take true,
       Event.transmit SpiBus.xSharedSpiHandle [0x03] HAL_StatusTypeDef.HAL_OK, Event.give,
       Event.take true,
       Event.transmit SpiBus.xSharedSpiHandle [0, 0, 0] HAL_StatusTypeDef.HAL_OK, Event.give,
       Event.take true,
       Event.receive SpiBus.xSharedSpiHandle 4 HAL_StatusTypeDef.HAL_OK, Event.give] ∧
    (MX25_READ refEnv 0 65536 refIdle).val = (FLASH_OPERATION_SUCCESS, none) ∧
    (frames (MX25_READ refEnv 0 65536 refIdle).ev)[1]? = some
      [Event.take true,
       Event.transmit SpiBus.xSharedSpiHandle [0x03] HAL_StatusTypeDef.HAL_OK, Event.give,
       Event.take true,
       Event.transmit SpiBus.xSharedSpiHandle [0, 0, 0] HAL_StatusTypeDef.HAL_OK, Event.give,
       Event.take true, Event.give] ∧
    (MX25_PP refEnv 2 0 (List.replicate 65537 0) 65537 refIdle).val =
      some FLASH_OPERATION_SUCCESS ∧
    (frames (MX25_PP refEnv 2 0 (List.replicate 65537 0) 65537 refIdle).ev)[3]? = some
      [Event.take true,
       Event.transmit SpiBus.xSharedSpiHandle [0x02] HAL_StatusTypeDef.HAL_OK, Event.give,
       Event.take true,
       Event.transmit SpiBus.xSharedSpiHandle [0, 0, 0] HAL_StatusTypeDef.HAL_OK, Event.give,
       Event.take true,
       Event.transmit SpiBus.xSharedSpiHandle [0] HAL_StatusTypeDef.HAL_OK, Event.give] := by
  refine ⟨?_, ?_, by decide, by decide, by decide, by decide, by decide, by decide⟩
  · intro τ E A L s hA f hf bus len stat hmem
    rw [frames_MX25_READ E A L s hA] at hf
    simp only [List.getElem?_cons_succ, List.getElem?_cons_zero, Option.some.injEq] at hf
    subst hf
    simp only [List.mem_append, recv_mem_xfer_zero, false_or] at hmem
    split_ifs at hmem <;>
      simp only [List.mem_append, recv_mem_flashSendAddr, List.not_mem_nil, false_or] at hmem
    exact (recv_mem_xfer E _ _ _ _ _ _ _ _ hmem).1
  · intro τ E fuel A L D s hA f hf bus bytes stat hmem
    rw [cmd_frame_MX25_PP E fuel A L D s hA] at hf
    split_ifs at hf
    have hfr := frames_MX25_PP_frame E A D L (flashIs4Byte E (flashIsBusy E s).st).val
      (MX25_WREN E (flashIs4Byte E (flashIsBusy E s).st).st).st []
    rw [List.append_nil] at hfr
    rw [hfr] at hf
    simp only [List.getElem?_cons_zero, Option.some.injEq] at hf
    subst hf
    simp only [List.mem_append] at hmem
    rcases hmem with h | h
    · have := (xmit_mem_xfer E _ _ _ _ _ _ _ _ h).1
      rw [this]
      simp
    · split_ifs at h
      · simp only [List.mem_append] at h
        rcases h with h | h
        · rw [xmit_mem_flashSendAddr E _ _ _ _ _ _ h]
          simp only [flashAddrBytes]
          split_ifs <;> simp
        · have := (xmit_mem_xfer E _ _ _ _ _ _ _ _ h).1
          rw [this, List.length_take]
          have : L % U16 < 65536 := Nat.mod_lt _ (by decide)
          omega
      · simp at h

end C27

section C29

theorem val_flashIsBusy_failed {σ : Type} (E : Env σ) (s : σ)
    (h : (flashRead E [FLASH_CMD_RDSR] 1 1 s).val.1 = false) :
    (flashIsBusy E s).val = decide ((E.uninit s % U8) &&& FLASH_WIP_MASK = FLASH_WIP_MASK) := by
  simp only [flashIsBusy, MX25_RDSR, readUninit, val_bind, st_bind, run_ite, val_ite, val_pure,
    st_pure, h, Bool.false_eq_true, if_false, Option.getD_some]

/-- Claim C29 fails: `flashIsBusy` does not look at the result of `MX25_RDSR`
(mx25v1635f.c:173), and `MX25_RDSR` leaves the status buffer unwritten when its transfer
fails. So after a failed status read the pre-check answers with bit 0 of the byte that
happened to be in the uninitialised local: with that bit clear `MX25_CE`, `MX25_SE` and
`MX25_PP` go on to the write-enable command, with it set they return `FLASH_IS_BUSY`. On
the reference flash with a failing status transmit, `MX25_CE` erases the chip and returns
`FLASH_OPERATION_SUCCESS` when the stale byte is 0 and returns `FLASH_IS_BUSY` when it is
1. -/
theorem busy_check_uses_unwritten_status :
    (∀ (τ : Type) (E : Env τ) (s : τ),
      (flashRead E [FLASH_CMD_RDSR] 1 1 s).val.1 = false →
      (flashIsBusy E s).val = decide ((E.uninit s % U8) &&& 1 = 1)) ∧
    (∀ (τ : Type) (E : Env τ) (fuel A n : Nat) (D : List Nat) (s : τ), A ≤ FLASH_SIZE →
      (flashRead E [FLASH_CMD_RDSR] 1 1 s).val.1 = false →
      (E.uninit s % U8) &&& 1 = 0 →
      ((flashIsBusy E s).ev ++ (MX25_WREN E (flashIsBusy E s).st).ev <+:
        (MX25_CE E fuel s).ev) ∧
      ((flashIsBusy E s).ev ++ ((flashIs4Byte E (flashIsBusy E s).st).ev ++
        (MX25_WREN E (flashIs4Byte E (flashIsBusy E s).st).st).ev) <+:
        (MX25_SE E fuel A s).ev) ∧
      ((flashIsBusy E s).ev ++ ((flashIs4Byte E (flashIsBusy E s).st).ev ++
        (MX25_WREN E (flashIs4Byte E (flashIsBusy E s).st).st).ev) <+:
        (MX25_PP E fuel A D n s).ev)) ∧
    (∀ (τ : Type) (E : Env τ) (fuel A n : Nat) (D : List Nat) (s : τ), A ≤ FLASH_SIZE →
      (flashRead E [FLASH_CMD_RDSR] 1 1 s).val.1 = false →
      (E.uninit s % U8) &&& 1 = 1 →
      (MX25_CE E fuel s).val = some FLASH_IS_BUSY ∧
      (MX25_SE E fuel A s).val = some FLASH_IS_BUSY ∧
      (MX25_PP E fuel A D n s).val = some FLASH_IS_BUSY) ∧
    (flashRead refEnv [FLASH_CMD_RDSR] 1 1
      { refIdle with halFaults := [true], flashTchip := 1 }).val.1 = false ∧
    (MX25_CE refEnv 3 { refIdle with halFaults := [true], flashTchip := 1 }).val =
      some FLASH_OPERATION_SUCCESS ∧
    (frames (MX25_CE refEnv 3 { refIdle with halFaults := [true], flashTchip := 1 }).ev).take 3 =
      [[Event.take true,
        Event.transmit SpiBus.xSharedSpiHandle [0x05] HAL_StatusTypeDef.HAL_ERROR, Event.give],
       [Event.take true,
        Event.transmit SpiBus.xSharedSpiHandle [0x06] HAL_StatusTypeDef.HAL_OK, Event.give],
       [Event.take true,
        Event.transmit SpiBus.xSharedSpiHandle [0x60] HAL_StatusTypeDef.HAL_OK, Event.give]] ∧
    (MX25_CE refEnv 3
      { refIdle with halFaults := [true], flashTchip := 1, garbage := 1 }).val =
      some FLASH_IS_BUSY := by
  refine ⟨?_, ?_, ?_, by decide, by decide, by decide, by decide⟩
  · intro τ E s h
    exact val_flashIsBusy_failed E s h
  · intro τ E fuel A n D s hA h hg
    have hA2 : ¬ A > FLASH_SIZE := by omega
    have hb : (flashIsBusy E s).val = false := by
      rw [val_flashIsBusy_failed E s h]
      simp [FLASH_WIP_MASK, hg]
    refine ⟨?_, ?_, ?_⟩
    · simp only [MX25_CE, MX25_CE_issue_eq, ev_bind, val_bind, st_bind, run_ite, ev_ite,
        val_ite, st_ite, ev_pure, val_pure, st_pure, hb, Bool.false_eq_true, if_false,
        List.append_assoc, List.prefix_append_right_inj]
      exact List.prefix_append _ _
    · simp only [MX25_SE, MX25_SE_issue_eq, hA2, ev_bind, val_bind, st_bind, run_ite, ev_ite,
        val_ite, st_ite, ev_pure, val_pure, st_pure, hb, Bool.false_eq_true, if_false,
        List.append_assoc, List.prefix_append_right_inj]
      exact List.prefix_append _ _
    · simp only [MX25_PP, MX25_PP_issue_eq, hA2, ev_bind, val_bind, st_bind, run_ite, ev_ite,
        val_ite, st_ite, ev_pure, val_pure, st_pure, hb, Bool.false_eq_true, if_false,
        List.append_assoc, List.prefix_append_right_inj]
      exact List.prefix_append _ _
  · intro τ E fuel A n D s hA h hg
    have hA2 : ¬ A > FLASH_SIZE := by omega
    have hb : (flashIsBusy E s).val = true := by
      rw [val_flashIsBusy_failed E s h]
      simp [FLASH_WIP_MASK, hg]
    refine ⟨?_, ?_, ?_⟩
    · simp only [MX25_CE, MX25_CE_issue_eq, val_bind, st_bind, run_ite,
        val_ite, st_ite, val_pure, st_pure, hb, if_true]
    · simp only [MX25_SE, MX25_SE_issue_eq, hA2, val_bind, st_bind, run_ite,
        val_ite, st_ite, val_pure, st_pure, hb, if_true, if_false]
    · simp only [MX25_PP, MX25_PP_issue_eq, hA2, val_bind, st_bind, run_ite,
        val_ite, st_ite, val_pure, st_pure, hb, if_true, if_false]

end C29

section C30
variable {σ : Type}

theorem elapsed_exact (a a0 : Nat) (h1 : a0 ≤ a) (h2 : a - a0 < U32) :
    (a % U32 + U32 - a0 % U32) % U32 = a - a0 := by
  simp only [U32] at *
  omega

theorem elapsed_le (a a0 : Nat) (h1 : a0 ≤ a) :
    (a % U32 + U32 - a0 % U32) % U32 ≤ a - a0 := by
  simp only [U32] at *
  omega

theorem waitLoop_step_timeout (E : Env σ) (start T f : Nat) (s : σ)
    (h : (flashIsBusy E s).val = true)
    (hout : (E.xTaskGetTickCount (waitRound E s) % U32 + U32 - start) % U32 > T) :
    flashWaitLoop E start T (f + 1) s =
      ⟨some false, waitRound E s,
       (flashIsBusy E s).ev ++ [Event.delay (E.pdMS_TO_TICKS 1 % U32)]⟩ := by
  have hout2 : (E.xTaskGetTickCount
      (E.vTaskDelay (E.pdMS_TO_TICKS 1 % U32) (flashIsBusy E s).st) % U32 + U32 - start) % U32
        > T := hout
  rw [out_eta (flashWaitLoop E start T (f + 1) s)]
  simp only [flashWaitLoop, val_bind, st_bind, ev_bind, h, if_true, run_ite, val_ite, st_ite,
    ev_ite, val_pure, st_pure, ev_pure, st_vTaskDelay, ev_vTaskDelay, val_xTaskGetTickCount,
    st_xTaskGetTickCount, ev_xTaskGetTickCount, hout2, List.nil_append, List.append_nil]
  rfl

theorem waitLoop_timeout_after (E : Env σ) (start T : Nat) :
    ∀ (k : Nat) (s : σ) (fuel : Nat),
      (∀ i, i ≤ k → (flashIsBusy E (waitRounds E i s)).val = true) →
      (∀ i, i < k →
        (E.xTaskGetTickCount (waitRounds E (i + 1) s) % U32 + U32 - start) % U32 ≤ T) →
      (E.xTaskGetTickCount (waitRounds E (k + 1) s) % U32 + U32 - start) % U32 > T →
      k < fuel →
      (flashWaitLoop E start T fuel s).val = some false ∧
      (frames (flashWaitLoop E start T fuel s).ev).length = k + 1 ∧
      (flashWaitLoop E start T fuel s).st = waitRounds E (k + 1) s := by
  intro k
  induction k with
  | zero =>
    intro s fuel hb _ hout hf
    obtain ⟨f, rfl⟩ : ∃ f, fuel = f + 1 := ⟨fuel - 1, by omega⟩
    rw [waitLoop_step_timeout E start T f s (hb 0 (by omega)) hout]
    refine ⟨rfl, ?_, rfl⟩
    simp only
    rw [frames_poll_append, frames_delay_cons]
    rfl
  | succ k ih =>
    intro s fuel hb hin hout hf
    obtain ⟨f, rfl⟩ : ∃ f, fuel = f + 1 := ⟨fuel - 1, by omega⟩
    have hb0 : (flashIsBusy E s).val = true := hb 0 (by omega)
    have hin0 : ¬ (E.xTaskGetTickCount (waitRound E s) % U32 + U32 - start) % U32 > T := by
      have := hin 0 (by omega)
      simp only [waitRounds] at this
      omega
    rw [waitLoop_step_busy E start T f s hb0 hin0]
    obtain ⟨h1, h2, h3⟩ := ih (waitRound E s) f
      (fun i hi => hb (i + 1) (by omega)) (fun i hi => hin (i + 1) (by omega)) hout (by omega)
    refine ⟨h1, ?_, h3⟩
    simp only
    rw [frames_poll_append, frames_delay_cons, List.length_cons, h2]

theorem waitLoop_false_only_late (E : Env σ) (start T : Nat) :
    ∀ (fuel : Nat) (s : σ), (flashWaitLoop E start T fuel s).val = some false →
      ∃ k, k < fuel ∧ (∀ i, i ≤ k → (flashIsBusy E (waitRounds E i s)).val = true) ∧
        (E.xTaskGetTickCount (waitRounds E (k + 1) s) % U32 + U32 - start) % U32 > T := by
  intro fuel
  induction fuel with
  | zero =>
    intro s h
    simp [flashWaitLoop] at h
  | succ f ih =>
    intro s h
    by_cases hb : (flashIsBusy E s).val = true
    · rw [waitLoop_step_val E start T f s hb] at h
      by_cases hc : (E.xTaskGetTickCount (waitRound E s) % U32 + U32 - start) % U32 > T
      · refine ⟨0, by omega, ?_, hc⟩
        intro i hi
        have : i = 0 := by omega
        subst this
        exact hb
      · rw [if_neg hc] at h
        obtain ⟨k, hk, hbk, hout⟩ := ih (waitRound E s) h
        refine ⟨k + 1, by omega, ?_, hout⟩
        intro i hi
        cases i with
        | zero => exact hb
        | succ j => exact hbk j (by omega)
    · have hb2 : (flashIsBusy E s).val = false := by simpa using hb
      rw [waitLoop_step_ready E start T f s hb2] at h
      simp at h

/-- Claim C30 with the bound it needs: the tick counter at a state is
`xTaskGetTickCount`, of which the code sees the low 32 bits. If the flash is busy on the
first `k + 1` polls, the counter does not run backwards and fewer than `2 ^ 32` ticks pass
between the start and each of the `k + 1` checks, the elapsed ticks are within the timeout
at the first `k` checks and above it at check `k + 1`, then `flashWaitTillReady` returns
false at that check, after exactly `k + 1` polls, wherever the start tick lies relative to
the wrap-around of the 32-bit counter. And a timeout is never early: whenever
`flashWaitTillReady` returns false and the counter did not run backwards, more ticks than
the timeout have elapsed at a check that followed polls which all found the flash busy. -/
theorem timeout_measured_across_wraparound (E : Env σ) (t k fuel : Nat) (s : σ)
    (hbusy : ∀ i, i ≤ k → (flashIsBusy E (waitRounds E i s)).val = true)
    (hmono : ∀ i, i ≤ k + 1 → E.xTaskGetTickCount s ≤ E.xTaskGetTickCount (waitRounds E i s))
    (hlt : ∀ i, i ≤ k + 1 →
      E.xTaskGetTickCount (waitRounds E i s) - E.xTaskGetTickCount s < 2 ^ 32)
    (hin : ∀ i, i ≤ k →
      E.xTaskGetTickCount (waitRounds E i s) - E.xTaskGetTickCount s ≤
        E.pdMS_TO_TICKS t % U32)
    (hout : E.xTaskGetTickCount (waitRounds E (k + 1) s) - E.xTaskGetTickCount s >
      E.pdMS_TO_TICKS t % U32)
    (hf : k < fuel) :
    (flashWaitTillReady E fuel t s).val = some false ∧
    (frames (flashWaitTillReady E fuel t s).ev).length = k + 1 ∧
    (flashWaitTillReady E fuel t s).st = waitRounds E (k + 1) s ∧
    (∀ (fuel2 : Nat) (s2 : σ),
      (∀ i, E.xTaskGetTickCount s2 ≤ E.xTaskGetTickCount (waitRounds E i s2)) →
      (flashWaitTillReady E fuel2 t s2).val = some false →
      ∃ j, j < fuel2 ∧ (∀ i, i ≤ j → (flashIsBusy E (waitRounds E i s2)).val = true) ∧
        E.xTaskGetTickCount (waitRounds E (j + 1) s2) - E.xTaskGetTickCount s2 >
          E.pdMS_TO_TICKS t % U32) := by
  have hU : (2 : Nat) ^ 32 = U32 := by decide
  rw [hU] at hlt
  have hw := waitLoop_timeout_after E (E.xTaskGetTickCount s % U32) (E.pdMS_TO_TICKS t % U32)
    k s fuel hbusy
    (fun i hi => by
      rw [elapsed_exact _ _ (hmono (i + 1) (by omega)) (hlt (i + 1) (by omega))]
      exact hin (i + 1) (by omega))
    (by
      rw [elapsed_exact _ _ (hmono (k + 1) (by omega)) (hlt (k + 1) (by omega))]
      exact hout)
    hf
  refine ⟨?_, ?_, ?_, ?_⟩
  · simpa only [flashWaitTillReady, val_bind, st_bind, val_xTaskGetTickCount,
      st_xTaskGetTickCount] using hw.1
  · simpa only [flashWaitTillReady, ev_bind, st_bind, val_bind, val_xTaskGetTickCount,
      st_xTaskGetTickCount, ev_xTaskGetTickCount, List.nil_append] using hw.2.1
  · simpa only [flashWaitTillReady, val_bind, st_bind, val_xTaskGetTickCount,
      st_xTaskGetTickCount] using hw.2.2
  · intro fuel2 s2 hm h
    simp only [flashWaitTillReady, val_bind, st_bind, val_xTaskGetTickCount,
      st_xTaskGetTickCount] at h
    obtain ⟨j, hj, hb, ho⟩ := waitLoop_false_only_late E _ _ fuel2 s2 h
    refine ⟨j, hj, hb, ?_⟩
    have := elapsed_le _ _ (hm (j + 1))
    omega

/-- Witness for claim C30: the reference flash hanging in a program, the wait starting two
ticks before the 32-bit counter wraps, a timeout of 4 ticks; the fifth check reports it. -/
theorem timeout_measured_across_wraparound_witness :
    (flashWaitTillReady refEnv 5 4
      { refIdle with tick := 0xFFFFFFFE, flashHang := true, flashBusy := 1 }).val =
      some false ∧
    (frames (flashWaitTillReady refEnv 5 4
      { refIdle with tick := 0xFFFFFFFE, flashHang := true, flashBusy := 1 }).ev).length = 5 ∧
    refEnv.xTaskGetTickCount (flashWaitTillReady refEnv 5 4
      { refIdle with tick := 0xFFFFFFFE, flashHang := true, flashBusy := 1 }).st % U32 = 3 :=
  have h := timeout_measured_across_wraparound refEnv 4 4 5
    { refIdle with tick := 0xFFFFFFFE, flashHang := true, flashBusy := 1 }
    (by decide) (by decide) (by decide) (by decide) (by decide) (by decide)
  ⟨h.1, h.2.1, by rw [h.2.2.1]; decide⟩

/-- Counterexample for claim C30 as stated: a task that is kept from running for `2 ^ 32`
ticks during the first delay of the wait. The reference flash hangs in a program and the
timeout is 4 ticks. At the first check `2 ^ 32 + 1` ticks have elapsed with the flash
still busy, the 32-bit difference is 1 and no timeout is reported; the loop goes on, and
the timeout is only reported at the fifth check, after `5 * (2 ^ 32 + 1)` ticks. -/
theorem timeout_missed_after_full_wrap :
    (flashIsBusy refStarvedEnv { refIdle with flashHang := true, flashBusy := 1 }).val = true ∧
    refStarvedEnv.pdMS_TO_TICKS 4 % U32 = 4 ∧
    refStarvedEnv.xTaskGetTickCount
        (waitRound refStarvedEnv { refIdle with flashHang := true, flashBusy := 1 }) -
      refStarvedEnv.xTaskGetTickCount { refIdle with flashHang := true, flashBusy := 1 } =
      2 ^ 32 + 1 ∧
    (flashIsBusy refStarvedEnv
      (waitRound refStarvedEnv { refIdle with flashHang := true, flashBusy := 1 })).val = true ∧
    (flashWaitTillReady refStarvedEnv 1 4
      { refIdle with flashHang := true, flashBusy := 1 }).val = none ∧
    (flashWaitTillReady refStarvedEnv 4 4
      { refIdle with flashHang := true, flashBusy := 1 }).val = none ∧
    (flashWaitTillReady refStarvedEnv 5 4
      { refIdle with flashHang := true, flashBusy := 1 }).val = some false ∧
    refStarvedEnv.xTaskGetTickCount (flashWaitTillReady refStarvedEnv 5 4
      { refIdle with flashHang := true, flashBusy := 1 }).st = 5 * (2 ^ 32 + 1) := by
  decide

end C30

section Observers
variable {σ : Type}

theorem transmitsOf_append (a b : List Event) :
    transmitsOf (a ++ b) = transmitsOf a ++ transmitsOf b := by
  induction a with
  | nil => rfl
  | cons e es ih => cases e <;> simp [transmitsOf, ih]

theorem receivesOf_append (a b : List Event) :
    receivesOf (a ++ b) = receivesOf a ++ receivesOf b := by
  induction a with
  | nil => rfl
  | cons e es ih => cases e <;> simp [receivesOf, ih]

theorem cleanRun_append (a b : List Event) : cleanRun (a ++ b) = (cleanRun a && cleanRun b) := by
  simp [cleanRun]

theorem xfer_clean (E : Env σ) (device : SpiDevice_t) (bus : SpiBus)
    (hd : spiHandleOf device = some bus) (b : List Nat) (l1 l2 : Nat) (s : σ) :
    cleanRun (SPI_Transfer E device b l1 l2 s).ev = (SPI_Transfer E device b l1 l2 s).val.1 := by
  simp only [SPI_Transfer, hd, spiMutexAcquire, spiMutexRelease, HAL_SPI_Transmit,
    HAL_SPI_Receive, ev_bind, val_bind, st_bind, run_ite, ev_ite, val_ite, st_ite, ev_pure,
    val_pure, st_pure]
  split_ifs <;> simp_all [cleanRun]

theorem xfer_ok_shape (E : Env σ) (device : SpiDevice_t) (bus : SpiBus)
    (hd : spiHandleOf device = some bus) (b : List Nat) (l1 l2 : Nat) (s : σ)
    (h : (SPI_Transfer E device b l1 l2 s).val.1 = true) :
    (SPI_Transfer E device b l1 l2 s).ev =
      Event.take true ::
        ((if 0 < l1 % U16 then
            [Event.transmit bus (b.take (l1 % U16)) HAL_StatusTypeDef.HAL_OK] else []) ++
          ((if 0 < l2 % U16 then
              [Event.receive bus (l2 % U16) HAL_StatusTypeDef.HAL_OK] else []) ++
            [Event.give])) := by
  revert h
  simp only [SPI_Transfer, hd, spiMutexAcquire, spiMutexRelease, HAL_SPI_Transmit,
    HAL_SPI_Receive, ev_bind, val_bind, st_bind, run_ite, ev_ite, val_ite, st_ite, ev_pure,
    val_pure, st_pure]
  split_ifs <;> simp_all

end Observers

section FramFrames
variable {σ : Type}

theorem frames_framSendCommand_append (E : Env σ) (c : Nat) (s : σ) (rest : List Event) :
    frames ((framSendCommand E c s).ev ++ rest) =
      (SPI_Transfer E MB85_FRAM [c % U8] FRAM_OP_CODE_LENGTH_IN_BYTES 0
        (E.HAL_GPIO_WritePin CsLine.FRAM_CS false s)).ev :: frames rest := by
  rw [ev_framSendCommand]
  exact frames_block_append _ _ _ _ (quiet_SPI_Transfer _ _ _ _ _ _)

theorem frames_framSendCommand (E : Env σ) (c : Nat) (s : σ) :
    frames (framSendCommand E c s).ev =
      [(SPI_Transfer E MB85_FRAM [c % U8] FRAM_OP_CODE_LENGTH_IN_BYTES 0
        (E.HAL_GPIO_WritePin CsLine.FRAM_CS false s)).ev] := by
  have h := frames_framSendCommand_append E c s []
  rwa [List.append_nil] at h

theorem frames_accelRead_append (E : Env σ) (r l : Nat) (s : σ) (rest : List Event) :
    frames ((accelRead E r l s).ev ++ rest) =
      (SPI_Transfer E LIS3DSH_ACCEL [(r ||| LIS3DSH_READ_BITMASK) % U8] LIS3DSH_REGISTER_LEN
        (l % U8) (E.HAL_GPIO_WritePin CsLine.ACCEL_CS false s)).ev :: frames rest := by
  rw [ev_accelRead]
  exact frames_block_append _ _ _ _ (quiet_SPI_Transfer _ _ _ _ _ _)

theorem ev_accelWrite (E : Env σ) (r : Nat) (d : List Nat) (l : Nat) (s : σ) :
    (accelWrite E r d l s).ev = Event.csLow CsLine.ACCEL_CS ::
      (((SPI_Transfer E LIS3DSH_ACCEL [r] LIS3DSH_REGISTER_LEN 0
          (E.HAL_GPIO_WritePin CsLine.ACCEL_CS false s)).ev ++
        (if (SPI_Transfer E LIS3DSH_ACCEL [r] LIS3DSH_REGISTER_LEN 0
            (E.HAL_GPIO_WritePin CsLine.ACCEL_CS false s)).val.1 = true then
          (SPI_Transfer E LIS3DSH_ACCEL d (l % U8) 0
            (SPI_Transfer E LIS3DSH_ACCEL [r] LIS3DSH_REGISTER_LEN 0
              (E.HAL_GPIO_WritePin CsLine.ACCEL_CS false s)).st).ev
         else [])) ++ [Event.csHigh CsLine.ACCEL_CS]) := by
  simp only [accelWrite, accelChipSelectLow, accelChipSelectHigh, ev_bind, val_bind, st_bind,
    run_ite, ev_ite, val_ite, st_ite, ev_pure, val_pure, st_pure, ev_writeCs, st_writeCs]
  split_ifs <;> simp_all

theorem frames_accelWrite_append (E : Env σ) (r : Nat) (d : List Nat) (l : Nat) (s : σ)
    (rest : List Event) :
    frames ((accelWrite E r d l s).ev ++ rest) =
      ((SPI_Transfer E LIS3DSH_ACCEL [r] LIS3DSH_REGISTER_LEN 0
          (E.HAL_GPIO_WritePin CsLine.ACCEL_CS false s)).ev ++
        (if (SPI_Transfer E LIS3DSH_ACCEL [r] LIS3DSH_REGISTER_LEN 0
            (E.HAL_GPIO_WritePin CsLine.ACCEL_CS false s)).val.1 = true then
          (SPI_Transfer E LIS3DSH_ACCEL d (l % U8) 0
            (SPI_Transfer E LIS3DSH_ACCEL [r] LIS3DSH_REGISTER_LEN 0
              (E.HAL_GPIO_WritePin CsLine.ACCEL_CS false s)).st).ev
         else [])) :: frames rest := by
  rw [ev_accelWrite]
  apply frames_block_append
  rw [quiet_append, quiet_SPI_Transfer, Bool.true_and]
  split_ifs
  · exact quiet_SPI_Transfer _ _ _ _ _ _
  · rfl

theorem frames_MB85RS256_Read (E : Env σ) (A n : Nat) (s : σ) :
    frames (MB85RS256_Read E A n s).ev =
      [(SPI_Transfer E MB85_FRAM [FRAM_OPCODE_READ] 1 0
          (E.HAL_GPIO_WritePin CsLine.FRAM_CS false s)).ev ++
        (if (SPI_Transfer E MB85_FRAM [FRAM_OPCODE_READ] 1 0
            (E.HAL_GPIO_WritePin CsLine.FRAM_CS false s)).val.1 = true then
          (SPI_Transfer E MB85_FRAM (framAddrBytes A) FRAM_ADDRESS_LENGTH_IN_BYTES 0
            (SPI_Transfer E MB85_FRAM [FRAM_OPCODE_READ] 1 0
              (E.HAL_GPIO_WritePin CsLine.FRAM_CS false s)).st).ev ++
          (if (SPI_Transfer E MB85_FRAM (framAddrBytes A) FRAM_ADDRESS_LENGTH_IN_BYTES 0
              (SPI_Transfer E MB85_FRAM [FRAM_OPCODE_READ] 1 0
                (E.HAL_GPIO_WritePin CsLine.FRAM_CS false s)).st).val.1 = true then
            (SPI_Transfer E MB85_FRAM [] 0 (framClampLength E n)
              (SPI_Transfer E MB85_FRAM (framAddrBytes A) FRAM_ADDRESS_LENGTH_IN_BYTES 0
                (SPI_Transfer E MB85_FRAM [FRAM_OPCODE_READ] 1 0
                  (E.HAL_GPIO_WritePin CsLine.FRAM_CS false s)).st).st).ev
           else [])
         else [])] := by
  simp only [MB85RS256_Read, framChipSelectLow, framChipSelectHigh, ev_bind, val_bind,
    st_bind, run_ite, ev_ite, val_ite, st_ite, ev_pure, val_pure, st_pure, ev_writeCs,
    st_writeCs]
  by_cases h1 : (SPI_Transfer E MB85_FRAM [FRAM_OPCODE_READ] 1 0
      (E.HAL_GPIO_WritePin CsLine.FRAM_CS false s)).val.1 = true
  · by_cases h2 : (SPI_Transfer E MB85_FRAM (framAddrBytes A) FRAM_ADDRESS_LENGTH_IN_BYTES 0
        (SPI_Transfer E MB85_FRAM [FRAM_OPCODE_READ] 1 0
          (E.HAL_GPIO_WritePin CsLine.FRAM_CS false s)).st).val.1 = true
    · simp only [h1, h2, if_true, frames, List.cons_append, List.append_assoc,
        List.singleton_append, List.nil_append, List.append_nil, Bool.false_eq_true, if_false,
        framesFrom_low, framesFrom_high, framesFrom_xfer, framesFrom_none_nil]
    · simp only [h1, h2, if_true, frames, List.cons_append, List.append_assoc,
        List.singleton_append, List.nil_append, List.append_nil, Bool.false_eq_true, if_false,
        framesFrom_low, framesFrom_high, framesFrom_xfer, framesFrom_none_nil, ev_pure]
  · simp only [h1, if_true, frames, List.cons_append, List.append_assoc,
      List.singleton_append, List.nil_append, List.append_nil, Bool.false_eq_true, if_false,
      framesFrom_low, framesFrom_high, framesFrom_xfer, framesFrom_none_nil, ev_pure]

theorem frames_MB85RS256_Write (E : Env σ) (A n : Nat) (D : List Nat) (s : σ)
    (hw : (MB85RS256_WREN E s).val = true) :
    frames (MB85RS256_Write E A D n s).ev =
      [(SPI_Transfer E MB85_FRAM [FRAM_OPCODE_WREN] 1 0
          (E.HAL_GPIO_WritePin CsLine.FRAM_CS false s)).ev,
       (SPI_Transfer E MB85_FRAM [FRAM_OPCODE_WRITE] 1 0
          (E.HAL_GPIO_WritePin CsLine.FRAM_CS false (MB85RS256_WREN E s).st)).ev ++
        (if (SPI_Transfer E MB85_FRAM [FRAM_OPCODE_WRITE] 1 0
            (E.HAL_GPIO_WritePin CsLine.FRAM_CS false (MB85RS256_WREN E s).st)).val.1 = true
         then
          (SPI_Transfer E MB85_FRAM (framAddrBytes A) FRAM_ADDRESS_LENGTH_IN_BYTES 0
            (SPI_Transfer E MB85_FRAM [FRAM_OPCODE_WRITE] 1 0
              (E.HAL_GPIO_WritePin CsLine.FRAM_CS false (MB85RS256_WREN E s).st)).st).ev ++
          (if (SPI_Transfer E MB85_FRAM (framAddrBytes A) FRAM_ADDRESS_LENGTH_IN_BYTES 0
              (SPI_Transfer E MB85_FRAM [FRAM_OPCODE_WRITE] 1 0
                (E.HAL_GPIO_WritePin CsLine.FRAM_CS false (MB85RS256_WREN E s).st)).st).val.1 =
              true then
            (SPI_Transfer E MB85_FRAM D (framClampLength E n) 0
              (SPI_Transfer E MB85_FRAM (framAddrBytes A) FRAM_ADDRESS_LENGTH_IN_BYTES 0
                (SPI_Transfer E MB85_FRAM [FRAM_OPCODE_WRITE] 1 0
                  (E.HAL_GPIO_WritePin CsLine.FRAM_CS false
                    (MB85RS256_WREN E s).st)).st).st).ev
           else [])
         else []),
       (SPI_Transfer E MB85_FRAM [FRAM_OPCODE_WRDI] 1 0
          (E.HAL_GPIO_WritePin CsLine.FRAM_CS false
            (E.HAL_GPIO_WritePin CsLine.FRAM_CS true
              (if (SPI_Transfer E MB85_FRAM [FRAM_OPCODE_WRITE] 1 0
                  (E.HAL_GPIO_WritePin CsLine.FRAM_CS false
                    (MB85RS256_WREN E s).st)).val.1 = true then
                (if (SPI_Transfer E MB85_FRAM (framAddrBytes A) FRAM_ADDRESS_LENGTH_IN_BYTES 0
                    (SPI_Transfer E MB85_FRAM [FRAM_OPCODE_WRITE] 1 0
                      (E.HAL_GPIO_WritePin CsLine.FRAM_CS false
                        (MB85RS256_WREN E s).st)).st).val.1 = true then
                  (SPI_Transfer E MB85_FRAM D (framClampLength E n) 0
                    (SPI_Transfer E MB85_FRAM (framAddrBytes A) FRAM_ADDRESS_LENGTH_IN_BYTES 0
                      (SPI_Transfer E MB85_FRAM [FRAM_OPCODE_WRITE] 1 0
                        (E.HAL_GPIO_WritePin CsLine.FRAM_CS false
                          (MB85RS256_WREN E s).st)).st).st).st
                 else
                  (SPI_Transfer E MB85_FRAM (framAddrBytes A) FRAM_ADDRESS_LENGTH_IN_BYTES 0
                    (SPI_Transfer E MB85_FRAM [FRAM_OPCODE_WRITE] 1 0
                      (E.HAL_GPIO_WritePin CsLine.FRAM_CS false
                        (MB85RS256_WREN E s).st)).st).st)
               else
                (SPI_Transfer E MB85_FRAM [FRAM_OPCODE_WRITE] 1 0
                  (E.HAL_GPIO_WritePin CsLine.FRAM_CS false
                    (MB85RS256_WREN E s).st)).st)))).ev] := by
  have hw2 : (framSendCommand E FRAM_OPCODE_WREN s).val = true := hw
  simp only [MB85RS256_Write, MB85RS256_WREN, MB85RS256_WRDI, hw2, framChipSelectLow,
    framChipSelectHigh, ev_bind, val_bind,
    st_bind, run_ite, ev_ite, val_ite, st_ite, ev_pure, val_pure, st_pure, ev_writeCs,
    st_writeCs, Bool.not_true, Bool.false_eq_true, if_false, ev_framSendCommand]
  by_cases h1 : (SPI_Transfer E MB85_FRAM [FRAM_OPCODE_WRITE] 1 0
      (E.HAL_GPIO_WritePin CsLine.FRAM_CS false (framSendCommand E FRAM_OPCODE_WREN s).st)).val.1
        = true
  · by_cases h2 : (SPI_Transfer E MB85_FRAM (framAddrBytes A) FRAM_ADDRESS_LENGTH_IN_BYTES 0
        (SPI_Transfer E MB85_FRAM [FRAM_OPCODE_WRITE] 1 0
          (E.HAL_GPIO_WritePin CsLine.FRAM_CS false
            (framSendCommand E FRAM_OPCODE_WREN s).st)).st).val.1 = true
    · simp only [h1, h2, if_true, frames, List.cons_append, List.append_assoc,
        List.singleton_append, List.nil_append, List.append_nil, Bool.false_eq_true, if_false,
        framesFrom_low, framesFrom_high, framesFrom_xfer, framesFrom_none_nil, ev_pure]
      rfl
    · simp only [h1, h2, if_true, frames, List.cons_append, List.append_assoc,
        List.singleton_append, List.nil_append, List.append_nil, Bool.false_eq_true, if_false,
        framesFrom_low, framesFrom_high, framesFrom_xfer, framesFrom_none_nil, ev_pure]
      rfl
  · simp only [h1, if_true, frames, List.cons_append, List.append_assoc,
      List.singleton_append, List.nil_append, List.append_nil, Bool.false_eq_true, if_false,
      framesFrom_low, framesFrom_high, framesFrom_xfer, framesFrom_none_nil, ev_pure]
    rfl

end FramFrames

section C21
variable {σ : Type}

theorem or_read_bit (reg : Nat) (h : reg < 256) : (reg ||| 0x80) % 256 = reg ||| 0x80 := by
  have h1 : reg < 2 ^ 8 := by simpa using h
  have h2 : (0x80 : Nat) < 2 ^ 8 := by decide
  have h3 := Nat.or_lt_two_pow h1 h2
  exact Nat.mod_eq_of_lt (by simpa using h3)

theorem ev_MB85RS256_Write_failed (E : Env σ) (A n : Nat) (D : List Nat) (s : σ)
    (hw : (MB85RS256_WREN E s).val = false) :
    (MB85RS256_Write E A D n s).ev = (MB85RS256_WREN E s).ev := by
  simp only [MB85RS256_Write, ev_bind, val_bind, st_bind, run_ite, ev_ite, ev_pure, hw,
    Bool.not_false, if_true, List.append_nil]

end C21

section CleanFrames
variable {σ : Type}

theorem cleanRun_framesFrom (ev : List Event) :
    ∀ (cur : Option (List Event)), (∀ f, cur = some f → cleanRun f = true) →
      cleanRun ev = true → ∀ g, g ∈ framesFrom cur ev → cleanRun g = true := by
  induction ev with
  | nil => intro cur _ _ g hg; cases cur <;> simp [framesFrom] at hg
  | cons e es ih =>
    intro cur hcur hev g hg
    have hes : cleanRun es = true := by
      simp only [cleanRun, List.all_cons, Bool.and_eq_true] at hev
      exact hev.2
    have he : cleanRun [e] = true := by
      simp only [cleanRun, List.all_cons, Bool.and_eq_true] at hev
      simp only [cleanRun, List.all_cons, List.all_nil, Bool.and_true]
      exact hev.1
    cases cur with
    | none =>
      cases e with
      | csLow l =>
        exact ih (some []) (fun f hf => by cases hf; rfl) hes g hg
      | csHigh l => exact ih none (fun f hf => by cases hf) hes g hg
      | take ok => exact ih none (fun f hf => by cases hf) hes g hg
      | give => exact ih none (fun f hf => by cases hf) hes g hg
      | transmit b bytes st => exact ih none (fun f hf => by cases hf) hes g hg
      | receive b len st => exact ih none (fun f hf => by cases hf) hes g hg
      | delay t => exact ih none (fun f hf => by cases hf) hes g hg
      | halDelay t => exact ih none (fun f hf => by cases hf) hes g hg
    | some f0 =>
      have hf0 : cleanRun f0 = true := hcur f0 rfl
      have hstep : ∀ g, g ∈ framesFrom (some (f0 ++ [e])) es → cleanRun g = true :=
        ih (some (f0 ++ [e]))
          (fun f hf => by
            cases hf
            rw [cleanRun_append, hf0, he]
            rfl) hes
      cases e with
      | csLow l => exact hstep g hg
      | csHigh l =>
        simp only [framesFrom, List.mem_cons] at hg
        rcases hg with rfl | hg
        · exact hf0
        · exact ih none (fun f hf => by cases hf) hes g hg
      | take ok => exact hstep g hg
      | give => exact hstep g hg
      | transmit b bytes st => exact hstep g hg
      | receive b len st => exact hstep g hg
      | delay t => exact hstep g hg
      | halDelay t => exact hstep g hg

theorem cleanRun_frames (ev : List Event) (h : cleanRun ev = true) (g : List Event)
    (hg : g ∈ frames ev) : cleanRun g = true :=
  cleanRun_framesFrom ev none (fun f hf => by cases hf) h g hg

theorem val_MB85RS256_Write (E : Env σ) (A n : Nat) (D : List Nat) (s : σ)
    (hw : (MB85RS256_WREN E s).val = true) :
    cleanRun ((frames (MB85RS256_Write E A D n s).ev).getD 2 []) =
      (MB85RS256_Write E A D n s).val := by
  rw [frames_MB85RS256_Write E A n D s hw]
  simp only [List.getD_cons_succ, List.getD_cons_zero]
  rw [xfer_clean E MB85_FRAM SpiBus.xSharedSpiHandle rfl]
  have hx : (SPI_Transfer E MB85_FRAM [FRAM_OPCODE_WREN % U8] FRAM_OP_CODE_LENGTH_IN_BYTES 0
      (E.HAL_GPIO_WritePin CsLine.FRAM_CS false s)).val.1 = true := hw
  simp only [MB85RS256_Write, MB85RS256_WREN, MB85RS256_WRDI, framChipSelectLow,
    framChipSelectHigh, val_bind, st_bind, run_ite, val_ite, st_ite, val_pure, st_pure,
    st_writeCs, framSendCommand, hx, Bool.not_true, Bool.false_eq_true, if_false]
  split_ifs <;> rfl

end CleanFrames

section C22
variable {σ : Type}

theorem clamp_eq_min (E : Env σ) (n : Nat) (hn : n < 65536) :
    framClampLength E n = min n E.FRAM_SIZE_IN_BYTES := by
  simp only [framClampLength, U16]
  have h1 : n % 65536 = n := Nat.mod_eq_of_lt hn
  rw [h1]
  split_ifs with h
  · have h2 : E.FRAM_SIZE_IN_BYTES % 65536 = E.FRAM_SIZE_IN_BYTES := Nat.mod_eq_of_lt (by omega)
    rw [h2]
    omega
  · omega

theorem framAddr_eq (A : Nat) (hA : A < 65536) : framAddrBytes A = [A / 256, A % 256] := by
  simp only [framAddrBytes, U16, U8]
  have h1 : A % 65536 = A := Nat.mod_eq_of_lt hA
  have h2 : A / 256 % 256 = A / 256 := Nat.mod_eq_of_lt (by omega)
  rw [h1, h2]

theorem clamp_lt (E : Env σ) (n : Nat) : framClampLength E n % U16 = framClampLength E n := by
  apply Nat.mod_eq_of_lt
  simp only [framClampLength]
  split_ifs <;> exact Nat.mod_lt _ (by decide)

theorem read_ok_parts (E : Env σ) (A n : Nat) (s : σ)
    (h : (MB85RS256_Read E A n s).val.1 = true) :
    (SPI_Transfer E MB85_FRAM [FRAM_OPCODE_READ] 1 0
      (E.HAL_GPIO_WritePin CsLine.FRAM_CS false s)).val.1 = true ∧
    (SPI_Transfer E MB85_FRAM (framAddrBytes A) FRAM_ADDRESS_LENGTH_IN_BYTES 0
      (SPI_Transfer E MB85_FRAM [FRAM_OPCODE_READ] 1 0
        (E.HAL_GPIO_WritePin CsLine.FRAM_CS false s)).st).val.1 = true ∧
    (SPI_Transfer E MB85_FRAM [] 0 (framClampLength E n)
      (SPI_Transfer E MB85_FRAM (framAddrBytes A) FRAM_ADDRESS_LENGTH_IN_BYTES 0
        (SPI_Transfer E MB85_FRAM [FRAM_OPCODE_READ] 1 0
          (E.HAL_GPIO_WritePin CsLine.FRAM_CS false s)).st).st).val.1 = true := by
  simp only [MB85RS256_Read, framChipSelectLow, framChipSelectHigh, val_bind, st_bind,
    run_ite, val_ite, st_ite, val_pure, st_pure, st_writeCs] at h
  by_cases h1 : (SPI_Transfer E MB85_FRAM [FRAM_OPCODE_READ] 1 0
      (E.HAL_GPIO_WritePin CsLine.FRAM_CS false s)).val.1 = true
  · by_cases h2 : (SPI_Transfer E MB85_FRAM (framAddrBytes A) FRAM_ADDRESS_LENGTH_IN_BYTES 0
        (SPI_Transfer E MB85_FRAM [FRAM_OPCODE_READ] 1 0
          (E.HAL_GPIO_WritePin CsLine.FRAM_CS false s)).st).val.1 = true
    · simp only [h1, h2, if_true] at h
      exact ⟨h1, h2, h⟩
    · simp [h1, h2] at h
  · simp [h1] at h

theorem fram_read_frame (E : Env σ) (A n : Nat) (s : σ) (hA : A < 65536) (hn : n < 65536)
    (h : (MB85RS256_Read E A n s).val.1 = true) :
    frames (MB85RS256_Read E A n s).ev =
      [[Event.take true,
        Event.transmit SpiBus.xSharedSpiHandle [0x03] HAL_StatusTypeDef.HAL_OK, Event.give,
        Event.take true,
        Event.transmit SpiBus.xSharedSpiHandle [A / 256, A % 256] HAL_StatusTypeDef.HAL_OK,
        Event.give, Event.take true] ++
       ((if 0 < min n E.FRAM_SIZE_IN_BYTES then
          [Event.receive SpiBus.xSharedSpiHandle (min n E.FRAM_SIZE_IN_BYTES)
            HAL_StatusTypeDef.HAL_OK] else []) ++ [Event.give])] := by
  obtain ⟨h1, h2, h3⟩ := read_ok_parts E A n s h
  have hM : spiHandleOf MB85_FRAM = some SpiBus.xSharedSpiHandle := rfl
  rw [frames_MB85RS256_Read, if_pos h1, if_pos h2, xfer_ok_shape E _ _ hM _ _ _ _ h1,
    xfer_ok_shape E _ _ hM _ _ _ _ h2, xfer_ok_shape E _ _ hM _ _ _ _ h3, clamp_lt,
    clamp_eq_min E n hn, framAddr_eq A hA]
  rfl

theorem write_clean_parts (E : Env σ) (A n : Nat) (D : List Nat) (s : σ)
    (h : cleanRun (MB85RS256_Write E A D n s).ev = true) :
    (MB85RS256_WREN E s).val = true ∧
    (SPI_Transfer E MB85_FRAM [FRAM_OPCODE_WRITE] 1 0
      (E.HAL_GPIO_WritePin CsLine.FRAM_CS false (MB85RS256_WREN E s).st)).val.1 = true ∧
    (SPI_Transfer E MB85_FRAM (framAddrBytes A) FRAM_ADDRESS_LENGTH_IN_BYTES 0
      (SPI_Transfer E MB85_FRAM [FRAM_OPCODE_WRITE] 1 0
        (E.HAL_GPIO_WritePin CsLine.FRAM_CS false (MB85RS256_WREN E s).st)).st).val.1 = true ∧
    (SPI_Transfer E MB85_FRAM D (framClampLength E n) 0
      (SPI_Transfer E MB85_FRAM (framAddrBytes A) FRAM_ADDRESS_LENGTH_IN_BYTES 0
        (SPI_Transfer E MB85_FRAM [FRAM_OPCODE_WRITE] 1 0
          (E.HAL_GPIO_WritePin CsLine.FRAM_CS false (MB85RS256_WREN E s).st)).st).st).val.1 =
      true ∧
    (MB85RS256_Write E A D n s).val = true := by
  have hM : spiHandleOf MB85_FRAM = some SpiBus.xSharedSpiHandle := rfl
  have hw : (MB85RS256_WREN E s).val = true := by
    by_contra hc
    have hw2 : (MB85RS256_WREN E s).val = false := by simpa using hc
    rw [ev_MB85RS256_Write_failed E A n D s hw2] at h
    have hf := cleanRun_frames _ h
    rw [MB85RS256_WREN, frames_framSendCommand] at hf
    have h0 := hf _ (List.mem_singleton.2 rfl)
    rw [xfer_clean E _ _ hM] at h0
    exact hc h0
  have hf := cleanRun_frames _ h
  have hv := val_MB85RS256_Write E A n D s hw
  rw [frames_MB85RS256_Write E A n D s hw] at hf hv
  have hf1 := hf _ (List.mem_cons_of_mem _ (List.mem_cons_self _ _))
  have hf2 := hf _ (List.mem_cons_of_mem _ (List.mem_cons_of_mem _ (List.mem_cons_self _ _)))
  simp only [List.getD_cons_succ, List.getD_cons_zero] at hv
  rw [hf2] at hv
  rw [cleanRun_append, Bool.and_eq_true, xfer_clean E _ _ hM] at hf1
  obtain ⟨h1, hr⟩ := hf1
  rw [if_pos h1, cleanRun_append, Bool.and_eq_true, xfer_clean E _ _ hM] at hr
  obtain ⟨h2, hr2⟩ := hr
  rw [if_pos h2, xfer_clean E _ _ hM] at hr2
  exact ⟨hw, h1, h2, hr2, hv.symm⟩

theorem fram_write_frames (E : Env σ) (A n : Nat) (D : List Nat) (s : σ) (hA : A < 65536)
    (hn : n < 65536) (h : cleanRun (MB85RS256_Write E A D n s).ev = true) :
    frames (MB85RS256_Write E A D n s).ev =
      [[Event.take true,
        Event.transmit SpiBus.xSharedSpiHandle [0x06] HAL_StatusTypeDef.HAL_OK, Event.give],
       [Event.take true,
        Event.transmit SpiBus.xSharedSpiHandle [0x02] HAL_StatusTypeDef.HAL_OK, Event.give,
        Event.take true,
        Event.transmit SpiBus.xSharedSpiHandle [A / 256, A % 256] HAL_StatusTypeDef.HAL_OK,
        Event.give, Event.take true] ++
        ((if 0 < min n E.FRAM_SIZE_IN_BYTES then
          [Event.transmit SpiBus.xSharedSpiHandle (D.take (min n E.FRAM_SIZE_IN_BYTES))
            HAL_StatusTypeDef.HAL_OK] else []) ++ [Event.give]),
       [Event.take true,
        Event.transmit SpiBus.xSharedSpiHandle [0x04] HAL_StatusTypeDef.HAL_OK,
        Event.give]] := by
  obtain ⟨hw, h1, h2, h3, _⟩ := write_clean_parts E A n D s h
  have hM : spiHandleOf MB85_FRAM = some SpiBus.xSharedSpiHandle := rfl
  have hf := cleanRun_frames _ h
  rw [frames_MB85RS256_Write E A n D s hw] at hf ⊢
  have hf0 := hf _ (List.mem_cons_self _ _)
  have hf2 := hf _ (List.mem_cons_of_mem _ (List.mem_cons_of_mem _ (List.mem_cons_self _ _)))
  rw [xfer_clean E _ _ hM] at hf0 hf2
  rw [if_pos h1, if_pos h2, xfer_ok_shape E _ _ hM _ _ _ _ hf0,
    xfer_ok_shape E _ _ hM _ _ _ _ h1, xfer_ok_shape E _ _ hM _ _ _ _ h2,
    xfer_ok_shape E _ _ hM _ _ _ _ h3, xfer_ok_shape E _ _ hM _ _ _ _ hf2, clamp_lt,
    clamp_eq_min E n hn, framAddr_eq A hA]
  rfl

end C22

section C22T
variable {σ : Type}

/-- Claim C22: for a 16-bit address `A` and a 16-bit length `n`, an `MB85RS256_Read` that
returns true makes exactly one frame, in which the byte 0x03, then the two bytes
`[A / 256, A % 256]`, then one receive of `min n FRAM_SIZE_IN_BYTES` bytes pass, each in
its own transfer (for a clamped length of zero the last transfer takes and gives the
mutex without a receive); an `MB85RS256_Write` in which no take and no HAL call fails
returns true and makes three frames: write enable, the write frame with the byte 0x02,
the same two address bytes and the first `min n FRAM_SIZE_IN_BYTES` bytes of the payload,
and write disable. The address bytes are most significant first: decoding them as
`hi * 256 + lo` gives back `A`. -/
theorem fram_frames_carry_big_endian_address (E : Env σ) (A n : Nat) (D : List Nat) (s : σ)
    (hA : A < 65536) (hn : n < 65536) :
    ((MB85RS256_Read E A n s).val.1 = true →
      frames (MB85RS256_Read E A n s).ev =
        [[Event.take true,
          Event.transmit SpiBus.xSharedSpiHandle [0x03] HAL_StatusTypeDef.HAL_OK, Event.give,
          Event.take true,
          Event.transmit SpiBus.xSharedSpiHandle [A / 256, A % 256] HAL_StatusTypeDef.HAL_OK,
          Event.give, Event.take true] ++
         ((if 0 < min n E.FRAM_SIZE_IN_BYTES then
            [Event.receive SpiBus.xSharedSpiHandle (min n E.FRAM_SIZE_IN_BYTES)
              HAL_StatusTypeDef.HAL_OK] else []) ++ [Event.give])]) ∧
    (cleanRun (MB85RS256_Write E A D n s).ev = true →
      (MB85RS256_Write E A D n s).val = true ∧
      frames (MB85RS256_Write E A D n s).ev =
        [[Event.take true,
          Event.transmit SpiBus.xSharedSpiHandle [0x06] HAL_StatusTypeDef.HAL_OK, Event.give],
         [Event.take true,
          Event.transmit SpiBus.xSharedSpiHandle [0x02] HAL_StatusTypeDef.HAL_OK, Event.give,
          Event.take true,
          Event.transmit SpiBus.xSharedSpiHandle [A / 256, A % 256] HAL_StatusTypeDef.HAL_OK,
          Event.give, Event.take true] ++
          ((if 0 < min n E.FRAM_SIZE_IN_BYTES then
            [Event.transmit SpiBus.xSharedSpiHandle (D.take (min n E.FRAM_SIZE_IN_BYTES))
              HAL_StatusTypeDef.HAL_OK] else []) ++ [Event.give]),
         [Event.take true,
          Event.transmit SpiBus.xSharedSpiHandle [0x04] HAL_StatusTypeDef.HAL_OK,
          Event.give]]) ∧
    framAddrBytes A = [A / 256, A % 256] ∧
    A / 256 < 256 ∧ A % 256 < 256 ∧ A / 256 * 256 + A % 256 = A ∧
    beValue (framAddrBytes A) = A := by
  refine ⟨fun h => fram_read_frame E A n s hA hn h,
    fun h => ⟨(write_clean_parts E A n D s h).2.2.2.2, fram_write_frames E A n D s hA hn h⟩,
    framAddr_eq A hA, by omega, by omega, by omega, beValue_framAddrBytes A hA⟩

/-- Witness for claim C22: the reference FRAM, address 0x1234, three bytes. -/
theorem fram_frames_carry_big_endian_address_witness :
    frames (MB85RS256_Read refEnv 0x1234 3 refIdle).ev =
      [[Event.take true,
        Event.transmit SpiBus.xSharedSpiHandle [0x03] HAL_StatusTypeDef.HAL_OK, Event.give,
        Event.take true,
        Event.transmit SpiBus.xSharedSpiHandle [0x12, 0x34] HAL_StatusTypeDef.HAL_OK,
        Event.give, Event.take true,
        Event.receive SpiBus.xSharedSpiHandle 3 HAL_StatusTypeDef.HAL_OK, Event.give]] ∧
    (MB85RS256_Write refEnv 0x1234 [9, 8, 7] 3 refIdle).val = true ∧
    (frames (MB85RS256_Write refEnv 0x1234 [9, 8, 7] 3 refIdle).ev)[1]? = some
      [Event.take true,
       Event.transmit SpiBus.xSharedSpiHandle [0x02] HAL_StatusTypeDef.HAL_OK, Event.give,
       Event.take true,
       Event.transmit SpiBus.xSharedSpiHandle [0x12, 0x34] HAL_StatusTypeDef.HAL_OK,
       Event.give, Event.take true,
       Event.transmit SpiBus.xSharedSpiHandle [9, 8, 7] HAL_StatusTypeDef.HAL_OK,
       Event.give] :=
  have h := fram_frames_carry_big_endian_address refEnv 0x1234 3 [9, 8, 7] refIdle
    (by decide) (by decide)
  ⟨h.1 (by decide), (h.2.1 (by decide)).1, by rw [(h.2.1 (by decide)).2]; rfl⟩

end C22T
section C23
variable {σ : Type}

/-- Claim C23: for a 16-bit length `n` the clamped length of mb85rs256.c:98-101 and
138-141 is `min n FRAM_SIZE_IN_BYTES`, which is `n` up to the capacity and the capacity
above it, so never more than the capacity. Every receive in the frame of `MB85RS256_Read`
asks for that many bytes, and a read that returns true with a positive clamped length
makes exactly one receive; every transmit in the write frame of `MB85RS256_Write` hands
over the opcode, the address bytes or the first `min n FRAM_SIZE_IN_BYTES` bytes of the
payload, and a write without failure whose payload buffer holds `n` bytes sends exactly
that many payload bytes. -/
theorem fram_length_clamped_to_capacity (E : Env σ) (A n : Nat) (D : List Nat) (s : σ)
    (hn : n < 65536) :
    framClampLength E n = min n E.FRAM_SIZE_IN_BYTES ∧
    framClampLength E n ≤ E.FRAM_SIZE_IN_BYTES ∧
    (n ≤ E.FRAM_SIZE_IN_BYTES → framClampLength E n = n) ∧
    (E.FRAM_SIZE_IN_BYTES < n → framClampLength E n = E.FRAM_SIZE_IN_BYTES) ∧
    (∀ f bus len stat, f ∈ frames (MB85RS256_Read E A n s).ev →
      Event.receive bus len stat ∈ f → len = min n E.FRAM_SIZE_IN_BYTES) ∧
    ((MB85RS256_Read E A n s).val.1 = true → 0 < min n E.FRAM_SIZE_IN_BYTES → A < 65536 →
      (frames (MB85RS256_Read E A n s).ev).map receivesOf =
        [[min n E.FRAM_SIZE_IN_BYTES]]) ∧
    (∀ f bus bytes stat, (frames (MB85RS256_Write E A D n s).ev)[1]? = some f →
      Event.transmit bus bytes stat ∈ f →
      bytes = [0x02] ∨ bytes = framAddrBytes A ∨
        bytes = D.take (min n E.FRAM_SIZE_IN_BYTES)) ∧
    (cleanRun (MB85RS256_Write E A D n s).ev = true → 0 < min n E.FRAM_SIZE_IN_BYTES →
      A < 65536 → n ≤ D.length →
      (frames (MB85RS256_Write E A D n s).ev).map transmitsOf =
        [[[0x06]], [[0x02], [A / 256, A % 256], D.take (min n E.FRAM_SIZE_IN_BYTES)],
         [[0x04]]] ∧
      (D.take (min n E.FRAM_SIZE_IN_BYTES)).length = min n E.FRAM_SIZE_IN_BYTES) := by
  have hc := clamp_eq_min E n hn
  refine ⟨hc, by rw [hc]; exact Nat.min_le_right _ _, fun h => by rw [hc]; omega,
    fun h => by rw [hc]; omega, ?_, ?_, ?_, ?_⟩
  · intro f bus len stat hf hmem
    rw [frames_MB85RS256_Read, List.mem_singleton] at hf
    subst hf
    simp only [List.mem_append, recv_mem_xfer_zero, false_or] at hmem
    split_ifs at hmem <;>
      simp only [List.mem_append, recv_mem_xfer_zero, List.not_mem_nil, false_or] at hmem
    have := (recv_mem_xfer E _ _ _ _ _ _ _ _ hmem).1
    rw [this, clamp_lt, hc]
  · intro h hpos hA
    rw [fram_read_frame E A n s hA hn h, if_pos hpos]
    rfl
  · intro f bus bytes stat hf hmem
    by_cases hw : (MB85RS256_WREN E s).val = true
    · rw [frames_MB85RS256_Write E A n D s hw] at hf
      simp only [List.getElem?_cons_succ, List.getElem?_cons_zero, Option.some.injEq] at hf
      subst hf
      have hx1 : ∀ t, Event.transmit bus bytes stat ∈
          (SPI_Transfer E MB85_FRAM [FRAM_OPCODE_WRITE] 1 0 t).ev → bytes = [0x02] :=
        fun t h => (xmit_mem_xfer E _ _ _ _ _ _ _ _ h).1
      have hx2 : ∀ t, Event.transmit bus bytes stat ∈
          (SPI_Transfer E MB85_FRAM (framAddrBytes A) FRAM_ADDRESS_LENGTH_IN_BYTES 0 t).ev →
          bytes = framAddrBytes A :=
        fun t h => by
          have := (xmit_mem_xfer E _ _ _ _ _ _ _ _ h).1
          rw [this]
          rfl
      have hx3 : ∀ t, Event.transmit bus bytes stat ∈
          (SPI_Transfer E MB85_FRAM D (framClampLength E n) 0 t).ev →
          bytes = D.take (min n E.FRAM_SIZE_IN_BYTES) :=
        fun t h => by
          have := (xmit_mem_xfer E _ _ _ _ _ _ _ _ h).1
          rw [this, clamp_lt, hc]
      simp only [List.mem_append] at hmem
      rcases hmem with h | h
      · exact Or.inl (hx1 _ h)
      · split_ifs at h
        · simp only [List.mem_append] at h
          rcases h with h | h
          · exact Or.inr (Or.inl (hx2 _ h))
          · exact Or.inr (Or.inr (hx3 _ h))
        · simp only [List.mem_append, List.not_mem_nil, or_false] at h
          exact Or.inr (Or.inl (hx2 _ h))
        · simp at h
    · have hw2 : (MB85RS256_WREN E s).val = false := by simpa using hw
      rw [ev_MB85RS256_Write_failed E A n D s hw2, MB85RS256_WREN, frames_framSendCommand] at hf
      simp at hf
  · intro h hpos hA hD
    refine ⟨?_, ?_⟩
    · rw [fram_write_frames E A n D s hA hn h, if_pos hpos]
      rfl
    · rw [List.length_take]
      omega

/-- Witness for claim C23: the reference FRAM of 32768 bytes asked for 40000 bytes. -/
theorem fram_length_clamped_to_capacity_witness :
    framClampLength refEnv 40000 = 32768 ∧
    (frames (MB85RS256_Read refEnv 0 40000 refIdle).ev).map receivesOf = [[32768]] :=
  have h := fram_length_clamped_to_capacity refEnv 0 40000 [] refIdle (by decide)
  ⟨h.2.2.2.1 (by decide), h.2.2.2.2.2.1 (by decide) (by decide) (by decide)⟩

end C23

section C24
variable {σ : Type}

theorem flashAddr_shift (A : Nat) :
    flashAddrBytes A false = [A >>> 16 % 256, A >>> 8 % 256, A % 256] ∧
    flashAddrBytes A true = [A >>> 24 % 256, A >>> 16 % 256, A >>> 8 % 256, A % 256] := by
  simp [flashAddrBytes, U8, Nat.shiftRight_eq_div_pow]

theorem val_flashIs4Byte_ok (E : Env σ) (s : σ) (v : Nat)
    (h : (flashRead E [FLASH_CMD_RDSCUR] 1 1 s).val = (true, some [v])) :
    (flashIs4Byte E s).val = decide (v &&& 0x04 = 0x04) := by
  simp only [flashIs4Byte, MX25_RDSCUR, readUninit, val_bind, st_bind, run_ite, val_ite,
    val_pure, st_pure, h, if_true, Option.getD_some, List.headD_cons, FLASH_4BYTE_MASK]

theorem flashSendAddr_clean (E : Env σ) (A : Nat) (m : Bool) (s : σ) :
    cleanRun (flashSendAddr E A m s).ev = (flashSendAddr E A m s).val := by
  simp only [flashSendAddr, ev_bind, val_bind, ev_pure, val_pure, List.append_nil]
  exact xfer_clean E MX25_FLASH SpiBus.xSharedSpiHandle rfl _ _ _ _

theorem flashSendAddr_ok_shape (E : Env σ) (A : Nat) (m : Bool) (s : σ)
    (h : (flashSendAddr E A m s).val = true) :
    (flashSendAddr E A m s).ev =
      [Event.take true,
       Event.transmit SpiBus.xSharedSpiHandle (flashAddrBytes A m) HAL_StatusTypeDef.HAL_OK,
       Event.give] := by
  have hF : spiHandleOf MX25_FLASH = some SpiBus.xSharedSpiHandle := rfl
  have h1 : (SPI_Transfer E MX25_FLASH (flashAddrBytes A m) (if m = true then 4 else 3) 0
      s).val.1 = true := h
  simp only [flashSendAddr, ev_bind, ev_pure, List.append_nil]
  rw [xfer_ok_shape E _ _ hF _ _ _ _ h1]
  cases m <;> rfl

theorem transmitsOf_xfer_ok (E : Env σ) (device : SpiDevice_t) (bus : SpiBus)
    (hd : spiHandleOf device = some bus) (b : List Nat) (l1 l2 : Nat) (s : σ)
    (h : (SPI_Transfer E device b l1 l2 s).val.1 = true) :
    transmitsOf (SPI_Transfer E device b l1 l2 s).ev =
      if 0 < l1 % U16 then [b.take (l1 % U16)] else [] := by
  rw [xfer_ok_shape E device bus hd b l1 l2 s h]
  split_ifs <;> simp [transmitsOf]

theorem read_frame_clean (E : Env σ) (A n : Nat) (m : Bool) (s : σ)
    (h : cleanRun ((SPI_Transfer E MX25_FLASH [FLASH_CMD_READ] 1 0 s).ev ++
      (if (SPI_Transfer E MX25_FLASH [FLASH_CMD_READ] 1 0 s).val.1 = true then
        (flashSendAddr E A m (SPI_Transfer E MX25_FLASH [FLASH_CMD_READ] 1 0 s).st).ev ++
        (if (flashSendAddr E A m
            (SPI_Transfer E MX25_FLASH [FLASH_CMD_READ] 1 0 s).st).val = true then
          (SPI_Transfer E MX25_FLASH [] 0 n
            (flashSendAddr E A m (SPI_Transfer E MX25_FLASH [FLASH_CMD_READ] 1 0 s).st).st).ev
         else [])
       else [])) = true) :
    transmitsOf ((SPI_Transfer E MX25_FLASH [FLASH_CMD_READ] 1 0 s).ev ++
      (if (SPI_Transfer E MX25_FLASH [FLASH_CMD_READ] 1 0 s).val.1 = true then
        (flashSendAddr E A m (SPI_Transfer E MX25_FLASH [FLASH_CMD_READ] 1 0 s).st).ev ++
        (if (flashSendAddr E A m
            (SPI_Transfer E MX25_FLASH [FLASH_CMD_READ] 1 0 s).st).val = true then
          (SPI_Transfer E MX25_FLASH [] 0 n
            (flashSendAddr E A m (SPI_Transfer E MX25_FLASH [FLASH_CMD_READ] 1 0 s).st).st).ev
         else [])
       else [])) = [[0x03], flashAddrBytes A m] := by
  have hF : spiHandleOf MX25_FLASH = some SpiBus.xSharedSpiHandle := rfl
  rw [cleanRun_append, Bool.and_eq_true, xfer_clean E _ _ hF] at h
  obtain ⟨h1, hr⟩ := h
  rw [if_pos h1, cleanRun_append, Bool.and_eq_true, flashSendAddr_clean] at hr
  obtain ⟨h2, hr2⟩ := hr
  rw [if_pos h2, xfer_clean E _ _ hF] at hr2
  rw [if_pos h1, if_pos h2, transmitsOf_append, transmitsOf_append,
    transmitsOf_xfer_ok E _ _ hF _ _ _ _ h1, transmitsOf_xfer_ok E _ _ hF _ _ _ _ hr2,
    flashSendAddr_ok_shape E A m _ h2]
  rfl

theorem se_frame_clean (E : Env σ) (A : Nat) (m : Bool) (s : σ)
    (h : cleanRun ((SPI_Transfer E MX25_FLASH [FLASH_CMD_SE] 1 0 s).ev ++
      (if (SPI_Transfer E MX25_FLASH [FLASH_CMD_SE] 1 0 s).val.1 = true then
        (flashSendAddr E A m (SPI_Transfer E MX25_FLASH [FLASH_CMD_SE] 1 0 s).st).ev
       else [])) = true) :
    transmitsOf ((SPI_Transfer E MX25_FLASH [FLASH_CMD_SE] 1 0 s).ev ++
      (if (SPI_Transfer E MX25_FLASH [FLASH_CMD_SE] 1 0 s).val.1 = true then
        (flashSendAddr E A m (SPI_Transfer E MX25_FLASH [FLASH_CMD_SE] 1 0 s).st).ev
       else [])) = [[0x20], flashAddrBytes A m] := by
  have hF : spiHandleOf MX25_FLASH = some SpiBus.xSharedSpiHandle := rfl
  rw [cleanRun_append, Bool.and_eq_true, xfer_clean E _ _ hF] at h
  obtain ⟨h1, hr⟩ := h
  rw [if_pos h1, flashSendAddr_clean] at hr
  rw [if_pos h1, transmitsOf_append, transmitsOf_xfer_ok E _ _ hF _ _ _ _ h1,
    flashSendAddr_ok_shape E A m _ hr]
  rfl

theorem pp_frame_clean (E : Env σ) (A n : Nat) (D : List Nat) (m : Bool) (s : σ)
    (h : cleanRun ((SPI_Transfer E MX25_FLASH [FLASH_CMD_PP] 1 0 s).ev ++
      (if (SPI_Transfer E MX25_FLASH [FLASH_CMD_PP] 1 0 s).val.1 = true then
        (flashSendAddr E A m (SPI_Transfer E MX25_FLASH [FLASH_CMD_PP] 1 0 s).st).ev ++
        (SPI_Transfer E MX25_FLASH D n 0
          (flashSendAddr E A m (SPI_Transfer E MX25_FLASH [FLASH_CMD_PP] 1 0 s).st).st).ev
       else [])) = true) :
    transmitsOf ((SPI_Transfer E MX25_FLASH [FLASH_CMD_PP] 1 0 s).ev ++
      (if (SPI_Transfer E MX25_FLASH [FLASH_CMD_PP] 1 0 s).val.1 = true then
        (flashSendAddr E A m (SPI_Transfer E MX25_FLASH [FLASH_CMD_PP] 1 0 s).st).ev ++
        (SPI_Transfer E MX25_FLASH D n 0
          (flashSendAddr E A m (SPI_Transfer E MX25_FLASH [FLASH_CMD_PP] 1 0 s).st).st).ev
       else [])) =
      [[0x02], flashAddrBytes A m] ++
        (if 0 < n % 65536 then [D.take (n % 65536)] else []) := by
  have hF : spiHandleOf MX25_FLASH = some SpiBus.xSharedSpiHandle := rfl
  rw [cleanRun_append, Bool.and_eq_true, xfer_clean E _ _ hF] at h
  obtain ⟨h1, hr⟩ := h
  rw [if_pos h1, cleanRun_append, Bool.and_eq_true, flashSendAddr_clean,
    xfer_clean E _ _ hF] at hr
  obtain ⟨h2, h3⟩ := hr
  rw [if_pos h1, transmitsOf_append, transmitsOf_append,
    transmitsOf_xfer_ok E _ _ hF _ _ _ _ h1, transmitsOf_xfer_ok E _ _ hF _ _ _ _ h3,
    flashSendAddr_ok_shape E A m _ h2]
  rfl

end C24

section Bits

set_option maxRecDepth 100000 in
theorem reg4_bits : ∀ o, o < 16 → ∀ v, v < 256 →
    ((v &&& 0x07) ||| 0x08 ||| (o * 16)) &&& 0x07 = v &&& 0x07 ∧
    ((v &&& 0x07) ||| 0x08 ||| (o * 16)) &&& 0x08 = 0x08 ∧
    ((v &&& 0x07) ||| 0x08 ||| (o * 16)) / 16 = o := by
  decide

set_option maxRecDepth 100000 in
theorem reg5_bits : ∀ b, b < 4 → ∀ v, v < 256 →
    ((v &&& 0x3F) ||| (b * 64)) &&& 0x3F = v &&& 0x3F ∧
    ((v &&& 0x3F) ||| (b * 64)) / 64 = b := by
  decide

set_option maxRecDepth 100000 in
theorem reg3_bits : ∀ v, v < 256 →
    (v ||| 0xE8) &&& 0x17 = v &&& 0x17 ∧ (v ||| 0xE8) &&& 0xE8 = 0xE8 := by
  decide

end Bits

section C28
variable {σ : Type}

theorem accelWrite_frame_clean (E : Env σ) (reg v : Nat) (s : σ)
    (h : cleanRun ((SPI_Transfer E LIS3DSH_ACCEL [reg] LIS3DSH_REGISTER_LEN 0 s).ev ++
      (if (SPI_Transfer E LIS3DSH_ACCEL [reg] LIS3DSH_REGISTER_LEN 0 s).val.1 = true then
        (SPI_Transfer E LIS3DSH_ACCEL [v] (LIS3DSH_REGISTER_LEN % U8) 0
          (SPI_Transfer E LIS3DSH_ACCEL [reg] LIS3DSH_REGISTER_LEN 0 s).st).ev
       else [])) = true) :
    transmitsOf ((SPI_Transfer E LIS3DSH_ACCEL [reg] LIS3DSH_REGISTER_LEN 0 s).ev ++
      (if (SPI_Transfer E LIS3DSH_ACCEL [reg] LIS3DSH_REGISTER_LEN 0 s).val.1 = true then
        (SPI_Transfer E LIS3DSH_ACCEL [v] (LIS3DSH_REGISTER_LEN % U8) 0
          (SPI_Transfer E LIS3DSH_ACCEL [reg] LIS3DSH_REGISTER_LEN 0 s).st).ev
       else [])) = [[reg], [v]] := by
  have hL : spiHandleOf LIS3DSH_ACCEL = some SpiBus.xAccelSpiHandle := rfl
  rw [cleanRun_append, Bool.and_eq_true, xfer_clean E _ _ hL] at h
  obtain ⟨h1, hr⟩ := h
  rw [if_pos h1, xfer_clean E _ _ hL] at hr
  rw [if_pos h1, transmitsOf_append, transmitsOf_xfer_ok E _ _ hL _ _ _ _ h1,
    transmitsOf_xfer_ok E _ _ hL _ _ _ _ hr]
  rfl

theorem frames_accelWrite (E : Env σ) (r : Nat) (d : List Nat) (l : Nat) (s : σ) :
    frames (accelWrite E r d l s).ev =
      [(SPI_Transfer E LIS3DSH_ACCEL [r] LIS3DSH_REGISTER_LEN 0
          (E.HAL_GPIO_WritePin CsLine.ACCEL_CS false s)).ev ++
        (if (SPI_Transfer E LIS3DSH_ACCEL [r] LIS3DSH_REGISTER_LEN 0
            (E.HAL_GPIO_WritePin CsLine.ACCEL_CS false s)).val.1 = true then
          (SPI_Transfer E LIS3DSH_ACCEL d (l % U8) 0
            (SPI_Transfer E LIS3DSH_ACCEL [r] LIS3DSH_REGISTER_LEN 0
              (E.HAL_GPIO_WritePin CsLine.ACCEL_CS false s)).st).ev
         else [])] := by
  have h := frames_accelWrite_append E r d l s []
  rwa [List.append_nil] at h

theorem frames_accelRead (E : Env σ) (r l : Nat) (s : σ) :
    frames (accelRead E r l s).ev =
      [(SPI_Transfer E LIS3DSH_ACCEL [(r ||| LIS3DSH_READ_BITMASK) % U8] LIS3DSH_REGISTER_LEN
        (l % U8) (E.HAL_GPIO_WritePin CsLine.ACCEL_CS false s)).ev] := by
  have h := frames_accelRead_append E r l s []
  rwa [List.append_nil] at h

theorem accelWrite_transmits (E : Env σ) (reg v : Nat) (s : σ) (f : List Event)
    (hf : (frames (accelWrite E reg [v] LIS3DSH_REGISTER_LEN s).ev)[0]? = some f)
    (hc : cleanRun f = true) : transmitsOf f = [[reg], [v]] := by
  rw [frames_accelWrite] at hf
  simp only [List.getElem?_cons_zero, Option.some.injEq] at hf
  subst hf
  exact accelWrite_frame_clean E reg v _ hc

theorem or_interrupt_bits (v : Nat) :
    (((v ||| 0x20) ||| 0x40) ||| 0x80) ||| 0x08 = v ||| 0xE8 := by
  simp [Nat.lor_assoc]

theorem ev_accelConfigure_reg4 (E : Env σ) (odr bw : Nat) (s : σ) (v : Nat)
    (h : (accelRead E LIS3DSH_CTRL_REG4_REGISTER_ADDR LIS3DSH_REGISTER_LEN s).val =
      (true, some [v])) :
    ∃ rest, (accelConfigure E odr bw s).ev =
      (accelRead E LIS3DSH_CTRL_REG4_REGISTER_ADDR LIS3DSH_REGISTER_LEN s).ev ++
        ((accelWrite E LIS3DSH_CTRL_REG4_REGISTER_ADDR
          [((v &&& 0x07) ||| 0x08) ||| ((odr % 16) * 16)] LIS3DSH_REGISTER_LEN
          (accelRead E LIS3DSH_CTRL_REG4_REGISTER_ADDR LIS3DSH_REGISTER_LEN s).st).ev ++
          rest) := by
  simp only [accelConfigure, ev_bind, val_bind, st_bind, run_ite, ev_ite, val_ite, st_ite,
    ev_pure, val_pure, st_pure, h, if_true, Option.getD_some, List.headD_cons]
  exact ⟨_, rfl⟩

theorem ev_accelConfigure_reg5 (E : Env σ) (odr bw : Nat) (s : σ) (v v5 : Nat)
    (h : (accelRead E LIS3DSH_CTRL_REG4_REGISTER_ADDR LIS3DSH_REGISTER_LEN s).val =
      (true, some [v]))
    (hw : (accelWrite E LIS3DSH_CTRL_REG4_REGISTER_ADDR
      [((v &&& 0x07) ||| 0x08) ||| ((odr % 16) * 16)] LIS3DSH_REGISTER_LEN
      (accelRead E LIS3DSH_CTRL_REG4_REGISTER_ADDR LIS3DSH_REGISTER_LEN s).st).val = true)
    (h5 : (accelRead E LIS3DSH_CTRL_REG5_REGISTER_ADDR LIS3DSH_REGISTER_LEN
      (accelWrite E LIS3DSH_CTRL_REG4_REGISTER_ADDR
        [((v &&& 0x07) ||| 0x08) ||| ((odr % 16) * 16)] LIS3DSH_REGISTER_LEN
        (accelRead E LIS3DSH_CTRL_REG4_REGISTER_ADDR LIS3DSH_REGISTER_LEN s).st).st).val =
      (true, some [v5])) :
    (accelConfigure E odr bw s).ev =
      (accelRead E LIS3DSH_CTRL_REG4_REGISTER_ADDR LIS3DSH_REGISTER_LEN s).ev ++
        ((accelWrite E LIS3DSH_CTRL_REG4_REGISTER_ADDR
          [((v &&& 0x07) ||| 0x08) ||| ((odr % 16) * 16)] LIS3DSH_REGISTER_LEN
          (accelRead E LIS3DSH_CTRL_REG4_REGISTER_ADDR LIS3DSH_REGISTER_LEN s).st).ev ++
          ((accelRead E LIS3DSH_CTRL_REG5_REGISTER_ADDR LIS3DSH_REGISTER_LEN
            (accelWrite E LIS3DSH_CTRL_REG4_REGISTER_ADDR
              [((v &&& 0x07) ||| 0x08) ||| ((odr % 16) * 16)] LIS3DSH_REGISTER_LEN
              (accelRead E LIS3DSH_CTRL_REG4_REGISTER_ADDR LIS3DSH_REGISTER_LEN s).st).st).ev ++
            (accelWrite E LIS3DSH_CTRL_REG5_REGISTER_ADDR
              [(v5 &&& 0x3F) ||| ((bw % 4) * 64)] LIS3DSH_REGISTER_LEN
              (accelRead E LIS3DSH_CTRL_REG5_REGISTER_ADDR LIS3DSH_REGISTER_LEN
                (accelWrite E LIS3DSH_CTRL_REG4_REGISTER_ADDR
                  [((v &&& 0x07) ||| 0x08) ||| ((odr % 16) * 16)] LIS3DSH_REGISTER_LEN
                  (accelRead E LIS3DSH_CTRL_REG4_REGISTER_ADDR LIS3DSH_REGISTER_LEN
                    s).st).st).st).ev)) := by
  simp only [accelConfigure, ev_bind, val_bind, st_bind, run_ite, ev_ite, val_ite, st_ite,
    ev_pure, val_pure, st_pure, h, if_true, Option.getD_some, List.headD_cons, hw,
    Bool.not_true, Bool.false_eq_true, if_false, h5]

theorem ev_EnableInterrupt_ok (E : Env σ) (s : σ) (v : Nat)
    (h : (accelRead E LIS3DSH_CTRL_REG3_REGISTER_ADDR LIS3DSH_REGISTER_LEN s).val =
      (true, some [v])) :
    (LIS3DSH_EnableInterrupt E s).ev =
      (accelRead E LIS3DSH_CTRL_REG3_REGISTER_ADDR LIS3DSH_REGISTER_LEN s).ev ++
        (accelWrite E LIS3DSH_CTRL_REG3_REGISTER_ADDR [v ||| 0xE8] LIS3DSH_REGISTER_LEN
          (accelRead E LIS3DSH_CTRL_REG3_REGISTER_ADDR LIS3DSH_REGISTER_LEN s).st).ev := by
  simp only [LIS3DSH_EnableInterrupt, ev_bind, val_bind, st_bind, run_ite, ev_ite, val_ite,
    st_ite, ev_pure, val_pure, st_pure, h, if_true, Option.getD_some, List.headD_cons,
    or_interrupt_bits]

end C28

section WriteDisable
variable {σ : Type}

theorem xfer_cmd_cases (E : Env σ) (device : SpiDevice_t) (bus : SpiBus)
    (hd : spiHandleOf device = some bus) (c : Nat) (s : σ) :
    ((E.xSemaphoreTake s).1 = false ∧
      (SPI_Transfer E device [c] 1 0 s).ev = [Event.take false] ∧
      (SPI_Transfer E device [c] 1 0 s).val.1 = false) ∨
    ((E.xSemaphoreTake s).1 = true ∧
      ∃ stat, (SPI_Transfer E device [c] 1 0 s).ev =
          [Event.take true, Event.transmit bus [c] stat, Event.give] ∧
        ((SPI_Transfer E device [c] 1 0 s).val.1 = true ↔ stat = HAL_StatusTypeDef.HAL_OK)) := by
  simp only [SPI_Transfer, hd, U16, spiMutexAcquire, spiMutexRelease, HAL_SPI_Transmit, ev_bind,
    val_bind, st_bind, run_ite, ev_ite, val_ite, st_ite, ev_pure, val_pure, st_pure]
  by_cases h1 : (E.xSemaphoreTake s).1 = true
  · by_cases h2 : (E.HAL_SPI_Transmit bus [c] (E.xSemaphoreTake s).2).1 =
        HAL_StatusTypeDef.HAL_OK
    · simp [h1, h2]
    · simp [h1, h2]
  · simp [h1]

/-- Claim C7, as the code has it. In every `MB85RS256_Write` whose write-enable frame went
through (`MB85RS256_WREN` returned true), whatever happens to the opcode, address and
payload transfers of the write frame, the trace has exactly three frames: the write-enable
frame (the single byte 0x06, transmitted with `HAL_OK`), the write frame, and last the
write-disable frame. The write-disable frame is either the one failed take of the mutex, in
which nothing is sent and after which the write returns false, or the transmit of the
single byte 0x04 between a take and a give; the write returns true exactly when the byte
0x04 was transmitted with `HAL_OK`. -/
theorem fram_write_disable_is_last_frame (E : Env σ) (s : σ) (writeAddress lengthToSend : Nat)
    (dataToWrite : List Nat) (hwren : (MB85RS256_WREN E s).val = true) :
    ∃ writeFrame wrdiFrame,
      frames (MB85RS256_Write E writeAddress dataToWrite lengthToSend s).ev =
        [[Event.take true,
          Event.transmit SpiBus.xSharedSpiHandle [FRAM_OPCODE_WREN] HAL_StatusTypeDef.HAL_OK,
          Event.give],
         writeFrame, wrdiFrame] ∧
      isCommandAttempt FRAM_OPCODE_WRDI wrdiFrame = true ∧
      ((wrdiFrame = [Event.take false] ∧
          (MB85RS256_Write E writeAddress dataToWrite lengthToSend s).val = false) ∨
        ∃ stat, wrdiFrame =
          [Event.take true, Event.transmit SpiBus.xSharedSpiHandle [0x04] stat, Event.give]) ∧
      ((MB85RS256_Write E writeAddress dataToWrite lengthToSend s).val = true ↔
        wrdiFrame =
          [Event.take true,
           Event.transmit SpiBus.xSharedSpiHandle [0x04] HAL_StatusTypeDef.HAL_OK,
           Event.give]) := by
  have hM : spiHandleOf MB85_FRAM = some SpiBus.xSharedSpiHandle := rfl
  have hfr := frames_MB85RS256_Write E writeAddress lengthToSend dataToWrite s hwren
  have hv := val_MB85RS256_Write E writeAddress lengthToSend dataToWrite s hwren
  have hw : (SPI_Transfer E MB85_FRAM [FRAM_OPCODE_WREN] 1 0
      (E.HAL_GPIO_WritePin CsLine.FRAM_CS false s)).val.1 = true := hwren
  have e1 := ev_xfer_cmd_ok E MB85_FRAM _ hM _ _ hw
  rw [e1] at hfr
  rw [hfr] at hv
  simp only [List.getD_cons_succ, List.getD_cons_zero] at hv
  rw [xfer_clean E MB85_FRAM _ hM] at hv
  refine ⟨_, _, hfr, attempt_xfer_cmd E _ _, ?_, ?_⟩
  · rcases xfer_cmd_cases E MB85_FRAM _ hM FRAM_OPCODE_WRDI _ with ⟨_, h2, h3⟩ | ⟨_, stat, h2, _⟩
    · exact Or.inl ⟨h2, by rw [← hv]; exact h3⟩
    · exact Or.inr ⟨stat, h2⟩
  · rw [← hv]
    rcases xfer_cmd_cases E MB85_FRAM _ hM FRAM_OPCODE_WRDI _ with ⟨_, h2, h3⟩ | ⟨_, stat, h2, h3⟩
    · rw [h2, h3]
      simp
    · rw [h2, h3]
      constructor
      · intro h; rw [h]; rfl
      · intro h
        have := (List.cons.inj (List.cons.inj h).2).1
        injection this
  
/-- Witness for claim C7: the reference world at rest. -/
theorem fram_write_disable_is_last_frame_witness :
    (MB85RS256_WREN refEnv refIdle).val = true ∧
    ∃ writeFrame wrdiFrame,
      frames (MB85RS256_Write refEnv 5 [9, 8, 7] 3 refIdle).ev =
        [[Event.take true,
          Event.transmit SpiBus.xSharedSpiHandle [FRAM_OPCODE_WREN] HAL_StatusTypeDef.HAL_OK,
          Event.give],
         writeFrame, wrdiFrame] ∧
      isCommandAttempt FRAM_OPCODE_WRDI wrdiFrame = true ∧
      ((wrdiFrame = [Event.take false] ∧
          (MB85RS256_Write refEnv 5 [9, 8, 7] 3 refIdle).val = false) ∨
        ∃ stat, wrdiFrame =
          [Event.take true, Event.transmit SpiBus.xSharedSpiHandle [0x04] stat, Event.give]) ∧
      ((MB85RS256_Write refEnv 5 [9, 8, 7] 3 refIdle).val = true ↔
        wrdiFrame =
          [Event.take true,
           Event.transmit SpiBus.xSharedSpiHandle [0x04] HAL_StatusTypeDef.HAL_OK,
           Event.give]) :=
  ⟨by decide, fram_write_disable_is_last_frame refEnv refIdle 5 3 [9, 8, 7] (by decide)⟩

/-- Counterexample for claim C7 as stated: the reference FRAM, with the mutex not obtained
at the fifth take, which is the take of the write-disable transfer. The write-enable frame
went through and the write frame sent opcode, address and payload, but the write-disable
frame holds only the failed take: the byte 0x04 is handed to the bus nowhere in the trace,
and the write returns false. -/
theorem write_disable_not_sent_without_mutex :
    (MB85RS256_WREN refEnv
      { refIdle with mutexFaults := [false, false, false, false, true] }).val = true ∧
    frames (MB85RS256_Write refEnv 5 [9, 8, 7] 3
      { refIdle with mutexFaults := [false, false, false, false, true] }).ev =
      [[Event.take true,
        Event.transmit SpiBus.xSharedSpiHandle [0x06] HAL_StatusTypeDef.HAL_OK, Event.give],
       [Event.take true,
        Event.transmit SpiBus.xSharedSpiHandle [0x02] HAL_StatusTypeDef.HAL_OK, Event.give,
        Event.take true,
        Event.transmit SpiBus.xSharedSpiHandle [0x00, 0x05] HAL_StatusTypeDef.HAL_OK,
        Event.give, Event.take true,
        Event.transmit SpiBus.xSharedSpiHandle [9, 8, 7] HAL_StatusTypeDef.HAL_OK,
        Event.give],
       [Event.take false]] ∧
    sendsOp 0x04 (MB85RS256_Write refEnv 5 [9, 8, 7] 3
      { refIdle with mutexFaults := [false, false, false, false, true] }).ev = false ∧
    (MB85RS256_Write refEnv 5 [9, 8, 7] 3
      { refIdle with mutexFaults := [false, false, false, false, true] }).val = false := by
  decide

end WriteDisable

section LongDelays
variable {σ : Type}

theorem waitLoop_never_within (E : Env σ) (P : σ → Prop) (start T : Nat)
    (hP : ∀ s, P s → (flashIsBusy E s).val = true ∧ P (waitRound E s) ∧
      (E.xTaskGetTickCount (waitRound E s) % U32 + U32 - start) % U32 ≤ T) :
    ∀ (fuel : Nat) (s : σ), P s → (flashWaitLoop E start T fuel s).val = none := by
  intro fuel
  induction fuel with
  | zero => intro s _; rfl
  | succ f ih =>
    intro s h
    obtain ⟨hb, hP2, he⟩ := hP s h
    rw [waitLoop_step_val E start T f s hb, if_neg (by omega)]
    exact ih _ hP2

theorem refSlow_round (ticksOf : Nat → Nat) (w : RefWorld) (hw : RefStuck w) :
    (flashIsBusy (refSlowEnv ticksOf) w).val = true ∧
    waitRound (refSlowEnv ticksOf) w =
      refDelay (if w.tick % 4294967296 = 0 then 1 else 4294967295) w ∧
    RefStuck (waitRound (refSlowEnv ticksOf) w) := by
  obtain ⟨hc, hh, hb⟩ := hw
  have e : flashIsBusy (refSlowEnv ticksOf) w = flashIsBusy refEnv w := rfl
  have hbusy := ref_flashIsBusy w hc
  have hround : waitRound (refSlowEnv ticksOf) w =
      refDelay (if w.tick % 4294967296 = 0 then 1 else 4294967295) w := by
    simp only [waitRound, e, hbusy, st_vTaskDelay]
    rfl
  refine ⟨?_, hround, ?_⟩
  · rw [e, hbusy]; simp [hb]
  · rw [hround]
    refine ⟨hc, hh, ?_⟩
    simp only [refDelay, hh, if_true]
    exact hb

theorem refSlow_tick (ticksOf : Nat → Nat) (w : RefWorld) (hw : RefStuck w)
    (ht : w.tick % U32 ≤ 1) :
    (refSlowEnv ticksOf).xTaskGetTickCount (waitRound (refSlowEnv ticksOf) w) % U32 ≤ 1 ∧
    w.tick + 1 ≤ (refSlowEnv ticksOf).xTaskGetTickCount (waitRound (refSlowEnv ticksOf) w) ∧
    1 ≤ roundAdvance (refSlowEnv ticksOf) w := by
  have hr := (refSlow_round ticksOf w hw).2.1
  have htick : (refSlowEnv ticksOf).xTaskGetTickCount
      (refDelay (if w.tick % 4294967296 = 0 then 1 else 4294967295) w) =
      w.tick + (if w.tick % 4294967296 = 0 then 1 else 4294967295) := rfl
  have htick0 : (refSlowEnv ticksOf).xTaskGetTickCount w = w.tick := rfl
  simp only [roundAdvance, hr, htick, htick0, U32] at *
  split_ifs <;> omega

theorem refSlow_never (ticksOf : Nat → Nat) (T : Nat) (hT : 1 ≤ T) :
    ∀ (fuel : Nat) (w : RefWorld), RefStuck w → w.tick % U32 ≤ 1 →
      (flashWaitLoop (refSlowEnv ticksOf) 0 T fuel w).val = none := by
  intro fuel w hw ht
  refine waitLoop_never_within (refSlowEnv ticksOf) (fun w => RefStuck w ∧ w.tick % U32 ≤ 1)
    0 T ?_ fuel w ⟨hw, ht⟩
  intro s hs
  obtain ⟨h1, h2, h3⟩ := refSlow_round ticksOf s hs.1
  obtain ⟨t1, t2, t3⟩ := refSlow_tick ticksOf s hs.1 hs.2
  have t1' : s.tick % U32 ≤ 1 := hs.2
  refine ⟨h1, ⟨h3, ?_⟩, ?_⟩
  · exact t1
  · simp only [U32] at *
    omega

end LongDelays

section LongDelays2

theorem refSlow_wait (ticksOf : Nat → Nat) (t fuel : Nat) (w : RefWorld) (hw : RefStuck w)
    (ht : w.tick % U32 = 0) (hT : 1 ≤ ticksOf t % U32) :
    (flashWaitTillReady (refSlowEnv ticksOf) fuel t w).val = none := by
  have h0 : (refSlowEnv ticksOf).xTaskGetTickCount w % U32 = 0 := ht
  have hp : (refSlowEnv ticksOf).pdMS_TO_TICKS t = ticksOf t := rfl
  simp only [flashWaitTillReady, val_bind, st_bind, val_xTaskGetTickCount,
    st_xTaskGetTickCount, h0, hp]
  exact refSlow_never ticksOf _ hT fuel w hw (by omega)

/-- Counterexample for claim C10 as stated: the reference flash hanging in a program or an
erase, in the environment `refSlowEnv` whose delays last one tick and `2 ^ 32 - 1` ticks in
turn. Every poll reports write in progress and every delay of the wait loop advances the
tick counter by at least one, also when it is read as a 32-bit counter; but the elapsed time
the code computes is 1 and 0 in turn. So with the timeouts of the code (4, 240 and 38000 ms),
at every tick rate at which the timeout is at least one tick, `MX25_PP`, `MX25_SE` and
`MX25_CE` are still polling after any number of polls: they never return
`FLASH_TIME_OUT`. -/
theorem wait_never_times_out_with_long_delays :
    (∀ (ticksOf : Nat → Nat) (w : RefWorld), RefStuck w → w.tick % U32 ≤ 1 →
      (flashIsBusy (refSlowEnv ticksOf) w).val = true ∧
      RefStuck (waitRound (refSlowEnv ticksOf) w) ∧
      (waitRound (refSlowEnv ticksOf) w).tick % U32 ≤ 1 ∧
      (refSlowEnv ticksOf).xTaskGetTickCount w + 1 ≤
        (refSlowEnv ticksOf).xTaskGetTickCount (waitRound (refSlowEnv ticksOf) w) ∧
      1 ≤ roundAdvance (refSlowEnv ticksOf) w) ∧
    (∀ (ticksOf : Nat → Nat) (fuel : Nat), 1 ≤ ticksOf PAGE_PROGRAM_CYCLE_TIME % U32 →
      (MX25_PP (refSlowEnv ticksOf) fuel 0x1000 [0x12, 0x34] 2
        { refIdle with flashHang := true }).val = none) ∧
    (∀ (ticksOf : Nat → Nat) (fuel : Nat), 1 ≤ ticksOf SECTOR_ERASE_CYCLE_TIME % U32 →
      (MX25_SE (refSlowEnv ticksOf) fuel 0x1000 { refIdle with flashHang := true }).val =
        none) ∧
    (∀ (ticksOf : Nat → Nat) (fuel : Nat), 1 ≤ ticksOf CHIP_ERASE_CYCLE_TIME % U32 →
      (MX25_CE (refSlowEnv ticksOf) fuel { refIdle with flashHang := true }).val = none) ∧
    RefStuck (MX25_PP_issue (refSlowEnv (fun ms => ms)) 0x1000 [0x12, 0x34] 2
      { refIdle with flashHang := true }).st ∧
    (MX25_PP (refSlowEnv (fun ms => ms)) 6 0x1000 [0x12, 0x34] 2
      { refIdle with flashHang := true }).val = none ∧
    (MX25_PP refEnv 6 0x1000 [0x12, 0x34] 2 { refIdle with flashHang := true }).val =
      some FLASH_TIME_OUT := by
  refine ⟨?_, ?_, ?_, ?_, by decide, by decide, by decide⟩
  · intro ticksOf w hw ht
    obtain ⟨h1, _, h3⟩ := refSlow_round ticksOf w hw
    obtain ⟨t1, t2, t3⟩ := refSlow_tick ticksOf w hw ht
    exact ⟨h1, h3, t1, t2, t3⟩
  · intro ticksOf fuel hT
    have hi : MX25_PP_issue (refSlowEnv ticksOf) 0x1000 [0x12, 0x34] 2
        { refIdle with flashHang := true } =
        MX25_PP_issue refEnv 0x1000 [0x12, 0x34] 2 { refIdle with flashHang := true } := rfl
    have h1 : (MX25_PP_issue refEnv 0x1000 [0x12, 0x34] 2
        { refIdle with flashHang := true }).val = none := by decide
    have hw := refSlow_wait ticksOf PAGE_PROGRAM_CYCLE_TIME fuel
      (MX25_PP_issue refEnv 0x1000 [0x12, 0x34] 2 { refIdle with flashHang := true }).st
      (by decide) (by decide) hT
    simp only [MX25_PP, val_bind, st_bind, hi, h1, hw, val_pure, waitMsg, Option.map_none']
  · intro ticksOf fuel hT
    have hi : MX25_SE_issue (refSlowEnv ticksOf) 0x1000 { refIdle with flashHang := true } =
        MX25_SE_issue refEnv 0x1000 { refIdle with flashHang := true } := rfl
    have h1 : (MX25_SE_issue refEnv 0x1000 { refIdle with flashHang := true }).val = none := by
      decide
    have hw := refSlow_wait ticksOf SECTOR_ERASE_CYCLE_TIME fuel
      (MX25_SE_issue refEnv 0x1000 { refIdle with flashHang := true }).st
      (by decide) (by decide) hT
    simp only [MX25_SE, val_bind, st_bind, hi, h1, hw, val_pure, waitMsg, Option.map_none']
  · intro ticksOf fuel hT
    have hi : MX25_CE_issue (refSlowEnv ticksOf) { refIdle with flashHang := true } =
        MX25_CE_issue refEnv { refIdle with flashHang := true } := rfl
    have h1 : (MX25_CE_issue refEnv { refIdle with flashHang := true }).val = none := by
      decide
    have hw := refSlow_wait ticksOf CHIP_ERASE_CYCLE_TIME fuel
      (MX25_CE_issue refEnv { refIdle with flashHang := true }).st
      (by decide) (by decide) hT
    simp only [MX25_CE, val_bind, st_bind, hi, h1, hw, val_pure, waitMsg, Option.map_none']

end LongDelays2

section IssueFrames
variable {σ : Type}

theorem frames_SE_issue_append (E : Env σ) (A : Nat) (s : σ) (rest : List Event) :
    frames ((MX25_SE_issue E A s).ev ++ rest) =
      frames (MX25_SE_issue E A s).ev ++ frames rest := by
  have hf := fun m t => frames_MX25_SE_frame E A m t []
  simp only [List.append_nil] at hf
  simp only [MX25_SE_issue_eq, ev_bind, val_bind, st_bind, run_ite, ev_ite, val_ite, st_ite,
    ev_pure, val_pure, st_pure, ev_flashIsBusy, ev_flashIs4Byte, ev_MX25_WREN]
  split_ifs <;>
    simp only [List.append_assoc, List.nil_append, List.append_nil, frames_flashRead_append,
      frames_flashWrite_append, frames_MX25_SE_frame, frames_flashRead_only,
      frames_flashWrite_only, hf, frames_nil, List.cons_append, ev_pure]

theorem frames_PP_issue_append (E : Env σ) (A : Nat) (D : List Nat) (n : Nat) (s : σ)
    (rest : List Event) :
    frames ((MX25_PP_issue E A D n s).ev ++ rest) =
      frames (MX25_PP_issue E A D n s).ev ++ frames rest := by
  have hf := fun m t => frames_MX25_PP_frame E A D n m t []
  simp only [List.append_nil] at hf
  simp only [MX25_PP_issue_eq, ev_bind, val_bind, st_bind, run_ite, ev_ite, val_ite, st_ite,
    ev_pure, val_pure, st_pure, ev_flashIsBusy, ev_flashIs4Byte, ev_MX25_WREN]
  split_ifs <;>
    simp only [List.append_assoc, List.nil_append, List.append_nil, frames_flashRead_append,
      frames_flashWrite_append, frames_MX25_PP_frame, frames_flashRead_only,
      frames_flashWrite_only, hf, frames_nil, List.cons_append, ev_pure]

theorem frames_CE_issue_append (E : Env σ) (s : σ) (rest : List Event) :
    frames ((MX25_CE_issue E s).ev ++ rest) =
      frames (MX25_CE_issue E s).ev ++ frames rest := by
  have hf := fun t => frames_MX25_CE_frame E t []
  simp only [List.append_nil] at hf
  simp only [MX25_CE_issue_eq, ev_bind, val_bind, st_bind, run_ite, ev_ite, val_ite, st_ite,
    ev_pure, val_pure, st_pure, ev_flashIsBusy, ev_MX25_WREN]
  split_ifs <;>
    simp only [List.append_assoc, List.nil_append, List.append_nil, frames_flashRead_append,
      frames_flashWrite_append, frames_MX25_CE_frame, frames_flashRead_only,
      frames_flashWrite_only, hf, frames_nil, List.cons_append, ev_pure]

end IssueFrames

section ReadyAfterPolls
variable {σ : Type}

/-- Claim C11: when the flash is found busy on the first `k` polls of the final wait, the
elapsed time read after each of the `k` delays is within the timeout of the operation, and
poll `k + 1` finds it ready, `flashWaitTillReady` returns true once the fuel covers the
`k + 1` polls, its trace holds exactly `k + 1` poll frames and it ends in the state left by
the poll that found the flash ready. For `MX25_SE`, `MX25_CE` and `MX25_PP`, whose part
before the wait went through: the operation returns `FLASH_OPERATION_SUCCESS`, its trace is
the trace of the part before the wait followed by the trace of that wait and by nothing
else, so its frames are the frames up to the command frame followed by exactly `k + 1` poll
frames, and it ends in the state left by the poll that found the flash ready. -/
theorem ready_after_polls (E : Env σ) (t k fuel : Nat) (s : σ)
    (hbusy : ∀ i, i < k → (flashIsBusy E (waitRounds E i s)).val = true)
    (hin : ∀ i, i < k →
      (E.xTaskGetTickCount (waitRounds E (i + 1) s) % U32 + U32 -
        E.xTaskGetTickCount s % U32) % U32 ≤ E.pdMS_TO_TICKS t % U32)
    (hready : (flashIsBusy E (waitRounds E k s)).val = false) (hf : k < fuel) :
    (flashWaitTillReady E fuel t s).val = some true ∧
    (frames (flashWaitTillReady E fuel t s).ev).length = k + 1 ∧
    (flashWaitTillReady E fuel t s).st = (flashIsBusy E (waitRounds E k s)).st ∧
    (∀ A s0, (MX25_SE_issue E A s0).val = none → (MX25_SE_issue E A s0).st = s →
      t = SECTOR_ERASE_CYCLE_TIME →
      (MX25_SE E fuel A s0).val = some FLASH_OPERATION_SUCCESS ∧
      (MX25_SE E fuel A s0).ev =
        (MX25_SE_issue E A s0).ev ++ (flashWaitTillReady E fuel t s).ev ∧
      frames (MX25_SE E fuel A s0).ev =
        frames (MX25_SE_issue E A s0).ev ++ frames (flashWaitTillReady E fuel t s).ev ∧
      (frames (MX25_SE E fuel A s0).ev).length =
        (frames (MX25_SE_issue E A s0).ev).length + (k + 1) ∧
      (MX25_SE E fuel A s0).st = (flashIsBusy E (waitRounds E k s)).st) ∧
    (∀ s0, (MX25_CE_issue E s0).val = none → (MX25_CE_issue E s0).st = s →
      t = CHIP_ERASE_CYCLE_TIME →
      (MX25_CE E fuel s0).val = some FLASH_OPERATION_SUCCESS ∧
      (MX25_CE E fuel s0).ev =
        (MX25_CE_issue E s0).ev ++ (flashWaitTillReady E fuel t s).ev ∧
      frames (MX25_CE E fuel s0).ev =
        frames (MX25_CE_issue E s0).ev ++ frames (flashWaitTillReady E fuel t s).ev ∧
      (frames (MX25_CE E fuel s0).ev).length =
        (frames (MX25_CE_issue E s0).ev).length + (k + 1) ∧
      (MX25_CE E fuel s0).st = (flashIsBusy E (waitRounds E k s)).st) ∧
    (∀ A D n s0, (MX25_PP_issue E A D n s0).val = none → (MX25_PP_issue E A D n s0).st = s →
      t = PAGE_PROGRAM_CYCLE_TIME →
      (MX25_PP E fuel A D n s0).val = some FLASH_OPERATION_SUCCESS ∧
      (MX25_PP E fuel A D n s0).ev =
        (MX25_PP_issue E A D n s0).ev ++ (flashWaitTillReady E fuel t s).ev ∧
      frames (MX25_PP E fuel A D n s0).ev =
        frames (MX25_PP_issue E A D n s0).ev ++ frames (flashWaitTillReady E fuel t s).ev ∧
      (frames (MX25_PP E fuel A D n s0).ev).length =
        (frames (MX25_PP_issue E A D n s0).ev).length + (k + 1) ∧
      (MX25_PP E fuel A D n s0).st = (flashIsBusy E (waitRounds E k s)).st) := by
  have hw : (flashWaitTillReady E fuel t s).val = some true ∧
      (frames (flashWaitTillReady E fuel t s).ev).length = k + 1 ∧
      (flashWaitTillReady E fuel t s).st = (flashIsBusy E (waitRounds E k s)).st := by
    have h := waitLoop_ready_after E (E.xTaskGetTickCount s % U32) (E.pdMS_TO_TICKS t % U32)
      k s fuel hbusy hin hready hf
    simpa only [flashWaitTillReady, val_bind, st_bind, ev_bind, val_xTaskGetTickCount,
      st_xTaskGetTickCount, ev_xTaskGetTickCount, List.nil_append] using h
  refine ⟨hw.1, hw.2.1, hw.2.2, ?_, ?_, ?_⟩
  · intro A s0 h1 h2 ht
    subst ht
    have hev : (MX25_SE E fuel A s0).ev = (MX25_SE_issue E A s0).ev ++
        (flashWaitTillReady E fuel SECTOR_ERASE_CYCLE_TIME s).ev := by
      simp only [MX25_SE, ev_bind, val_bind, st_bind, h1, h2, ev_pure, List.append_nil]
    refine ⟨?_, hev, ?_, ?_, ?_⟩
    · simp only [MX25_SE, val_bind, st_bind, h1, h2, hw.1, val_pure, waitMsg,
        Option.map_some', if_true]
    · rw [hev, frames_SE_issue_append]
    · rw [hev, frames_SE_issue_append, List.length_append, hw.2.1]
    · rw [← hw.2.2]
      simp only [MX25_SE, st_bind, val_bind, h1, h2, st_pure]
  · intro s0 h1 h2 ht
    subst ht
    have hev : (MX25_CE E fuel s0).ev = (MX25_CE_issue E s0).ev ++
        (flashWaitTillReady E fuel CHIP_ERASE_CYCLE_TIME s).ev := by
      simp only [MX25_CE, ev_bind, val_bind, st_bind, h1, h2, ev_pure, List.append_nil]
    refine ⟨?_, hev, ?_, ?_, ?_⟩
    · simp only [MX25_CE, val_bind, st_bind, h1, h2, hw.1, val_pure, waitMsg,
        Option.map_some', if_true]
    · rw [hev, frames_CE_issue_append]
    · rw [hev, frames_CE_issue_append, List.length_append, hw.2.1]
    · rw [← hw.2.2]
      simp only [MX25_CE, st_bind, val_bind, h1, h2, st_pure]
  · intro A D n s0 h1 h2 ht
    subst ht
    have hev : (MX25_PP E fuel A D n s0).ev = (MX25_PP_issue E A D n s0).ev ++
        (flashWaitTillReady E fuel PAGE_PROGRAM_CYCLE_TIME s).ev := by
      simp only [MX25_PP, ev_bind, val_bind, st_bind, h1, h2, ev_pure, List.append_nil]
    refine ⟨?_, hev, ?_, ?_, ?_⟩
    · simp only [MX25_PP, val_bind, st_bind, h1, h2, hw.1, val_pure, waitMsg,
        Option.map_some', if_true]
    · rw [hev, frames_PP_issue_append]
    · rw [hev, frames_PP_issue_append, List.length_append, hw.2.1]
    · rw [← hw.2.2]
      simp only [MX25_PP, st_bind, val_bind, h1, h2, st_pure]

/-- Witness for claim C11: a page program, a sector erase and a chip erase on a reference
flash that is busy for one poll after the command frame. -/
theorem ready_after_polls_witness :
    ((MX25_PP refEnv 2 0x1000 [0x12, 0x34] 2 refIdle).val =
        some flashReturnMsg_t.FLASH_OPERATION_SUCCESS ∧
      (frames (MX25_PP refEnv 2 0x1000 [0x12, 0x34] 2 refIdle).ev).length =
        (frames (MX25_PP_issue refEnv 0x1000 [0x12, 0x34] 2 refIdle).ev).length + (1 + 1)) ∧
    (frames (flashWaitTillReady refEnv 2 PAGE_PROGRAM_CYCLE_TIME
      (MX25_PP_issue refEnv 0x1000 [0x12, 0x34] 2 refIdle).st).ev).length = 2 ∧
    ((MX25_SE refEnv 2 0x1000 { refIdle with flashTerase := 1 }).val =
        some flashReturnMsg_t.FLASH_OPERATION_SUCCESS ∧
      (frames (MX25_SE refEnv 2 0x1000 { refIdle with flashTerase := 1 }).ev).length =
        (frames (MX25_SE_issue refEnv 0x1000 { refIdle with flashTerase := 1 }).ev).length +
          (1 + 1)) ∧
    ((MX25_CE refEnv 2 { refIdle with flashTchip := 1 }).val =
        some flashReturnMsg_t.FLASH_OPERATION_SUCCESS ∧
      (frames (MX25_CE refEnv 2 { refIdle with flashTchip := 1 }).ev).length =
        (frames (MX25_CE_issue refEnv { refIdle with flashTchip := 1 }).ev).length +
          (1 + 1)) ∧
    (frames (MX25_PP refEnv 2 0x1000 [0x12, 0x34] 2 refIdle).ev).length = 6 ∧
    (frames (MX25_SE refEnv 2 0x1000 { refIdle with flashTerase := 1 }).ev).length = 6 ∧
    (frames (MX25_CE refEnv 2 { refIdle with flashTchip := 1 }).ev).length = 5 :=
  have h := ready_after_polls refEnv PAGE_PROGRAM_CYCLE_TIME 1 2
    (MX25_PP_issue refEnv 0x1000 [0x12, 0x34] 2 refIdle).st
    (by decide) (by decide) (by decide) (by decide)
  have hse := ready_after_polls refEnv SECTOR_ERASE_CYCLE_TIME 1 2
    (MX25_SE_issue refEnv 0x1000 { refIdle with flashTerase := 1 }).st
    (by decide) (by decide) (by decide) (by decide)
  have hce := ready_after_polls refEnv CHIP_ERASE_CYCLE_TIME 1 2
    (MX25_CE_issue refEnv { refIdle with flashTchip := 1 }).st
    (by decide) (by decide) (by decide) (by decide)
  have hp := h.2.2.2.2.2 0x1000 [0x12, 0x34] 2 refIdle (by decide) rfl rfl
  have hs := hse.2.2.2.1 0x1000 { refIdle with flashTerase := 1 } (by decide) rfl rfl
  have hc := hce.2.2.2.2.1 { refIdle with flashTchip := 1 } (by decide) rfl rfl
  ⟨⟨hp.1, hp.2.2.2.1⟩, h.2.1, ⟨hs.1, hs.2.2.2.1⟩, ⟨hc.1, hc.2.2.2.1⟩,
   by decide, by decide, by decide⟩

end ReadyAfterPolls

section OpcodeTable
variable {σ : Type}

end OpcodeTable

section OpcodeTableRun

end OpcodeTableRun

section AddressFrames
variable {σ : Type}

theorem scur_frame_MX25_SE (E : Env σ) (fuel A : Nat) (s : σ) (hA : A ≤ FLASH_SIZE)
    (hb : (flashIsBusy E s).val = false) :
    (frames (MX25_SE E fuel A s).ev)[1]? =
      some (SPI_Transfer E MX25_FLASH [FLASH_CMD_RDSCUR] 1 1
        (E.HAL_GPIO_WritePin CsLine.FLASH_CS false (flashIsBusy E s).st)).ev := by
  have hA2 : ¬ A > FLASH_SIZE := by omega
  simp only [MX25_SE, MX25_SE_issue_eq, hA2, if_false, ev_bind, val_bind, st_bind, run_ite,
    ev_ite, val_ite, st_ite, ev_pure, val_pure, st_pure, List.append_assoc, ev_flashIsBusy,
    ev_flashIs4Byte, ev_MX25_WREN, frames_flashRead_append, hb, Bool.false_eq_true,
    List.getElem?_cons_succ, List.getElem?_cons_zero]
  rfl

theorem scur_frame_MX25_PP (E : Env σ) (fuel A n : Nat) (D : List Nat) (s : σ)
    (hA : A ≤ FLASH_SIZE) (hb : (flashIsBusy E s).val = false) :
    (frames (MX25_PP E fuel A D n s).ev)[1]? =
      some (SPI_Transfer E MX25_FLASH [FLASH_CMD_RDSCUR] 1 1
        (E.HAL_GPIO_WritePin CsLine.FLASH_CS false (flashIsBusy E s).st)).ev := by
  have hA2 : ¬ A > FLASH_SIZE := by omega
  simp only [MX25_PP, MX25_PP_issue_eq, hA2, if_false, ev_bind, val_bind, st_bind, run_ite,
    ev_ite, val_ite, st_ite, ev_pure, val_pure, st_pure, List.append_assoc, ev_flashIsBusy,
    ev_flashIs4Byte, ev_MX25_WREN, frames_flashRead_append, hb, Bool.false_eq_true,
    List.getElem?_cons_succ, List.getElem?_cons_zero]
  rfl

theorem flashSendAddr_cases (E : Env σ) (A : Nat) (m : Bool) (s : σ) :
    ((E.xSemaphoreTake s).1 = false →
      (flashSendAddr E A m s).ev = [Event.take false] ∧ (flashSendAddr E A m s).val = false) ∧
    ((E.xSemaphoreTake s).1 = true →
      ∃ stat, (flashSendAddr E A m s).ev =
          [Event.take true,
           Event.transmit SpiBus.xSharedSpiHandle (flashAddrBytes A m) stat, Event.give] ∧
        ((flashSendAddr E A m s).val = true ↔ stat = HAL_StatusTypeDef.HAL_OK)) := by
  have hF : spiHandleOf MX25_FLASH = some SpiBus.xSharedSpiHandle := rfl
  have hl : (flashAddrBytes A m).take ((if m = true then 4 else 3) % U16) =
      flashAddrBytes A m := by cases m <;> rfl
  have hp : 0 < (if m = true then 4 else 3) % U16 := by cases m <;> decide
  simp only [flashSendAddr, ev_bind, val_bind, ev_pure, val_pure, List.append_nil,
    SPI_Transfer, hF, spiMutexAcquire, spiMutexRelease, HAL_SPI_Transmit,
    HAL_SPI_Receive, st_bind, run_ite, ev_ite, val_ite, st_ite, st_pure, hl, hp, if_true]
  constructor
  · intro h
    simp [h]
  · intro h
    by_cases h2 : (E.HAL_SPI_Transmit SpiBus.xSharedSpiHandle (flashAddrBytes A m)
        (E.xSemaphoreTake s).2).1 = HAL_StatusTypeDef.HAL_OK
    · simp [h, h2]
    · simp [h, h2]

end AddressFrames

section AddressMode
variable {σ : Type}

/-- Claim C24: `flashSendAddr` hands over the bytes `[A >> 16, A >> 8, A]` in 3-byte mode
and `[A >> 24, A >> 16, A >> 8, A]` in 4-byte mode, each reduced to a byte, most
significant first, in one transmit; for every address below `FLASH_SIZE` their big-endian
value is `A` in both modes. When the read of the security register goes through with the
byte `v`, `flashIs4Byte` answers whether bit 0x04 of `v` is set, and that is the mode of
the address bytes in the command frames of `MX25_READ`, `MX25_SE` and `MX25_PP`: in a
command frame without a failed take or HAL call the transmits are the opcode, the address
bytes for that mode and, for `MX25_PP`, the payload. The frames are there: `flashSendAddr`
hands the address bytes to the bus whenever it obtains the mutex; `MX25_READ` with a valid
address makes the frame that reads the security register and then the command frame, which
is the opcode transfer followed, when it went through, by `flashSendAddr` in the mode read
and then the receive; `MX25_SE` and `MX25_PP` on a flash found ready read the security
register in their second frame and, when the write enable went through, make the command
frame as their fourth: the opcode transfer followed, when it went through, by
`flashSendAddr` in the mode read and, for `MX25_PP`, by the payload transfer. -/
theorem flash_address_bytes_follow_mode (E : Env σ) (A : Nat) (s : σ) :
    flashAddrBytes A false = [A >>> 16 % 256, A >>> 8 % 256, A % 256] ∧
    flashAddrBytes A true = [A >>> 24 % 256, A >>> 16 % 256, A >>> 8 % 256, A % 256] ∧
    (∀ m bus bytes stat, Event.transmit bus bytes stat ∈ (flashSendAddr E A m s).ev →
      bytes = flashAddrBytes A m) ∧
    (∀ m, (flashSendAddr E A m s).val = true →
      (flashSendAddr E A m s).ev =
        [Event.take true,
         Event.transmit SpiBus.xSharedSpiHandle (flashAddrBytes A m) HAL_StatusTypeDef.HAL_OK,
         Event.give]) ∧
    (A < FLASH_SIZE → ∀ m, beValue (flashAddrBytes A m) = A) ∧
    (∀ v, (flashRead E [FLASH_CMD_RDSCUR] 1 1 s).val = (true, some [v]) →
      (flashIs4Byte E s).val = decide (v &&& 0x04 = 0x04)) ∧
    (∀ v n f, A ≤ FLASH_SIZE →
      (flashRead E [FLASH_CMD_RDSCUR] 1 1 s).val = (true, some [v]) →
      (frames (MX25_READ E A n s).ev)[1]? = some f → cleanRun f = true →
      transmitsOf f = [[0x03], flashAddrBytes A (decide (v &&& 0x04 = 0x04))]) ∧
    (∀ v fuel f, A ≤ FLASH_SIZE →
      (flashRead E [FLASH_CMD_RDSCUR] 1 1 (flashIsBusy E s).st).val = (true, some [v]) →
      (frames (MX25_SE E fuel A s).ev)[3]? = some f → cleanRun f = true →
      transmitsOf f = [[0x20], flashAddrBytes A (decide (v &&& 0x04 = 0x04))]) ∧
    (∀ v fuel D n f, A ≤ FLASH_SIZE →
      (flashRead E [FLASH_CMD_RDSCUR] 1 1 (flashIsBusy E s).st).val = (true, some [v]) →
      (frames (MX25_PP E fuel A D n s).ev)[3]? = some f → cleanRun f = true →
      transmitsOf f = [[0x02], flashAddrBytes A (decide (v &&& 0x04 = 0x04))] ++
        (if 0 < n % 65536 then [D.take (n % 65536)] else [])) ∧
    (∀ m,
      ((E.xSemaphoreTake s).1 = false →
        (flashSendAddr E A m s).ev = [Event.take false] ∧
        (flashSendAddr E A m s).val = false) ∧
      ((E.xSemaphoreTake s).1 = true →
        ∃ stat, (flashSendAddr E A m s).ev =
            [Event.take true,
             Event.transmit SpiBus.xSharedSpiHandle (flashAddrBytes A m) stat, Event.give] ∧
          ((flashSendAddr E A m s).val = true ↔ stat = HAL_StatusTypeDef.HAL_OK))) ∧
    (∀ v n, A ≤ FLASH_SIZE →
      (flashRead E [FLASH_CMD_RDSCUR] 1 1 s).val = (true, some [v]) →
      frames (MX25_READ E A n s).ev =
        [(SPI_Transfer E MX25_FLASH [FLASH_CMD_RDSCUR] 1 1
            (E.HAL_GPIO_WritePin CsLine.FLASH_CS false s)).ev,
         (SPI_Transfer E MX25_FLASH [FLASH_CMD_READ] 1 0
            (E.HAL_GPIO_WritePin CsLine.FLASH_CS false (flashIs4Byte E s).st)).ev ++
          (if (SPI_Transfer E MX25_FLASH [FLASH_CMD_READ] 1 0
              (E.HAL_GPIO_WritePin CsLine.FLASH_CS false (flashIs4Byte E s).st)).val.1 = true
           then
            (flashSendAddr E A (decide (v &&& 0x04 = 0x04))
              (SPI_Transfer E MX25_FLASH [FLASH_CMD_READ] 1 0
                (E.HAL_GPIO_WritePin CsLine.FLASH_CS false (flashIs4Byte E s).st)).st).ev ++
            (if (flashSendAddr E A (decide (v &&& 0x04 = 0x04))
                (SPI_Transfer E MX25_FLASH [FLASH_CMD_READ] 1 0
                  (E.HAL_GPIO_WritePin CsLine.FLASH_CS false (flashIs4Byte E s).st)).st).val =
                true
             then
              (SPI_Transfer E MX25_FLASH [] 0 n
                (flashSendAddr E A (decide (v &&& 0x04 = 0x04))
                  (SPI_Transfer E MX25_FLASH [FLASH_CMD_READ] 1 0
                    (E.HAL_GPIO_WritePin CsLine.FLASH_CS false
                      (flashIs4Byte E s).st)).st).st).ev
             else [])
           else [])]) ∧
    (∀ v fuel, A ≤ FLASH_SIZE → (flashIsBusy E s).val = false →
      (flashRead E [FLASH_CMD_RDSCUR] 1 1 (flashIsBusy E s).st).val = (true, some [v]) →
      (frames (MX25_SE E fuel A s).ev)[1]? =
        some (SPI_Transfer E MX25_FLASH [FLASH_CMD_RDSCUR] 1 1
          (E.HAL_GPIO_WritePin CsLine.FLASH_CS false (flashIsBusy E s).st)).ev ∧
      ((MX25_WREN E (flashIs4Byte E (flashIsBusy E s).st).st).val = FLASH_OPERATION_SUCCESS →
        (frames (MX25_SE E fuel A s).ev)[3]? =
          some ((SPI_Transfer E MX25_FLASH [FLASH_CMD_SE] 1 0
              (E.HAL_GPIO_WritePin CsLine.FLASH_CS false
                (MX25_WREN E (flashIs4Byte E (flashIsBusy E s).st).st).st)).ev ++
            (if (SPI_Transfer E MX25_FLASH [FLASH_CMD_SE] 1 0
                (E.HAL_GPIO_WritePin CsLine.FLASH_CS false
                  (MX25_WREN E (flashIs4Byte E (flashIsBusy E s).st).st).st)).val.1 = true
             then
              (flashSendAddr E A (decide (v &&& 0x04 = 0x04))
                (SPI_Transfer E MX25_FLASH [FLASH_CMD_SE] 1 0
                  (E.HAL_GPIO_WritePin CsLine.FLASH_CS false
                    (MX25_WREN E (flashIs4Byte E (flashIsBusy E s).st).st).st)).st).ev
             else [])))) ∧
    (∀ v fuel D n, A ≤ FLASH_SIZE → (flashIsBusy E s).val = false →
      (flashRead E [FLASH_CMD_RDSCUR] 1 1 (flashIsBusy E s).st).val = (true, some [v]) →
      (frames (MX25_PP E fuel A D n s).ev)[1]? =
        some (SPI_Transfer E MX25_FLASH [FLASH_CMD_RDSCUR] 1 1
          (E.HAL_GPIO_WritePin CsLine.FLASH_CS false (flashIsBusy E s).st)).ev ∧
      ((MX25_WREN E (flashIs4Byte E (flashIsBusy E s).st).st).val = FLASH_OPERATION_SUCCESS →
        (frames (MX25_PP E fuel A D n s).ev)[3]? =
          some ((SPI_Transfer E MX25_FLASH [FLASH_CMD_PP] 1 0
              (E.HAL_GPIO_WritePin CsLine.FLASH_CS false
                (MX25_WREN E (flashIs4Byte E (flashIsBusy E s).st).st).st)).ev ++
            (if (SPI_Transfer E MX25_FLASH [FLASH_CMD_PP] 1 0
                (E.HAL_GPIO_WritePin CsLine.FLASH_CS false
                  (MX25_WREN E (flashIs4Byte E (flashIsBusy E s).st).st).st)).val.1 = true
             then
              (flashSendAddr E A (decide (v &&& 0x04 = 0x04))
                (SPI_Transfer E MX25_FLASH [FLASH_CMD_PP] 1 0
                  (E.HAL_GPIO_WritePin CsLine.FLASH_CS false
                    (MX25_WREN E (flashIs4Byte E (flashIsBusy E s).st).st).st)).st).ev ++
              (SPI_Transfer E MX25_FLASH D n 0
                (flashSendAddr E A (decide (v &&& 0x04 = 0x04))
                  (SPI_Transfer E MX25_FLASH [FLASH_CMD_PP] 1 0
                    (E.HAL_GPIO_WritePin CsLine.FLASH_CS false
                      (MX25_WREN E (flashIs4Byte E (flashIsBusy E s).st).st).st)).st).st).ev
             else [])))) := by
  refine ⟨(flashAddr_shift A).1, (flashAddr_shift A).2,
    fun m bus bytes stat h => xmit_mem_flashSendAddr E A m s bus bytes stat h,
    fun m h => flashSendAddr_ok_shape E A m s h,
    fun hA m => beValue_flashAddrBytes A m (by simp only [FLASH_SIZE] at hA; omega),
    fun v h => val_flashIs4Byte_ok E s v h, ?_, ?_, ?_,
    fun m => flashSendAddr_cases E A m s, ?_, ?_, ?_⟩
  · intro v n f hA hv hf hc
    rw [frames_MX25_READ E A n s hA] at hf
    simp only [List.getElem?_cons_succ, List.getElem?_cons_zero, Option.some.injEq] at hf
    subst hf
    rw [val_flashIs4Byte_ok E s v hv] at hc ⊢
    exact read_frame_clean E A n _ _ hc
  · intro v fuel f hA hv hf hc
    rw [cmd_frame_MX25_SE E fuel A s hA] at hf
    split_ifs at hf
    have hfr := frames_MX25_SE_frame E A (flashIs4Byte E (flashIsBusy E s).st).val
      (MX25_WREN E (flashIs4Byte E (flashIsBusy E s).st).st).st []
    rw [List.append_nil] at hfr
    rw [hfr] at hf
    simp only [List.getElem?_cons_zero, Option.some.injEq] at hf
    subst hf
    rw [val_flashIs4Byte_ok E _ v hv] at hc ⊢
    exact se_frame_clean E A _ _ hc
  · intro v fuel D n f hA hv hf hc
    rw [cmd_frame_MX25_PP E fuel A n D s hA] at hf
    split_ifs at hf
    have hfr := frames_MX25_PP_frame E A D n (flashIs4Byte E (flashIsBusy E s).st).val
      (MX25_WREN E (flashIs4Byte E (flashIsBusy E s).st).st).st []
    rw [List.append_nil] at hfr
    rw [hfr] at hf
    simp only [List.getElem?_cons_zero, Option.some.injEq] at hf
    subst hf
    rw [val_flashIs4Byte_ok E _ v hv] at hc ⊢
    exact pp_frame_clean E A n D _ _ hc
  · intro v n hA hv
    rw [frames_MX25_READ E A n s hA, val_flashIs4Byte_ok E s v hv]
  · intro v fuel hA hb hv
    refine ⟨scur_frame_MX25_SE E fuel A s hA hb, fun hw => ?_⟩
    have hfr := frames_MX25_SE_frame E A (flashIs4Byte E (flashIsBusy E s).st).val
      (MX25_WREN E (flashIs4Byte E (flashIsBusy E s).st).st).st []
    rw [List.append_nil] at hfr
    rw [cmd_frame_MX25_SE E fuel A s hA, if_pos ⟨hb, hw⟩, hfr, val_flashIs4Byte_ok E _ v hv]
    rfl
  · intro v fuel D n hA hb hv
    refine ⟨scur_frame_MX25_PP E fuel A n D s hA hb, fun hw => ?_⟩
    have hfr := frames_MX25_PP_frame E A D n (flashIs4Byte E (flashIsBusy E s).st).val
      (MX25_WREN E (flashIs4Byte E (flashIsBusy E s).st).st).st []
    rw [List.append_nil] at hfr
    rw [cmd_frame_MX25_PP E fuel A n D s hA, if_pos ⟨hb, hw⟩, hfr, val_flashIs4Byte_ok E _ v hv]
    rfl

end AddressMode

section AddressModeRun

/-- Witness for claim C24: a reference flash in 4-byte mode, whose security register reads
0x04; `MX25_READ(0x1000, buf, 2)`, `MX25_SE(0x1000)` and `MX25_PP(0x1000, [0x12, 0x34], 2)`
read the security register and send four address bytes after the opcode. On the reference
flash at rest, in 3-byte mode, `MX25_SE(0x123456)` sends three. -/
theorem flash_address_bytes_follow_mode_witness :
    (flashRead refEnv [FLASH_CMD_RDSCUR] 1 1 { refIdle with flashAddr4 := true }).val =
      (true, some [4]) ∧
    (frames (MX25_READ refEnv 0x1000 2 { refIdle with flashAddr4 := true }).ev)[1]? = some
      [Event.take true,
       Event.transmit SpiBus.xSharedSpiHandle [0x03] HAL_StatusTypeDef.HAL_OK, Event.give,
       Event.take true,
       Event.transmit SpiBus.xSharedSpiHandle [0x00, 0x00, 0x10, 0x00]
         HAL_StatusTypeDef.HAL_OK,
       Event.give, Event.take true,
       Event.receive SpiBus.xSharedSpiHandle 2 HAL_StatusTypeDef.HAL_OK, Event.give] ∧
    transmitsOf
      [Event.take true,
       Event.transmit SpiBus.xSharedSpiHandle [0x03] HAL_StatusTypeDef.HAL_OK, Event.give,
       Event.take true,
       Event.transmit SpiBus.xSharedSpiHandle [0x00, 0x00, 0x10, 0x00]
         HAL_StatusTypeDef.HAL_OK,
       Event.give, Event.take true,
       Event.receive SpiBus.xSharedSpiHandle 2 HAL_StatusTypeDef.HAL_OK, Event.give] =
      [[0x03], flashAddrBytes 0x1000 (decide (4 &&& 0x04 = 0x04))] ∧
    beValue (flashAddrBytes 0x1000 true) = 0x1000 ∧
    beValue (flashAddrBytes 0x1000 false) = 0x1000 ∧
    frames (MX25_READ refEnv 0x1000 2 { refIdle with flashAddr4 := true }).ev =
      [[Event.take true,
        Event.transmit SpiBus.xSharedSpiHandle [0x2B] HAL_StatusTypeDef.HAL_OK,
        Event.receive SpiBus.xSharedSpiHandle 1 HAL_StatusTypeDef.HAL_OK, Event.give],
       [Event.take true,
        Event.transmit SpiBus.xSharedSpiHandle [0x03] HAL_StatusTypeDef.HAL_OK, Event.give,
        Event.take true,
        Event.transmit SpiBus.xSharedSpiHandle [0x00, 0x00, 0x10, 0x00]
          HAL_StatusTypeDef.HAL_OK,
        Event.give, Event.take true,
        Event.receive SpiBus.xSharedSpiHandle 2 HAL_StatusTypeDef.HAL_OK, Event.give]] ∧
    ((frames (MX25_SE refEnv 1 0x1000 { refIdle with flashAddr4 := true }).ev)[1]? = some
        [Event.take true,
         Event.transmit SpiBus.xSharedSpiHandle [0x2B] HAL_StatusTypeDef.HAL_OK,
         Event.receive SpiBus.xSharedSpiHandle 1 HAL_StatusTypeDef.HAL_OK, Event.give] ∧
      (frames (MX25_SE refEnv 1 0x1000 { refIdle with flashAddr4 := true }).ev)[3]? = some
        [Event.take true,
         Event.transmit SpiBus.xSharedSpiHandle [0x20] HAL_StatusTypeDef.HAL_OK, Event.give,
         Event.take true,
         Event.transmit SpiBus.xSharedSpiHandle [0x00, 0x00, 0x10, 0x00]
           HAL_StatusTypeDef.HAL_OK,
         Event.give]) ∧
    ((frames (MX25_PP refEnv 1 0x1000 [0x12, 0x34] 2
        { refIdle with flashAddr4 := true }).ev)[1]? = some
        [Event.take true,
         Event.transmit SpiBus.xSharedSpiHandle [0x2B] HAL_StatusTypeDef.HAL_OK,
         Event.receive SpiBus.xSharedSpiHandle 1 HAL_StatusTypeDef.HAL_OK, Event.give] ∧
      (frames (MX25_PP refEnv 1 0x1000 [0x12, 0x34] 2
        { refIdle with flashAddr4 := true }).ev)[3]? = some
        [Event.take true,
         Event.transmit SpiBus.xSharedSpiHandle [0x02] HAL_StatusTypeDef.HAL_OK, Event.give,
         Event.take true,
         Event.transmit SpiBus.xSharedSpiHandle [0x00, 0x00, 0x10, 0x00]
           HAL_StatusTypeDef.HAL_OK,
         Event.give, Event.take true,
         Event.transmit SpiBus.xSharedSpiHandle [0x12, 0x34] HAL_StatusTypeDef.HAL_OK,
         Event.give]) ∧
    (frames (MX25_SE refEnv 1 0x123456 refIdle).ev)[3]? = some
      [Event.take true,
       Event.transmit SpiBus.xSharedSpiHandle [0x20] HAL_StatusTypeDef.HAL_OK, Event.give,
       Event.take true,
       Event.transmit SpiBus.xSharedSpiHandle [0x12, 0x34, 0x56] HAL_StatusTypeDef.HAL_OK,
       Event.give] := by
  obtain ⟨_, _, _, _, h5, _, h7, _, _, _, h11, h12, h13⟩ :=
    flash_address_bytes_follow_mode refEnv 0x1000 { refIdle with flashAddr4 := true }
  obtain ⟨_, _, _, _, _, _, _, _, _, _, _, g12, _⟩ :=
    flash_address_bytes_follow_mode refEnv 0x123456 refIdle
  have hse := h12 4 1 (by decide) (by decide) (by decide)
  have hpp := h13 4 1 [0x12, 0x34] 2 (by decide) (by decide) (by decide)
  have hse3 := g12 0 1 (by decide) (by decide) (by decide)
  exact ⟨by decide, by decide,
    h7 4 2 _ (by decide) (by decide) (by decide) (by decide),
    h5 (by decide) true, h5 (by decide) false,
    (h11 4 2 (by decide) (by decide)).trans (by decide),
    ⟨hse.1.trans (by decide), (hse.2 (by decide)).trans (by decide)⟩,
    ⟨hpp.1.trans (by decide), (hpp.2 (by decide)).trans (by decide)⟩,
    (hse3.2 (by decide)).trans (by decide)⟩

end AddressModeRun

section AccelFrames
variable {σ : Type}

theorem accelRead_ok_frame (E : Env σ) (reg : Nat) (s : σ) (hreg : reg < 256)
    (h : (accelRead E reg LIS3DSH_REGISTER_LEN s).val.1 = true) :
    (SPI_Transfer E LIS3DSH_ACCEL [(reg ||| LIS3DSH_READ_BITMASK) % U8] LIS3DSH_REGISTER_LEN
        (LIS3DSH_REGISTER_LEN % U8) (E.HAL_GPIO_WritePin CsLine.ACCEL_CS false s)).ev =
      [Event.take true,
       Event.transmit SpiBus.xAccelSpiHandle [reg ||| 0x80] HAL_StatusTypeDef.HAL_OK,
       Event.receive SpiBus.xAccelSpiHandle 1 HAL_StatusTypeDef.HAL_OK, Event.give] := by
  have hL : spiHandleOf LIS3DSH_ACCEL = some SpiBus.xAccelSpiHandle := rfl
  have hb : (reg ||| LIS3DSH_READ_BITMASK) % U8 = reg ||| 0x80 := or_read_bit reg hreg
  rw [val_accelRead, hb] at h
  rw [hb, xfer_both_ok_events E _ _ hL _ _ _ _ h (by decide) (by decide)]
  rfl

theorem accelWrite_ok_parts (E : Env σ) (reg v : Nat) (s : σ)
    (hv : (accelWrite E reg [v] LIS3DSH_REGISTER_LEN s).val = true) :
    (SPI_Transfer E LIS3DSH_ACCEL [reg] LIS3DSH_REGISTER_LEN 0
        (E.HAL_GPIO_WritePin CsLine.ACCEL_CS false s)).val.1 = true ∧
    (SPI_Transfer E LIS3DSH_ACCEL [v] (LIS3DSH_REGISTER_LEN % U8) 0
        (SPI_Transfer E LIS3DSH_ACCEL [reg] LIS3DSH_REGISTER_LEN 0
          (E.HAL_GPIO_WritePin CsLine.ACCEL_CS false s)).st).val.1 = true := by
  have h1 : (SPI_Transfer E LIS3DSH_ACCEL [reg] LIS3DSH_REGISTER_LEN 0
      (E.HAL_GPIO_WritePin CsLine.ACCEL_CS false s)).val.1 = true := by
    by_contra hc
    simp [accelWrite, accelChipSelectLow, accelChipSelectHigh, hc] at hv
  refine ⟨h1, ?_⟩
  simpa [accelWrite, accelChipSelectLow, accelChipSelectHigh, h1] using hv

theorem accelWrite_ok_frame (E : Env σ) (reg v : Nat) (s : σ)
    (hv : (accelWrite E reg [v] LIS3DSH_REGISTER_LEN s).val = true) :
    (SPI_Transfer E LIS3DSH_ACCEL [reg] LIS3DSH_REGISTER_LEN 0
          (E.HAL_GPIO_WritePin CsLine.ACCEL_CS false s)).ev ++
        (if (SPI_Transfer E LIS3DSH_ACCEL [reg] LIS3DSH_REGISTER_LEN 0
            (E.HAL_GPIO_WritePin CsLine.ACCEL_CS false s)).val.1 = true then
          (SPI_Transfer E LIS3DSH_ACCEL [v] (LIS3DSH_REGISTER_LEN % U8) 0
            (SPI_Transfer E LIS3DSH_ACCEL [reg] LIS3DSH_REGISTER_LEN 0
              (E.HAL_GPIO_WritePin CsLine.ACCEL_CS false s)).st).ev
         else []) =
      [Event.take true,
       Event.transmit SpiBus.xAccelSpiHandle [reg] HAL_StatusTypeDef.HAL_OK, Event.give,
       Event.take true,
       Event.transmit SpiBus.xAccelSpiHandle [v] HAL_StatusTypeDef.HAL_OK, Event.give] := by
  have hL : spiHandleOf LIS3DSH_ACCEL = some SpiBus.xAccelSpiHandle := rfl
  obtain ⟨h1, h2⟩ := accelWrite_ok_parts E reg v s hv
  rw [if_pos h1, xfer_ok_shape E _ _ hL _ _ _ _ h1, xfer_ok_shape E _ _ hL _ _ _ _ h2]
  rfl

theorem val_accelConfigure_ok (E : Env σ) (odr bw : Nat) (s : σ) (v v5 : Nat)
    (h : (accelRead E LIS3DSH_CTRL_REG4_REGISTER_ADDR LIS3DSH_REGISTER_LEN s).val =
      (true, some [v]))
    (h5 : (accelRead E LIS3DSH_CTRL_REG5_REGISTER_ADDR LIS3DSH_REGISTER_LEN
      (accelWrite E LIS3DSH_CTRL_REG4_REGISTER_ADDR
        [((v &&& 0x07) ||| 0x08) ||| ((odr % 16) * 16)] LIS3DSH_REGISTER_LEN
        (accelRead E LIS3DSH_CTRL_REG4_REGISTER_ADDR LIS3DSH_REGISTER_LEN s).st).st).val =
      (true, some [v5]))
    (hval : (accelConfigure E odr bw s).val = true) :
    (accelWrite E LIS3DSH_CTRL_REG4_REGISTER_ADDR
      [((v &&& 0x07) ||| 0x08) ||| ((odr % 16) * 16)] LIS3DSH_REGISTER_LEN
      (accelRead E LIS3DSH_CTRL_REG4_REGISTER_ADDR LIS3DSH_REGISTER_LEN s).st).val = true ∧
    (accelWrite E LIS3DSH_CTRL_REG5_REGISTER_ADDR
      [(v5 &&& 0x3F) ||| ((bw % 4) * 64)] LIS3DSH_REGISTER_LEN
      (accelRead E LIS3DSH_CTRL_REG5_REGISTER_ADDR LIS3DSH_REGISTER_LEN
        (accelWrite E LIS3DSH_CTRL_REG4_REGISTER_ADDR
          [((v &&& 0x07) ||| 0x08) ||| ((odr % 16) * 16)] LIS3DSH_REGISTER_LEN
          (accelRead E LIS3DSH_CTRL_REG4_REGISTER_ADDR LIS3DSH_REGISTER_LEN s).st).st).st).val =
      true := by
  have hw : (accelWrite E LIS3DSH_CTRL_REG4_REGISTER_ADDR
      [((v &&& 0x07) ||| 0x08) ||| ((odr % 16) * 16)] LIS3DSH_REGISTER_LEN
      (accelRead E LIS3DSH_CTRL_REG4_REGISTER_ADDR LIS3DSH_REGISTER_LEN s).st).val = true := by
    by_contra hc
    have hc2 : (accelWrite E LIS3DSH_CTRL_REG4_REGISTER_ADDR
        [((v &&& 0x07) ||| 0x08) ||| ((odr % 16) * 16)] LIS3DSH_REGISTER_LEN
        (accelRead E LIS3DSH_CTRL_REG4_REGISTER_ADDR LIS3DSH_REGISTER_LEN s).st).val = false := by
      simpa using hc
    simp only [accelConfigure, val_bind, st_bind, run_ite, val_ite, st_ite, val_pure,
      st_pure, h, if_true, Option.getD_some, List.headD_cons, hc2, Bool.not_false,
      Bool.false_eq_true] at hval
  refine ⟨hw, ?_⟩
  simpa only [accelConfigure, val_bind, st_bind, run_ite, val_ite, st_ite, val_pure,
    st_pure, h, if_true, Option.getD_some, List.headD_cons, hw, Bool.not_true,
    Bool.false_eq_true, if_false, h5] using hval

theorem val_EnableInterrupt_ok (E : Env σ) (s : σ) (v : Nat)
    (h : (accelRead E LIS3DSH_CTRL_REG3_REGISTER_ADDR LIS3DSH_REGISTER_LEN s).val =
      (true, some [v])) :
    (LIS3DSH_EnableInterrupt E s).val =
      (accelWrite E LIS3DSH_CTRL_REG3_REGISTER_ADDR [v ||| 0xE8] LIS3DSH_REGISTER_LEN
        (accelRead E LIS3DSH_CTRL_REG3_REGISTER_ADDR LIS3DSH_REGISTER_LEN s).st).val := by
  simp only [LIS3DSH_EnableInterrupt, val_bind, st_bind, run_ite, val_ite,
    st_ite, val_pure, st_pure, h, if_true, Option.getD_some, List.headD_cons,
    or_interrupt_bits]

end AccelFrames

section ReadModifyWrite
variable {σ : Type}

/-- Claim C28, for an output data rate below 16 and a bandwidth below 4 (the two
enumerations). When the read of CTRL_REG4 goes through with the byte `v`, the second frame
of `accelConfigure` is the write of `(v AND 0x07) OR 0x08 OR odr * 16` to register 0x20;
when that write returns true and the read of CTRL_REG5 goes through with `v5`, the fourth
frame is the write of `(v5 AND 0x3F) OR bw * 64` to register 0x24; when the read of
CTRL_REG3 goes through with `v`, the second frame of `LIS3DSH_EnableInterrupt` is the
write of `v OR 0xE8` to register 0x23 (a write frame without a failed take or HAL call
transmits the register address and then that one byte). When a read fails the function
returns false and no write frame follows it. The written bytes keep the bits of `v`
outside the fields that are set. The write frames are there: after a read that went
through, the next frame is the transfer of the register address followed, when it went
through, by the transfer of the modified byte; and when `accelConfigure` returns true its
trace is exactly four frames, read of 0x20, write of 0x20, read of 0x24, write of 0x24,
when `LIS3DSH_EnableInterrupt` returns true its trace is exactly two frames, read of 0x23
and write of 0x23, each write frame transmitting the register address and then the modified
byte with `HAL_OK`. -/
theorem configuration_is_read_modify_write (E : Env σ) (s : σ) (odr bw : Nat)
    (hodr : odr < 16) (hbw : bw < 4) :
    (∀ v f,
      (accelRead E LIS3DSH_CTRL_REG4_REGISTER_ADDR LIS3DSH_REGISTER_LEN s).val =
        (true, some [v]) →
      (frames (accelConfigure E odr bw s).ev)[1]? = some f → cleanRun f = true →
      transmitsOf f = [[0x20], [(v &&& 0x07) ||| 0x08 ||| (odr * 16)]]) ∧
    ((accelRead E LIS3DSH_CTRL_REG4_REGISTER_ADDR LIS3DSH_REGISTER_LEN s).val.1 = false →
      (accelConfigure E odr bw s).val = false ∧
      (accelConfigure E odr bw s).ev =
        (accelRead E LIS3DSH_CTRL_REG4_REGISTER_ADDR LIS3DSH_REGISTER_LEN s).ev) ∧
    (∀ v v5 f,
      (accelRead E LIS3DSH_CTRL_REG4_REGISTER_ADDR LIS3DSH_REGISTER_LEN s).val =
        (true, some [v]) →
      (accelWrite E LIS3DSH_CTRL_REG4_REGISTER_ADDR
        [(v &&& 0x07) ||| 0x08 ||| (odr * 16)] LIS3DSH_REGISTER_LEN
        (accelRead E LIS3DSH_CTRL_REG4_REGISTER_ADDR LIS3DSH_REGISTER_LEN s).st).val = true →
      (accelRead E LIS3DSH_CTRL_REG5_REGISTER_ADDR LIS3DSH_REGISTER_LEN
        (accelWrite E LIS3DSH_CTRL_REG4_REGISTER_ADDR
          [(v &&& 0x07) ||| 0x08 ||| (odr * 16)] LIS3DSH_REGISTER_LEN
          (accelRead E LIS3DSH_CTRL_REG4_REGISTER_ADDR LIS3DSH_REGISTER_LEN s).st).st).val =
        (true, some [v5]) →
      (frames (accelConfigure E odr bw s).ev)[3]? = some f → cleanRun f = true →
      transmitsOf f = [[0x24], [(v5 &&& 0x3F) ||| (bw * 64)]]) ∧
    (∀ v,
      (accelRead E LIS3DSH_CTRL_REG4_REGISTER_ADDR LIS3DSH_REGISTER_LEN s).val =
        (true, some [v]) →
      (accelWrite E LIS3DSH_CTRL_REG4_REGISTER_ADDR
        [(v &&& 0x07) ||| 0x08 ||| (odr * 16)] LIS3DSH_REGISTER_LEN
        (accelRead E LIS3DSH_CTRL_REG4_REGISTER_ADDR LIS3DSH_REGISTER_LEN s).st).val = true →
      (accelRead E LIS3DSH_CTRL_REG5_REGISTER_ADDR LIS3DSH_REGISTER_LEN
        (accelWrite E LIS3DSH_CTRL_REG4_REGISTER_ADDR
          [(v &&& 0x07) ||| 0x08 ||| (odr * 16)] LIS3DSH_REGISTER_LEN
          (accelRead E LIS3DSH_CTRL_REG4_REGISTER_ADDR LIS3DSH_REGISTER_LEN s).st).st).val.1 =
        false →
      (accelConfigure E odr bw s).val = false ∧
      (frames (accelConfigure E odr bw s).ev).length = 3) ∧
    (∀ v f,
      (accelRead E LIS3DSH_CTRL_REG3_REGISTER_ADDR LIS3DSH_REGISTER_LEN s).val =
        (true, some [v]) →
      (frames (LIS3DSH_EnableInterrupt E s).ev)[1]? = some f → cleanRun f = true →
      transmitsOf f = [[0x23], [v ||| 0xE8]]) ∧
    ((accelRead E LIS3DSH_CTRL_REG3_REGISTER_ADDR LIS3DSH_REGISTER_LEN s).val.1 = false →
      (LIS3DSH_EnableInterrupt E s).val = false ∧
      (LIS3DSH_EnableInterrupt E s).ev =
        (accelRead E LIS3DSH_CTRL_REG3_REGISTER_ADDR LIS3DSH_REGISTER_LEN s).ev) ∧
    (∀ v, v < 256 →
      ((v &&& 0x07) ||| 0x08 ||| (odr * 16)) &&& 0x07 = v &&& 0x07 ∧
      ((v &&& 0x07) ||| 0x08 ||| (odr * 16)) &&& 0x08 = 0x08 ∧
      ((v &&& 0x07) ||| 0x08 ||| (odr * 16)) / 16 = odr ∧
      ((v &&& 0x3F) ||| (bw * 64)) &&& 0x3F = v &&& 0x3F ∧
      ((v &&& 0x3F) ||| (bw * 64)) / 64 = bw ∧
      (v ||| 0xE8) &&& 0x17 = v &&& 0x17 ∧ (v ||| 0xE8) &&& 0xE8 = 0xE8) ∧
    (∀ v,
      (accelRead E LIS3DSH_CTRL_REG4_REGISTER_ADDR LIS3DSH_REGISTER_LEN s).val =
        (true, some [v]) →
      (frames (accelConfigure E odr bw s).ev)[1]? = some
        ((SPI_Transfer E LIS3DSH_ACCEL [0x20] 1 0
            (E.HAL_GPIO_WritePin CsLine.ACCEL_CS false (accelRead E LIS3DSH_CTRL_REG4_REGISTER_ADDR LIS3DSH_REGISTER_LEN s).st)).ev ++
          (if (SPI_Transfer E LIS3DSH_ACCEL [0x20] 1 0
              (E.HAL_GPIO_WritePin CsLine.ACCEL_CS false (accelRead E LIS3DSH_CTRL_REG4_REGISTER_ADDR LIS3DSH_REGISTER_LEN s).st)).val.1 = true then
            (SPI_Transfer E LIS3DSH_ACCEL [(v &&& 0x07) ||| 0x08 ||| (odr * 16)] 1 0
              (SPI_Transfer E LIS3DSH_ACCEL [0x20] 1 0
                (E.HAL_GPIO_WritePin CsLine.ACCEL_CS false (accelRead E LIS3DSH_CTRL_REG4_REGISTER_ADDR LIS3DSH_REGISTER_LEN s).st)).st).ev
           else []))) ∧
    (∀ v v5,
      (accelRead E LIS3DSH_CTRL_REG4_REGISTER_ADDR LIS3DSH_REGISTER_LEN s).val =
        (true, some [v]) →
      (accelWrite E LIS3DSH_CTRL_REG4_REGISTER_ADDR
          [(v &&& 0x07) ||| 0x08 ||| (odr * 16)] LIS3DSH_REGISTER_LEN
          (accelRead E LIS3DSH_CTRL_REG4_REGISTER_ADDR LIS3DSH_REGISTER_LEN s).st).val = true →
      (accelRead E LIS3DSH_CTRL_REG5_REGISTER_ADDR LIS3DSH_REGISTER_LEN
        (accelWrite E LIS3DSH_CTRL_REG4_REGISTER_ADDR
          [(v &&& 0x07) ||| 0x08 ||| (odr * 16)] LIS3DSH_REGISTER_LEN
          (accelRead E LIS3DSH_CTRL_REG4_REGISTER_ADDR LIS3DSH_REGISTER_LEN s).st).st).val =
        (true, some [v5]) →
      (frames (accelConfigure E odr bw s).ev).length = 4 ∧
      (frames (accelConfigure E odr bw s).ev)[3]? = some
        ((SPI_Transfer E LIS3DSH_ACCEL [0x24] 1 0
            (E.HAL_GPIO_WritePin CsLine.ACCEL_CS false (accelRead E LIS3DSH_CTRL_REG5_REGISTER_ADDR LIS3DSH_REGISTER_LEN
        (accelWrite E LIS3DSH_CTRL_REG4_REGISTER_ADDR
          [(v &&& 0x07) ||| 0x08 ||| (odr * 16)] LIS3DSH_REGISTER_LEN
          (accelRead E LIS3DSH_CTRL_REG4_REGISTER_ADDR LIS3DSH_REGISTER_LEN s).st).st).st)).ev ++
          (if (SPI_Transfer E LIS3DSH_ACCEL [0x24] 1 0
              (E.HAL_GPIO_WritePin CsLine.ACCEL_CS false (accelRead E LIS3DSH_CTRL_REG5_REGISTER_ADDR LIS3DSH_REGISTER_LEN
        (accelWrite E LIS3DSH_CTRL_REG4_REGISTER_ADDR
          [(v &&& 0x07) ||| 0x08 ||| (odr * 16)] LIS3DSH_REGISTER_LEN
          (accelRead E LIS3DSH_CTRL_REG4_REGISTER_ADDR LIS3DSH_REGISTER_LEN s).st).st).st)).val.1 = true then
            (SPI_Transfer E LIS3DSH_ACCEL [(v5 &&& 0x3F) ||| (bw * 64)] 1 0
              (SPI_Transfer E LIS3DSH_ACCEL [0x24] 1 0
                (E.HAL_GPIO_WritePin CsLine.ACCEL_CS false (accelRead E LIS3DSH_CTRL_REG5_REGISTER_ADDR LIS3DSH_REGISTER_LEN
        (accelWrite E LIS3DSH_CTRL_REG4_REGISTER_ADDR
          [(v &&& 0x07) ||| 0x08 ||| (odr * 16)] LIS3DSH_REGISTER_LEN
          (accelRead E LIS3DSH_CTRL_REG4_REGISTER_ADDR LIS3DSH_REGISTER_LEN s).st).st).st)).st).ev
           else []))) ∧
    (∀ v v5,
      (accelRead E LIS3DSH_CTRL_REG4_REGISTER_ADDR LIS3DSH_REGISTER_LEN s).val =
        (true, some [v]) →
      (accelRead E LIS3DSH_CTRL_REG5_REGISTER_ADDR LIS3DSH_REGISTER_LEN
        (accelWrite E LIS3DSH_CTRL_REG4_REGISTER_ADDR
          [(v &&& 0x07) ||| 0x08 ||| (odr * 16)] LIS3DSH_REGISTER_LEN
          (accelRead E LIS3DSH_CTRL_REG4_REGISTER_ADDR LIS3DSH_REGISTER_LEN s).st).st).val =
        (true, some [v5]) →
      (accelConfigure E odr bw s).val = true →
      frames (accelConfigure E odr bw s).ev =
        [[Event.take true,
          Event.transmit SpiBus.xAccelSpiHandle [0xA0] HAL_StatusTypeDef.HAL_OK,
          Event.receive SpiBus.xAccelSpiHandle 1 HAL_StatusTypeDef.HAL_OK, Event.give],
         [Event.take true,
          Event.transmit SpiBus.xAccelSpiHandle [0x20] HAL_StatusTypeDef.HAL_OK, Event.give,
          Event.take true,
          Event.transmit SpiBus.xAccelSpiHandle [(v &&& 0x07) ||| 0x08 ||| (odr * 16)] HAL_StatusTypeDef.HAL_OK,
          Event.give],
         [Event.take true,
          Event.transmit SpiBus.xAccelSpiHandle [0xA4] HAL_StatusTypeDef.HAL_OK,
          Event.receive SpiBus.xAccelSpiHandle 1 HAL_StatusTypeDef.HAL_OK, Event.give],
         [Event.take true,
          Event.transmit SpiBus.xAccelSpiHandle [0x24] HAL_StatusTypeDef.HAL_OK, Event.give,
          Event.take true,
          Event.transmit SpiBus.xAccelSpiHandle [(v5 &&& 0x3F) ||| (bw * 64)] HAL_StatusTypeDef.HAL_OK,
          Event.give]]) ∧
    (∀ v,
      (accelRead E LIS3DSH_CTRL_REG3_REGISTER_ADDR LIS3DSH_REGISTER_LEN s).val =
        (true, some [v]) →
      (frames (LIS3DSH_EnableInterrupt E s).ev).length = 2 ∧
      (frames (LIS3DSH_EnableInterrupt E s).ev)[1]? = some
        ((SPI_Transfer E LIS3DSH_ACCEL [0x23] 1 0
            (E.HAL_GPIO_WritePin CsLine.ACCEL_CS false (accelRead E LIS3DSH_CTRL_REG3_REGISTER_ADDR LIS3DSH_REGISTER_LEN s).st)).ev ++
          (if (SPI_Transfer E LIS3DSH_ACCEL [0x23] 1 0
              (E.HAL_GPIO_WritePin CsLine.ACCEL_CS false (accelRead E LIS3DSH_CTRL_REG3_REGISTER_ADDR LIS3DSH_REGISTER_LEN s).st)).val.1 = true then
            (SPI_Transfer E LIS3DSH_ACCEL [v ||| 0xE8] 1 0
              (SPI_Transfer E LIS3DSH_ACCEL [0x23] 1 0
                (E.HAL_GPIO_WritePin CsLine.ACCEL_CS false (accelRead E LIS3DSH_CTRL_REG3_REGISTER_ADDR LIS3DSH_REGISTER_LEN s).st)).st).ev
           else []))) ∧
    (∀ v,
      (accelRead E LIS3DSH_CTRL_REG3_REGISTER_ADDR LIS3DSH_REGISTER_LEN s).val =
        (true, some [v]) →
      (LIS3DSH_EnableInterrupt E s).val = true →
      frames (LIS3DSH_EnableInterrupt E s).ev =
        [[Event.take true,
          Event.transmit SpiBus.xAccelSpiHandle [0xA3] HAL_StatusTypeDef.HAL_OK,
          Event.receive SpiBus.xAccelSpiHandle 1 HAL_StatusTypeDef.HAL_OK, Event.give],
         [Event.take true,
          Event.transmit SpiBus.xAccelSpiHandle [0x23] HAL_StatusTypeDef.HAL_OK, Event.give,
          Event.take true,
          Event.transmit SpiBus.xAccelSpiHandle [v ||| 0xE8] HAL_StatusTypeDef.HAL_OK,
          Event.give]]) := by
  have ho : odr % 16 = odr := Nat.mod_eq_of_lt hodr
  have hb : bw % 4 = bw := Nat.mod_eq_of_lt hbw
  refine ⟨?_, ?_, ?_, ?_, ?_, ?_, ?_, ?_, ?_, ?_, ?_, ?_⟩
  · intro v f h hf hc
    obtain ⟨rest, hev⟩ := ev_accelConfigure_reg4 E odr bw s v h
    rw [hev, frames_accelRead_append, frames_accelWrite_append, ho] at hf
    simp only [List.getElem?_cons_succ, List.getElem?_cons_zero, Option.some.injEq] at hf
    subst hf
    exact accelWrite_frame_clean E _ _ _ hc
  · intro h
    constructor
    · simp only [accelConfigure, val_bind, st_bind, run_ite, val_ite, val_pure, h,
        Bool.false_eq_true, if_false]
    · simp only [accelConfigure, ev_bind, val_bind, st_bind, run_ite, ev_ite, ev_pure, h,
        Bool.false_eq_true, if_false, List.append_nil]
  · intro v v5 f h hw h5 hf hc
    rw [← ho] at hw h5
    have hev := ev_accelConfigure_reg5 E odr bw s v v5 h hw h5
    rw [hev, frames_accelRead_append, frames_accelWrite_append, frames_accelRead_append,
      frames_accelWrite, hb] at hf
    simp only [List.getElem?_cons_succ, List.getElem?_cons_zero, Option.some.injEq] at hf
    subst hf
    exact accelWrite_frame_clean E _ _ _ hc
  · intro v h hw h5
    rw [← ho] at hw h5
    constructor
    · simp only [accelConfigure, val_bind, st_bind, run_ite, val_ite, st_ite, val_pure,
        st_pure, h, if_true, Option.getD_some, List.headD_cons, hw, Bool.not_true,
        Bool.false_eq_true, if_false, h5]
    · have hev : (accelConfigure E odr bw s).ev =
          (accelRead E LIS3DSH_CTRL_REG4_REGISTER_ADDR LIS3DSH_REGISTER_LEN s).ev ++
            ((accelWrite E LIS3DSH_CTRL_REG4_REGISTER_ADDR
              [((v &&& 0x07) ||| 0x08) ||| ((odr % 16) * 16)] LIS3DSH_REGISTER_LEN
              (accelRead E LIS3DSH_CTRL_REG4_REGISTER_ADDR LIS3DSH_REGISTER_LEN s).st).ev ++
              (accelRead E LIS3DSH_CTRL_REG5_REGISTER_ADDR LIS3DSH_REGISTER_LEN
                (accelWrite E LIS3DSH_CTRL_REG4_REGISTER_ADDR
                  [((v &&& 0x07) ||| 0x08) ||| ((odr % 16) * 16)] LIS3DSH_REGISTER_LEN
                  (accelRead E LIS3DSH_CTRL_REG4_REGISTER_ADDR LIS3DSH_REGISTER_LEN
                    s).st).st).ev) := by
        simp only [accelConfigure, ev_bind, val_bind, st_bind, run_ite, ev_ite, val_ite,
          st_ite, ev_pure, val_pure, st_pure, h, if_true, Option.getD_some, List.headD_cons,
          hw, Bool.not_true, Bool.false_eq_true, if_false, h5, List.append_nil]
      rw [hev, frames_accelRead_append, frames_accelWrite_append, frames_accelRead]
      rfl
  · intro v f h hf hc
    rw [ev_EnableInterrupt_ok E s v h, frames_accelRead_append, frames_accelWrite] at hf
    simp only [List.getElem?_cons_succ, List.getElem?_cons_zero, Option.some.injEq] at hf
    subst hf
    exact accelWrite_frame_clean E _ _ _ hc
  · intro h
    constructor
    · simp only [LIS3DSH_EnableInterrupt, val_bind, st_bind, run_ite, val_ite, val_pure, h,
        Bool.false_eq_true, if_false]
    · simp only [LIS3DSH_EnableInterrupt, ev_bind, val_bind, st_bind, run_ite, ev_ite,
        ev_pure, h, Bool.false_eq_true, if_false, List.append_nil]
  · intro v hv
    obtain ⟨a1, a2, a3⟩ := reg4_bits odr hodr v hv
    obtain ⟨b1, b2⟩ := reg5_bits bw hbw v hv
    obtain ⟨c1, c2⟩ := reg3_bits v hv
    exact ⟨a1, a2, a3, b1, b2, c1, c2⟩
  · intro v h
    obtain ⟨rest, hev⟩ := ev_accelConfigure_reg4 E odr bw s v h
    rw [hev, frames_accelRead_append, frames_accelWrite_append, ho]
    simp only [List.getElem?_cons_succ, List.getElem?_cons_zero]
    rfl
  · intro v v5 h hw h5
    rw [← ho] at hw h5
    have hev := ev_accelConfigure_reg5 E odr bw s v v5 h hw h5
    rw [hev, frames_accelRead_append, frames_accelWrite_append, frames_accelRead_append,
      frames_accelWrite, hb, ho]
    refine ⟨rfl, ?_⟩
    simp only [List.getElem?_cons_succ, List.getElem?_cons_zero]
    rfl
  · intro v v5 h h5 hval
    rw [← ho] at h5
    obtain ⟨hw, hw5⟩ := val_accelConfigure_ok E odr bw s v v5 h h5 hval
    have hev := ev_accelConfigure_reg5 E odr bw s v v5 h hw h5
    rw [hev, frames_accelRead_append, frames_accelWrite_append, frames_accelRead_append,
      frames_accelWrite, accelWrite_ok_frame E _ _ _ hw, accelWrite_ok_frame E _ _ _ hw5,
      accelRead_ok_frame E _ _ (by decide) (by rw [h]),
      accelRead_ok_frame E _ _ (by decide) (by rw [h5]), ho, hb]
    rfl
  · intro v h
    rw [ev_EnableInterrupt_ok E s v h, frames_accelRead_append, frames_accelWrite]
    refine ⟨rfl, ?_⟩
    simp only [List.getElem?_cons_succ, List.getElem?_cons_zero]
    rfl
  · intro v h hval
    rw [val_EnableInterrupt_ok E s v h] at hval
    rw [ev_EnableInterrupt_ok E s v h, frames_accelRead_append, frames_accelWrite,
      accelWrite_ok_frame E _ _ _ hval, accelRead_ok_frame E _ _ (by decide) (by rw [h])]
    rfl

end ReadModifyWrite

section ReadModifyWriteRun

/-- Witness for claim C28: initialisation values on a reference accelerometer whose
CTRL_REG4 holds 0x07 and whose other registers hold 0x01. `accelConfigure(8, 1)` writes
0x8F to register 0x20 and 0x41 to register 0x24, `LIS3DSH_EnableInterrupt` writes 0xE9 to
register 0x23; with a failing read nothing is written. -/
theorem configuration_is_read_modify_write_witness :
    (accelRead refEnv LIS3DSH_CTRL_REG4_REGISTER_ADDR LIS3DSH_REGISTER_LEN
      { refIdle with accelReg := fun r => if r = 0x20 then 0x07 else 0x01 }).val =
      (true, some [0x07]) ∧
    (frames (accelConfigure refEnv 8 1
      { refIdle with accelReg := fun r => if r = 0x20 then 0x07 else 0x01 }).ev)[1]? = some
      [Event.take true,
       Event.transmit SpiBus.xAccelSpiHandle [0x20] HAL_StatusTypeDef.HAL_OK, Event.give,
       Event.take true,
       Event.transmit SpiBus.xAccelSpiHandle [0x8F] HAL_StatusTypeDef.HAL_OK, Event.give] ∧
    transmitsOf
      [Event.take true,
       Event.transmit SpiBus.xAccelSpiHandle [0x20] HAL_StatusTypeDef.HAL_OK, Event.give,
       Event.take true,
       Event.transmit SpiBus.xAccelSpiHandle [0x8F] HAL_StatusTypeDef.HAL_OK, Event.give] =
      [[0x20], [(0x07 &&& 0x07) ||| 0x08 ||| (8 * 16)]] ∧
    (accelConfigure refEnv 8 1
      { refIdle with accelReg := fun r => if r = 0x20 then 0x07 else 0x01 }).st.accelReg
        0x20 = 0x8F ∧
    (LIS3DSH_EnableInterrupt refEnv { refIdle with halFaults := [true] }).ev =
      (accelRead refEnv LIS3DSH_CTRL_REG3_REGISTER_ADDR LIS3DSH_REGISTER_LEN
        { refIdle with halFaults := [true] }).ev ∧
    ((accelConfigure refEnv 8 1
      { refIdle with accelReg := fun r => if r = 0x20 then 0x07 else 0x01 }).val = true ∧
      frames (accelConfigure refEnv 8 1
        { refIdle with accelReg := fun r => if r = 0x20 then 0x07 else 0x01 }).ev =
        [[Event.take true,
          Event.transmit SpiBus.xAccelSpiHandle [0xA0] HAL_StatusTypeDef.HAL_OK,
          Event.receive SpiBus.xAccelSpiHandle 1 HAL_StatusTypeDef.HAL_OK, Event.give],
         [Event.take true,
          Event.transmit SpiBus.xAccelSpiHandle [0x20] HAL_StatusTypeDef.HAL_OK, Event.give,
          Event.take true,
          Event.transmit SpiBus.xAccelSpiHandle [0x8F] HAL_StatusTypeDef.HAL_OK,
          Event.give],
         [Event.take true,
          Event.transmit SpiBus.xAccelSpiHandle [0xA4] HAL_StatusTypeDef.HAL_OK,
          Event.receive SpiBus.xAccelSpiHandle 1 HAL_StatusTypeDef.HAL_OK, Event.give],
         [Event.take true,
          Event.transmit SpiBus.xAccelSpiHandle [0x24] HAL_StatusTypeDef.HAL_OK, Event.give,
          Event.take true,
          Event.transmit SpiBus.xAccelSpiHandle [0x41] HAL_StatusTypeDef.HAL_OK,
          Event.give]]) ∧
    (frames (accelConfigure refEnv 8 1
      { refIdle with accelReg := fun r => if r = 0x20 then 0x07 else 0x01 }).ev)[3]? = some
      [Event.take true,
       Event.transmit SpiBus.xAccelSpiHandle [0x24] HAL_StatusTypeDef.HAL_OK, Event.give,
       Event.take true,
       Event.transmit SpiBus.xAccelSpiHandle [0x41] HAL_StatusTypeDef.HAL_OK, Event.give] ∧
    ((LIS3DSH_EnableInterrupt refEnv
      { refIdle with accelReg := fun r => if r = 0x20 then 0x07 else 0x01 }).val = true ∧
      frames (LIS3DSH_EnableInterrupt refEnv
        { refIdle with accelReg := fun r => if r = 0x20 then 0x07 else 0x01 }).ev =
        [[Event.take true,
          Event.transmit SpiBus.xAccelSpiHandle [0xA3] HAL_StatusTypeDef.HAL_OK,
          Event.receive SpiBus.xAccelSpiHandle 1 HAL_StatusTypeDef.HAL_OK, Event.give],
         [Event.take true,
          Event.transmit SpiBus.xAccelSpiHandle [0x23] HAL_StatusTypeDef.HAL_OK, Event.give,
          Event.take true,
          Event.transmit SpiBus.xAccelSpiHandle [0xE9] HAL_StatusTypeDef.HAL_OK,
          Event.give]]) ∧
    (LIS3DSH_EnableInterrupt refEnv
      { refIdle with accelReg := fun r => if r = 0x20 then 0x07 else 0x01 }).st.accelReg
        0x23 = 0xE9 := by
  obtain ⟨h1, _, _, _, _, _, _, _, h9, h10, _, h12⟩ :=
    configuration_is_read_modify_write refEnv
      { refIdle with accelReg := fun r => if r = 0x20 then 0x07 else 0x01 } 8 1
      (by decide) (by decide)
  obtain ⟨_, _, _, _, _, g6, _, _, _, _, _, _⟩ :=
    configuration_is_read_modify_write refEnv { refIdle with halFaults := [true] } 8 1
      (by decide) (by decide)
  exact ⟨by decide, by decide, h1 0x07 _ (by decide) (by decide) (by decide), by decide,
    (g6 (by decide)).2,
    ⟨by decide, (h10 0x07 0x01 (by decide) (by decide) (by decide)).trans (by decide)⟩,
    (h9 0x07 0x01 (by decide) (by decide) (by decide)).2.trans (by decide),
    ⟨by decide, (h12 0x01 (by decide) (by decide)).trans (by decide)⟩, by decide⟩

end ReadModifyWriteRun

end DriverDev
